import Mathlib

/-!
# Host-side CUDA/HIP runtime bridge generator (`clang/lib/CodeGen/CGCUDANV.cpp`)

A shallow embedding of `CGNVCUDARuntime`: the kernel stub emitters, the
register-globals function, the module constructor and the module destructor.
The generator is a pure function from a configuration and a generator state to
a new state; the code it emits is a small control-flow graph of basic blocks,
which a fuel-indexed interpreter executes against an arbitrary runtime.
-/

namespace CGCUDANV

/-! ## Emitted code: types, operands, instructions -/

mutual
/-- LLVM types named by the generator (`IntTy`, `SizeTy`, `VoidPtrTy`, ...). -/
inductive Ty
  | VoidTy
  | IntTy
  | SizeTy
  | Int8Ty
  | CharPtrTy
  | VoidPtrTy
  | VoidPtrPtrTy
  /-- Pointer to `t` (`t->getPointerTo()`), for pointees other than the above. -/
  | ptrTo (t : Ty)
  /-- Pointer to the function type `ret (params...)`, not variadic. -/
  | fnPtr (ret : Ty) (params : TyList)
  /-- Literal struct type with the given field types. -/
  | struct (fields : TyList)
  /-- Type converted from a source-level type, by name (`dim3`, ...). -/
  | ast (name : String)
/-- Lists of types, as they occur inside `Ty`. -/
inductive TyList
  | nil
  | cons (t : Ty) (ts : TyList)
end

deriving instance DecidableEq for Ty, TyList
deriving instance Repr for Ty, TyList

/-- Embedding of a list of types into `TyList`. -/
def TyList.ofList : List Ty → TyList
  | [] => TyList.nil
  | t :: ts => TyList.cons t (TyList.ofList ts)

/-- Function type `llvm::FunctionType::get(Ret, Params, false)`. -/
structure FunctionType where
  Ret : Ty
  Params : List Ty
  deriving DecidableEq, Repr

/-- Pointer type to a function type (`FnTy->getPointerTo()`). -/
def FunctionType.getPointerTo (F : FunctionType) : Ty :=
  Ty.fnPtr F.Ret (TyList.ofList F.Params)

/-- Result register of an instruction, named after the source variable that
holds the instruction, with a serial number for repeated emissions. -/
structure Reg where
  name : String
  idx : Nat
  deriving DecidableEq, Repr

/-- Basic block label: the name given to `createBasicBlock` and a serial number
distinguishing blocks created under the same name. -/
structure Label where
  name : String
  idx : Nat
  deriving DecidableEq, Repr

/-- Values appearing as instruction operands. -/
inductive Operand
  /-- Address of a named global variable. -/
  | global (name : String)
  /-- A function created in the module: requested name and position in the
  module function list. -/
  | func (name : String) (id : Nat)
  /-- Callee obtained from `CreateRuntimeFunction(_, name)`. -/
  | runtimeFn (name : String)
  /-- Pointer to the first character of the constant string with this content
  (result of `makeConstantString`). -/
  | cstring (content : String)
  /-- The i-th formal parameter of the enclosing function. -/
  | arg (i : Nat)
  /-- Address of the local variable of a kernel parameter (`GetAddrOfLocalVar`). -/
  | localVar (name : String)
  /-- Address of a temporary created with `CreateTempAlloca`/`CreateMemTemp`. -/
  | temp (name : String)
  /-- Result of an earlier instruction. -/
  | reg (r : Reg)
  /-- The constant `llvm::ConstantInt::get(ty, v)`; `v` is the value handed to
  `get`, its bit pattern is `v` reduced modulo two to the width of `ty`. -/
  | constInt (ty : Ty) (v : Int)
  /-- Null pointer constant of the given pointer type. -/
  | null (ty : Ty)
  /-- Pointer cast or bitcast of an operand to the given type. -/
  | cast (v : Operand) (ty : Ty)
  /-- Element address `CreateConstGEP1_32(base, i)`. -/
  | gep (base : Operand) (i : Nat)
  /-- Aggregate passed by value from the given address (`RValue::getAggregate`). -/
  | aggregate (addr : Operand)
  deriving DecidableEq, Repr

/-- Instructions of the emitted code. -/
inductive Inst
  | call (dst : Option Reg) (callee : Operand) (args : List Operand)
  | load (dst : Reg) (addr : Operand)
  | store (val : Operand) (addr : Operand)
  | icmpEq (dst : Reg) (a b : Operand)
  | icmpNe (dst : Reg) (a b : Operand)
  | br (target : Label)
  | condBr (cond : Operand) (ifTrue ifFalse : Label)
  | retVoid
  deriving DecidableEq, Repr

/-- Basic block: label and instructions in emission order. -/
structure BasicBlock where
  label : Label
  insts : List Inst
  deriving DecidableEq, Repr

/-- Temporary created at the alloca insertion point of the function
(`CreateTempAlloca`/`CreateMemTemp`): name, element type, alignment and, for an
array allocation, the element count. -/
structure Alloca where
  Name : String
  ElemTy : Ty
  Align : Nat
  ArraySize : Option Operand
  deriving DecidableEq, Repr

/-! ## The module being generated -/

/-- Linkage kinds used by the generator. -/
inductive Linkage
  | InternalLinkage
  | ExternalLinkage
  | LinkOnceAnyLinkage
  | PrivateLinkage
  deriving DecidableEq, Repr

/-- Symbol visibility. -/
inductive Visibility
  | DefaultVisibility
  | HiddenVisibility
  deriving DecidableEq, Repr

/-- Global variable of the module. `Initializer` lists the fields of a struct
initializer (one element for a scalar); `none` is a declaration. -/
structure GlobalVariable where
  Name : String
  ValueType : Ty
  isConstant : Bool
  Linkage : Linkage
  Initializer : Option (List Operand)
  Section : String
  Alignment : Nat
  Visibility : Visibility
  deriving DecidableEq, Repr

/-- Constant C string of the module (`GetAddrOfConstantCString`), keyed by its
content. -/
structure StringConstant where
  Content : String
  Name : String
  Section : String
  Alignment : Nat
  UnnamedAddr : Bool
  deriving DecidableEq, Repr

/-- Function defined in the module. -/
structure Function where
  Name : String
  Linkage : Linkage
  FnTy : FunctionType
  Blocks : List BasicBlock
  deriving DecidableEq, Repr

/-- Declaration of a runtime entry point (`CreateRuntimeFunction`). -/
structure RuntimeDecl where
  Name : String
  FnTy : FunctionType
  deriving DecidableEq, Repr

/-- Alias of a global value. -/
structure GlobalAlias where
  Linkage : Linkage
  Name : String
  Aliasee : String
  deriving DecidableEq, Repr

/-- Contents of `llvm::Module` the generator adds to. -/
structure Module where
  Functions : List Function
  Globals : List GlobalVariable
  Strings : List StringConstant
  RuntimeDecls : List RuntimeDecl
  Aliases : List GlobalAlias
  deriving DecidableEq, Repr

/-- The module with nothing in it. -/
def Module.empty : Module := ⟨[], [], [], [], []⟩

/-- `llvm::Function::Create(FnTy, Linkage, Name, &TheModule)`: the function is
appended to the module with an empty body and is referred to by its requested
name and its position in the function list. -/
def Module.createFunction (M : Module) (FnTy : FunctionType) (L : Linkage)
    (Name : String) : Module × Operand :=
  ({ M with Functions := M.Functions ++ [⟨Name, L, FnTy, []⟩] },
   Operand.func Name M.Functions.length)

/-- Replaces the body of the function at position `id` of a function list. -/
def setBlocksAt (Blocks : List BasicBlock) : List Function → Nat → List Function
  | [], _ => []
  | F :: Fs, 0 => { F with Blocks := Blocks } :: Fs
  | F :: Fs, id + 1 => F :: setBlocksAt Blocks Fs id

/-- Installs the finished body of the function at position `id`. -/
def Module.setBody (M : Module) (id : Nat) (Blocks : List BasicBlock) : Module :=
  { M with Functions := setBlocksAt Blocks M.Functions id }

/-- `CGM.CreateRuntimeFunction(FnTy, Name)`: declares the entry point unless a
declaration of that name is already present. -/
def Module.CreateRuntimeFunction (M : Module) (FnTy : FunctionType)
    (Name : String) : Module :=
  if M.RuntimeDecls.any (fun D => D.Name == Name) then M
  else { M with RuntimeDecls := M.RuntimeDecls ++ [⟨Name, FnTy⟩] }

/-- `new llvm::GlobalVariable(TheModule, ...)`. -/
def Module.addGlobal (M : Module) (GV : GlobalVariable) : Module :=
  { M with Globals := M.Globals ++ [GV] }

/-- `CGM.GetAddrOfConstantCString(Str, Name)`: string constants are shared by
content; a new one has alignment 1 and an insignificant address. -/
def Module.GetAddrOfConstantCString (M : Module) (Str Name : String) : Module :=
  if M.Strings.any (fun G => G.Content == Str) then M
  else { M with Strings := M.Strings ++ [⟨Str, Name, "", 1, true⟩] }

/-- `makeConstantString(Str, Name, SectionName, Alignment)`: generates a
constant string and returns a pointer to its start. A non-empty section name is
set on the string global and makes its address significant; a non-zero
alignment is set on it. -/
def makeConstantString (M : Module) (Str : String) (Name : String)
    (SectionName : String) (Alignment : Nat) : Module × Operand :=
  let M1 := M.GetAddrOfConstantCString Str Name
  let setSection (GV : StringConstant) : StringConstant :=
    if SectionName.isEmpty then GV
    else { GV with Section := SectionName, UnnamedAddr := false }
  let setAlignment (GV : StringConstant) : StringConstant :=
    if Alignment = 0 then GV else { GV with Alignment := Alignment }
  ({ M1 with Strings := M1.Strings.map (fun GV =>
      if GV.Content = Str then setAlignment (setSection GV) else GV) },
   Operand.cstring Str)

/-! ## Configuration and generator state -/

/-- `LangOptions::JITMode`. -/
inductive JITMode
  | JM_None
  | JM_Enabled
  | JM_IsJIT
  deriving DecidableEq, Repr

/-- The fields of `LangOptions` read by the generator. -/
structure LangOptions where
  HIP : Bool
  CUDA : Bool
  GPURelocatableDeviceCode : Bool
  CPlusPlusJIT : JITMode
  deriving DecidableEq, Repr

/-- `LangOptions::isJITEnabled`. -/
def LangOptions.isJITEnabled (L : LangOptions) : Bool :=
  decide (L.CPlusPlusJIT = JITMode.JM_Enabled)

/-- `LangOptions::isInJIT`. -/
def LangOptions.isInJIT (L : LangOptions) : Bool :=
  decide (L.CPlusPlusJIT = JITMode.JM_IsJIT)

/-- The fields of `CodeGenOptions` read by the generator. -/
structure CodeGenOptions where
  CudaGpuBinaryFileName : String
  GPUBinForJIT : String
  deriving DecidableEq, Repr

/-- The runtime-version features the generator asks about. -/
inductive CudaFeature
  | CUDA_USES_NEW_LAUNCH
  | CUDA_USES_FATBIN_REGISTER_END
  deriving DecidableEq, Repr

/-- Source declaration of a kernel or device variable. -/
structure Decl where
  Identifier : String
  Location : Nat
  deriving DecidableEq, Repr

/-- Kernel parameter: its name and the result of
`getTypeInfoInChars(A->getType())`, a width and an alignment in bytes.
`CharUnits` quantities are kept as natural numbers. -/
structure VarDecl where
  Name : String
  TyWidth : Nat
  TyAlign : Nat
  deriving DecidableEq, Repr

/-- Function declaration found by lookup: the type of each parameter
(`getParamDecl(i)->getType()`) and the converted function type. -/
structure FunctionDecl where
  ParamType : Nat → Ty
  FnTy : FunctionType

/-- Result of a declaration lookup: a function declaration or something else. -/
inductive NamedDecl
  | function (FD : FunctionDecl)
  | other (name : String)

/-- Diagnostic reported through `CGM.Error` or `CGM.getDiags().Report`. -/
structure Diagnostic where
  Location : Option Nat
  Message : String
  Args : List String
  deriving DecidableEq, Repr

/-- What the generator reads from `CodeGenModule` and its collaborators; none of
it changes during generation. `CudaFeatureEnabled` is already applied to the SDK
version of the target; `getFileOrSTDIN` yields the file content or the message
of the error code; `SourceFileName` is the source file name of the module being
generated and `MD5Hash` the hash behind `getGUID`; `AuxTargetCXXABI` is the C++
ABI kind of the auxiliary target, when there is one, and `TargetCXXABI` that of
the target; `ExternDeviceVar` and `ConstantDeviceVar` are the flag masks of
`CGCUDARuntime`. -/
structure CodeGenModule where
  LangOpts : LangOptions
  CodeGenOpts : CodeGenOptions
  CudaFeatureEnabled : CudaFeature → Bool
  isMacOSX : Bool
  getFileOrSTDIN : String → Except String String
  lookup : String → List NamedDecl
  shouldMangleDeclName : Decl → Bool
  mangleName : Decl → String
  PointerAlign : Nat
  SizeAlign : Nat
  SourceFileName : String
  MD5Hash : String → Nat
  AuxTargetCXXABI : Option Nat
  TargetCXXABI : Nat
  ExternDeviceVar : Nat
  ConstantDeviceVar : Nat

/-- Entry of `EmittedKernels`. -/
structure KernelInfo where
  Kernel : Operand
  D : Decl
  deriving DecidableEq, Repr

/-- Device variable handed to `registerDeviceVar`: the name of the global
and the allocation size of its value type (`getTypeAllocSize`). -/
structure DeviceVar where
  Name : String
  AllocSize : Nat
  deriving DecidableEq, Repr

/-- Entry of `DeviceVars`. -/
structure VarInfo where
  Var : DeviceVar
  D : Decl
  Flag : Nat
  deriving DecidableEq, Repr

/-- Mutable state of `CGNVCUDARuntime` together with the module and the
diagnostics it writes to. `GpuBinaryHandle` names the handle variable once the
constructor has created it. `Faults` records violated assertions and
dereferences of an absent buffer. -/
structure CGNVCUDARuntime where
  EmittedKernels : List KernelInfo
  DeviceVars : List VarInfo
  GpuBinaryHandle : Option String
  TheModule : Module
  Diags : List Diagnostic
  Faults : List String
  deriving DecidableEq, Repr

/-- State of a freshly constructed `CGNVCUDARuntime` over a module. -/
def CGNVCUDARuntime.init (M : Module) : CGNVCUDARuntime :=
  ⟨[], [], none, M, [], []⟩

/-- Member `RelocatableDeviceCode`, set by the constructor of the class. -/
def RelocatableDeviceCode (CGM : CodeGenModule) : Bool :=
  CGM.LangOpts.GPURelocatableDeviceCode

/-- Applies a module transformation to the state. -/
def CGNVCUDARuntime.onModule (S : CGNVCUDARuntime) (f : Module → Module) :
    CGNVCUDARuntime :=
  { S with TheModule := f S.TheModule }

/-! ## Naming policy -/

/-- `CGNVCUDARuntime::addPrefixToName`. -/
def addPrefixToName (CGM : CodeGenModule) (FuncName : String) : String :=
  if CGM.LangOpts.HIP then "hip" ++ FuncName else "cuda" ++ FuncName

/-- `CGNVCUDARuntime::addUnderscoredPrefixToName`. -/
def addUnderscoredPrefixToName (CGM : CodeGenModule) (FuncName : String) : String :=
  if CGM.LangOpts.HIP then "__hip" ++ FuncName else "__cuda" ++ FuncName

/-- `CGNVCUDARuntime::getDeviceStubName`. -/
def getDeviceStubName (CGM : CodeGenModule) (Name : String) : String :=
  if !CGM.LangOpts.HIP then Name else Name ++ ".stub"

/-- `CGNVCUDARuntime::getDeviceSideName`. -/
def getDeviceSideName (CGM : CodeGenModule) (D : Decl) : String :=
  if CGM.shouldMangleDeclName D then CGM.mangleName D else D.Identifier

/-- `CGNVCUDARuntime::getRegisterGlobalsFnTy`. -/
def getRegisterGlobalsFnTy : FunctionType := ⟨Ty.VoidTy, [Ty.VoidPtrPtrTy]⟩

/-- `CGNVCUDARuntime::getCallbackFnTy`. -/
def getCallbackFnTy : FunctionType := ⟨Ty.VoidTy, [Ty.VoidPtrTy]⟩

/-- `CGNVCUDARuntime::getRegisterLinkedBinaryFnTy`. -/
def getRegisterLinkedBinaryFnTy : FunctionType :=
  ⟨Ty.VoidTy, [getRegisterGlobalsFnTy.getPointerTo, Ty.VoidPtrTy, Ty.VoidPtrTy,
    getCallbackFnTy.getPointerTo]⟩

/-- `CGNVCUDARuntime::getSetupArgumentFn`: declares and returns
`{cuda|hip}SetupArgument`. -/
def getSetupArgumentFn (CGM : CodeGenModule) (M : Module) : Module × Operand :=
  (M.CreateRuntimeFunction ⟨Ty.IntTy, [Ty.VoidPtrTy, Ty.SizeTy, Ty.SizeTy]⟩
      (addPrefixToName CGM "SetupArgument"),
   Operand.runtimeFn (addPrefixToName CGM "SetupArgument"))

/-- `CGNVCUDARuntime::getLaunchFn`: declares and returns `hipLaunchByPtr` or
`cudaLaunch`. -/
def getLaunchFn (CGM : CodeGenModule) (M : Module) : Module × Operand :=
  if CGM.LangOpts.HIP then
    (M.CreateRuntimeFunction ⟨Ty.IntTy, [Ty.CharPtrTy]⟩ "hipLaunchByPtr",
     Operand.runtimeFn "hipLaunchByPtr")
  else
    (M.CreateRuntimeFunction ⟨Ty.IntTy, [Ty.CharPtrTy]⟩ "cudaLaunch",
     Operand.runtimeFn "cudaLaunch")

/-! ## Kernel stubs -/

/-- Modelled from the spec: `CharUnits::alignTo` is declared outside the
sources at hand; the stub keeps "a running byte offset aligned to each
argument's required alignment", so the quantity is rounded up to the next
multiple of the alignment. -/
def alignTo (Quantity Align : Nat) : Nat :=
  (Quantity + Align - 1) / Align * Align

/-- Code emitted for a stub: the temporaries created and the basic blocks. The
first block continues the block holding the insertion point when the stub body
is emitted, the entry block of the stub. -/
structure StubBody where
  Allocas : List Alloca
  Blocks : List BasicBlock
  deriving DecidableEq, Repr

/-- What the stub emitters read from `CodeGenFunction`: the stub function and
the declaration of the kernel. -/
structure CodeGenFunction where
  CurFnName : String
  CurFnId : Nat
  CurFuncDecl : Decl
  deriving DecidableEq, Repr

/-- `CGF.CurFn`, the stub function being generated. -/
def CodeGenFunction.CurFn (CGF : CodeGenFunction) : Operand :=
  Operand.func CGF.CurFnName CGF.CurFnId

/-- Label of the block holding the insertion point on entry to a stub emitter. -/
def entryLabel : Label := ⟨"entry", 0⟩

/-- The block created by `createBasicBlock("setup.end")`. -/
def setupEnd : Label := ⟨"setup.end", 0⟩

/-- The block created by `createBasicBlock("setup.next")` in iteration `k`. -/
def setupNext (k : Nat) : Label := ⟨"setup.next", k⟩

/-- The argument loop of `emitDeviceStubBodyLegacy` from the `k`-th iteration
on, with the running `Offset` and the label `cur` of the block being filled.
Each iteration aligns the offset, emits the `SetupArgument` call, the
comparison of its status with zero and the conditional branch to a new
`setup.next` block or to `EndBlock`, and advances the offset by the width. When
the arguments are exhausted the block being filled receives `tail`. -/
def legacyArgLoop (cudaSetupArgFn : Operand) (EndBlock : Label) (tail : List Inst) :
    List VarDecl → Nat → Label → Nat → List BasicBlock
  | [], _, cur, _ => [⟨cur, tail⟩]
  | A :: rest, Offset, cur, k =>
    let Offset1 := alignTo Offset A.TyAlign
    let CB : Reg := ⟨"CB", k⟩
    let CBZero : Reg := ⟨"CBZero", k⟩
    let NextBlock := setupNext k
    ⟨cur,
      [Inst.call (some CB) cudaSetupArgFn
         [Operand.cast (Operand.localVar A.Name) Ty.VoidPtrTy,
          Operand.constInt Ty.SizeTy A.TyWidth,
          Operand.constInt Ty.SizeTy Offset1],
       Inst.icmpEq CBZero (Operand.reg CB) (Operand.constInt Ty.IntTy 0),
       Inst.condBr (Operand.reg CBZero) NextBlock EndBlock]⟩
    :: legacyArgLoop cudaSetupArgFn EndBlock tail rest (Offset1 + A.TyWidth)
         NextBlock (k + 1)

/-- `CGNVCUDARuntime::emitDeviceStubBodyLegacy`. -/
def emitDeviceStubBodyLegacy (CGM : CodeGenModule) (S : CGNVCUDARuntime)
    (CGF : CodeGenFunction) (Args : List VarDecl) : CGNVCUDARuntime × StubBody :=
  let (M1, cudaSetupArgFn) := getSetupArgumentFn CGM S.TheModule
  let EndBlock := setupEnd
  let (M2, cudaLaunchFn) := getLaunchFn CGM M1
  let Arg := Operand.cast CGF.CurFn Ty.CharPtrTy
  let tail := [Inst.call none cudaLaunchFn [Arg], Inst.br EndBlock]
  ({ S with TheModule := M2 },
   ⟨[], legacyArgLoop cudaSetupArgFn EndBlock tail Args 0 entryLabel 0
        ++ [⟨EndBlock, []⟩]⟩)

/-- The store loop of `emitDeviceStubBodyNew` from index `i` on: the address of
each argument, cast to `VoidPtrTy`, is stored into element `i` of the array. -/
def storeKernelArgs (KernelArgs : Operand) : List VarDecl → Nat → List Inst
  | [], _ => []
  | A :: rest, i =>
    Inst.store (Operand.cast (Operand.localVar A.Name) Ty.VoidPtrTy)
        (Operand.gep KernelArgs i)
      :: storeKernelArgs KernelArgs rest (i + 1)

/-- The lookup loop of `emitDeviceStubBodyNew`: the last function declaration
among the lookup results, if any. -/
def findFunctionDecl (Results : List NamedDecl) : Option FunctionDecl :=
  Results.foldl (fun cur Result =>
    match Result with
    | NamedDecl.function FD => some FD
    | NamedDecl.other _ => cur) none

/-- `CGNVCUDARuntime::emitDeviceStubBodyNew`. -/
def emitDeviceStubBodyNew (CGM : CodeGenModule) (S : CGNVCUDARuntime)
    (CGF : CodeGenFunction) (Args : List VarDecl) : CGNVCUDARuntime × StubBody :=
  let KernelArgsAlloca : Alloca :=
    ⟨"kernel_args", Ty.VoidPtrTy, 16,
      some (Operand.constInt Ty.SizeTy ((max 1 Args.length : Nat) : Int))⟩
  let KernelArgs := Operand.temp "kernel_args"
  let stores := storeKernelArgs KernelArgs Args 0
  let EndBlock := setupEnd
  match findFunctionDecl (CGM.lookup "cudaLaunchKernel") with
  | none =>
    ({ S with Diags := S.Diags ++
        [⟨some CGF.CurFuncDecl.Location,
          "Can't find declaration for cudaLaunchKernel()", []⟩] },
     ⟨[KernelArgsAlloca], [⟨entryLabel, stores⟩]⟩)
  | some cudaLaunchKernelFD =>
    let Dim3Ty := cudaLaunchKernelFD.ParamType 1
    let GridDim : Alloca := ⟨"grid_dim", Dim3Ty, 8, none⟩
    let BlockDim : Alloca := ⟨"block_dim", Dim3Ty, 8, none⟩
    let ShmemSize : Alloca := ⟨"shmem_size", Ty.SizeTy, CGM.SizeAlign, none⟩
    let Stream : Alloca := ⟨"stream", Ty.VoidPtrTy, CGM.PointerAlign, none⟩
    let M1 := S.TheModule.CreateRuntimeFunction
      ⟨Ty.IntTy, [Ty.ptrTo Dim3Ty, Ty.ptrTo Dim3Ty, Ty.ptrTo Ty.SizeTy, Ty.VoidPtrPtrTy]⟩
      "__cudaPopCallConfiguration"
    let cudaPopConfigFn := Operand.runtimeFn "__cudaPopCallConfiguration"
    let Kernel := Operand.cast CGF.CurFn Ty.VoidPtrTy
    let ShmemLoad : Reg := ⟨"ShmemSize", 0⟩
    let StreamLoad : Reg := ⟨"Stream", 0⟩
    let LaunchKernelArgs :=
      [Kernel, Operand.aggregate (Operand.temp "grid_dim"),
       Operand.aggregate (Operand.temp "block_dim"), KernelArgs,
       Operand.reg ShmemLoad, Operand.reg StreamLoad]
    let M2 := M1.CreateRuntimeFunction cudaLaunchKernelFD.FnTy "cudaLaunchKernel"
    let cudaLaunchKernelFn := Operand.runtimeFn "cudaLaunchKernel"
    ({ S with TheModule := M2 },
     ⟨[KernelArgsAlloca, GridDim, BlockDim, ShmemSize, Stream],
      [⟨entryLabel, stores ++
          [Inst.call none cudaPopConfigFn
             [Operand.temp "grid_dim", Operand.temp "block_dim",
              Operand.temp "shmem_size", Operand.temp "stream"],
           Inst.load ShmemLoad (Operand.temp "shmem_size"),
           Inst.load StreamLoad (Operand.temp "stream"),
           Inst.call none cudaLaunchKernelFn LaunchKernelArgs,
           Inst.br EndBlock]⟩,
       ⟨EndBlock, []⟩]⟩)

/-- The condition asserted at the head of `emitDeviceStub` (lines 231 to 235):
either there is an auxiliary target whose C++ ABI differs from that of the
target, or the stub name of the device-side name of the kernel is the name of
the function being generated. -/
def stubNameAsserted (CGM : CodeGenModule) (CGF : CodeGenFunction) : Bool :=
  (match CGM.AuxTargetCXXABI with
    | some ABI => ABI != CGM.TargetCXXABI
    | none => false) ||
  getDeviceStubName CGM (getDeviceSideName CGM CGF.CurFuncDecl) == CGF.CurFnName

/-- The head of `emitDeviceStub` (lines 231 to 237): the assertion on the stub
name, whose violation is recorded in `Faults`, and the kernel appended to
`EmittedKernels`. -/
def recordKernel (CGM : CodeGenModule) (S : CGNVCUDARuntime)
    (CGF : CodeGenFunction) : CGNVCUDARuntime :=
  { S with
    Faults := if stubNameAsserted CGM CGF then S.Faults
      else S.Faults ++
        ["getDeviceStubName(getDeviceSideName(CGF.CurFuncDecl)) == CGF.CurFn->getName()"],
    EmittedKernels := S.EmittedKernels ++ [⟨CGF.CurFn, CGF.CurFuncDecl⟩] }

/-- `CGNVCUDARuntime::emitDeviceStub`: checks the assertion on the stub name,
records the kernel, then emits the stub body in the launch ABI the SDK version
selects. -/
def emitDeviceStub (CGM : CodeGenModule) (S : CGNVCUDARuntime)
    (CGF : CodeGenFunction) (Args : List VarDecl) : CGNVCUDARuntime × StubBody :=
  let S1 := recordKernel CGM S CGF
  if CGM.CudaFeatureEnabled CudaFeature.CUDA_USES_NEW_LAUNCH then
    emitDeviceStubBodyNew CGM S1 CGF Args
  else
    emitDeviceStubBodyLegacy CGM S1 CGF Args

/-- `CGNVCUDARuntime::registerDeviceVar`. -/
def registerDeviceVar (S : CGNVCUDARuntime) (VD : Decl) (Var : DeviceVar)
    (Flags : Nat) : CGNVCUDARuntime :=
  { S with DeviceVars := S.DeviceVars ++ [⟨Var, VD, Flags⟩] }

/-! ## Register-globals function -/

/-- `CGNVCUDARuntime::makeDummyFunction`: an internal function named `dummy`
whose body is a single `ret void`. The assertion that the function type returns
void is recorded in `Faults` when violated. -/
def makeDummyFunction (S : CGNVCUDARuntime) (FnTy : FunctionType) :
    CGNVCUDARuntime × Operand :=
  let S0 := if FnTy.Ret = Ty.VoidTy then S
    else { S with Faults := S.Faults ++
      ["Can only generate dummy functions returning void!"] }
  let id := S0.TheModule.Functions.length
  let (M1, DummyFunc) := S0.TheModule.createFunction FnTy Linkage.InternalLinkage "dummy"
  let DummyBlock : BasicBlock := ⟨⟨"", 0⟩, [Inst.retVoid]⟩
  ({ S0 with TheModule := M1.setBody id [DummyBlock] }, DummyFunc)

/-- The kernel loop of `makeRegisterGlobalsFn`: one `RegisterFunction` call per
entry of `EmittedKernels`, each preceded by the creation of the constant string
holding the device-side name. -/
def emitRegisterFunctionCalls (CGM : CodeGenModule) (RegisterFunc : Operand)
    (GpuBinaryHandlePtr : Operand) : List KernelInfo → Module → Module × List Inst
  | [], M => (M, [])
  | I :: rest, M =>
    let (M1, KernelName) := makeConstantString M (getDeviceSideName CGM I.D) "" "" 0
    let NullPtr := Operand.null Ty.VoidPtrTy
    let Args :=
      [GpuBinaryHandlePtr, Operand.cast I.Kernel Ty.VoidPtrTy, KernelName, KernelName,
       Operand.constInt Ty.IntTy (-1), NullPtr, NullPtr, NullPtr, NullPtr,
       Operand.null (Ty.ptrTo Ty.IntTy)]
    let (M2, calls) := emitRegisterFunctionCalls CGM RegisterFunc GpuBinaryHandlePtr rest M1
    (M2, Inst.call none RegisterFunc Args :: calls)

/-- The variable loop of `makeRegisterGlobalsFn`: one `RegisterVar` call per
entry of `DeviceVars`. -/
def emitRegisterVarCalls (CGM : CodeGenModule) (RegisterVar : Operand)
    (GpuBinaryHandlePtr : Operand) : List VarInfo → Module → Module × List Inst
  | [], M => (M, [])
  | Info :: rest, M =>
    let Var := Info.Var
    let Flags := Info.Flag
    let (M1, VarName) := makeConstantString M (getDeviceSideName CGM Info.D) "" "" 0
    let VarSize := Var.AllocSize
    let Args :=
      [GpuBinaryHandlePtr, Operand.cast (Operand.global Var.Name) Ty.VoidPtrTy,
       VarName, VarName,
       Operand.constInt Ty.IntTy (if Flags &&& CGM.ExternDeviceVar ≠ 0 then 1 else 0),
       Operand.constInt Ty.IntTy VarSize,
       Operand.constInt Ty.IntTy (if Flags &&& CGM.ConstantDeviceVar ≠ 0 then 1 else 0),
       Operand.constInt Ty.IntTy 0]
    let (M2, calls) := emitRegisterVarCalls CGM RegisterVar GpuBinaryHandlePtr rest M1
    (M2, Inst.call none RegisterVar Args :: calls)

/-- `CGNVCUDARuntime::makeRegisterGlobalsFn`: nothing when both lists are
empty; otherwise the internal function `__{cuda|hip}_register_globals` whose
entry block registers every kernel, then every device variable, and returns. -/
def makeRegisterGlobalsFn (CGM : CodeGenModule) (S : CGNVCUDARuntime) :
    CGNVCUDARuntime × Option Operand :=
  if S.EmittedKernels.isEmpty && S.DeviceVars.isEmpty then (S, none)
  else
    let id := S.TheModule.Functions.length
    let (M1, RegisterKernelsFunc) := S.TheModule.createFunction getRegisterGlobalsFnTy
      Linkage.InternalLinkage (addUnderscoredPrefixToName CGM "_register_globals")
    let RegisterFuncParams :=
      [Ty.VoidPtrPtrTy, Ty.CharPtrTy, Ty.CharPtrTy, Ty.CharPtrTy, Ty.IntTy,
       Ty.VoidPtrTy, Ty.VoidPtrTy, Ty.VoidPtrTy, Ty.VoidPtrTy, Ty.ptrTo Ty.IntTy]
    let M2 := M1.CreateRuntimeFunction ⟨Ty.IntTy, RegisterFuncParams⟩
      (addUnderscoredPrefixToName CGM "RegisterFunction")
    let RegisterFunc := Operand.runtimeFn (addUnderscoredPrefixToName CGM "RegisterFunction")
    let GpuBinaryHandlePtr := Operand.arg 0
    let (M3, kernelCalls) :=
      emitRegisterFunctionCalls CGM RegisterFunc GpuBinaryHandlePtr S.EmittedKernels M2
    let RegisterVarParams :=
      [Ty.VoidPtrPtrTy, Ty.CharPtrTy, Ty.CharPtrTy, Ty.CharPtrTy, Ty.IntTy, Ty.IntTy,
       Ty.IntTy, Ty.IntTy]
    let M4 := M3.CreateRuntimeFunction ⟨Ty.IntTy, RegisterVarParams⟩
      (addUnderscoredPrefixToName CGM "RegisterVar")
    let RegisterVar := Operand.runtimeFn (addUnderscoredPrefixToName CGM "RegisterVar")
    let (M5, varCalls) :=
      emitRegisterVarCalls CGM RegisterVar GpuBinaryHandlePtr S.DeviceVars M4
    let EntryBB : BasicBlock := ⟨⟨"entry", 0⟩, kernelCalls ++ varCalls ++ [Inst.retVoid]⟩
    ({ S with TheModule := M5.setBody id [EntryBB] }, some RegisterKernelsFunc)

/-! ## Module destructor -/

/-- The body of the destructor (lines 768 to 797 of
`makeModuleDtorFunction`): the handle is loaded; for HIP the `if` block, entered
only when the handle is non-null, unregisters it and stores null into the
variable; for CUDA the handle is unregistered without a test. -/
def emitDtorBody (CGM : CodeGenModule) (UnregisterFatbinFunc : Operand)
    (GpuBinaryHandle : String) : List BasicBlock :=
  let GpuBinaryAddr := Operand.global GpuBinaryHandle
  let HandleValue : Reg := ⟨"HandleValue", 0⟩
  if CGM.LangOpts.HIP then
    let IfBlock : Label := ⟨"if", 0⟩
    let ExitBlock : Label := ⟨"exit", 0⟩
    let Zero := Operand.null Ty.VoidPtrPtrTy
    let NEZero : Reg := ⟨"NEZero", 0⟩
    [⟨⟨"entry", 0⟩,
       [Inst.load HandleValue GpuBinaryAddr,
        Inst.icmpNe NEZero (Operand.reg HandleValue) Zero,
        Inst.condBr (Operand.reg NEZero) IfBlock ExitBlock]⟩,
     ⟨IfBlock,
       [Inst.call none UnregisterFatbinFunc [Operand.reg HandleValue],
        Inst.store Zero GpuBinaryAddr,
        Inst.br ExitBlock]⟩,
     ⟨ExitBlock, [Inst.retVoid]⟩]
  else
    [⟨⟨"entry", 0⟩,
       [Inst.load HandleValue GpuBinaryAddr,
        Inst.call none UnregisterFatbinFunc [Operand.reg HandleValue],
        Inst.retVoid]⟩]

/-- `CGNVCUDARuntime::makeModuleDtorFunction`: nothing when no handle variable
exists; otherwise the internal function `__{cuda|hip}_module_dtor` with the
body of `emitDtorBody`. -/
def makeModuleDtorFunction (CGM : CodeGenModule) (S : CGNVCUDARuntime) :
    CGNVCUDARuntime × Option Operand :=
  match S.GpuBinaryHandle with
  | none => (S, none)
  | some GpuBinaryHandle =>
    let M1 := S.TheModule.CreateRuntimeFunction ⟨Ty.VoidTy, [Ty.VoidPtrPtrTy]⟩
      (addUnderscoredPrefixToName CGM "UnregisterFatBinary")
    let UnregisterFatbinFunc :=
      Operand.runtimeFn (addUnderscoredPrefixToName CGM "UnregisterFatBinary")
    let id := M1.Functions.length
    let (M2, ModuleDtorFunc) := M1.createFunction ⟨Ty.VoidTy, [Ty.VoidPtrTy]⟩
      Linkage.InternalLinkage (addUnderscoredPrefixToName CGM "_module_dtor")
    ({ S with TheModule :=
        M2.setBody id (emitDtorBody CGM UnregisterFatbinFunc GpuBinaryHandle) },
     some ModuleDtorFunc)

/-! ## Module constructor -/

/-- Wrapper magic for CUDA. -/
def CudaFatMagic : Nat := 0x466243b1

/-- Wrapper magic for HIP, the characters "HIPF". -/
def HIPFatMagic : Nat := 0x48495046

/-- `GlobalValue::isLocalLinkage`: internal or private linkage. -/
def Linkage.isLocalLinkage : Linkage → Bool
  | Linkage.InternalLinkage => true
  | Linkage.PrivateLinkage => true
  | _ => false

/-- `GlobalValue::getGlobalIdentifier(Name, Linkage, FileName)`, a function of
LLVM's IR library that is not among the sources at hand, written after its
definition there: the name of the value without a leading character `\1`,
preceded for a value with local linkage by the source file name of the module
(`<unknown>` when that is empty) and a colon. -/
def getGlobalIdentifier (Name : String) (L : Linkage) (FileName : String) : String :=
  let Name1 := if Name.data.head? = some (Char.ofNat 1) then String.mk Name.data.tail else Name
  if L.isLocalLinkage then
    (if FileName.isEmpty then "<unknown>:" else FileName ++ ":") ++ Name1
  else Name1

/-- `GlobalValue::getGUID`, a function of LLVM's IR library that is not among the
sources at hand, written after its definition there: the MD5 hash of the global
identifier of the value, as a 64-bit number. The hash function is the parameter
`CGM.MD5Hash`. The GUID reads the name and the linkage of the value and the
source file name of its module, and nothing of its initializer. -/
def getGUID (CGM : CodeGenModule) (GV : GlobalVariable) : Nat :=
  CGM.MD5Hash (getGlobalIdentifier GV.Name GV.Linkage CGM.SourceFileName) % 2 ^ 64

/-- `llvm::format("%" PRIx64, v)`: lowercase hexadecimal without leading zeros. -/
def formatHex (v : Nat) : String := String.mk (Nat.toDigits 16 v)

/-- Outcome of the binary payload resolution of `makeModuleCtorFunction`: the
function returns null, or goes on with a buffer that may be absent. -/
inductive BinaryResolution
  | abort
  | buffer (CudaGpuBinary : Option String)
  deriving DecidableEq, Repr

/-- Lines 511 to 527 of `makeModuleCtorFunction`: in JIT mode the buffer is a
copy of `GPUBinForJIT` and an empty blob ends the function; otherwise a
non-empty file name is read, a failure is reported and ends the function;
otherwise there is no buffer. -/
def resolveGpuBinary (CGM : CodeGenModule) (S : CGNVCUDARuntime) :
    CGNVCUDARuntime × BinaryResolution :=
  let CudaGpuBinaryFileName := CGM.CodeGenOpts.CudaGpuBinaryFileName
  if CGM.LangOpts.isInJIT then
    if !CGM.CodeGenOpts.GPUBinForJIT.isEmpty then
      (S, BinaryResolution.buffer (some CGM.CodeGenOpts.GPUBinForJIT))
    else (S, BinaryResolution.abort)
  else if !CudaGpuBinaryFileName.isEmpty then
    match CGM.getFileOrSTDIN CudaGpuBinaryFileName with
    | Except.error EC =>
      ({ S with Diags := S.Diags ++
          [⟨none, "err_cannot_open_file", [CudaGpuBinaryFileName, EC]⟩] },
       BinaryResolution.abort)
    | Except.ok Buffer => (S, BinaryResolution.buffer (some Buffer))
  else (S, BinaryResolution.buffer none)

/-- Code of the constructor up to its current insertion point: the blocks
already closed, and the label and instructions of the block being filled. -/
structure CtorCode where
  Closed : List BasicBlock
  Cur : Label
  CurInsts : List Inst
  deriving DecidableEq, Repr

/-- The blocks of the constructor once `tail` has been emitted at the insertion
point. -/
def CtorCode.finish (Code : CtorCode) (tail : List Inst) : List BasicBlock :=
  Code.Closed ++ [⟨Code.Cur, Code.CurInsts ++ tail⟩]

/-- The HIP branch (lines 618 to 662): the handle variable
`__hip_gpubin_handle` is created, the entry block tests it against null, the
`if` block registers the fat binary and stores the handle, and the `exit` block
calls the register-globals function, when there is one, with the reloaded
handle. -/
def emitCtorHIP (CGM : CodeGenModule) (S : CGNVCUDARuntime)
    (RegisterGlobalsFunc : Option Operand) (CudaGpuBinary : Option String)
    (RegisterFatbinFunc : Operand) (FatbinWrapper : Operand) :
    CGNVCUDARuntime × CtorCode :=
  let HandleLinkage := if CudaGpuBinary.isSome then Linkage.InternalLinkage
    else Linkage.LinkOnceAnyLinkage
  let IfBlock : Label := ⟨"if", 0⟩
  let ExitBlock : Label := ⟨"exit", 0⟩
  let GpuBinaryHandle : GlobalVariable :=
    { Name := "__hip_gpubin_handle", ValueType := Ty.VoidPtrPtrTy, isConstant := false,
      Linkage := HandleLinkage, Initializer := some [Operand.null Ty.VoidPtrPtrTy],
      Section := "", Alignment := CGM.PointerAlign,
      Visibility := if HandleLinkage ≠ Linkage.InternalLinkage then Visibility.HiddenVisibility
        else Visibility.DefaultVisibility }
  let S1 := { S with GpuBinaryHandle := some GpuBinaryHandle.Name,
                     TheModule := S.TheModule.addGlobal GpuBinaryHandle }
  let GpuBinaryAddr := Operand.global GpuBinaryHandle.Name
  let HandleValue : Reg := ⟨"HandleValue", 0⟩
  let Zero := Operand.null Ty.VoidPtrPtrTy
  let EQZero : Reg := ⟨"EQZero", 0⟩
  let RegisterFatbinCall : Reg := ⟨"RegisterFatbinCall", 0⟩
  let HandleValue1 : Reg := ⟨"HandleValue", 1⟩
  (S1,
   { Closed :=
      [⟨⟨"entry", 0⟩,
         [Inst.load HandleValue GpuBinaryAddr,
          Inst.icmpEq EQZero (Operand.reg HandleValue) Zero,
          Inst.condBr (Operand.reg EQZero) IfBlock ExitBlock]⟩,
       ⟨IfBlock,
         [Inst.call (some RegisterFatbinCall) RegisterFatbinFunc
            [Operand.cast FatbinWrapper Ty.VoidPtrTy],
          Inst.store (Operand.reg RegisterFatbinCall) GpuBinaryAddr,
          Inst.br ExitBlock]⟩],
     Cur := ExitBlock,
     CurInsts :=
      match RegisterGlobalsFunc with
      | some F =>
        [Inst.load HandleValue1 GpuBinaryAddr,
         Inst.call none F [Operand.reg HandleValue1]]
      | none => [] })

/-- The CUDA branch without relocatable device code (lines 663 to 689): the
fat binary is registered without a test, the handle is stored into the new
variable `__cuda_gpubin_handle`, the register-globals function is called, and
`__cudaRegisterFatBinaryEnd` is called when the SDK version asks for it. -/
def emitCtorCUDA (CGM : CodeGenModule) (S : CGNVCUDARuntime)
    (RegisterGlobalsFunc : Option Operand)
    (RegisterFatbinFunc : Operand) (FatbinWrapper : Operand) :
    CGNVCUDARuntime × CtorCode :=
  let RegisterFatbinCall : Reg := ⟨"RegisterFatbinCall", 0⟩
  let GpuBinaryHandle : GlobalVariable :=
    { Name := "__cuda_gpubin_handle", ValueType := Ty.VoidPtrPtrTy, isConstant := false,
      Linkage := Linkage.InternalLinkage,
      Initializer := some [Operand.null Ty.VoidPtrPtrTy],
      Section := "", Alignment := CGM.PointerAlign,
      Visibility := Visibility.DefaultVisibility }
  let S1 := { S with GpuBinaryHandle := some GpuBinaryHandle.Name,
                     TheModule := S.TheModule.addGlobal GpuBinaryHandle }
  let globalsCall :=
    match RegisterGlobalsFunc with
    | some F => [Inst.call none F [Operand.reg RegisterFatbinCall]]
    | none => []
  let registerEnd := CGM.CudaFeatureEnabled CudaFeature.CUDA_USES_FATBIN_REGISTER_END
  let S2 := if registerEnd then
      S1.onModule (fun M => M.CreateRuntimeFunction ⟨Ty.VoidTy, [Ty.VoidPtrPtrTy]⟩
        "__cudaRegisterFatBinaryEnd")
    else S1
  let endCall := if registerEnd then
      [Inst.call none (Operand.runtimeFn "__cudaRegisterFatBinaryEnd")
        [Operand.reg RegisterFatbinCall]]
    else []
  (S2,
   { Closed := [],
     Cur := ⟨"entry", 0⟩,
     CurInsts :=
      [Inst.call (some RegisterFatbinCall) RegisterFatbinFunc
         [Operand.cast FatbinWrapper Ty.VoidPtrTy],
       Inst.store (Operand.reg RegisterFatbinCall) (Operand.global GpuBinaryHandle.Name)]
      ++ globalsCall ++ endCall })

/-- The CUDA branch with relocatable device code (lines 690 to 715): the module
ID is the prefix followed by the hexadecimal GUID of the wrapper; the ID
constant, the alias `__fatbinwrap<ID>` and the declaration of
`__cudaRegisterLinkedBinary<ID>` are created, and that function is called with
the register-globals function, the wrapper, the ID constant and a dummy
callback. No handle variable is created. -/
def emitCtorRDC (CGM : CodeGenModule) (S : CGNVCUDARuntime)
    (RegisterGlobalsFunc : Option Operand) (FatbinWrapper : GlobalVariable)
    (ModuleIDSectionName : String) (ModuleIDTag : String) :
    CGNVCUDARuntime × CtorCode :=
  let ModuleID := ModuleIDTag ++ formatHex (getGUID CGM FatbinWrapper)
  let (M1, ModuleIDConstant) :=
    makeConstantString S.TheModule ModuleID "" ModuleIDSectionName 32
  let Alias : GlobalAlias :=
    ⟨Linkage.ExternalLinkage, "__fatbinwrap" ++ ModuleID, FatbinWrapper.Name⟩
  let M2 := { M1 with Aliases := M1.Aliases ++ [Alias] }
  let RegisterLinkedBinaryName := "__cudaRegisterLinkedBinary" ++ ModuleID
  let M3 := M2.CreateRuntimeFunction getRegisterLinkedBinaryFnTy RegisterLinkedBinaryName
  let RegisterLinkedBinaryFunc := Operand.runtimeFn RegisterLinkedBinaryName
  let S1 := { S with TheModule := M3 }
  let S2 := if RegisterGlobalsFunc.isSome then S1
    else { S1 with Faults := S1.Faults ++ ["Expecting at least dummy function!"] }
  let (S3, Dummy) := makeDummyFunction S2 getCallbackFnTy
  let Args :=
    [RegisterGlobalsFunc.getD (Operand.null getRegisterGlobalsFnTy.getPointerTo),
     Operand.cast (Operand.global FatbinWrapper.Name) Ty.VoidPtrTy,
     ModuleIDConstant, Dummy]
  (S3,
   { Closed := [], Cur := ⟨"entry", 0⟩,
     CurInsts := [Inst.call none RegisterLinkedBinaryFunc Args] })

/-- Section of the payload string (`FatbinConstantName`, lines 545 to 578). -/
def FatbinConstantName (CGM : CodeGenModule) : String :=
  if CGM.LangOpts.HIP then ".hip_fatbin"
  else if RelocatableDeviceCode CGM then
    (if CGM.isMacOSX then "__NV_CUDA,__nv_relfatbin" else "__nv_relfatbin")
  else (if CGM.isMacOSX then "__NV_CUDA,__nv_fatbin" else ".nv_fatbin")

/-- Section of the wrapper constant (`FatbinSectionName`). -/
def FatbinSectionName (CGM : CodeGenModule) : String :=
  if CGM.LangOpts.HIP then ".hipFatBinSegment"
  else (if CGM.isMacOSX then "__NV_CUDA,__fatbin" else ".nvFatBinSegment")

/-- Section of the module ID constant (`ModuleIDSectionName`). -/
def ModuleIDSectionName (CGM : CodeGenModule) : String :=
  if CGM.LangOpts.HIP then "__hip_module_id"
  else (if CGM.isMacOSX then "__NV_CUDA,__nv_module_id" else "__nv_module_id")

/-- Family tag put in front of the module ID (`ModuleIDPrefix`). -/
def ModuleIDTag (CGM : CodeGenModule) : String :=
  if CGM.LangOpts.HIP then "__hip_" else "__nv_"

/-- Magic number of the wrapper (`FatMagic`). -/
def FatMagic (CGM : CodeGenModule) : Nat :=
  if CGM.LangOpts.HIP then HIPFatMagic else CudaFatMagic

/-- The type `struct { int magic, int version, void * gpu_binary, void *
dont_care }` of the wrapper. -/
def FatbinWrapperTy : Ty :=
  Ty.struct (TyList.ofList [Ty.IntTy, Ty.IntTy, Ty.VoidPtrTy, Ty.VoidPtrTy])

/-- The wrapper constant (lines 595 to 609): magic, version 1, the payload and
a null pointer, in the internal constant `__{cuda|hip}_fatbin_wrapper` placed in
the wrapper section. -/
def makeFatbinWrapper (CGM : CodeGenModule) (FatBinStr : Operand) : GlobalVariable :=
  { Name := addUnderscoredPrefixToName CGM "_fatbin_wrapper",
    ValueType := FatbinWrapperTy, isConstant := true,
    Linkage := Linkage.InternalLinkage,
    Initializer := some
      [Operand.constInt Ty.IntTy (FatMagic CGM), Operand.constInt Ty.IntTy 1, FatBinStr,
       Operand.null Ty.VoidPtrTy],
    Section := FatbinSectionName CGM, Alignment := CGM.PointerAlign,
    Visibility := Visibility.DefaultVisibility }

/-- The payload operand of the wrapper (lines 545 to 593): for HIP the constant
string holding the buffer, or the external symbol `__hip_fatbin` in section
`.hip_fatbin` when there is no buffer; for CUDA the constant string holding the
buffer, whose absence is a fault. -/
def emitFatBinStr (CGM : CodeGenModule) (S : CGNVCUDARuntime)
    (CudaGpuBinary : Option String) : CGNVCUDARuntime × Operand :=
  if CGM.LangOpts.HIP then
    match CudaGpuBinary with
    | some Buffer =>
      let (M, Str) := makeConstantString S.TheModule Buffer "" (FatbinConstantName CGM) 8
      ({ S with TheModule := M }, Str)
    | none =>
      (S.onModule (fun M => M.addGlobal
        { Name := "__hip_fatbin", ValueType := Ty.Int8Ty, isConstant := true,
          Linkage := Linkage.ExternalLinkage, Initializer := none,
          Section := FatbinConstantName CGM, Alignment := 0,
          Visibility := Visibility.DefaultVisibility }),
       Operand.global "__hip_fatbin")
  else
    match CudaGpuBinary with
    | some Buffer =>
      let (M, Str) := makeConstantString S.TheModule Buffer "" (FatbinConstantName CGM) 8
      ({ S with TheModule := M }, Str)
    | none =>
      let (M, Str) := makeConstantString S.TheModule "" "" (FatbinConstantName CGM) 8
      ({ S with TheModule := M, Faults := S.Faults ++ ["CudaGpuBinary is null"] }, Str)

/-- The registration code of the constructor by runtime family (lines 618 to
715). -/
def emitCtorBranch (CGM : CodeGenModule) (S : CGNVCUDARuntime)
    (RegisterGlobalsFunc : Option Operand) (CudaGpuBinary : Option String)
    (FatbinWrapper : GlobalVariable) : CGNVCUDARuntime × CtorCode :=
  let RegisterFatbinFunc :=
    Operand.runtimeFn (addUnderscoredPrefixToName CGM "RegisterFatBinary")
  if CGM.LangOpts.HIP then
    emitCtorHIP CGM S RegisterGlobalsFunc CudaGpuBinary RegisterFatbinFunc
      (Operand.global FatbinWrapper.Name)
  else if !RelocatableDeviceCode CGM then
    emitCtorCUDA CGM S RegisterGlobalsFunc RegisterFatbinFunc
      (Operand.global FatbinWrapper.Name)
  else
    emitCtorRDC CGM S RegisterGlobalsFunc FatbinWrapper (ModuleIDSectionName CGM)
      (ModuleIDTag CGM)

/-- The end of the constructor (lines 717 to 730): the call `atexit(CleanupFn)`
when `makeModuleDtorFunction` yields a destructor, then `ret void`. -/
def emitCtorTail (CGM : CodeGenModule) (S : CGNVCUDARuntime) :
    CGNVCUDARuntime × List Inst :=
  let (S1, CleanupFn) := makeModuleDtorFunction CGM S
  match CleanupFn with
  | some Fn =>
    (S1.onModule (fun M => M.CreateRuntimeFunction
        ⟨Ty.IntTy, [(⟨Ty.VoidTy, [Ty.VoidPtrTy]⟩ : FunctionType).getPointerTo]⟩ "atexit"),
     [Inst.call none (Operand.runtimeFn "atexit") [Fn], Inst.retVoid])
  | none => (S1, [Inst.retVoid])

/-- Lines 529 to 731 of `makeModuleCtorFunction`, after the payload has been
resolved: the constructor function is created, the payload operand and the
wrapper constant are built, the branch of the runtime family emits the
registration code, and the destructor, when there is one, is registered with
`atexit`. -/
def emitModuleCtor (CGM : CodeGenModule) (S : CGNVCUDARuntime)
    (RegisterGlobalsFunc : Option Operand) (CudaGpuBinary : Option String) :
    CGNVCUDARuntime × Option Operand :=
  let ctorId := S.TheModule.Functions.length
  let (M1, ModuleCtorFunc) := S.TheModule.createFunction ⟨Ty.VoidTy, [Ty.VoidPtrTy]⟩
    Linkage.InternalLinkage (addUnderscoredPrefixToName CGM "_module_ctor")
  let (S2, FatBinStr) := emitFatBinStr CGM { S with TheModule := M1 } CudaGpuBinary
  let FatbinWrapper := makeFatbinWrapper CGM FatBinStr
  let S3 := S2.onModule (fun M => M.addGlobal FatbinWrapper)
  let (S4, Code) := emitCtorBranch CGM S3 RegisterGlobalsFunc CudaGpuBinary FatbinWrapper
  let (S5, tail) := emitCtorTail CGM S4
  (S5.onModule (fun M => M.setBody ctorId (Code.finish tail)), some ModuleCtorFunc)

/-- `CGNVCUDARuntime::makeModuleCtorFunction`. -/
def makeModuleCtorFunction (CGM : CodeGenModule) (S : CGNVCUDARuntime) :
    CGNVCUDARuntime × Option Operand :=
  let IsHIP := CGM.LangOpts.HIP
  let IsCUDA := CGM.LangOpts.CUDA
  let CudaGpuBinaryFileName := CGM.CodeGenOpts.CudaGpuBinaryFileName
  if CudaGpuBinaryFileName.isEmpty && !IsHIP then (S, none)
  else if (IsHIP || (IsCUDA && !RelocatableDeviceCode CGM)) &&
      S.EmittedKernels.isEmpty && S.DeviceVars.isEmpty then (S, none)
  else
    let (S1, RegisterGlobalsFunc0) := makeRegisterGlobalsFn CGM S
    let (S2, RegisterGlobalsFunc) : CGNVCUDARuntime × Option Operand :=
      if RelocatableDeviceCode CGM && RegisterGlobalsFunc0.isNone then
        let (S', Dummy) := makeDummyFunction S1 getRegisterGlobalsFnTy
        (S', some Dummy)
      else (S1, RegisterGlobalsFunc0)
    let S3 := S2.onModule (fun M => M.CreateRuntimeFunction
      ⟨Ty.VoidPtrPtrTy, [Ty.VoidPtrTy]⟩ (addUnderscoredPrefixToName CGM "RegisterFatBinary"))
    match resolveGpuBinary CGM S3 with
    | (S4, BinaryResolution.abort) => (S4, none)
    | (S4, BinaryResolution.buffer CudaGpuBinary) =>
      emitModuleCtor CGM S4 RegisterGlobalsFunc CudaGpuBinary

/-- The function an operand refers to, if it is a function of the module. -/
def Module.getFunction (M : Module) : Operand → Option Function
  | Operand.func _ id => M.Functions[id]?
  | _ => none

/-- The basic blocks of the function a generator returned, looked up in the
module of the resulting state. -/
def generatedBlocks (Result : CGNVCUDARuntime × Option Operand) :
    Option (List BasicBlock) :=
  Result.2.bind (fun F => (Result.1.TheModule.getFunction F).map (fun Fn => Fn.Blocks))

/-! ## Execution of emitted code -/

/-- Values at run time. `ptr` is a non-null pointer handed out by the runtime,
`addr` the address of a named object of the program. -/
inductive RVal
  | null
  | ptr (p : Nat)
  | int (v : Int)
  | bool (b : Bool)
  | addr (o : Operand)
  | undef
  deriving DecidableEq, Repr

/-- One call performed by executed code: callee, argument values and the value
the callee returned. -/
structure CallEvent where
  Callee : Operand
  Args : List RVal
  Result : RVal
  deriving DecidableEq, Repr

/-- The environment the emitted code calls into: the value a callee returns,
given the calls performed so far and the argument values. -/
abbrev Runtime := List CallEvent → Operand → List RVal → RVal

/-- Execution state: memory by address, registers of the running function and
the calls performed so far. -/
structure ExecState where
  Mem : RVal → RVal
  Regs : Reg → RVal
  Trace : List CallEvent

/-- Value of an operand. Casts keep the value; aggregates are not executed. -/
def evalOperand (Params : List RVal) (Regs : Reg → RVal) : Operand → RVal
  | Operand.reg r => Regs r
  | Operand.arg i => Params.getD i RVal.undef
  | Operand.constInt _ v => RVal.int v
  | Operand.null _ => RVal.null
  | Operand.cast v _ => evalOperand Params Regs v
  | Operand.aggregate _ => RVal.undef
  | o => RVal.addr o

/-- Where control goes after a block. -/
inductive Next
  | goto (L : Label)
  | returned
  | fellThrough
  deriving DecidableEq, Repr

/-- Executes the instructions of a block in order up to its terminator. A block
without terminator is left at its end (`fellThrough`): the emitter has not
closed it yet. A conditional branch on a non-boolean is stuck. -/
def execBlock (R : Runtime) (Params : List RVal) :
    List Inst → ExecState → Option (ExecState × Next)
  | [], σ => some (σ, Next.fellThrough)
  | Inst.call dst f args :: rest, σ =>
    let vs := args.map (evalOperand Params σ.Regs)
    let r := R σ.Trace f vs
    let Regs := match dst with
      | some d => fun x => if x = d then r else σ.Regs x
      | none => σ.Regs
    execBlock R Params rest { σ with Regs := Regs, Trace := σ.Trace ++ [⟨f, vs, r⟩] }
  | Inst.load dst a :: rest, σ =>
    let v := σ.Mem (evalOperand Params σ.Regs a)
    execBlock R Params rest { σ with Regs := fun x => if x = dst then v else σ.Regs x }
  | Inst.store v a :: rest, σ =>
    let p := evalOperand Params σ.Regs a
    let w := evalOperand Params σ.Regs v
    execBlock R Params rest { σ with Mem := fun x => if x = p then w else σ.Mem x }
  | Inst.icmpEq dst a b :: rest, σ =>
    let v := RVal.bool (decide (evalOperand Params σ.Regs a = evalOperand Params σ.Regs b))
    execBlock R Params rest { σ with Regs := fun x => if x = dst then v else σ.Regs x }
  | Inst.icmpNe dst a b :: rest, σ =>
    let v := RVal.bool (decide (evalOperand Params σ.Regs a ≠ evalOperand Params σ.Regs b))
    execBlock R Params rest { σ with Regs := fun x => if x = dst then v else σ.Regs x }
  | Inst.br L :: _, σ => some (σ, Next.goto L)
  | Inst.condBr c T F :: _, σ =>
    match evalOperand Params σ.Regs c with
    | RVal.bool true => some (σ, Next.goto T)
    | RVal.bool false => some (σ, Next.goto F)
    | _ => none
  | Inst.retVoid :: _, σ => some (σ, Next.returned)

/-- How an execution ended: by `ret void`, or at the open end of a block. -/
inductive Exit
  | returned
  | openEnd (L : Label)
  deriving DecidableEq, Repr

/-- Executes blocks starting at label `L`, visiting at most `fuel` blocks.
`none` when the fuel runs out, a label is missing or a branch is stuck. -/
def runBlocks (R : Runtime) (Params : List RVal) (Blocks : List BasicBlock) :
    Nat → Label → ExecState → Option (ExecState × Exit)
  | 0, _, _ => none
  | fuel + 1, L, σ =>
    match Blocks.find? (fun B => B.label = L) with
    | none => none
    | some B =>
      match execBlock R Params B.insts σ with
      | none => none
      | some (σ1, Next.goto L1) => runBlocks R Params Blocks fuel L1 σ1
      | some (σ1, Next.returned) => some (σ1, Exit.returned)
      | some (σ1, Next.fellThrough) => some (σ1, Exit.openEnd L)

/-- What persists between activations: memory and the calls performed. -/
structure World where
  Mem : RVal → RVal
  Trace : List CallEvent

/-- One activation of a function body: fresh registers, execution from the
first block. -/
def runBody (R : Runtime) (fuel : Nat) (Blocks : List BasicBlock) (Params : List RVal)
    (W : World) : Option (World × Exit) :=
  match Blocks with
  | [] => none
  | B :: _ =>
    (runBlocks R Params Blocks fuel B.label ⟨W.Mem, fun _ => RVal.undef, W.Trace⟩).map
      (fun r => (⟨r.1.Mem, r.1.Trace⟩, r.2))

/-- `N` activations of a function body one after the other. -/
def runBodyTimes (R : Runtime) (fuel : Nat) (Blocks : List BasicBlock)
    (Params : List RVal) : Nat → World → Option World
  | 0, W => some W
  | N + 1, W =>
    match runBody R fuel Blocks Params W with
    | some (W1, _) => runBodyTimes R fuel Blocks Params N W1
    | none => none

/-- The calls of a trace whose callee is `f`. -/
def callsTo (f : Operand) (Trace : List CallEvent) : List CallEvent :=
  Trace.filter (fun e => e.Callee = f)

/-- The call instructions of a list of blocks, in block and emission order. -/
def callInsts (Blocks : List BasicBlock) : List Inst :=
  (Blocks.map (fun B => B.insts)).flatten.filter
    (fun I => match I with
      | Inst.call _ _ _ => true
      | _ => false)

/-- The call instructions of a list of blocks whose callee is `f`. -/
def callInstsTo (f : Operand) (Blocks : List BasicBlock) : List Inst :=
  (Blocks.map (fun B => B.insts)).flatten.filter
    (fun I => match I with
      | Inst.call _ g _ => g = f
      | _ => false)

/-! ## Concrete configurations -/

/-- A CUDA configuration without relocatable device code: source file `k.cu`,
binary file `k.fatbin` readable with content `BIN`, SDK below both feature
thresholds, no declaration of `cudaLaunchKernel` in scope, no auxiliary target.
A polynomial hash of the characters stands for MD5. -/
def sampleCUDA : CodeGenModule :=
  { LangOpts := ⟨false, true, false, JITMode.JM_None⟩,
    CodeGenOpts := ⟨"k.fatbin", ""⟩,
    CudaFeatureEnabled := fun _ => false,
    isMacOSX := false,
    getFileOrSTDIN := fun _ => Except.ok "BIN",
    lookup := fun _ => [],
    shouldMangleDeclName := fun _ => false,
    mangleName := fun _ => "",
    PointerAlign := 8, SizeAlign := 8,
    SourceFileName := "k.cu",
    MD5Hash := fun s => s.data.foldl (fun h c => 31 * h + c.toNat) 7,
    AuxTargetCXXABI := none, TargetCXXABI := 0,
    ExternDeviceVar := 1, ConstantDeviceVar := 2 }

/-- The HIP configuration with no binary file, the payload being left to the
linker. -/
def sampleHIP : CodeGenModule :=
  { sampleCUDA with
    LangOpts := ⟨true, true, false, JITMode.JM_None⟩,
    CodeGenOpts := ⟨"", ""⟩ }

/-- The CUDA configuration with relocatable device code. -/
def sampleRDC : CodeGenModule :=
  { sampleCUDA with LangOpts := ⟨false, true, true, JITMode.JM_None⟩ }

/-- A module holding the stub of one kernel `k`. -/
def sampleModule : Module :=
  { Module.empty with
    Functions := [⟨"k", Linkage.ExternalLinkage, ⟨Ty.VoidTy, [Ty.IntTy, Ty.ast "float"]⟩, []⟩] }

/-- Generator state after the stub of the kernel `k` has been recorded. -/
def sampleState : CGNVCUDARuntime :=
  { CGNVCUDARuntime.init sampleModule with
    EmittedKernels := [⟨Operand.func "k" 0, ⟨"k", 1⟩⟩] }

/-- The blocks of a HIP constructor that calls the register-globals function `F`
and registers the destructor `D`: the code of `emitCtorHIP`, finished by the
`atexit` call and `ret void` as in `emitModuleCtor`. -/
def hipCtorBlocks (CGM : CodeGenModule) (F D : Operand) : List BasicBlock :=
  (emitCtorHIP CGM (CGNVCUDARuntime.init Module.empty) (some F) none
    (Operand.runtimeFn "__hipRegisterFatBinary")
    (Operand.global "__hip_fatbin_wrapper")).2.finish
    [Inst.call none (Operand.runtimeFn "atexit") [D], Inst.retVoid]

/-- Address of the HIP handle variable at run time. -/
def hipHandleAddr : RVal := RVal.addr (Operand.global "__hip_gpubin_handle")

/-- The module ID `emitCtorRDC` computes for a wrapper whose payload is the
constant string `Payload`: the family tag followed by the hexadecimal GUID of the
wrapper constant. -/
def relocatableModuleID (CGM : CodeGenModule) (Payload : String) : String :=
  ModuleIDTag CGM ++ formatHex (getGUID CGM (makeFatbinWrapper CGM (Operand.cstring Payload)))

/-- The calls the spec prescribes for the legacy stub (section 4.1), written
from its words and not from the emitted code: walking the arguments in
declaration order with the running aligned offset, `SetupArgument(pointer, size,
offset)` is called; a non-zero status ends the walk with no further call; once
all arguments succeed, `Launch(stub-address)` is called once. `tr` is the trace
before the stub runs; the result is the trace after it. -/
def legacyStubTrace (R : Runtime) (SetupArgument Launch : Operand) (stubAddress : RVal) :
    List VarDecl → Nat → List CallEvent → List CallEvent
  | [], _, tr => tr ++ [⟨Launch, [stubAddress], R tr Launch [stubAddress]⟩]
  | A :: rest, Offset, tr =>
    let o := alignTo Offset A.TyAlign
    let args := [RVal.addr (Operand.localVar A.Name), RVal.int A.TyWidth, RVal.int o]
    let status := R tr SetupArgument args
    let tr1 := tr ++ [⟨SetupArgument, args, status⟩]
    if status = RVal.int 0 then
      legacyStubTrace R SetupArgument Launch stubAddress rest (o + A.TyWidth) tr1
    else tr1

/-- The offsets the argument loop of `emitDeviceStubBodyLegacy` passes, one per
argument, starting from the running offset `Offset`. -/
def legacyOffsets : List VarDecl → Nat → List Nat
  | [], _ => []
  | A :: rest, Offset =>
    alignTo Offset A.TyAlign :: legacyOffsets rest (alignTo Offset A.TyAlign + A.TyWidth)

/-- The size and offset operands of the calls to `f` in a list of blocks, in
emission order. -/
def sizesAndOffsets (f : Operand) (Blocks : List BasicBlock) : List (Operand × Operand) :=
  (callInstsTo f Blocks).filterMap (fun I =>
    match I with
    | Inst.call _ _ [_, size, offset] => some (size, offset)
    | _ => none)

/-- The parameters `(int, double, char)` of a sample kernel. -/
def sampleArgs : List VarDecl := [⟨"a", 4, 4⟩, ⟨"b", 8, 8⟩, ⟨"c", 1, 1⟩]

/-- The stub function of the sample kernel `k`. -/
def sampleCGF : CodeGenFunction := ⟨"k", 0, ⟨"k", 1⟩⟩

/-- The store instructions of a list of blocks, in block and emission order. -/
def storeInsts (Blocks : List BasicBlock) : List Inst :=
  (Blocks.map (fun B => B.insts)).flatten.filter
    (fun I => match I with
      | Inst.store _ _ => true
      | _ => false)

/-- A declaration of `cudaLaunchKernel` whose parameters of index 1 and 2 have
type `dim3`. -/
def sampleLaunchDecl : FunctionDecl :=
  { ParamType := fun _ => Ty.ast "dim3",
    FnTy := ⟨Ty.IntTy, [Ty.VoidPtrTy, Ty.ast "dim3", Ty.ast "dim3", Ty.VoidPtrPtrTy,
      Ty.SizeTy, Ty.VoidPtrTy]⟩ }

/-- Generator state with the kernel `k` recorded twice and two device variables:
`v` with both the extern and the constant flag and further bits set, `w` with no
flag. -/
def sampleVarState : CGNVCUDARuntime :=
  { CGNVCUDARuntime.init sampleModule with
    EmittedKernels := [⟨Operand.func "k" 0, ⟨"k", 1⟩⟩, ⟨Operand.func "k" 0, ⟨"k", 1⟩⟩],
    DeviceVars := [⟨⟨"v", 4⟩, ⟨"v", 2⟩, 11⟩, ⟨⟨"w", 8⟩, ⟨"w", 3⟩, 0⟩] }

/-- Lines 493 to 502 of `makeModuleCtorFunction`, between the early returns and
the payload resolution: the register-globals function is built, replaced by a
dummy function when device code is relocatable and nothing is to be registered,
and `__{cuda|hip}RegisterFatBinary` is declared. Yields the state and the
register-globals function with which the payload resolution is reached. -/
def makeRegisterGlobalsOrDummy (CGM : CodeGenModule) (S : CGNVCUDARuntime) :
    CGNVCUDARuntime × Option Operand :=
  let (S1, RegisterGlobalsFunc0) := makeRegisterGlobalsFn CGM S
  let (S2, RegisterGlobalsFunc) : CGNVCUDARuntime × Option Operand :=
    if RelocatableDeviceCode CGM && RegisterGlobalsFunc0.isNone then
      let (S', Dummy) := makeDummyFunction S1 getRegisterGlobalsFnTy
      (S', some Dummy)
    else (S1, RegisterGlobalsFunc0)
  (S2.onModule (fun M => M.CreateRuntimeFunction
    ⟨Ty.VoidPtrPtrTy, [Ty.VoidPtrTy]⟩ (addUnderscoredPrefixToName CGM "RegisterFatBinary")),
   RegisterGlobalsFunc)

/-- The external symbol `__hip_fatbin` that `emitFatBinStr` declares in section
`.hip_fatbin` when HIP has no buffer. -/
def hipFatbinSymbol (CGM : CodeGenModule) : GlobalVariable :=
  { Name := "__hip_fatbin", ValueType := Ty.Int8Ty, isConstant := true,
    Linkage := Linkage.ExternalLinkage, Initializer := none,
    Section := FatbinConstantName CGM, Alignment := 0,
    Visibility := Visibility.DefaultVisibility }

/-- The handle variable `__cuda_gpubin_handle` that `emitCtorCUDA` creates. -/
def cudaHandleVar (CGM : CodeGenModule) : GlobalVariable :=
  { Name := "__cuda_gpubin_handle", ValueType := Ty.VoidPtrPtrTy, isConstant := false,
    Linkage := Linkage.InternalLinkage,
    Initializer := some [Operand.null Ty.VoidPtrPtrTy],
    Section := "", Alignment := CGM.PointerAlign,
    Visibility := Visibility.DefaultVisibility }

/-- The handle variable `__hip_gpubin_handle` that `emitCtorHIP` creates: internal
when the binary is embedded, link-once and hidden when it is left to the linker. -/
def hipHandleVar (CGM : CodeGenModule) (CudaGpuBinary : Option String) : GlobalVariable :=
  { Name := "__hip_gpubin_handle", ValueType := Ty.VoidPtrPtrTy, isConstant := false,
    Linkage := if CudaGpuBinary.isSome then Linkage.InternalLinkage
      else Linkage.LinkOnceAnyLinkage,
    Initializer := some [Operand.null Ty.VoidPtrPtrTy],
    Section := "", Alignment := CGM.PointerAlign,
    Visibility := if CudaGpuBinary.isSome then Visibility.DefaultVisibility
      else Visibility.HiddenVisibility }

/-- The payload operand `emitFatBinStr` yields: the constant string holding the
buffer, or for HIP without a buffer the symbol `__hip_fatbin`. -/
def payloadOperand (CGM : CodeGenModule) (CudaGpuBinary : Option String) : Operand :=
  match CudaGpuBinary with
  | some Buffer => Operand.cstring Buffer
  | none => if CGM.LangOpts.HIP then Operand.global "__hip_fatbin" else Operand.cstring ""

/-- The configuration `sampleCUDA` with a binary file that cannot be opened. -/
def sampleUnreadable : CodeGenModule :=
  { sampleCUDA with getFileOrSTDIN := fun _ => Except.error "No such file or directory" }

/-- The configuration `sampleCUDA` in JIT mode with an empty blob. -/
def sampleJITNoBlob : CodeGenModule :=
  { sampleCUDA with LangOpts := ⟨false, true, false, JITMode.JM_IsJIT⟩ }

/-- The runtime declarations of `M2` are those of `M` or bear a name of `L`:
going from `M` to `M2` declared no runtime entry point outside `L`. -/
def declsWithin (L : List String) (M M2 : Module) : Prop :=
  ∀ D ∈ M2.RuntimeDecls, D ∈ M.RuntimeDecls ∨ D.Name ∈ L

/-- The HIP configuration with an SDK that selects the new launch ABI and a
declaration of `cudaLaunchKernel` in scope. -/
def sampleHIPNewABI : CodeGenModule :=
  { sampleHIP with
    CudaFeatureEnabled := fun _ => true,
    lookup := fun _ => [NamedDecl.function sampleLaunchDecl] }

/-- The names of the runtime functions `makeModuleCtorFunction` may declare, `ID`
being the module ID of the relocatable mode: the registration entry points under
the underscored family prefix, `atexit`, and with the HIP option off the two
entry points that only CUDA has. -/
def ctorEntryPoints (CGM : CodeGenModule) (ID : String) : List String :=
  [addUnderscoredPrefixToName CGM "RegisterFunction",
   addUnderscoredPrefixToName CGM "RegisterVar",
   addUnderscoredPrefixToName CGM "RegisterFatBinary",
   addUnderscoredPrefixToName CGM "UnregisterFatBinary",
   "atexit"] ++
  (if CGM.LangOpts.HIP then []
   else ["__cudaRegisterFatBinaryEnd", "__cudaRegisterLinkedBinary" ++ ID])

/-- Generator state with no kernel and one device variable `v`. -/
def sampleVarOnly : CGNVCUDARuntime :=
  { CGNVCUDARuntime.init sampleModule with
    DeviceVars := [⟨⟨"v", 4⟩, ⟨"v", 2⟩, 1⟩] }

/-- Modelled from the spec: `llvm::ConstantInt::get(Ty, V)` is defined outside the
sources at hand. The constant it yields for an integer type of `w` bits holds the
value handed to it "reduced to the width of the int parameter type"; read without
sign, that is `V mod 2^w`. -/
def ConstantInt.getZExtValue (w : Nat) (V : Int) : Int := V % 2 ^ w

/-- Modelled from the spec: the constant `llvm::ConstantInt::get(Ty, V)` of a type
of `w` bits "reads as a non-negative int only below 2^(w-1)": read with sign, the
reduced value stands for itself below `2^(w-1)` and for itself minus `2^w` from
there on. -/
def ConstantInt.getSExtValue (w : Nat) (V : Int) : Int :=
  if V % 2 ^ w < 2 ^ (w - 1) then V % 2 ^ w else V % 2 ^ w - 2 ^ w

/-- Value of a hexadecimal digit as `llvm::format` writes it: the position of
the character among the digits `Nat.digitChar` yields for 0 to 15, and 0 for any
other character. -/
def hexDigitValue (c : Char) : Nat :=
  ((List.range 16).find? (fun d => Nat.digitChar d == c)).getD 0

/-- The number a list of hexadecimal digits denotes, most significant digit
first, continuing from the value `a` read so far. -/
def parseHex (a : Nat) (ds : List Char) : Nat :=
  ds.foldl (fun v c => 16 * v + hexDigitValue c) a

/-- The sample relocatable CUDA configuration reading the binary file content
`Payload`. -/
def sampleRDCFile (Payload : String) : CodeGenModule :=
  { sampleRDC with getFileOrSTDIN := fun _ => Except.ok Payload }

/-- The contents of the string constants of a module placed in section `Sec`. -/
def stringsInSection (M : Module) (Sec : String) : List String :=
  (M.Strings.filter (fun G => G.Section = Sec)).map StringConstant.Content

/-- A module holding the HIP stub `k.stub` of one kernel `k`. -/
def sampleHIPModule : Module :=
  { Module.empty with
    Functions :=
      [⟨"k.stub", Linkage.ExternalLinkage, ⟨Ty.VoidTy, [Ty.IntTy, Ty.ast "float"]⟩, []⟩] }

/-- The HIP stub function `k.stub` of the sample kernel `k`. -/
def sampleHIPCGF : CodeGenFunction := ⟨"k.stub", 0, ⟨"k", 1⟩⟩

/-- The configuration `sampleCUDA` in JIT mode with the blob `JITBLOB`, the
binary file `k.fatbin` still configured and readable with content `BIN`. -/
def sampleJIT : CodeGenModule :=
  { sampleCUDA with
    LangOpts := ⟨false, true, false, JITMode.JM_IsJIT⟩,
    CodeGenOpts := ⟨"k.fatbin", "JITBLOB"⟩ }

/-! ## Frame lemmas: what each generator step does to the function list and the handle -/

theorem setBlocksAt_append_length (B : List BasicBlock) (l : List Function) (F : Function)
    (r : List Function) :
    setBlocksAt B (l ++ F :: r) l.length = l ++ { F with Blocks := B } :: r := by
  induction l with
  | nil => rfl
  | cons x xs ih => simp [setBlocksAt, ih]

@[simp] theorem CreateRuntimeFunction_Functions (M : Module) (T : FunctionType) (n : String) :
    (M.CreateRuntimeFunction T n).Functions = M.Functions := by
  unfold Module.CreateRuntimeFunction; split <;> rfl

@[simp] theorem makeConstantString_Functions (M : Module) (s n sec : String) (a : Nat) :
    (makeConstantString M s n sec a).1.Functions = M.Functions := by
  unfold makeConstantString Module.GetAddrOfConstantCString; dsimp only; split <;> rfl

@[simp] theorem makeConstantString_snd (M : Module) (s n sec : String) (a : Nat) :
    (makeConstantString M s n sec a).2 = Operand.cstring s := rfl

theorem makeDummyFunction_fst_Functions (S : CGNVCUDARuntime) (T : FunctionType) :
    (makeDummyFunction S T).1.TheModule.Functions =
      S.TheModule.Functions ++
        [⟨"dummy", Linkage.InternalLinkage, T, [⟨⟨"", 0⟩, [Inst.retVoid]⟩]⟩] := by
  unfold makeDummyFunction
  split <;> simp [Module.createFunction, Module.setBody, setBlocksAt_append_length]

@[simp] theorem makeDummyFunction_handle (S : CGNVCUDARuntime) (T : FunctionType) :
    (makeDummyFunction S T).1.GpuBinaryHandle = S.GpuBinaryHandle := by
  unfold makeDummyFunction
  split <;> rfl

theorem makeModuleDtorFunction_none (CGM : CodeGenModule) (S : CGNVCUDARuntime)
    (h : S.GpuBinaryHandle = none) : makeModuleDtorFunction CGM S = (S, none) := by
  unfold makeModuleDtorFunction; simp [h]

theorem makeModuleDtorFunction_some (CGM : CodeGenModule) (S : CGNVCUDARuntime) (H : String)
    (h : S.GpuBinaryHandle = some H) :
    (makeModuleDtorFunction CGM S).2 =
        some (Operand.func (addUnderscoredPrefixToName CGM "_module_dtor")
          S.TheModule.Functions.length)
    ∧ (makeModuleDtorFunction CGM S).1.GpuBinaryHandle = some H
    ∧ (makeModuleDtorFunction CGM S).1.TheModule.Functions =
        S.TheModule.Functions ++
          [⟨addUnderscoredPrefixToName CGM "_module_dtor", Linkage.InternalLinkage,
            ⟨Ty.VoidTy, [Ty.VoidPtrTy]⟩,
            emitDtorBody CGM
              (Operand.runtimeFn (addUnderscoredPrefixToName CGM "UnregisterFatBinary")) H⟩] := by
  unfold makeModuleDtorFunction
  simp [h, Module.createFunction, Module.setBody]
  have := setBlocksAt_append_length (emitDtorBody CGM
      (Operand.runtimeFn (addUnderscoredPrefixToName CGM "UnregisterFatBinary")) H)
      S.TheModule.Functions
      ⟨addUnderscoredPrefixToName CGM "_module_dtor", Linkage.InternalLinkage,
            ⟨Ty.VoidTy, [Ty.VoidPtrTy]⟩, []⟩ []
  simpa using this

theorem makeRegisterGlobalsFn_handle (CGM : CodeGenModule) (S : CGNVCUDARuntime) :
    (makeRegisterGlobalsFn CGM S).1.GpuBinaryHandle = S.GpuBinaryHandle := by
  unfold makeRegisterGlobalsFn
  split
  · rfl
  · rfl

theorem resolveGpuBinary_fst (CGM : CodeGenModule) (S : CGNVCUDARuntime) :
    (resolveGpuBinary CGM S).1.GpuBinaryHandle = S.GpuBinaryHandle
    ∧ (resolveGpuBinary CGM S).1.TheModule = S.TheModule := by
  unfold resolveGpuBinary
  dsimp only
  split
  · split <;> exact ⟨rfl, rfl⟩
  · split
    · split <;> exact ⟨rfl, rfl⟩
    · exact ⟨rfl, rfl⟩

theorem emitFatBinStr_frame (CGM : CodeGenModule) (S : CGNVCUDARuntime) (Bin : Option String) :
    (emitFatBinStr CGM S Bin).1.GpuBinaryHandle = S.GpuBinaryHandle
    ∧ (emitFatBinStr CGM S Bin).1.TheModule.Functions = S.TheModule.Functions := by
  unfold emitFatBinStr
  split <;> split <;>
    simp [CGNVCUDARuntime.onModule, Module.addGlobal]

theorem emitCtorHIP_frame (CGM : CodeGenModule) (S : CGNVCUDARuntime) (RG : Option Operand)
    (Bin : Option String) (f w : Operand) :
    (emitCtorHIP CGM S RG Bin f w).1.GpuBinaryHandle = some "__hip_gpubin_handle"
    ∧ (emitCtorHIP CGM S RG Bin f w).1.TheModule.Functions = S.TheModule.Functions := by
  unfold emitCtorHIP
  simp [Module.addGlobal]

theorem emitCtorCUDA_frame (CGM : CodeGenModule) (S : CGNVCUDARuntime) (RG : Option Operand)
    (f w : Operand) :
    (emitCtorCUDA CGM S RG f w).1.GpuBinaryHandle = some "__cuda_gpubin_handle"
    ∧ (emitCtorCUDA CGM S RG f w).1.TheModule.Functions = S.TheModule.Functions := by
  unfold emitCtorCUDA
  dsimp only
  split <;> simp [Module.addGlobal, CGNVCUDARuntime.onModule]

theorem emitCtorRDC_frame (CGM : CodeGenModule) (S : CGNVCUDARuntime) (RG : Option Operand)
    (W : GlobalVariable) (sec tag : String) :
    (emitCtorRDC CGM S RG W sec tag).1.GpuBinaryHandle = S.GpuBinaryHandle
    ∧ (emitCtorRDC CGM S RG W sec tag).1.TheModule.Functions =
        S.TheModule.Functions ++
          [⟨"dummy", Linkage.InternalLinkage, getCallbackFnTy, [⟨⟨"", 0⟩, [Inst.retVoid]⟩]⟩] := by
  unfold emitCtorRDC
  dsimp only
  constructor
  · rw [makeDummyFunction_handle]; split <;> rfl
  · rw [makeDummyFunction_fst_Functions]; split <;> simp

/-- The tail of the constructor when a handle variable exists: the destructor is
appended to the module and registered with `atexit`. -/
theorem emitCtorTail_some (CGM : CodeGenModule) (S : CGNVCUDARuntime) (H : String)
    (h : S.GpuBinaryHandle = some H) :
    (emitCtorTail CGM S).2 =
        [Inst.call none (Operand.runtimeFn "atexit")
           [Operand.func (addUnderscoredPrefixToName CGM "_module_dtor")
              S.TheModule.Functions.length],
         Inst.retVoid]
    ∧ (emitCtorTail CGM S).1.GpuBinaryHandle = some H
    ∧ (emitCtorTail CGM S).1.TheModule.Functions =
        S.TheModule.Functions ++
          [⟨addUnderscoredPrefixToName CGM "_module_dtor", Linkage.InternalLinkage,
            ⟨Ty.VoidTy, [Ty.VoidPtrTy]⟩,
            emitDtorBody CGM
              (Operand.runtimeFn (addUnderscoredPrefixToName CGM "UnregisterFatBinary")) H⟩] := by
  obtain ⟨h1, h2, h3⟩ := makeModuleDtorFunction_some CGM S H h
  unfold emitCtorTail
  rcases hd : makeModuleDtorFunction CGM S with ⟨S1, C⟩
  rw [hd] at h1 h2 h3
  simp only at h1 h2 h3
  subst h1
  simp [CGNVCUDARuntime.onModule, h2, h3]

/-- The tail of the constructor when no handle variable exists: only `ret void`. -/
theorem emitCtorTail_none (CGM : CodeGenModule) (S : CGNVCUDARuntime)
    (h : S.GpuBinaryHandle = none) : emitCtorTail CGM S = (S, [Inst.retVoid]) := by
  unfold emitCtorTail
  rw [makeModuleDtorFunction_none CGM S h]

theorem getElem?_append_length {α : Type} (l : List α) (a : α) (r : List α) :
    (l ++ a :: r)[l.length]? = some a := by
  induction l with
  | nil => simp
  | cons x xs ih => simpa using ih

theorem emitCtorBranch_Functions (CGM : CodeGenModule) (S : CGNVCUDARuntime)
    (RG : Option Operand) (Bin : Option String) (W : GlobalVariable) :
    (emitCtorBranch CGM S RG Bin W).1.TheModule.Functions =
      S.TheModule.Functions ++
        (if CGM.LangOpts.HIP = true ∨ RelocatableDeviceCode CGM = false then []
         else [⟨"dummy", Linkage.InternalLinkage, getCallbackFnTy,
                [⟨⟨"", 0⟩, [Inst.retVoid]⟩]⟩]) := by
  unfold emitCtorBranch
  dsimp only
  by_cases hH : CGM.LangOpts.HIP = true
  · simp [hH, (emitCtorHIP_frame CGM S RG Bin _ _).2]
  · by_cases hR : RelocatableDeviceCode CGM = true
    · simp [hH, hR, (emitCtorRDC_frame CGM S RG W _ _).2]
    · simp [hH, hR, (emitCtorCUDA_frame CGM S RG _ _).2]

theorem emitCtorBranch_handle (CGM : CodeGenModule) (S : CGNVCUDARuntime)
    (RG : Option Operand) (Bin : Option String) (W : GlobalVariable) :
    (emitCtorBranch CGM S RG Bin W).1.GpuBinaryHandle =
      if CGM.LangOpts.HIP = true then some "__hip_gpubin_handle"
      else if RelocatableDeviceCode CGM = false then some "__cuda_gpubin_handle"
      else S.GpuBinaryHandle := by
  unfold emitCtorBranch
  dsimp only
  by_cases hH : CGM.LangOpts.HIP = true
  · simp [hH, (emitCtorHIP_frame CGM S RG Bin _ _).1]
  · by_cases hR : RelocatableDeviceCode CGM = true
    · simp [hH, hR, (emitCtorRDC_frame CGM S RG W _ _).1]
    · simp [hH, hR, (emitCtorCUDA_frame CGM S RG _ _).1]

theorem emitCtorTail_Functions (CGM : CodeGenModule) (S : CGNVCUDARuntime) :
    (emitCtorTail CGM S).1.TheModule.Functions =
      S.TheModule.Functions ++
        (match S.GpuBinaryHandle with
         | some H =>
           [⟨addUnderscoredPrefixToName CGM "_module_dtor", Linkage.InternalLinkage,
             ⟨Ty.VoidTy, [Ty.VoidPtrTy]⟩,
             emitDtorBody CGM
               (Operand.runtimeFn (addUnderscoredPrefixToName CGM "UnregisterFatBinary")) H⟩]
         | none => []) := by
  cases h : S.GpuBinaryHandle with
  | none => rw [emitCtorTail_none CGM S h]; simp
  | some H => exact (emitCtorTail_some CGM S H h).2.2

/-- The outcome of `emitModuleCtor` in terms of its steps: with `P` the payload
step, `W` the wrapper, `B` the family branch and `T` the tail, the function
returned is the new constructor, its blocks are the code of the branch finished
by the tail, and the functions of the module are the old ones, the constructor,
and what the branch and the tail added. -/
theorem emitModuleCtor_generated (CGM : CodeGenModule) (S : CGNVCUDARuntime)
    (RG : Option Operand) (Bin : Option String) :
    let P := emitFatBinStr CGM
      { S with TheModule := (S.TheModule.createFunction ⟨Ty.VoidTy, [Ty.VoidPtrTy]⟩
          Linkage.InternalLinkage (addUnderscoredPrefixToName CGM "_module_ctor")).1 } Bin
    let W := makeFatbinWrapper CGM P.2
    let B := emitCtorBranch CGM (P.1.onModule (fun M => M.addGlobal W)) RG Bin W
    let T := emitCtorTail CGM B.1
    (emitModuleCtor CGM S RG Bin).2 =
        some (Operand.func (addUnderscoredPrefixToName CGM "_module_ctor")
          S.TheModule.Functions.length)
    ∧ (emitModuleCtor CGM S RG Bin).1.GpuBinaryHandle = T.1.GpuBinaryHandle
    ∧ generatedBlocks (emitModuleCtor CGM S RG Bin) = some (B.2.finish T.2)
    ∧ (emitModuleCtor CGM S RG Bin).1.TheModule.Functions =
        S.TheModule.Functions ++
          ⟨addUnderscoredPrefixToName CGM "_module_ctor", Linkage.InternalLinkage,
            ⟨Ty.VoidTy, [Ty.VoidPtrTy]⟩, B.2.finish T.2⟩ ::
          ((if CGM.LangOpts.HIP = true ∨ RelocatableDeviceCode CGM = false then []
            else [⟨"dummy", Linkage.InternalLinkage, getCallbackFnTy,
                   [⟨⟨"", 0⟩, [Inst.retVoid]⟩]⟩]) ++
           (match B.1.GpuBinaryHandle with
            | some H =>
              [⟨addUnderscoredPrefixToName CGM "_module_dtor", Linkage.InternalLinkage,
                ⟨Ty.VoidTy, [Ty.VoidPtrTy]⟩,
                emitDtorBody CGM
                  (Operand.runtimeFn (addUnderscoredPrefixToName CGM "UnregisterFatBinary")) H⟩]
            | none => [])) := by
  intro P W B T
  have he1 := emitCtorBranch_Functions CGM (P.1.onModule (fun M => M.addGlobal W)) RG Bin W
  have he2 := emitCtorTail_Functions CGM B.1
  have hP := (emitFatBinStr_frame CGM
      { S with TheModule := (S.TheModule.createFunction ⟨Ty.VoidTy, [Ty.VoidPtrTy]⟩
          Linkage.InternalLinkage (addUnderscoredPrefixToName CGM "_module_ctor")).1 } Bin).2
  have hT : T.1.TheModule.Functions = S.TheModule.Functions ++
      ⟨addUnderscoredPrefixToName CGM "_module_ctor", Linkage.InternalLinkage,
        ⟨Ty.VoidTy, [Ty.VoidPtrTy]⟩, []⟩ ::
      ((if CGM.LangOpts.HIP = true ∨ RelocatableDeviceCode CGM = false then []
            else [⟨"dummy", Linkage.InternalLinkage, getCallbackFnTy,
                   [⟨⟨"", 0⟩, [Inst.retVoid]⟩]⟩]) ++
           (match B.1.GpuBinaryHandle with
            | some H =>
              [⟨addUnderscoredPrefixToName CGM "_module_dtor", Linkage.InternalLinkage,
                ⟨Ty.VoidTy, [Ty.VoidPtrTy]⟩,
                emitDtorBody CGM
                  (Operand.runtimeFn (addUnderscoredPrefixToName CGM "UnregisterFatBinary")) H⟩]
            | none => [])) := by
    show (emitCtorTail CGM B.1).1.TheModule.Functions = _
    rw [he2]
    show (emitCtorBranch CGM (P.1.onModule (fun M => M.addGlobal W)) RG Bin W).1.TheModule.Functions ++ _ = _
    rw [he1]
    simp only [CGNVCUDARuntime.onModule, Module.addGlobal]
    rw [show P.1.TheModule.Functions = _ from hP]
    simp [Module.createFunction]
  have hE : emitModuleCtor CGM S RG Bin =
      (T.1.onModule (fun M => M.setBody S.TheModule.Functions.length (B.2.finish T.2)),
       some (Operand.func (addUnderscoredPrefixToName CGM "_module_ctor")
          S.TheModule.Functions.length)) := rfl
  refine ⟨by rw [hE], by rw [hE]; rfl, ?_, ?_⟩
  · rw [hE]
    simp only [generatedBlocks, Option.bind, Module.getFunction, CGNVCUDARuntime.onModule,
      Module.setBody, hT, setBlocksAt_append_length, getElem?_append_length, Option.map]
  · rw [hE]
    simp only [CGNVCUDARuntime.onModule, Module.setBody, hT, setBlocksAt_append_length]

theorem makeRegisterGlobalsFn_snd (CGM : CodeGenModule) (S : CGNVCUDARuntime) :
    (makeRegisterGlobalsFn CGM S).2 =
      if (S.EmittedKernels.isEmpty && S.DeviceVars.isEmpty) = true then none
      else some (Operand.func (addUnderscoredPrefixToName CGM "_register_globals")
        S.TheModule.Functions.length) := by
  unfold makeRegisterGlobalsFn
  split <;> rfl

theorem makeDummyFunction_snd (S : CGNVCUDARuntime) (T : FunctionType) :
    (makeDummyFunction S T).2 = Operand.func "dummy" S.TheModule.Functions.length := by
  unfold makeDummyFunction
  split <;> rfl

/-- Every run of `makeModuleCtorFunction` either returns null without touching
the handle, or ends in `emitModuleCtor` from a state with the same handle and
with a register-globals argument that is absent or a function of the module. -/
theorem makeModuleCtorFunction_abort_or_build (CGM : CodeGenModule) (S : CGNVCUDARuntime) :
    ((makeModuleCtorFunction CGM S).2 = none
      ∧ (makeModuleCtorFunction CGM S).1.GpuBinaryHandle = S.GpuBinaryHandle)
    ∨ (∃ S4 RG Bin, makeModuleCtorFunction CGM S = emitModuleCtor CGM S4 RG Bin
        ∧ S4.GpuBinaryHandle = S.GpuBinaryHandle
        ∧ (∀ F, RG = some F → ∃ n i, F = Operand.func n i)) := by
  unfold makeModuleCtorFunction
  dsimp only
  split
  · exact Or.inl ⟨rfl, rfl⟩
  · split
    · exact Or.inl ⟨rfl, rfl⟩
    · have hrg := makeRegisterGlobalsFn_handle CGM S
      generalize hS3 : CGNVCUDARuntime.onModule _ _ = S3
      have h3 : S3.GpuBinaryHandle = S.GpuBinaryHandle := by
        rw [← hS3]
        split <;> simp [CGNVCUDARuntime.onModule, hrg]
      have h4 := (resolveGpuBinary_fst CGM S3).1
      rcases hres : resolveGpuBinary CGM S3 with ⟨S4, r⟩
      rw [hres] at h4
      cases r with
      | abort => exact Or.inl ⟨rfl, h4.trans h3⟩
      | buffer Bin =>
        refine Or.inr ⟨S4, _, Bin, rfl, h4.trans h3, ?_⟩
        intro F hF
        split at hF
        · simp only [Option.some.injEq] at hF
          exact ⟨_, _, by rw [← hF, makeDummyFunction_snd]⟩
        · simp only at hF
          rw [makeRegisterGlobalsFn_snd] at hF
          split at hF
          · cases hF
          · simp only [Option.some.injEq] at hF
            exact ⟨_, _, hF.symm⟩

theorem linkedBinary_ne_atexit (x : String) : "__cudaRegisterLinkedBinary" ++ x ≠ "atexit" := by
  intro h
  have h1 := congrArg String.data h
  rw [String.data_append] at h1
  have h2 := congrArg List.head? h1
  simp at h2

theorem emitRegisterFunctionCalls_Functions (CGM : CodeGenModule) (f h : Operand)
    (Ks : List KernelInfo) (M : Module) :
    (emitRegisterFunctionCalls CGM f h Ks M).1.Functions = M.Functions := by
  induction Ks generalizing M with
  | nil => rfl
  | cons I rest ih =>
    simp only [emitRegisterFunctionCalls]
    rw [ih]
    simp

theorem emitRegisterVarCalls_Functions (CGM : CodeGenModule) (f h : Operand)
    (Vs : List VarInfo) (M : Module) :
    (emitRegisterVarCalls CGM f h Vs M).1.Functions = M.Functions := by
  induction Vs generalizing M with
  | nil => rfl
  | cons I rest ih =>
    simp only [emitRegisterVarCalls]
    rw [ih]
    simp

/-- The functions `makeRegisterGlobalsFn` adds: none when both lists are empty,
otherwise the one function `__{cuda|hip}_register_globals`. -/
theorem makeRegisterGlobalsFn_Functions (CGM : CodeGenModule) (S : CGNVCUDARuntime) :
    ∃ B, (makeRegisterGlobalsFn CGM S).1.TheModule.Functions =
      S.TheModule.Functions ++
        (if (S.EmittedKernels.isEmpty && S.DeviceVars.isEmpty) = true then []
         else [⟨addUnderscoredPrefixToName CGM "_register_globals", Linkage.InternalLinkage,
                getRegisterGlobalsFnTy, B⟩]) := by
  unfold makeRegisterGlobalsFn
  by_cases hE : (S.EmittedKernels.isEmpty && S.DeviceVars.isEmpty) = true
  · exact ⟨[], by simp [hE]⟩
  · simp only [hE, if_false, Module.setBody, Bool.false_eq_true]
    apply Exists.intro
    rw [emitRegisterVarCalls_Functions, CreateRuntimeFunction_Functions,
      emitRegisterFunctionCalls_Functions, CreateRuntimeFunction_Functions]
    simp only [Module.createFunction]
    exact setBlocksAt_append_length _ _ _ []

/-- The state in which the family branch starts inside `emitModuleCtor`: the
handle is as before and the only new function is the empty constructor. -/
theorem emitModuleCtor_prebranch (CGM : CodeGenModule) (S : CGNVCUDARuntime)
    (Bin : Option String) :
    let P := emitFatBinStr CGM
      { S with TheModule := (S.TheModule.createFunction ⟨Ty.VoidTy, [Ty.VoidPtrTy]⟩
          Linkage.InternalLinkage (addUnderscoredPrefixToName CGM "_module_ctor")).1 } Bin
    let W := makeFatbinWrapper CGM P.2
    (P.1.onModule (fun M => M.addGlobal W)).GpuBinaryHandle = S.GpuBinaryHandle
    ∧ (P.1.onModule (fun M => M.addGlobal W)).TheModule.Functions =
        S.TheModule.Functions ++
          [⟨addUnderscoredPrefixToName CGM "_module_ctor", Linkage.InternalLinkage,
            ⟨Ty.VoidTy, [Ty.VoidPtrTy]⟩, []⟩] := by
  intro P W
  have hP := emitFatBinStr_frame CGM
      { S with TheModule := (S.TheModule.createFunction ⟨Ty.VoidTy, [Ty.VoidPtrTy]⟩
          Linkage.InternalLinkage (addUnderscoredPrefixToName CGM "_module_ctor")).1 } Bin
  constructor
  · show P.1.GpuBinaryHandle = _
    exact hP.1
  · show P.1.TheModule.Functions = _
    rw [show P.1.TheModule.Functions = _ from hP.2]
    rfl

theorem getElem?_append_length_succ {α : Type} (l : List α) (a b : α) (r : List α) :
    (l ++ a :: b :: r)[l.length + 1]? = some b := by
  induction l with
  | nil => simp
  | cons x xs ih => simpa using ih

/-- The registration code of the constructor contains no call to `atexit`: the
only `atexit` calls of the finished constructor are those of its tail. -/
theorem emitCtorBranch_atexit (CGM : CodeGenModule) (S : CGNVCUDARuntime)
    (RG : Option Operand) (Bin : Option String) (W : GlobalVariable) (tail : List Inst)
    (hRG : ∀ F, RG = some F → ∃ n i, F = Operand.func n i) :
    callInstsTo (Operand.runtimeFn "atexit") ((emitCtorBranch CGM S RG Bin W).2.finish tail) =
      callInstsTo (Operand.runtimeFn "atexit") [⟨⟨"tail", 0⟩, tail⟩] := by
  unfold emitCtorBranch
  dsimp only
  by_cases hH : CGM.LangOpts.HIP = true
  · simp only [hH, if_true]
    cases RG with
    | none =>
      simp [emitCtorHIP, CtorCode.finish, callInstsTo, addUnderscoredPrefixToName, hH]
    | some F =>
      obtain ⟨n, i, rfl⟩ := hRG F rfl
      simp [emitCtorHIP, CtorCode.finish, callInstsTo, addUnderscoredPrefixToName, hH]
  · by_cases hR : RelocatableDeviceCode CGM = true
    · simp only [hH, hR, if_false, Bool.not_true, Bool.false_eq_true]
      simp [emitCtorRDC, CtorCode.finish, callInstsTo, linkedBinary_ne_atexit]
    · simp only [hH, hR, if_false, Bool.not_false, if_true]
      cases RG with
      | none =>
        unfold emitCtorCUDA
        by_cases hE : CGM.CudaFeatureEnabled CudaFeature.CUDA_USES_FATBIN_REGISTER_END = true
          <;> simp [CtorCode.finish, callInstsTo, addUnderscoredPrefixToName, hH, hE]
      | some F =>
        obtain ⟨n, i, rfl⟩ := hRG F rfl
        unfold emitCtorCUDA
        by_cases hE : CGM.CudaFeatureEnabled CudaFeature.CUDA_USES_FATBIN_REGISTER_END = true
          <;> simp [CtorCode.finish, callInstsTo, addUnderscoredPrefixToName, hH, hE]

/-- The outcome of `emitModuleCtor` by its steps, with the state `S3` in which
the family branch starts and the wrapper `W` left abstract. -/
theorem emitModuleCtor_steps (CGM : CodeGenModule) (S : CGNVCUDARuntime)
    (RG : Option Operand) (Bin : Option String) :
    ∃ S3 W, (∃ Str, W = makeFatbinWrapper CGM Str)
      ∧ S3.GpuBinaryHandle = S.GpuBinaryHandle
      ∧ S3.TheModule.Functions = S.TheModule.Functions ++
          [⟨addUnderscoredPrefixToName CGM "_module_ctor", Linkage.InternalLinkage,
            ⟨Ty.VoidTy, [Ty.VoidPtrTy]⟩, []⟩]
      ∧ (emitModuleCtor CGM S RG Bin).2 =
          some (Operand.func (addUnderscoredPrefixToName CGM "_module_ctor")
            S.TheModule.Functions.length)
      ∧ (emitModuleCtor CGM S RG Bin).1.GpuBinaryHandle =
          (emitCtorTail CGM (emitCtorBranch CGM S3 RG Bin W).1).1.GpuBinaryHandle
      ∧ generatedBlocks (emitModuleCtor CGM S RG Bin) =
          some ((emitCtorBranch CGM S3 RG Bin W).2.finish
            (emitCtorTail CGM (emitCtorBranch CGM S3 RG Bin W).1).2)
      ∧ (emitModuleCtor CGM S RG Bin).1.TheModule.Functions =
          S.TheModule.Functions ++
            ⟨addUnderscoredPrefixToName CGM "_module_ctor", Linkage.InternalLinkage,
              ⟨Ty.VoidTy, [Ty.VoidPtrTy]⟩,
              (emitCtorBranch CGM S3 RG Bin W).2.finish
                (emitCtorTail CGM (emitCtorBranch CGM S3 RG Bin W).1).2⟩ ::
            ((if CGM.LangOpts.HIP = true ∨ RelocatableDeviceCode CGM = false then []
              else [⟨"dummy", Linkage.InternalLinkage, getCallbackFnTy,
                     [⟨⟨"", 0⟩, [Inst.retVoid]⟩]⟩]) ++
             (match (emitCtorBranch CGM S3 RG Bin W).1.GpuBinaryHandle with
              | some H =>
                [⟨addUnderscoredPrefixToName CGM "_module_dtor", Linkage.InternalLinkage,
                  ⟨Ty.VoidTy, [Ty.VoidPtrTy]⟩,
                  emitDtorBody CGM
                    (Operand.runtimeFn (addUnderscoredPrefixToName CGM "UnregisterFatBinary"))
                    H⟩]
              | none => [])) := by
  obtain ⟨g1, g2, g3, g4⟩ := emitModuleCtor_generated CGM S RG Bin
  obtain ⟨p1, p2⟩ := emitModuleCtor_prebranch CGM S Bin
  exact ⟨_, _, ⟨_, rfl⟩, p1, p2, g1, g2, g3, g4⟩

theorem resolveGpuBinary_snd (CGM : CodeGenModule) (S S0 : CGNVCUDARuntime) :
    (resolveGpuBinary CGM S).2 = (resolveGpuBinary CGM S0).2 := by
  unfold resolveGpuBinary
  dsimp only
  split
  · split <;> rfl
  · split
    · split <;> rfl
    · rfl

/-- Past the two early returns, `makeModuleCtorFunction` is the payload
resolution followed by `emitModuleCtor`, which receives as register-globals
function the real one when a kernel or variable exists, the dummy when there is
none and device code is relocatable, and nothing otherwise. -/
theorem makeModuleCtorFunction_eq (CGM : CodeGenModule) (S : CGNVCUDARuntime)
    (h1 : (CGM.CodeGenOpts.CudaGpuBinaryFileName.isEmpty && !CGM.LangOpts.HIP) = false)
    (h2 : ((CGM.LangOpts.HIP || (CGM.LangOpts.CUDA && !RelocatableDeviceCode CGM)) &&
      S.EmittedKernels.isEmpty && S.DeviceVars.isEmpty) = false) :
    ∃ S3 : CGNVCUDARuntime, (S3.GpuBinaryHandle = S.GpuBinaryHandle
        ∧ ∃ B, S3.TheModule.Functions = S.TheModule.Functions ++
          (if (S.EmittedKernels.isEmpty && S.DeviceVars.isEmpty) = true then
            (if RelocatableDeviceCode CGM = true then
              [⟨"dummy", Linkage.InternalLinkage, getRegisterGlobalsFnTy,
                [⟨⟨"", 0⟩, [Inst.retVoid]⟩]⟩]
             else [])
           else [⟨addUnderscoredPrefixToName CGM "_register_globals",
                  Linkage.InternalLinkage, getRegisterGlobalsFnTy, B⟩]))
      ∧ makeModuleCtorFunction CGM S =
        (match (resolveGpuBinary CGM S).2 with
         | BinaryResolution.abort => ((resolveGpuBinary CGM S3).1, none)
         | BinaryResolution.buffer Bin =>
           emitModuleCtor CGM (resolveGpuBinary CGM S3).1
             (if (S.EmittedKernels.isEmpty && S.DeviceVars.isEmpty) = true then
                (if RelocatableDeviceCode CGM = true then
                  some (Operand.func "dummy" S.TheModule.Functions.length)
                 else none)
              else some (Operand.func (addUnderscoredPrefixToName CGM "_register_globals")
                S.TheModule.Functions.length))
             Bin) := by
  unfold makeModuleCtorFunction
  simp only [h1, h2, Bool.false_eq_true, if_false]
  have hrg := makeRegisterGlobalsFn_handle CGM S
  have hrs := makeRegisterGlobalsFn_snd CGM S
  generalize hS3 : CGNVCUDARuntime.onModule _ _ = S3
  have h3 : S3.GpuBinaryHandle = S.GpuBinaryHandle := by
    rw [← hS3]
    split <;> simp [CGNVCUDARuntime.onModule, hrg]
  have h3F : ∃ B, S3.TheModule.Functions = S.TheModule.Functions ++
      (if (S.EmittedKernels.isEmpty && S.DeviceVars.isEmpty) = true then
        (if RelocatableDeviceCode CGM = true then
          [⟨"dummy", Linkage.InternalLinkage, getRegisterGlobalsFnTy,
            [⟨⟨"", 0⟩, [Inst.retVoid]⟩]⟩]
         else [])
       else [⟨addUnderscoredPrefixToName CGM "_register_globals",
              Linkage.InternalLinkage, getRegisterGlobalsFnTy, B⟩]) := by
    obtain ⟨B, hB⟩ := makeRegisterGlobalsFn_Functions CGM S
    refine ⟨B, ?_⟩
    rw [← hS3]
    by_cases hE : (S.EmittedKernels.isEmpty && S.DeviceVars.isEmpty) = true
    · rw [if_pos hE] at hB
      by_cases hR : RelocatableDeviceCode CGM = true
      · simp [CGNVCUDARuntime.onModule, hrs, hE, hR, makeDummyFunction_fst_Functions, hB]
      · simp [CGNVCUDARuntime.onModule, hrs, hE, hR, hB]
    · rw [if_neg hE] at hB
      simp [CGNVCUDARuntime.onModule, hrs, hE, hB]
  refine ⟨S3, ⟨h3, h3F⟩, ?_⟩
  rw [resolveGpuBinary_snd CGM S S3]
  rcases hres : resolveGpuBinary CGM S3 with ⟨S4, r⟩
  cases r with
  | abort => rfl
  | buffer Bin =>
    simp only
    congr 1
    rw [hrs]
    by_cases hE : (S.EmittedKernels.isEmpty && S.DeviceVars.isEmpty) = true
    · have hF : (makeRegisterGlobalsFn CGM S).1.TheModule.Functions = S.TheModule.Functions := by
        obtain ⟨B, hB⟩ := makeRegisterGlobalsFn_Functions CGM S
        rw [hB]; simp [hE]
      by_cases hR : RelocatableDeviceCode CGM = true
      · simp [hE, hR, makeDummyFunction_snd, hF]
      · simp [hE, hR]
    · simp [hE]

/-! ## C1: constructor, destructor and handle slot -/

/-- C1: starting from an unset handle slot, `makeModuleCtorFunction` yields no
constructor or the one function `__{cuda|hip}_module_ctor`; afterwards
`makeModuleDtorFunction` yields a destructor exactly when the handle slot is
set; a constructor produced for HIP or for CUDA without relocatable device code
sets the slot, makes `makeModuleDtorFunction` yield a destructor and contains
exactly one `atexit` call, whose argument is the function
`__{cuda|hip}_module_dtor` of the module; a constructor produced for CUDA with
relocatable device code leaves the slot unset, yields no destructor and contains
no `atexit` call; and when no constructor is returned the slot is still unset
and `makeModuleDtorFunction` yields nothing. -/
theorem ctor_dtor_handle_agreement (CGM : CodeGenModule) (S : CGNVCUDARuntime)
    (h0 : S.GpuBinaryHandle = none) :
    ((makeModuleCtorFunction CGM S).2 = none
      ∨ ∃ n, (makeModuleCtorFunction CGM S).2 =
          some (Operand.func (addUnderscoredPrefixToName CGM "_module_ctor") n))
    ∧ ((makeModuleDtorFunction CGM (makeModuleCtorFunction CGM S).1).2.isSome =
        (makeModuleCtorFunction CGM S).1.GpuBinaryHandle.isSome)
    ∧ ((makeModuleCtorFunction CGM S).2.isSome = true →
        (CGM.LangOpts.HIP = true ∨ RelocatableDeviceCode CGM = false) →
        (makeModuleCtorFunction CGM S).1.GpuBinaryHandle.isSome = true
        ∧ (makeModuleDtorFunction CGM (makeModuleCtorFunction CGM S).1).2.isSome = true
        ∧ ∃ Blocks D Fn, generatedBlocks (makeModuleCtorFunction CGM S) = some Blocks
            ∧ callInstsTo (Operand.runtimeFn "atexit") Blocks =
                [Inst.call none (Operand.runtimeFn "atexit") [D]]
            ∧ (makeModuleCtorFunction CGM S).1.TheModule.getFunction D = some Fn
            ∧ Fn.Name = addUnderscoredPrefixToName CGM "_module_dtor")
    ∧ ((makeModuleCtorFunction CGM S).2.isSome = true →
        CGM.LangOpts.HIP = false → RelocatableDeviceCode CGM = true →
        (makeModuleCtorFunction CGM S).1.GpuBinaryHandle = none
        ∧ (makeModuleDtorFunction CGM (makeModuleCtorFunction CGM S).1).2 = none
        ∧ ∃ Blocks, generatedBlocks (makeModuleCtorFunction CGM S) = some Blocks
            ∧ callInstsTo (Operand.runtimeFn "atexit") Blocks = [])
    ∧ ((makeModuleCtorFunction CGM S).2 = none →
        (makeModuleCtorFunction CGM S).1.GpuBinaryHandle = none
        ∧ (makeModuleDtorFunction CGM (makeModuleCtorFunction CGM S).1).2 = none) := by
  have hdtor : ∀ S1 : CGNVCUDARuntime,
      (makeModuleDtorFunction CGM S1).2.isSome = S1.GpuBinaryHandle.isSome := by
    intro S1
    cases h : S1.GpuBinaryHandle with
    | none => rw [makeModuleDtorFunction_none CGM S1 h]; rfl
    | some H => rw [(makeModuleDtorFunction_some CGM S1 H h).1]; rfl
  refine ⟨?_, hdtor _, ?_⟩
  · rcases makeModuleCtorFunction_abort_or_build CGM S with h | ⟨S4, RG, Bin, hE, -, -⟩
    · exact Or.inl h.1
    · exact Or.inr ⟨_, by rw [hE]; exact (emitModuleCtor_generated CGM S4 RG Bin).1⟩
  · rcases makeModuleCtorFunction_abort_or_build CGM S with h | ⟨S4, RG, Bin, hE, h4, hRG⟩
    · have hn : (makeModuleCtorFunction CGM S).1.GpuBinaryHandle = none := h.2.trans h0
      refine ⟨fun hs => ?_, fun hs => ?_, fun _ => ⟨hn, ?_⟩⟩
      · rw [h.1] at hs; cases hs
      · rw [h.1] at hs; cases hs
      · rw [makeModuleDtorFunction_none CGM _ hn]
    · have h4n : S4.GpuBinaryHandle = none := h4.trans h0
      obtain ⟨S3, W, -, hS3h, hS3F, g1, g2, g3, g4⟩ := emitModuleCtor_steps CGM S4 RG Bin
      have hBh := emitCtorBranch_handle CGM S3 RG Bin W
      have hBF := emitCtorBranch_Functions CGM S3 RG Bin W
      have hat := fun tail => emitCtorBranch_atexit CGM S3 RG Bin W tail hRG
      rw [hE]
      generalize emitCtorBranch CGM S3 RG Bin W = B at g2 g3 g4 hBh hBF hat
      refine ⟨fun _ hfam => ?_, fun _ hH hR => ?_, fun hs => ?_⟩
      · obtain ⟨H, hH⟩ : ∃ H, B.1.GpuBinaryHandle = some H := by
          rw [hBh]
          rcases hfam with hf | hf
          · exact ⟨"__hip_gpubin_handle", by simp [hf]⟩
          · by_cases hh : CGM.LangOpts.HIP = true
            · exact ⟨"__hip_gpubin_handle", by simp [hh]⟩
            · exact ⟨"__cuda_gpubin_handle", by simp [hh, hf]⟩
        obtain ⟨t1, t2, -⟩ := emitCtorTail_some CGM B.1 H hH
        have hhs : (emitModuleCtor CGM S4 RG Bin).1.GpuBinaryHandle.isSome = true := by
          rw [g2, t2]; rfl
        refine ⟨hhs, by rw [hdtor]; exact hhs, _,
          Operand.func (addUnderscoredPrefixToName CGM "_module_dtor")
            B.1.TheModule.Functions.length,
          ⟨addUnderscoredPrefixToName CGM "_module_dtor", Linkage.InternalLinkage,
            ⟨Ty.VoidTy, [Ty.VoidPtrTy]⟩,
            emitDtorBody CGM
              (Operand.runtimeFn (addUnderscoredPrefixToName CGM "UnregisterFatBinary")) H⟩,
          g3, ?_, ?_, rfl⟩
        · rw [hat, t1]
          simp [callInstsTo]
        · rw [hBF, hS3F]
          simp only [Module.getFunction, g4, hH, hfam, if_true, List.nil_append,
            List.length_append, List.length_singleton, List.append_nil]
          exact getElem?_append_length_succ _ _ _ _
      · have hBn : B.1.GpuBinaryHandle = none := by
          rw [hBh]; simp [hH, hR, hS3h, h4n]
        have ht := emitCtorTail_none CGM B.1 hBn
        have hhn : (emitModuleCtor CGM S4 RG Bin).1.GpuBinaryHandle = none := by
          rw [g2, ht]; exact hBn
        refine ⟨hhn, by rw [makeModuleDtorFunction_none CGM _ hhn], _, g3, ?_⟩
        rw [hat, ht]
        simp [callInstsTo]
      · rw [g1] at hs; cases hs

theorem ctor_dtor_handle_agreement_witness :
    sampleState.GpuBinaryHandle = none
    ∧ (makeModuleCtorFunction sampleHIP sampleState).1.GpuBinaryHandle.isSome = true
    ∧ (makeModuleDtorFunction sampleHIP
        (makeModuleCtorFunction sampleHIP sampleState).1).2.isSome = true :=
  ⟨rfl,
   ((ctor_dtor_handle_agreement sampleHIP sampleState rfl).2.2.1 (by decide)
      (Or.inl rfl)).1,
   ((ctor_dtor_handle_agreement sampleHIP sampleState rfl).2.2.1 (by decide)
      (Or.inl rfl)).2.1⟩

/-! ## C2: the HIP constructor registers the fat binary once -/

/-- The blocks of every constructor generated for HIP: the code of `emitCtorHIP`
for the function `__hip_register_globals`, finished by the `atexit` call for a
destructor of the module and `ret void`. -/
theorem hip_ctor_blocks (CGM : CodeGenModule) (S : CGNVCUDARuntime)
    (hHIP : CGM.LangOpts.HIP = true) (Blocks : List BasicBlock)
    (hB : generatedBlocks (makeModuleCtorFunction CGM S) = some Blocks) :
    (makeRegisterGlobalsFn CGM S).2 =
        some (Operand.func "__hip_register_globals" S.TheModule.Functions.length)
    ∧ ∃ j, Blocks = hipCtorBlocks CGM
      (Operand.func "__hip_register_globals" S.TheModule.Functions.length)
      (Operand.func "__hip_module_dtor" j) := by
  by_cases h2 : ((CGM.LangOpts.HIP || (CGM.LangOpts.CUDA && !RelocatableDeviceCode CGM)) &&
      S.EmittedKernels.isEmpty && S.DeviceVars.isEmpty) = false
  · have h1 : (CGM.CodeGenOpts.CudaGpuBinaryFileName.isEmpty && !CGM.LangOpts.HIP) = false := by
      simp [hHIP]
    obtain ⟨S3, -, hE⟩ := makeModuleCtorFunction_eq CGM S h1 h2
    have hne : (S.EmittedKernels.isEmpty && S.DeviceVars.isEmpty) = false := by
      simpa [hHIP] using h2
    rw [hE] at hB
    cases hres : (resolveGpuBinary CGM S).2 with
    | abort => rw [hres] at hB; simp [generatedBlocks] at hB
    | buffer Bin =>
      rw [hres] at hB
      simp only [hne, Bool.false_eq_true, if_false] at hB
      obtain ⟨S5, W, ⟨Str, hW⟩, -, hS5F, -, -, g3, -⟩ :=
        emitModuleCtor_steps CGM (resolveGpuBinary CGM S3).1
          (some (Operand.func (addUnderscoredPrefixToName CGM "_register_globals")
            S.TheModule.Functions.length)) Bin
      rw [g3] at hB
      have hBh : (emitCtorBranch CGM S5
          (some (Operand.func (addUnderscoredPrefixToName CGM "_register_globals")
            S.TheModule.Functions.length)) Bin W).1.GpuBinaryHandle = some "__hip_gpubin_handle" := by
        rw [emitCtorBranch_handle]; simp [hHIP]
      obtain ⟨t1, -, -⟩ := emitCtorTail_some CGM _ _ hBh
      rw [t1] at hB
      simp only [Option.some.injEq] at hB
      refine ⟨by rw [makeRegisterGlobalsFn_snd]; simp [hne, addUnderscoredPrefixToName, hHIP],
        (emitCtorBranch CGM S5
          (some (Operand.func (addUnderscoredPrefixToName CGM "_register_globals")
            S.TheModule.Functions.length)) Bin W).1.TheModule.Functions.length, ?_⟩
      rw [← hB, hW]
      simp [hipCtorBlocks, emitCtorBranch, hHIP, emitCtorHIP, addUnderscoredPrefixToName,
        makeFatbinWrapper]
  · have : makeModuleCtorFunction CGM S = (S, none) := by
      unfold makeModuleCtorFunction
      simp only [Bool.not_eq_false] at h2
      simp [h2]
    rw [this] at hB
    simp [generatedBlocks] at hB

/-- One activation of the HIP constructor with a null handle variable: the fat
binary is registered, the handle stored, and register-globals and `atexit` are
called. -/
theorem hip_ctor_run_null (CGM : CodeGenModule) (R : Runtime) (i j : Nat)
    (Params : List RVal) (W : World) (fuel : Nat)
    (hM : W.Mem hipHandleAddr = RVal.null) :
    ∃ W1, runBody R (fuel + 3)
        (hipCtorBlocks CGM (Operand.func "__hip_register_globals" i)
          (Operand.func "__hip_module_dtor" j)) Params W = some (W1, Exit.returned)
      ∧ W1.Mem hipHandleAddr =
          R W.Trace (Operand.runtimeFn "__hipRegisterFatBinary")
            [RVal.addr (Operand.global "__hip_fatbin_wrapper")]
      ∧ ∃ r1 r2, W1.Trace = W.Trace ++
          [⟨Operand.runtimeFn "__hipRegisterFatBinary",
             [RVal.addr (Operand.global "__hip_fatbin_wrapper")],
             R W.Trace (Operand.runtimeFn "__hipRegisterFatBinary")
               [RVal.addr (Operand.global "__hip_fatbin_wrapper")]⟩,
           ⟨Operand.func "__hip_register_globals" i,
             [R W.Trace (Operand.runtimeFn "__hipRegisterFatBinary")
               [RVal.addr (Operand.global "__hip_fatbin_wrapper")]], r1⟩,
           ⟨Operand.runtimeFn "atexit", [RVal.addr (Operand.func "__hip_module_dtor" j)], r2⟩] := by
  unfold hipHandleAddr at hM
  simp [runBody, hipCtorBlocks, emitCtorHIP, CtorCode.finish, runBlocks, execBlock,
    evalOperand, hM, hipHandleAddr]

/-- One activation of the HIP constructor with a non-null handle variable:
nothing is registered, the variable keeps its value, and register-globals and
`atexit` are called. -/
theorem hip_ctor_run_set (CGM : CodeGenModule) (R : Runtime) (i j : Nat)
    (Params : List RVal) (W : World) (fuel : Nat)
    (hM : W.Mem hipHandleAddr ≠ RVal.null) :
    ∃ W1, runBody R (fuel + 3)
        (hipCtorBlocks CGM (Operand.func "__hip_register_globals" i)
          (Operand.func "__hip_module_dtor" j)) Params W = some (W1, Exit.returned)
      ∧ W1.Mem = W.Mem
      ∧ ∃ r1 r2, W1.Trace = W.Trace ++
          [⟨Operand.func "__hip_register_globals" i, [W.Mem hipHandleAddr], r1⟩,
           ⟨Operand.runtimeFn "atexit", [RVal.addr (Operand.func "__hip_module_dtor" j)], r2⟩] := by
  unfold hipHandleAddr at hM
  simp [runBody, hipCtorBlocks, emitCtorHIP, CtorCode.finish, runBlocks, execBlock,
    evalOperand, hM, hipHandleAddr]

/-- Any number of activations of the HIP constructor from a non-null handle
variable: the variable keeps its value, the fat binary is never registered, and
every activation calls register-globals once with that value. -/
theorem hip_ctor_runs_set (CGM : CodeGenModule) (R : Runtime) (i j : Nat)
    (Params : List RVal) (fuel : Nat) (v : RVal) (hv : v ≠ RVal.null) (N : Nat) :
    ∀ W : World, W.Mem hipHandleAddr = v →
      ∃ W1 ext, runBodyTimes R (fuel + 3)
          (hipCtorBlocks CGM (Operand.func "__hip_register_globals" i)
            (Operand.func "__hip_module_dtor" j)) Params N W = some W1
        ∧ W1.Mem hipHandleAddr = v
        ∧ W1.Trace = W.Trace ++ ext
        ∧ callsTo (Operand.runtimeFn "__hipRegisterFatBinary") ext = []
        ∧ (callsTo (Operand.func "__hip_register_globals" i) ext).length = N
        ∧ ∀ e ∈ callsTo (Operand.func "__hip_register_globals" i) ext, e.Args = [v] := by
  induction N with
  | zero =>
    intro W hW
    exact ⟨W, [], rfl, hW, by simp, rfl, rfl, by simp [callsTo]⟩
  | succ n ih =>
    intro W hW
    obtain ⟨W1, h1, hm, r1, r2, ht⟩ := hip_ctor_run_set CGM R i j Params W fuel (by rw [hW]; exact hv)
    obtain ⟨W2, ext, h2, hm2, ht2, c1, c2, c3⟩ := ih W1 (by rw [hm]; exact hW)
    refine ⟨W2,
      ⟨Operand.func "__hip_register_globals" i, [W.Mem hipHandleAddr], r1⟩ ::
      ⟨Operand.runtimeFn "atexit", [RVal.addr (Operand.func "__hip_module_dtor" j)], r2⟩ :: ext,
      ?_, hm2, ?_, ?_, ?_, ?_⟩
    · simp only [runBodyTimes, h1]; exact h2
    · rw [ht2, ht]; simp
    · simpa [callsTo] using c1
    · simp only [callsTo] at c2 ⊢
      simp [c2]
    · intro e he
      simp only [callsTo, List.filter_cons] at he
      simp at he
      rcases he with he | he
      · rw [he, hW]
      · exact c3 e (by simpa [callsTo] using he)

/-- C2: for HIP, starting with a null handle variable and a runtime whose
`__hipRegisterFatBinary` never returns null, `N ≥ 1` activations of the generated
constructor one after the other terminate (three blocks of fuel suffice for
each), perform exactly one `__hipRegisterFatBinary` call, which is the first
call performed, leave the handle it returned in the variable, and call the
register-globals function exactly `N` times, each time with that handle. -/
theorem hip_ctor_idempotent (CGM : CodeGenModule) (S : CGNVCUDARuntime)
    (hHIP : CGM.LangOpts.HIP = true) (Blocks : List BasicBlock)
    (hB : generatedBlocks (makeModuleCtorFunction CGM S) = some Blocks)
    (R : Runtime)
    (hR : ∀ tr args, R tr (Operand.runtimeFn "__hipRegisterFatBinary") args ≠ RVal.null)
    (W0 : World) (hM : W0.Mem hipHandleAddr = RVal.null)
    (Params : List RVal) (N : Nat) (hN : 1 ≤ N) (fuel : Nat) (hf : 3 ≤ fuel) :
    ∃ W ext RG, runBodyTimes R fuel Blocks Params N W0 = some W
      ∧ W.Trace = W0.Trace ++ ext
      ∧ (makeRegisterGlobalsFn CGM S).2 = some RG
      ∧ callsTo (Operand.runtimeFn "__hipRegisterFatBinary") ext =
          [⟨Operand.runtimeFn "__hipRegisterFatBinary",
            [RVal.addr (Operand.global "__hip_fatbin_wrapper")],
            R W0.Trace (Operand.runtimeFn "__hipRegisterFatBinary")
              [RVal.addr (Operand.global "__hip_fatbin_wrapper")]⟩]
      ∧ ext.head? =
          some ⟨Operand.runtimeFn "__hipRegisterFatBinary",
            [RVal.addr (Operand.global "__hip_fatbin_wrapper")],
            R W0.Trace (Operand.runtimeFn "__hipRegisterFatBinary")
              [RVal.addr (Operand.global "__hip_fatbin_wrapper")]⟩
      ∧ W.Mem hipHandleAddr =
          R W0.Trace (Operand.runtimeFn "__hipRegisterFatBinary")
            [RVal.addr (Operand.global "__hip_fatbin_wrapper")]
      ∧ W.Mem hipHandleAddr ≠ RVal.null
      ∧ (callsTo RG ext).length = N
      ∧ ∀ e ∈ callsTo RG ext, e.Args = [W.Mem hipHandleAddr] := by
  obtain ⟨hRG, j, rfl⟩ := hip_ctor_blocks CGM S hHIP Blocks hB
  obtain ⟨fuel, rfl⟩ : ∃ f, fuel = f + 3 := ⟨fuel - 3, by omega⟩
  obtain ⟨n, rfl⟩ : ∃ n, N = n + 1 := ⟨N - 1, by omega⟩
  obtain ⟨W1, h1, hm1, r1, r2, ht1⟩ :=
    hip_ctor_run_null CGM R S.TheModule.Functions.length j Params W0 fuel hM
  obtain ⟨W2, ext, h2, hm2, ht2, c1, c2, c3⟩ :=
    hip_ctor_runs_set CGM R S.TheModule.Functions.length j Params fuel _ (hR W0.Trace _) n W1 hm1
  refine ⟨W2,
    ⟨Operand.runtimeFn "__hipRegisterFatBinary",
      [RVal.addr (Operand.global "__hip_fatbin_wrapper")],
      R W0.Trace (Operand.runtimeFn "__hipRegisterFatBinary")
        [RVal.addr (Operand.global "__hip_fatbin_wrapper")]⟩ ::
    ⟨Operand.func "__hip_register_globals" S.TheModule.Functions.length,
      [R W0.Trace (Operand.runtimeFn "__hipRegisterFatBinary")
        [RVal.addr (Operand.global "__hip_fatbin_wrapper")]], r1⟩ ::
    ⟨Operand.runtimeFn "atexit", [RVal.addr (Operand.func "__hip_module_dtor" j)], r2⟩ :: ext,
    Operand.func "__hip_register_globals" S.TheModule.Functions.length,
    ?_, ?_, hRG, ?_, rfl, hm2, ?_, ?_, ?_⟩
  · simp only [runBodyTimes, h1]; exact h2
  · rw [ht2, ht1]; simp
  · simpa [callsTo] using c1
  · rw [hm2]; exact hR _ _
  · simp only [callsTo] at c2 ⊢
    simp [c2]
  · intro e he
    simp only [callsTo, List.filter_cons] at he
    simp at he
    rcases he with he | he
    · rw [he, hm2]
    · rw [hm2]; exact c3 e (by simpa [callsTo] using he)

/-- Witness: the HIP constructor of the sample state, activated twice against a
runtime whose every entry point returns the same non-null pointer. -/
theorem hip_ctor_idempotent_witness :
    sampleHIP.LangOpts.HIP = true
    ∧ generatedBlocks (makeModuleCtorFunction sampleHIP sampleState) =
        some (hipCtorBlocks sampleHIP (Operand.func "__hip_register_globals" 1)
          (Operand.func "__hip_module_dtor" 3))
    ∧ ∃ W, runBodyTimes (fun _ _ _ => RVal.ptr 1) 3
          (hipCtorBlocks sampleHIP (Operand.func "__hip_register_globals" 1)
            (Operand.func "__hip_module_dtor" 3)) [] 2 ⟨fun _ => RVal.null, []⟩ = some W
        ∧ (callsTo (Operand.runtimeFn "__hipRegisterFatBinary") W.Trace).length = 1 := by
  refine ⟨rfl, by decide, ?_⟩
  obtain ⟨W, ext, RG, h1, h2, -, h3, -⟩ :=
    hip_ctor_idempotent sampleHIP sampleState rfl
      (hipCtorBlocks sampleHIP (Operand.func "__hip_register_globals" 1)
        (Operand.func "__hip_module_dtor" 3)) (by decide) (fun _ _ _ => RVal.ptr 1)
      (fun _ _ => by simp) ⟨fun _ => RVal.null, []⟩ rfl [] 2 (by decide) 3 (by decide)
  exact ⟨W, h1, by rw [h2]; simp [h3]⟩

/-! ## C3: the destructors -/

/-- The blocks of the destructor generated for a handle variable `H`. -/
theorem dtor_blocks (CGM : CodeGenModule) (S : CGNVCUDARuntime) (H : String)
    (hH : S.GpuBinaryHandle = some H) :
    generatedBlocks (makeModuleDtorFunction CGM S) =
      some (emitDtorBody CGM
        (Operand.runtimeFn (addUnderscoredPrefixToName CGM "UnregisterFatBinary")) H) := by
  obtain ⟨h1, -, h3⟩ := makeModuleDtorFunction_some CGM S H hH
  simp only [generatedBlocks, h1, Option.bind, Module.getFunction, h3]
  have := getElem?_append_length S.TheModule.Functions
    (⟨addUnderscoredPrefixToName CGM "_module_dtor", Linkage.InternalLinkage,
        ⟨Ty.VoidTy, [Ty.VoidPtrTy]⟩,
        emitDtorBody CGM
          (Operand.runtimeFn (addUnderscoredPrefixToName CGM "UnregisterFatBinary")) H⟩ : Function) []
  rw [this]
  rfl

/-- One activation of the CUDA destructor: one unregister call on the loaded
handle, whatever it is. -/
theorem cuda_dtor_run (CGM : CodeGenModule) (U : Operand) (H : String) (R : Runtime)
    (Params : List RVal) (W : World) (fuel : Nat) (hHIP : CGM.LangOpts.HIP = false) :
    runBody R (fuel + 1) (emitDtorBody CGM U H) Params W =
      some (⟨W.Mem, W.Trace ++ [⟨U, [W.Mem (RVal.addr (Operand.global H))],
        R W.Trace U [W.Mem (RVal.addr (Operand.global H))]⟩]⟩, Exit.returned) := by
  simp [runBody, emitDtorBody, hHIP, runBlocks, execBlock, evalOperand]

/-- One activation of the HIP destructor with a null handle variable: no call,
nothing stored. -/
theorem hip_dtor_run_null (CGM : CodeGenModule) (U : Operand) (H : String) (R : Runtime)
    (Params : List RVal) (W : World) (fuel : Nat) (hHIP : CGM.LangOpts.HIP = true)
    (hM : W.Mem (RVal.addr (Operand.global H)) = RVal.null) :
    runBody R (fuel + 2) (emitDtorBody CGM U H) Params W = some (W, Exit.returned) := by
  simp [runBody, emitDtorBody, hHIP, runBlocks, execBlock, evalOperand, hM]

/-- One activation of the HIP destructor with a non-null handle variable: one
unregister call on the handle, then null is stored into the variable. -/
theorem hip_dtor_run_set (CGM : CodeGenModule) (U : Operand) (H : String) (R : Runtime)
    (Params : List RVal) (W : World) (fuel : Nat) (hHIP : CGM.LangOpts.HIP = true)
    (hM : W.Mem (RVal.addr (Operand.global H)) ≠ RVal.null) :
    runBody R (fuel + 3) (emitDtorBody CGM U H) Params W =
      some (⟨fun a => if a = RVal.addr (Operand.global H) then RVal.null else W.Mem a,
             W.Trace ++ [⟨U, [W.Mem (RVal.addr (Operand.global H))],
               R W.Trace U [W.Mem (RVal.addr (Operand.global H))]⟩]⟩, Exit.returned) := by
  simp [runBody, emitDtorBody, hHIP, runBlocks, execBlock, evalOperand, hM]

/-- Any number of activations of the HIP destructor: no call when the handle
variable starts null, and otherwise, as soon as it is activated once, exactly
one unregister call, on the starting value. -/
theorem hip_dtor_runs (CGM : CodeGenModule) (U : Operand) (H : String) (R : Runtime)
    (Params : List RVal) (fuel : Nat) (hHIP : CGM.LangOpts.HIP = true) (N : Nat) :
    ∀ W : World, ∃ W1 ext,
      runBodyTimes R (fuel + 3) (emitDtorBody CGM U H) Params N W = some W1
      ∧ W1.Trace = W.Trace ++ ext
      ∧ (W.Mem (RVal.addr (Operand.global H)) = RVal.null → ext = []
          ∧ W1.Mem (RVal.addr (Operand.global H)) = RVal.null)
      ∧ (W.Mem (RVal.addr (Operand.global H)) ≠ RVal.null → 1 ≤ N →
          ext = [⟨U, [W.Mem (RVal.addr (Operand.global H))],
            R W.Trace U [W.Mem (RVal.addr (Operand.global H))]⟩]
          ∧ W1.Mem (RVal.addr (Operand.global H)) = RVal.null)
      ∧ ext.length ≤ 1 := by
  induction N with
  | zero =>
    intro W
    exact ⟨W, [], rfl, by simp, fun h => ⟨rfl, h⟩, fun _ h => absurd h (by decide), by simp⟩
  | succ n ih =>
    intro W
    by_cases hM : W.Mem (RVal.addr (Operand.global H)) = RVal.null
    · obtain ⟨W1, ext, h1, h2, h3, -, h5⟩ := ih W
      have hr := hip_dtor_run_null CGM U H R Params W (fuel + 1) hHIP hM
      refine ⟨W1, ext, ?_, h2, h3, fun h => absurd hM h, h5⟩
      simp only [runBodyTimes, hr]; exact h1
    · have hr := hip_dtor_run_set CGM U H R Params W fuel hHIP hM
      obtain ⟨W1, ext, h1, h2, h3, -, -⟩ := ih
        ⟨fun a => if a = RVal.addr (Operand.global H) then RVal.null else W.Mem a,
         W.Trace ++ [⟨U, [W.Mem (RVal.addr (Operand.global H))],
               R W.Trace U [W.Mem (RVal.addr (Operand.global H))]⟩]⟩
      obtain ⟨e0, m0⟩ := h3 (by simp)
      subst e0
      refine ⟨W1, [⟨U, [W.Mem (RVal.addr (Operand.global H))],
               R W.Trace U [W.Mem (RVal.addr (Operand.global H))]⟩], ?_, ?_, fun h => absurd h hM,
        fun _ _ => ⟨rfl, m0⟩, by simp⟩
      · simp only [runBodyTimes, hr]; exact h1
      · simpa using h2

/-- C3: the destructor generated for a handle variable `H`. For CUDA its single
block loads the handle and calls `__cudaUnregisterFatBinary` exactly once on the
loaded value, whatever the value. For HIP an activation with a null variable
performs no call and leaves memory as it is; an activation with a non-null
variable performs exactly one `__hipUnregisterFatBinary` call, on the value of
the variable, and stores null into it; and any number of activations perform at
most one such call. Three blocks of fuel suffice for every activation. -/
theorem dtor_unregisters (CGM : CodeGenModule) (S : CGNVCUDARuntime) (H : String)
    (hH : S.GpuBinaryHandle = some H) (R : Runtime) (Params : List RVal) (W : World)
    (fuel : Nat) (hf : 3 ≤ fuel) :
    ∃ Blocks, generatedBlocks (makeModuleDtorFunction CGM S) = some Blocks
      ∧ (CGM.LangOpts.HIP = false →
          Blocks.length = 1
          ∧ (callInstsTo (Operand.runtimeFn "__cudaUnregisterFatBinary") Blocks).length = 1
          ∧ runBody R fuel Blocks Params W =
              some (⟨W.Mem, W.Trace ++
                [⟨Operand.runtimeFn "__cudaUnregisterFatBinary",
                  [W.Mem (RVal.addr (Operand.global H))],
                  R W.Trace (Operand.runtimeFn "__cudaUnregisterFatBinary")
                    [W.Mem (RVal.addr (Operand.global H))]⟩]⟩, Exit.returned))
      ∧ (CGM.LangOpts.HIP = true → W.Mem (RVal.addr (Operand.global H)) = RVal.null →
          runBody R fuel Blocks Params W = some (W, Exit.returned))
      ∧ (CGM.LangOpts.HIP = true → W.Mem (RVal.addr (Operand.global H)) ≠ RVal.null →
          runBody R fuel Blocks Params W =
            some (⟨fun a => if a = RVal.addr (Operand.global H) then RVal.null else W.Mem a,
              W.Trace ++
                [⟨Operand.runtimeFn "__hipUnregisterFatBinary",
                  [W.Mem (RVal.addr (Operand.global H))],
                  R W.Trace (Operand.runtimeFn "__hipUnregisterFatBinary")
                    [W.Mem (RVal.addr (Operand.global H))]⟩]⟩, Exit.returned))
      ∧ (CGM.LangOpts.HIP = true → ∀ N, ∃ W1 ext,
          runBodyTimes R fuel Blocks Params N W = some W1
          ∧ W1.Trace = W.Trace ++ ext
          ∧ (callsTo (Operand.runtimeFn "__hipUnregisterFatBinary") ext).length ≤ 1) := by
  obtain ⟨f, rfl⟩ : ∃ f, fuel = f + 3 := ⟨fuel - 3, by omega⟩
  refine ⟨_, dtor_blocks CGM S H hH, ?_, ?_, ?_, ?_⟩
  · intro hHIP
    have hU : addUnderscoredPrefixToName CGM "UnregisterFatBinary" = "__cudaUnregisterFatBinary" := by
      simp [addUnderscoredPrefixToName, hHIP]
    rw [hU]
    refine ⟨by simp [emitDtorBody, hHIP], by simp [emitDtorBody, hHIP, callInstsTo], ?_⟩
    exact cuda_dtor_run CGM _ H R Params W (f + 2) hHIP
  · intro hHIP hM
    exact hip_dtor_run_null CGM _ H R Params W (f + 1) hHIP hM
  · intro hHIP hM
    have hU : addUnderscoredPrefixToName CGM "UnregisterFatBinary" = "__hipUnregisterFatBinary" := by
      simp [addUnderscoredPrefixToName, hHIP]
    rw [hU]
    exact hip_dtor_run_set CGM _ H R Params W f hHIP hM
  · intro hHIP N
    have hU : addUnderscoredPrefixToName CGM "UnregisterFatBinary" = "__hipUnregisterFatBinary" := by
      simp [addUnderscoredPrefixToName, hHIP]
    rw [hU]
    obtain ⟨W1, ext, h1, h2, -, -, h5⟩ :=
      hip_dtor_runs CGM (Operand.runtimeFn "__hipUnregisterFatBinary") H R Params f hHIP N W
    exact ⟨W1, ext, h1, h2, le_trans (List.length_filter_le _ _) h5⟩

/-- Witness: the destructor of the sample HIP state, activated on a handle
variable holding a non-null pointer. -/
theorem dtor_unregisters_witness :
    (makeModuleCtorFunction sampleHIP sampleState).1.GpuBinaryHandle =
        some "__hip_gpubin_handle"
    ∧ ∃ W1 ext, runBodyTimes (fun _ _ _ => RVal.undef) 3
          (emitDtorBody sampleHIP (Operand.runtimeFn "__hipUnregisterFatBinary")
            "__hip_gpubin_handle") [] 5 ⟨fun _ => RVal.ptr 7, []⟩ = some W1
        ∧ W1.Trace = ext
        ∧ (callsTo (Operand.runtimeFn "__hipUnregisterFatBinary") ext).length ≤ 1 := by
  refine ⟨by decide, ?_⟩
  obtain ⟨Blocks, hB, -, -, -, h⟩ :=
    dtor_unregisters sampleHIP (makeModuleCtorFunction sampleHIP sampleState).1
      "__hip_gpubin_handle" (by decide) (fun _ _ _ => RVal.undef) []
      ⟨fun _ => RVal.ptr 7, []⟩ 3 (by decide)
  have hB2 := dtor_blocks sampleHIP (makeModuleCtorFunction sampleHIP sampleState).1
      "__hip_gpubin_handle" (by decide)
  rw [hB2] at hB
  cases hB
  obtain ⟨W1, ext, h1, h2, h3⟩ := h rfl 5
  exact ⟨W1, ext, h1, by simpa using h2, h3⟩

/-! ## C4: HIP with nothing to register -/

/-- For HIP with no kernel and no device variable recorded and no binary file
configured, `makeModuleCtorFunction` returns null: no constructor, no guarded
registration. -/
theorem hip_empty_lists_counterexample :
    sampleHIP.LangOpts.HIP = true
    ∧ (CGNVCUDARuntime.init Module.empty).EmittedKernels = []
    ∧ (CGNVCUDARuntime.init Module.empty).DeviceVars = []
    ∧ sampleHIP.CodeGenOpts.CudaGpuBinaryFileName = ""
    ∧ (makeModuleCtorFunction sampleHIP (CGNVCUDARuntime.init Module.empty)).2 = none
    ∧ generatedBlocks (makeModuleCtorFunction sampleHIP (CGNVCUDARuntime.init Module.empty)) =
        none := by
  decide

/-- C4, amended: for HIP, when both lists are empty `makeModuleCtorFunction`
returns null and leaves the state as it is, whatever binary is configured; when
a kernel or a device variable has been recorded, no binary file is configured
and the compiler is not part of the JIT engine, a constructor is produced whose
entry block branches on the handle being null, whose `if` block is the only
place calling `__hipRegisterFatBinary` and stores the result into the handle
variable, and whose `exit` block calls `__hip_register_globals` with the
reloaded handle before the `atexit` call. Whatever binary is configured, every
constructor produced for HIP has a block that calls `__hip_register_globals` with
the reloaded handle. -/
theorem hip_ctor_needs_symbols (CGM : CodeGenModule) (S : CGNVCUDARuntime)
    (hHIP : CGM.LangOpts.HIP = true) :
    (S.EmittedKernels = [] → S.DeviceVars = [] → makeModuleCtorFunction CGM S = (S, none))
    ∧ ((S.EmittedKernels ≠ [] ∨ S.DeviceVars ≠ []) →
        CGM.CodeGenOpts.CudaGpuBinaryFileName = "" → CGM.LangOpts.isInJIT = false →
        ∃ j, generatedBlocks (makeModuleCtorFunction CGM S) = some
          [⟨⟨"entry", 0⟩,
             [Inst.load ⟨"HandleValue", 0⟩ (Operand.global "__hip_gpubin_handle"),
              Inst.icmpEq ⟨"EQZero", 0⟩ (Operand.reg ⟨"HandleValue", 0⟩)
                (Operand.null Ty.VoidPtrPtrTy),
              Inst.condBr (Operand.reg ⟨"EQZero", 0⟩) ⟨"if", 0⟩ ⟨"exit", 0⟩]⟩,
           ⟨⟨"if", 0⟩,
             [Inst.call (some ⟨"RegisterFatbinCall", 0⟩)
                (Operand.runtimeFn "__hipRegisterFatBinary")
                [Operand.cast (Operand.global "__hip_fatbin_wrapper") Ty.VoidPtrTy],
              Inst.store (Operand.reg ⟨"RegisterFatbinCall", 0⟩)
                (Operand.global "__hip_gpubin_handle"),
              Inst.br ⟨"exit", 0⟩]⟩,
           ⟨⟨"exit", 0⟩,
             [Inst.load ⟨"HandleValue", 1⟩ (Operand.global "__hip_gpubin_handle"),
              Inst.call none
                (Operand.func "__hip_register_globals" S.TheModule.Functions.length)
                [Operand.reg ⟨"HandleValue", 1⟩],
              Inst.call none (Operand.runtimeFn "atexit")
                [Operand.func "__hip_module_dtor" j],
              Inst.retVoid]⟩])
    ∧ (∀ Blocks, generatedBlocks (makeModuleCtorFunction CGM S) = some Blocks →
        ∃ B ∈ Blocks,
          Inst.call none
            (Operand.func "__hip_register_globals" S.TheModule.Functions.length)
            [Operand.reg ⟨"HandleValue", 1⟩] ∈ B.insts) := by
  refine ⟨?_, ?_, ?_⟩
  · intro hK hV
    unfold makeModuleCtorFunction
    simp [hHIP, hK, hV]
  rotate_left
  · intro Blocks hB
    obtain ⟨-, j, hj⟩ := hip_ctor_blocks CGM S hHIP Blocks hB
    rw [hj]
    simp [hipCtorBlocks, emitCtorHIP, CtorCode.finish]
  · intro hne hFile hJIT
    have h1 : (CGM.CodeGenOpts.CudaGpuBinaryFileName.isEmpty && !CGM.LangOpts.HIP) = false := by
      simp [hHIP]
    have h2 : ((CGM.LangOpts.HIP || (CGM.LangOpts.CUDA && !RelocatableDeviceCode CGM)) &&
        S.EmittedKernels.isEmpty && S.DeviceVars.isEmpty) = false := by
      rcases hne with h | h
      · simp [List.isEmpty_iff, h]
      · simp [List.isEmpty_iff, h]
    obtain ⟨S3, -, hE⟩ := makeModuleCtorFunction_eq CGM S h1 h2
    have hres : (resolveGpuBinary CGM S).2 = BinaryResolution.buffer none := by
      have hEmpty : ("" : String).isEmpty = true := by decide
      unfold resolveGpuBinary
      simp [hJIT, hFile, hEmpty]
    rw [hres] at hE
    simp only at hE
    obtain ⟨-, -, g3, -⟩ := emitModuleCtor_generated CGM (resolveGpuBinary CGM S3).1
      (if (S.EmittedKernels.isEmpty && S.DeviceVars.isEmpty) = true then
        (if RelocatableDeviceCode CGM = true then
          some (Operand.func "dummy" S.TheModule.Functions.length) else none)
       else some (Operand.func (addUnderscoredPrefixToName CGM "_register_globals")
          S.TheModule.Functions.length)) none
    rw [← hE] at g3
    obtain ⟨-, j, hj⟩ := hip_ctor_blocks CGM S hHIP _ g3
    refine ⟨j, ?_⟩
    rw [g3, hj]
    rfl

/-- Witness: the sample HIP state, with one kernel recorded and no binary file. -/
theorem hip_ctor_needs_symbols_witness :
    sampleHIP.LangOpts.HIP = true
    ∧ (sampleState.EmittedKernels ≠ [] ∨ sampleState.DeviceVars ≠ [])
    ∧ sampleHIP.CodeGenOpts.CudaGpuBinaryFileName = ""
    ∧ sampleHIP.LangOpts.isInJIT = false
    ∧ (generatedBlocks (makeModuleCtorFunction sampleHIP sampleState)).isSome = true := by
  refine ⟨rfl, Or.inl (by decide), rfl, rfl, ?_⟩
  obtain ⟨j, hj⟩ := (hip_ctor_needs_symbols sampleHIP sampleState rfl).2.1
    (Or.inl (by decide)) rfl rfl
  rw [hj]
  rfl

/-! ## C5: when the CUDA constructor is not generated -/

theorem isEmpty_eq_false_of_ne (s : String) (h : s ≠ "") : s.isEmpty = false := by
  cases hs : s.isEmpty with
  | false => rfl
  | true => exact absurd ((String.isEmpty_iff s).1 hs) h

/-- C5: with the HIP option off, `makeModuleCtorFunction` returns null, leaving
the state as it is, whenever the GPU binary file name is empty, and, for CUDA
without relocatable device code, whenever both lists are empty; with
relocatable device code, a non-empty file name whose file can be read and a
compiler that is not part of the JIT engine, it returns the constructor
`__cuda_module_ctor`, for every content of the two lists, the empty ones
included. -/
theorem cuda_ctor_aborts (CGM : CodeGenModule) (S : CGNVCUDARuntime)
    (hHIP : CGM.LangOpts.HIP = false) :
    (CGM.CodeGenOpts.CudaGpuBinaryFileName = "" → makeModuleCtorFunction CGM S = (S, none))
    ∧ (CGM.LangOpts.CUDA = true → RelocatableDeviceCode CGM = false →
        S.EmittedKernels = [] → S.DeviceVars = [] →
        makeModuleCtorFunction CGM S = (S, none))
    ∧ (RelocatableDeviceCode CGM = true → CGM.CodeGenOpts.CudaGpuBinaryFileName ≠ "" →
        CGM.LangOpts.isInJIT = false →
        (∃ Buffer, CGM.getFileOrSTDIN CGM.CodeGenOpts.CudaGpuBinaryFileName = Except.ok Buffer) →
        (makeModuleCtorFunction CGM S).2 =
          some (Operand.func "__cuda_module_ctor" (S.TheModule.Functions.length + 1))
        ∧ (generatedBlocks (makeModuleCtorFunction CGM S)).isSome = true) := by
  refine ⟨?_, ?_, ?_⟩
  · intro hFile
    have hEmpty : ("" : String).isEmpty = true := by decide
    unfold makeModuleCtorFunction
    simp [hHIP, hFile, hEmpty]
  · intro hC hR hK hV
    unfold makeModuleCtorFunction
    simp [hHIP, hC, hR, hK, hV]
  · intro hR hFile hJIT ⟨Buffer, hBuf⟩
    have hne := isEmpty_eq_false_of_ne _ hFile
    have h1 : (CGM.CodeGenOpts.CudaGpuBinaryFileName.isEmpty && !CGM.LangOpts.HIP) = false := by
      simp [hne]
    have h2 : ((CGM.LangOpts.HIP || (CGM.LangOpts.CUDA && !RelocatableDeviceCode CGM)) &&
        S.EmittedKernels.isEmpty && S.DeviceVars.isEmpty) = false := by
      simp [hHIP, hR]
    obtain ⟨S3, ⟨-, B, hF⟩, hE⟩ := makeModuleCtorFunction_eq CGM S h1 h2
    have hres : (resolveGpuBinary CGM S).2 = BinaryResolution.buffer (some Buffer) := by
      unfold resolveGpuBinary
      simp [hJIT, hne, hBuf]
    rw [hres] at hE
    simp only at hE
    have hlen : (resolveGpuBinary CGM S3).1.TheModule.Functions.length =
        S.TheModule.Functions.length + 1 := by
      rw [(resolveGpuBinary_fst CGM S3).2, hF]
      by_cases hE : (S.EmittedKernels.isEmpty && S.DeviceVars.isEmpty) = true
      · simp [hE, hR]
      · simp [hE]
    obtain ⟨g1, -, g3, -⟩ := emitModuleCtor_generated CGM (resolveGpuBinary CGM S3).1
      (if (S.EmittedKernels.isEmpty && S.DeviceVars.isEmpty) = true then
        (if RelocatableDeviceCode CGM = true then
          some (Operand.func "dummy" S.TheModule.Functions.length) else none)
       else some (Operand.func (addUnderscoredPrefixToName CGM "_register_globals")
          S.TheModule.Functions.length)) (some Buffer)
    rw [← hE] at g1 g3
    refine ⟨?_, by rw [g3]; rfl⟩
    rw [g1, hlen]
    simp [addUnderscoredPrefixToName, hHIP]

/-- Witness: the sample CUDA configuration with relocatable device code and a
readable binary file, from a state with both lists empty. -/
theorem cuda_ctor_aborts_witness :
    sampleRDC.LangOpts.HIP = false
    ∧ RelocatableDeviceCode sampleRDC = true
    ∧ sampleRDC.CodeGenOpts.CudaGpuBinaryFileName ≠ ""
    ∧ sampleRDC.LangOpts.isInJIT = false
    ∧ (CGNVCUDARuntime.init Module.empty).EmittedKernels = []
    ∧ (CGNVCUDARuntime.init Module.empty).DeviceVars = []
    ∧ (makeModuleCtorFunction sampleRDC (CGNVCUDARuntime.init Module.empty)).2 =
        some (Operand.func "__cuda_module_ctor" 1) :=
  ⟨rfl, rfl, by decide, rfl, rfl, rfl,
   ((cuda_ctor_aborts sampleRDC (CGNVCUDARuntime.init Module.empty) rfl).2.2 rfl (by decide)
      rfl ⟨"BIN", rfl⟩).1⟩

/-! ## C6: the module ID of relocatable CUDA code -/

/-- The first instruction of every constructor generated for CUDA with
relocatable device code from a payload `Payload`: the call of
`__cudaRegisterLinkedBinary<ID>` with the ID constant as third argument, where
`<ID>` is `relocatableModuleID`. -/
theorem rdc_ctor_blocks (CGM : CodeGenModule) (S : CGNVCUDARuntime)
    (hHIP : CGM.LangOpts.HIP = false) (hR : RelocatableDeviceCode CGM = true)
    (hFile : CGM.CodeGenOpts.CudaGpuBinaryFileName ≠ "") (Payload : String)
    (hres : (resolveGpuBinary CGM S).2 = BinaryResolution.buffer (some Payload)) :
    ∃ RG D tail, generatedBlocks (makeModuleCtorFunction CGM S) = some
      [⟨⟨"entry", 0⟩,
        Inst.call none
          (Operand.runtimeFn ("__cudaRegisterLinkedBinary" ++ relocatableModuleID CGM Payload))
          [RG, Operand.cast (Operand.global "__cuda_fatbin_wrapper") Ty.VoidPtrTy,
           Operand.cstring (relocatableModuleID CGM Payload), D] :: tail⟩] := by
  have hne := isEmpty_eq_false_of_ne _ hFile
  have h1 : (CGM.CodeGenOpts.CudaGpuBinaryFileName.isEmpty && !CGM.LangOpts.HIP) = false := by
    simp [hne]
  have h2 : ((CGM.LangOpts.HIP || (CGM.LangOpts.CUDA && !RelocatableDeviceCode CGM)) &&
      S.EmittedKernels.isEmpty && S.DeviceVars.isEmpty) = false := by
    simp [hHIP, hR]
  obtain ⟨S3, -, hE⟩ := makeModuleCtorFunction_eq CGM S h1 h2
  rw [hres] at hE
  simp only at hE
  obtain ⟨-, -, g3, -⟩ := emitModuleCtor_generated CGM (resolveGpuBinary CGM S3).1
    (if (S.EmittedKernels.isEmpty && S.DeviceVars.isEmpty) = true then
      (if RelocatableDeviceCode CGM = true then
        some (Operand.func "dummy" S.TheModule.Functions.length) else none)
     else some (Operand.func (addUnderscoredPrefixToName CGM "_register_globals")
        S.TheModule.Functions.length)) (some Payload)
  rw [← hE] at g3
  rw [g3]
  have hName : (makeFatbinWrapper CGM (Operand.cstring Payload)).Name =
      "__cuda_fatbin_wrapper" := by
    simp [makeFatbinWrapper, addUnderscoredPrefixToName, hHIP]
  simp only [emitCtorBranch, hHIP, hR, Bool.false_eq_true, if_false, Bool.not_true,
    emitCtorRDC, CtorCode.finish, List.nil_append, List.singleton_append, emitFatBinStr,
    makeConstantString_snd, relocatableModuleID, hName]
  exact ⟨_, _, _, rfl⟩

theorem hexDigitValue_digitChar (d : Nat) (h : d < 16) :
    hexDigitValue (Nat.digitChar d) = d := by
  interval_cases d <;> decide

theorem parseHex_toDigitsCore (fuel : Nat) :
    ∀ (n : Nat) (ds : List Char), n < fuel →
      parseHex 0 (Nat.toDigitsCore 16 fuel n ds) = parseHex n ds := by
  induction fuel with
  | zero => intro n ds h; exact absurd h (Nat.not_lt_zero _)
  | succ f ih =>
    intro n ds hlt
    have hd := hexDigitValue_digitChar (n % 16) (Nat.mod_lt _ (by decide))
    unfold Nat.toDigitsCore
    dsimp only
    split
    · rename_i hq
      have hn : n % 16 = n := by omega
      have hd2 := hd
      rw [hn] at hd2
      simp [parseHex, hd, hd2, hn]
    · rename_i hq
      rw [ih (n / 16) _ (by omega)]
      have hn : 16 * (n / 16) + n % 16 = n := Nat.div_add_mod n 16
      simp [parseHex, hd, hn]

/-- The hexadecimal rendering determines the number rendered. -/
theorem formatHex_injective (a b : Nat) (h : formatHex a = formatHex b) : a = b := by
  have ha : parseHex 0 (formatHex a).data = a := by
    unfold formatHex Nat.toDigits
    rw [parseHex_toDigitsCore _ _ _ (by omega)]
    rfl
  have hb : parseHex 0 (formatHex b).data = b := by
    unfold formatHex Nat.toDigits
    rw [parseHex_toDigitsCore _ _ _ (by omega)]
    rfl
  rw [← ha, ← hb, h]

theorem append_left_injective (p a b : String) (h : p ++ a = p ++ b) : a = b := by
  have h2 := congrArg String.data h
  simp only [String.data_append] at h2
  exact String.ext (List.append_cancel_left h2)

/-- The module ID of a CUDA configuration: the tag `__nv_` and the rendering of
the hash of the global identifier of the internal constant
`__cuda_fatbin_wrapper`; the payload does not enter it. -/
theorem relocatableModuleID_cuda (CGM : CodeGenModule) (P : String)
    (hHIP : CGM.LangOpts.HIP = false) :
    relocatableModuleID CGM P =
      "__nv_" ++ formatHex (CGM.MD5Hash
        (getGlobalIdentifier "__cuda_fatbin_wrapper" Linkage.InternalLinkage
          CGM.SourceFileName) % 2 ^ 64) := by
  simp [relocatableModuleID, ModuleIDTag, getGUID, makeFatbinWrapper,
    addUnderscoredPrefixToName, hHIP]

/-- C6, as stated, fails in both directions. Two generations of the sample
relocatable configuration, for the same source file `k.cu`, whose binary files
hold `A` and `B`: the payload constants of the two modules differ and so do the
initializers of the two wrapper constants, and the module ID constants are the
same string. Two generations reading the same payload `A` for the source files
`k.cu` and `m.cu`: the module ID constants differ, as they do under every hash
that tells the global identifiers `k.cu:__cuda_fatbin_wrapper` and
`m.cu:__cuda_fatbin_wrapper` apart. -/
theorem module_id_payload_counterexample :
    stringsInSection (makeModuleCtorFunction (sampleRDCFile "A") sampleState).1.TheModule
        "__nv_relfatbin" = ["A"]
    ∧ stringsInSection (makeModuleCtorFunction (sampleRDCFile "B") sampleState).1.TheModule
        "__nv_relfatbin" = ["B"]
    ∧ (makeFatbinWrapper (sampleRDCFile "A") (Operand.cstring "A")).Initializer ≠
        (makeFatbinWrapper (sampleRDCFile "B") (Operand.cstring "B")).Initializer
    ∧ stringsInSection (makeModuleCtorFunction (sampleRDCFile "A") sampleState).1.TheModule
        "__nv_module_id" = ["__nv_f6e9e394f0fa0ef4"]
    ∧ stringsInSection (makeModuleCtorFunction (sampleRDCFile "B") sampleState).1.TheModule
        "__nv_module_id" = ["__nv_f6e9e394f0fa0ef4"]
    ∧ stringsInSection
        (makeModuleCtorFunction { sampleRDCFile "A" with SourceFileName := "m.cu" }
          sampleState).1.TheModule "__nv_relfatbin" = ["A"]
    ∧ stringsInSection
        (makeModuleCtorFunction { sampleRDCFile "A" with SourceFileName := "m.cu" }
          sampleState).1.TheModule "__nv_module_id" = ["__nv_d4b3daa6f4acb532"] := by
  refine ⟨?_, ?_, ?_, ?_, ?_, ?_, ?_⟩ <;> decide

/-- C6, amended: for CUDA with relocatable device code the module ID emitted by
`makeModuleCtorFunction`, in the name of the `__cudaRegisterLinkedBinary<ID>`
function called and in the ID constant passed to it, is the tag `__nv_` followed
by the hexadecimal rendering of the 64-bit GUID of the wrapper constant, which
is the hash of its global identifier: the source file name of the module, a
colon and the symbol name `__cuda_fatbin_wrapper`. The ID does not depend on the
payload. Two generations under the same hash for the same source file name emit
the same ID whatever their payloads, so two generations emitting different IDs
are for different source file names; and the IDs of two generations are the same
exactly when the GUIDs of their wrapper constants are. -/
theorem module_id_of_source_file (CGM1 CGM2 : CodeGenModule) (S1 S2 : CGNVCUDARuntime)
    (hHIP1 : CGM1.LangOpts.HIP = false) (hHIP2 : CGM2.LangOpts.HIP = false)
    (hR1 : RelocatableDeviceCode CGM1 = true) (hR2 : RelocatableDeviceCode CGM2 = true)
    (hFile1 : CGM1.CodeGenOpts.CudaGpuBinaryFileName ≠ "")
    (hFile2 : CGM2.CodeGenOpts.CudaGpuBinaryFileName ≠ "")
    (hHash : CGM1.MD5Hash = CGM2.MD5Hash) (P1 P2 : String)
    (hres1 : (resolveGpuBinary CGM1 S1).2 = BinaryResolution.buffer (some P1))
    (hres2 : (resolveGpuBinary CGM2 S2).2 = BinaryResolution.buffer (some P2)) :
    (∃ RG D tail, generatedBlocks (makeModuleCtorFunction CGM1 S1) = some
      [⟨⟨"entry", 0⟩,
        Inst.call none
          (Operand.runtimeFn ("__cudaRegisterLinkedBinary" ++ relocatableModuleID CGM1 P1))
          [RG, Operand.cast (Operand.global "__cuda_fatbin_wrapper") Ty.VoidPtrTy,
           Operand.cstring (relocatableModuleID CGM1 P1), D] :: tail⟩])
    ∧ (∃ RG D tail, generatedBlocks (makeModuleCtorFunction CGM2 S2) = some
      [⟨⟨"entry", 0⟩,
        Inst.call none
          (Operand.runtimeFn ("__cudaRegisterLinkedBinary" ++ relocatableModuleID CGM2 P2))
          [RG, Operand.cast (Operand.global "__cuda_fatbin_wrapper") Ty.VoidPtrTy,
           Operand.cstring (relocatableModuleID CGM2 P2), D] :: tail⟩])
    ∧ relocatableModuleID CGM1 P1 =
        "__nv_" ++ formatHex (CGM1.MD5Hash
          (getGlobalIdentifier "__cuda_fatbin_wrapper" Linkage.InternalLinkage
            CGM1.SourceFileName) % 2 ^ 64)
    ∧ (CGM1.SourceFileName ≠ "" →
        getGlobalIdentifier "__cuda_fatbin_wrapper" Linkage.InternalLinkage
          CGM1.SourceFileName = CGM1.SourceFileName ++ ":" ++ "__cuda_fatbin_wrapper")
    ∧ (∀ Q : String, relocatableModuleID CGM1 Q = relocatableModuleID CGM1 P1)
    ∧ (CGM1.SourceFileName = CGM2.SourceFileName →
        relocatableModuleID CGM1 P1 = relocatableModuleID CGM2 P2)
    ∧ (relocatableModuleID CGM1 P1 ≠ relocatableModuleID CGM2 P2 →
        CGM1.SourceFileName ≠ CGM2.SourceFileName)
    ∧ (relocatableModuleID CGM1 P1 = relocatableModuleID CGM2 P2 ↔
        getGUID CGM1 (makeFatbinWrapper CGM1 (Operand.cstring P1)) =
          getGUID CGM2 (makeFatbinWrapper CGM2 (Operand.cstring P2))) := by
  have hsame : CGM1.SourceFileName = CGM2.SourceFileName →
      relocatableModuleID CGM1 P1 = relocatableModuleID CGM2 P2 := by
    intro h
    rw [relocatableModuleID_cuda CGM1 P1 hHIP1, relocatableModuleID_cuda CGM2 P2 hHIP2,
      hHash, h]
  refine ⟨rdc_ctor_blocks CGM1 S1 hHIP1 hR1 hFile1 P1 hres1,
    rdc_ctor_blocks CGM2 S2 hHIP2 hR2 hFile2 P2 hres2,
    relocatableModuleID_cuda CGM1 P1 hHIP1, ?_, ?_, hsame,
    fun hne hS => hne (hsame hS), ?_⟩
  · intro hS
    have hE : CGM1.SourceFileName.isEmpty = false := isEmpty_eq_false_of_ne _ hS
    have hN : ("__cuda_fatbin_wrapper" : String).data.head? ≠ some (Char.ofNat 1) := by decide
    simp [getGlobalIdentifier, Linkage.isLocalLinkage, hE, hN]
  · intro Q
    rw [relocatableModuleID_cuda CGM1 Q hHIP1, relocatableModuleID_cuda CGM1 P1 hHIP1]
  · have hT1 : ModuleIDTag CGM1 = "__nv_" := by simp [ModuleIDTag, hHIP1]
    have hT2 : ModuleIDTag CGM2 = "__nv_" := by simp [ModuleIDTag, hHIP2]
    unfold relocatableModuleID
    rw [hT1, hT2]
    constructor
    · intro h
      exact formatHex_injective _ _ (append_left_injective _ _ _ h)
    · intro h
      rw [h]

/-- Witness: two generations of the sample relocatable configuration for the
source file `k.cu`, over binary files holding `A` and `B`. -/
theorem module_id_of_source_file_witness :
    (sampleRDCFile "A").LangOpts.HIP = false
    ∧ RelocatableDeviceCode (sampleRDCFile "A") = true
    ∧ (sampleRDCFile "A").CodeGenOpts.CudaGpuBinaryFileName ≠ ""
    ∧ (resolveGpuBinary (sampleRDCFile "A") sampleState).2 =
        BinaryResolution.buffer (some "A")
    ∧ (resolveGpuBinary (sampleRDCFile "B") (CGNVCUDARuntime.init Module.empty)).2 =
        BinaryResolution.buffer (some "B")
    ∧ relocatableModuleID (sampleRDCFile "A") "A" = "__nv_f6e9e394f0fa0ef4"
    ∧ relocatableModuleID (sampleRDCFile "A") "A" = relocatableModuleID (sampleRDCFile "B") "B" :=
  have h := module_id_of_source_file (sampleRDCFile "A") (sampleRDCFile "B") sampleState
    (CGNVCUDARuntime.init Module.empty) rfl rfl rfl rfl (by decide) (by decide) rfl "A" "B"
    (by decide) (by decide)
  ⟨rfl, rfl, by decide, by decide, by decide, h.2.2.1.trans (by decide), h.2.2.2.2.2.1 rfl⟩

/-! ## C7: execution of the legacy stub -/

theorem legacyArgLoop_labels (f : Operand) (E : Label) (tail : List Inst) (Args : List VarDecl) :
    ∀ (Offset : Nat) (cur : Label) (k : Nat),
      ∀ B ∈ legacyArgLoop f E tail Args Offset cur k,
        B.label = cur ∨ ∃ j, k ≤ j ∧ B.label = setupNext j := by
  induction Args with
  | nil =>
    intro Offset cur k B hB
    simp only [legacyArgLoop, List.mem_singleton] at hB
    exact Or.inl (by rw [hB])
  | cons A rest ih =>
    intro Offset cur k B hB
    simp only [legacyArgLoop, List.mem_cons] at hB
    rcases hB with hB | hB
    · exact Or.inl (by rw [hB])
    · rcases ih _ _ _ B hB with h | ⟨j, hj, h⟩
      · exact Or.inr ⟨k, le_refl k, h⟩
      · exact Or.inr ⟨j, by omega, h⟩

theorem find?_skip (pre rest : List BasicBlock) (L : Label)
    (h : ∀ B ∈ pre, B.label ≠ L) :
    (pre ++ rest).find? (fun B => B.label = L) = rest.find? (fun B => B.label = L) := by
  induction pre with
  | nil => rfl
  | cons b bs ih =>
    have hb : b.label ≠ L := h b (List.mem_cons_self _ _)
    simp only [List.cons_append, List.find?_cons, hb, decide_False]
    exact ih (fun B hB => h B (List.mem_cons_of_mem _ hB))

/-- Execution of the argument loop of the legacy stub from the block `cur` on:
it stops at the open end of `E` with memory untouched and with the trace the
spec prescribes. -/
theorem legacy_loop_run (R : Runtime) (Params : List RVal) (f launch : Operand)
    (n : String) (i : Nat) (E : Label) (hE : ∀ j, setupNext j ≠ E) (Args : List VarDecl) :
    ∀ (Offset : Nat) (cur : Label) (k : Nat) (pre : List BasicBlock) (σ : ExecState)
      (fuel : Nat),
      (∀ B ∈ pre, B.label ≠ cur ∧ B.label ≠ E ∧ ∀ j, k ≤ j → B.label ≠ setupNext j) →
      cur ≠ E → (∀ j, k ≤ j → cur ≠ setupNext j) →
      Args.length + 2 ≤ fuel →
      ∃ Regs, runBlocks R Params
          (pre ++ legacyArgLoop f E
            [Inst.call none launch [Operand.cast (Operand.func n i) Ty.CharPtrTy], Inst.br E]
            Args Offset cur k ++ [⟨E, []⟩]) fuel cur σ =
        some (⟨σ.Mem, Regs,
          legacyStubTrace R f launch (RVal.addr (Operand.func n i)) Args Offset σ.Trace⟩,
          Exit.openEnd E) := by
  induction Args with
  | nil =>
    intro Offset cur k pre σ fuel hpre hcur _ hfuel
    obtain ⟨fuel, rfl⟩ : ∃ f', fuel = f' + 2 := ⟨fuel - 2, by simp at hfuel; omega⟩
    have h1 : ∀ B ∈ pre, B.label ≠ cur := fun B hB => (hpre B hB).1
    have h2 : ∀ B ∈ pre, B.label ≠ E := fun B hB => (hpre B hB).2.1
    refine ⟨σ.Regs, ?_⟩
    simp only [legacyArgLoop, runBlocks, List.append_assoc]
    rw [find?_skip pre _ cur h1]
    simp only [List.singleton_append, List.find?_cons, decide_True, execBlock, List.map,
      evalOperand]
    rw [find?_skip pre _ E h2]
    simp [List.find?_cons, hcur, execBlock, legacyStubTrace]
  | cons A rest ih =>
    intro Offset cur k pre σ fuel hpre hcur hnext hfuel
    obtain ⟨fuel, rfl⟩ : ∃ f', fuel = f' + 2 := ⟨fuel - 2, by simp at hfuel; omega⟩
    have h1 : ∀ B ∈ pre, B.label ≠ cur := fun B hB => (hpre B hB).1
    have h2 : ∀ B ∈ pre, B.label ≠ E := fun B hB => (hpre B hB).2.1
    by_cases hr : R σ.Trace f [RVal.addr (Operand.localVar A.Name), RVal.int A.TyWidth,
        RVal.int (alignTo Offset A.TyAlign)] = RVal.int 0
    · -- status zero: control goes to the next block
      have hfuel' : rest.length + 2 ≤ fuel + 1 := by simp at hfuel; omega
      obtain ⟨Regs, hrun⟩ := ih (alignTo Offset A.TyAlign + A.TyWidth) (setupNext k) (k + 1)
        (pre ++ [⟨cur,
          [Inst.call (some ⟨"CB", k⟩) f
             [Operand.cast (Operand.localVar A.Name) Ty.VoidPtrTy,
              Operand.constInt Ty.SizeTy A.TyWidth,
              Operand.constInt Ty.SizeTy (alignTo Offset A.TyAlign)],
           Inst.icmpEq ⟨"CBZero", k⟩ (Operand.reg ⟨"CB", k⟩) (Operand.constInt Ty.IntTy 0),
           Inst.condBr (Operand.reg ⟨"CBZero", k⟩) (setupNext k) E]⟩])
        ⟨σ.Mem,
          fun x => if x = (⟨"CBZero", k⟩ : Reg) then RVal.bool true
            else if x = (⟨"CB", k⟩ : Reg) then RVal.int 0 else σ.Regs x,
          σ.Trace ++ [⟨f, [RVal.addr (Operand.localVar A.Name), RVal.int A.TyWidth,
            RVal.int (alignTo Offset A.TyAlign)], RVal.int 0⟩]⟩
        (fuel + 1)
        (by
          intro B hB
          rw [List.mem_append, List.mem_singleton] at hB
          rcases hB with hB | hB
          · exact ⟨(hpre B hB).2.2 k (le_refl k), (hpre B hB).2.1,
              fun j hj => (hpre B hB).2.2 j (by omega)⟩
          · subst hB
            exact ⟨hnext k (le_refl k), hcur, fun j hj => hnext j (by omega)⟩)
        (hE k)
        (by
          intro j hj h
          simp only [setupNext, Label.mk.injEq, true_and] at h
          omega)
        hfuel'
      refine ⟨Regs, ?_⟩
      rw [runBlocks]
      simp only [legacyArgLoop, List.append_assoc]
      rw [find?_skip pre _ cur h1]
      simp only [List.cons_append, List.find?_cons, decide_True, execBlock, List.map,
        evalOperand, hr, ite_true, legacyStubTrace]
      simp only [List.append_assoc, List.singleton_append, List.cons_append] at hrun
      exact hrun
    · -- status non-zero: control goes to the end block
      have hskip : ∀ B ∈ pre ++ ⟨cur,
          [Inst.call (some ⟨"CB", k⟩) f
             [Operand.cast (Operand.localVar A.Name) Ty.VoidPtrTy,
              Operand.constInt Ty.SizeTy A.TyWidth,
              Operand.constInt Ty.SizeTy (alignTo Offset A.TyAlign)],
           Inst.icmpEq ⟨"CBZero", k⟩ (Operand.reg ⟨"CB", k⟩) (Operand.constInt Ty.IntTy 0),
           Inst.condBr (Operand.reg ⟨"CBZero", k⟩) (setupNext k) E]⟩ ::
          legacyArgLoop f E
            [Inst.call none launch [Operand.cast (Operand.func n i) Ty.CharPtrTy], Inst.br E]
            rest (alignTo Offset A.TyAlign + A.TyWidth) (setupNext k) (k + 1),
          B.label ≠ E := by
        intro B hB
        rw [List.mem_append, List.mem_cons] at hB
        rcases hB with hB | hB | hB
        · exact h2 B hB
        · subst hB; exact hcur
        · rcases legacyArgLoop_labels _ _ _ _ _ _ _ B hB with h | ⟨j, -, h⟩
          · rw [h]; exact hE k
          · rw [h]; exact hE j
      apply Exists.intro
      rw [runBlocks]
      simp only [legacyArgLoop, List.append_assoc]
      rw [find?_skip pre _ cur h1]
      simp only [List.cons_append, List.find?_cons, decide_True, execBlock, List.map,
        evalOperand, hr, ite_true, legacyStubTrace, decide_False, ite_false]
      rw [runBlocks]
      rw [← List.cons_append, ← List.append_assoc, find?_skip _ _ E hskip]
      simp only [List.find?_cons, decide_True, execBlock]
      rfl

/-- The shape of the prescribed trace: `SetupArgument` calls for a prefix of the
arguments, in order, all but the last of which returned zero, followed by the
`Launch` call exactly when all of them returned zero, in which case the prefix
is the whole argument list. -/
theorem legacyStubTrace_shape (R : Runtime) (f L : Operand) (stub : RVal)
    (Args : List VarDecl) :
    ∀ (Offset : Nat) (tr : List CallEvent), ∃ setups launches,
      legacyStubTrace R f L stub Args Offset tr = tr ++ setups ++ launches
      ∧ setups.length ≤ Args.length
      ∧ (∀ (i : Nat) (e : CallEvent), setups[i]? = some e →
          e.Callee = f ∧ ∃ (A : VarDecl) (o : Nat), Args[i]? = some A
            ∧ e.Args = [RVal.addr (Operand.localVar A.Name), RVal.int A.TyWidth, RVal.int o])
      ∧ (∀ (i : Nat) (e : CallEvent), setups[i]? = some e → i + 1 < setups.length →
          e.Result = RVal.int 0)
      ∧ ((∀ e ∈ setups, e.Result = RVal.int 0) →
          setups.length = Args.length
          ∧ launches = [⟨L, [stub], R (tr ++ setups) L [stub]⟩])
      ∧ ((∃ e ∈ setups, e.Result ≠ RVal.int 0) → launches = []) := by
  induction Args with
  | nil =>
    intro Offset tr
    refine ⟨[], [⟨L, [stub], R tr L [stub]⟩], by simp [legacyStubTrace], by simp,
      by simp, by simp, by simp, by simp⟩
  | cons A rest ih =>
    intro Offset tr
    by_cases hr : R tr f [RVal.addr (Operand.localVar A.Name), RVal.int A.TyWidth,
        RVal.int (alignTo Offset A.TyAlign)] = RVal.int 0
    · obtain ⟨setups, launches, h1, h2, h3, h4, h5, h6⟩ :=
        ih (alignTo Offset A.TyAlign + A.TyWidth)
          (tr ++ [⟨f, [RVal.addr (Operand.localVar A.Name), RVal.int A.TyWidth,
            RVal.int (alignTo Offset A.TyAlign)], RVal.int 0⟩])
      refine ⟨⟨f, [RVal.addr (Operand.localVar A.Name), RVal.int A.TyWidth,
            RVal.int (alignTo Offset A.TyAlign)], RVal.int 0⟩ :: setups, launches,
        ?_, ?_, ?_, ?_, ?_, ?_⟩
      · simp only [legacyStubTrace, hr, ite_true, h1]
        simp
      · simp only [List.length_cons]; omega
      · intro i e he
        cases i with
        | zero =>
          simp only [List.getElem?_cons_zero, Option.some.injEq] at he
          subst he
          exact ⟨rfl, A, _, by simp, rfl⟩
        | succ i =>
          simp only [List.getElem?_cons_succ] at he ⊢
          exact h3 i e he
      · intro i e he hi
        cases i with
        | zero =>
          simp only [List.getElem?_cons_zero, Option.some.injEq] at he
          subst he
          rfl
        | succ i =>
          simp only [List.getElem?_cons_succ] at he
          simp only [List.length_cons] at hi
          exact h4 i e he (by omega)
      · intro hall
        have hall' : ∀ e ∈ setups, e.Result = RVal.int 0 :=
          fun e he => hall e (List.mem_cons_of_mem _ he)
        obtain ⟨h5a, h5b⟩ := h5 hall'
        refine ⟨by simp only [List.length_cons, h5a], ?_⟩
        rw [h5b]
        simp
      · rintro ⟨e, he, hne⟩
        rw [List.mem_cons] at he
        rcases he with he | he
        · subst he; exact absurd rfl hne
        · exact h6 ⟨e, he, hne⟩
    · refine ⟨[⟨f, [RVal.addr (Operand.localVar A.Name), RVal.int A.TyWidth,
            RVal.int (alignTo Offset A.TyAlign)],
          R tr f [RVal.addr (Operand.localVar A.Name), RVal.int A.TyWidth,
            RVal.int (alignTo Offset A.TyAlign)]⟩], [], ?_, ?_, ?_, ?_, ?_, ?_⟩
      · simp only [legacyStubTrace, hr, ite_false]
        simp
      · simp
      · intro i e he
        cases i with
        | zero =>
          simp only [List.getElem?_cons_zero, Option.some.injEq] at he
          subst he
          exact ⟨rfl, A, _, by simp, rfl⟩
        | succ i => simp at he
      · intro i e _ hi
        simp at hi
      · intro hall
        exact absurd (hall _ (List.mem_singleton_self _)) hr
      · intro _
        rfl

theorem getLaunchFn_snd (CGM : CodeGenModule) (M : Module) :
    (getLaunchFn CGM M).2 =
      Operand.runtimeFn (if CGM.LangOpts.HIP = true then "hipLaunchByPtr" else "cudaLaunch") := by
  unfold getLaunchFn
  split <;> rfl

/-- The blocks of the legacy stub: the argument loop from the entry block,
ending in the `Launch` call and the branch to `setup.end`, then the open block
`setup.end`. -/
theorem emitDeviceStubBodyLegacy_blocks (CGM : CodeGenModule) (S : CGNVCUDARuntime)
    (CGF : CodeGenFunction) (Args : List VarDecl) :
    (emitDeviceStubBodyLegacy CGM S CGF Args).2.Blocks =
      legacyArgLoop (Operand.runtimeFn (addPrefixToName CGM "SetupArgument")) setupEnd
        [Inst.call none
           (Operand.runtimeFn (if CGM.LangOpts.HIP = true then "hipLaunchByPtr" else "cudaLaunch"))
           [Operand.cast (Operand.func CGF.CurFnName CGF.CurFnId) Ty.CharPtrTy],
         Inst.br setupEnd]
        Args 0 entryLabel 0 ++ [⟨setupEnd, []⟩] := by
  simp only [emitDeviceStubBodyLegacy, getSetupArgumentFn, getLaunchFn_snd,
    CodeGenFunction.CurFn]

/-- C7: the legacy stub generated for any argument list, executed against any
runtime from any memory and trace, reaches the open end of `setup.end` within
`n + 2` blocks, leaves memory untouched, and performs exactly the calls the
spec prescribes: `SetupArgument` calls for a prefix of the arguments in
declaration order, each with the address and width of its argument, all but the
last of which returned zero; then, as last call, `Launch(stub address)` exactly
when every `SetupArgument` call returned zero, which happens only if all `n`
arguments were set up; and no `Launch` call otherwise. With no argument the
only call is `Launch`. -/
theorem legacy_stub_execution (CGM : CodeGenModule) (S : CGNVCUDARuntime)
    (CGF : CodeGenFunction) (Args : List VarDecl) (R : Runtime) (Params : List RVal)
    (W : World) (fuel : Nat) (hf : Args.length + 2 ≤ fuel) :
    ∃ W1 setups launches,
      runBody R fuel (emitDeviceStubBodyLegacy CGM S CGF Args).2.Blocks Params W =
        some (W1, Exit.openEnd setupEnd)
      ∧ W1.Mem = W.Mem
      ∧ W1.Trace = W.Trace ++ setups ++ launches
      ∧ W1.Trace = legacyStubTrace R (Operand.runtimeFn (addPrefixToName CGM "SetupArgument"))
          (Operand.runtimeFn (if CGM.LangOpts.HIP = true then "hipLaunchByPtr" else "cudaLaunch"))
          (RVal.addr CGF.CurFn) Args 0 W.Trace
      ∧ setups.length ≤ Args.length
      ∧ (∀ (i : Nat) (e : CallEvent), setups[i]? = some e →
          e.Callee = Operand.runtimeFn (addPrefixToName CGM "SetupArgument")
          ∧ ∃ (A : VarDecl) (o : Nat), Args[i]? = some A
            ∧ e.Args = [RVal.addr (Operand.localVar A.Name), RVal.int A.TyWidth, RVal.int o])
      ∧ (∀ (i : Nat) (e : CallEvent), setups[i]? = some e → i + 1 < setups.length →
          e.Result = RVal.int 0)
      ∧ ((∀ e ∈ setups, e.Result = RVal.int 0) →
          setups.length = Args.length
          ∧ ∃ r, launches =
            [⟨Operand.runtimeFn
                (if CGM.LangOpts.HIP = true then "hipLaunchByPtr" else "cudaLaunch"),
              [RVal.addr CGF.CurFn], r⟩])
      ∧ ((∃ e ∈ setups, e.Result ≠ RVal.int 0) → launches = [])
      ∧ callsTo (Operand.runtimeFn
            (if CGM.LangOpts.HIP = true then "hipLaunchByPtr" else "cudaLaunch"))
          (setups ++ launches) = launches
      ∧ (Args = [] → setups = []
          ∧ ∃ r, launches =
            [⟨Operand.runtimeFn
                (if CGM.LangOpts.HIP = true then "hipLaunchByPtr" else "cudaLaunch"),
              [RVal.addr CGF.CurFn], r⟩]) := by
  obtain ⟨Regs, hrun⟩ := legacy_loop_run R Params
    (Operand.runtimeFn (addPrefixToName CGM "SetupArgument"))
    (Operand.runtimeFn (if CGM.LangOpts.HIP = true then "hipLaunchByPtr" else "cudaLaunch"))
    CGF.CurFnName CGF.CurFnId setupEnd (by intro j h; simp [setupNext, setupEnd] at h)
    Args 0 entryLabel 0 [] ⟨W.Mem, fun _ => RVal.undef, W.Trace⟩ fuel
    (by simp) (by decide) (by intro j _ h; simp [setupNext, entryLabel] at h) hf
  obtain ⟨setups, launches, s1, s2, s3, s4, s5, s6⟩ := legacyStubTrace_shape R
    (Operand.runtimeFn (addPrefixToName CGM "SetupArgument"))
    (Operand.runtimeFn (if CGM.LangOpts.HIP = true then "hipLaunchByPtr" else "cudaLaunch"))
    (RVal.addr CGF.CurFn) Args 0 W.Trace
  have hne : Operand.runtimeFn (addPrefixToName CGM "SetupArgument") ≠
      Operand.runtimeFn (if CGM.LangOpts.HIP = true then "hipLaunchByPtr" else "cudaLaunch") := by
    by_cases h : CGM.LangOpts.HIP = true <;> simp [addPrefixToName, h]
  have hsetups : callsTo (Operand.runtimeFn
      (if CGM.LangOpts.HIP = true then "hipLaunchByPtr" else "cudaLaunch")) setups = [] := by
    simp only [callsTo, List.filter_eq_nil_iff, decide_eq_true_eq]
    intro e he
    obtain ⟨i, hi⟩ := List.getElem?_of_mem he
    rw [(s3 i e hi).1]
    exact hne
  have hlaunches : callsTo (Operand.runtimeFn
      (if CGM.LangOpts.HIP = true then "hipLaunchByPtr" else "cudaLaunch")) launches = launches := by
    by_cases hall : ∀ e ∈ setups, e.Result = RVal.int 0
    · rw [(s5 hall).2]; simp [callsTo]
    · push_neg at hall
      rw [s6 hall]; rfl
  have hB := emitDeviceStubBodyLegacy_blocks CGM S CGF Args
  have hhead : ∃ insts rest, (emitDeviceStubBodyLegacy CGM S CGF Args).2.Blocks =
      ⟨entryLabel, insts⟩ :: rest := by
    rw [hB]
    cases Args with
    | nil => exact ⟨_, _, rfl⟩
    | cons A rest => exact ⟨_, _, rfl⟩
  obtain ⟨insts, rest, hhd⟩ := hhead
  refine ⟨⟨W.Mem, legacyStubTrace R (Operand.runtimeFn (addPrefixToName CGM "SetupArgument"))
      (Operand.runtimeFn (if CGM.LangOpts.HIP = true then "hipLaunchByPtr" else "cudaLaunch"))
      (RVal.addr CGF.CurFn) Args 0 W.Trace⟩, setups, launches, ?_, rfl, s1, rfl, s2, s3, s4,
    fun hall => ⟨(s5 hall).1, _, (s5 hall).2⟩, s6, ?_, ?_⟩
  · simp only [runBody, hhd]
    rw [← hhd, hB]
    simp only [List.nil_append] at hrun
    rw [hrun]
    rfl
  · simp only [callsTo, List.filter_append] at hsetups hlaunches ⊢
    rw [hsetups, hlaunches]
    rfl
  · intro hA
    subst hA
    have h0 : setups = [] := by simpa using s2
    subst h0
    exact ⟨rfl, _, (s5 (by simp)).2⟩

/-- Witness: the legacy stub of a kernel taking `(int, float)`, run against a
runtime that reports status zero everywhere. -/
theorem legacy_stub_execution_witness :
    ([⟨"a", 4, 4⟩, ⟨"b", 4, 4⟩] : List VarDecl).length + 2 ≤ 4
    ∧ ∃ W1, runBody (fun _ _ _ => RVal.int 0) 4
        (emitDeviceStubBodyLegacy sampleCUDA sampleState ⟨"k", 0, ⟨"k", 1⟩⟩
          [⟨"a", 4, 4⟩, ⟨"b", 4, 4⟩]).2.Blocks [] ⟨fun _ => RVal.null, []⟩ =
          some (W1, Exit.openEnd setupEnd) := by
  refine ⟨by decide, ?_⟩
  obtain ⟨W1, _, _, h, -⟩ := legacy_stub_execution sampleCUDA sampleState ⟨"k", 0, ⟨"k", 1⟩⟩
    [⟨"a", 4, 4⟩, ⟨"b", 4, 4⟩] (fun _ _ _ => RVal.int 0) [] ⟨fun _ => RVal.null, []⟩ 4
    (by decide)
  exact ⟨W1, h⟩

/-! ## C8: offsets of the legacy stub -/

/-- Rounding up: `alignTo q a` is the least multiple of `a` that is at least
`q`. -/
theorem alignTo_least (q a : Nat) (ha : 1 ≤ a) :
    a ∣ alignTo q a ∧ q ≤ alignTo q a ∧ ∀ m, a ∣ m → q ≤ m → alignTo q a ≤ m := by
  unfold alignTo
  refine ⟨Dvd.intro_left _ rfl, ?_, ?_⟩
  · have h1 := Nat.div_add_mod (q + a - 1) a
    have h2 := Nat.mod_lt (q + a - 1) (show 0 < a by omega)
    have h3 : (q + a - 1) / a * a = a * ((q + a - 1) / a) := Nat.mul_comm _ _
    omega
  · rintro m ⟨c, rfl⟩ hq
    have h : (q + a - 1) / a ≤ c := by
      apply Nat.le_of_lt_succ
      rw [Nat.div_lt_iff_lt_mul (show 0 < a by omega)]
      show q + a - 1 < (c + 1) * a
      have : (c + 1) * a = a * c + a := by ring
      omega
    calc (q + a - 1) / a * a ≤ c * a := Nat.mul_le_mul_right a h
      _ = a * c := Nat.mul_comm _ _

theorem legacyOffsets_length (Args : List VarDecl) :
    ∀ Offset, (legacyOffsets Args Offset).length = Args.length := by
  induction Args with
  | nil => intro _; rfl
  | cons A rest ih => intro Offset; simp [legacyOffsets, ih]

/-- Each offset is the least multiple of its alignment that is at least the end
of the previous argument, the start offset standing for that end at the first
argument. -/
theorem legacyOffsets_least (Args : List VarDecl) :
    ∀ Offset, (∀ A ∈ Args, 1 ≤ A.TyAlign) → ∀ i, i < Args.length →
      (Args.map VarDecl.TyAlign).getD i 1 ∣ (legacyOffsets Args Offset).getD i 0
      ∧ (if i = 0 then Offset
          else (legacyOffsets Args Offset).getD (i - 1) 0 +
            (Args.map VarDecl.TyWidth).getD (i - 1) 0) ≤ (legacyOffsets Args Offset).getD i 0
      ∧ ∀ m, (Args.map VarDecl.TyAlign).getD i 1 ∣ m →
          (if i = 0 then Offset
            else (legacyOffsets Args Offset).getD (i - 1) 0 +
              (Args.map VarDecl.TyWidth).getD (i - 1) 0) ≤ m →
          (legacyOffsets Args Offset).getD i 0 ≤ m := by
  induction Args with
  | nil => intro _ _ i hi; simp at hi
  | cons A rest ih =>
    intro Offset hA i hi
    cases i with
    | zero =>
      simpa [legacyOffsets] using alignTo_least Offset A.TyAlign (hA A (List.mem_cons_self _ _))
    | succ j =>
      have hj : j < rest.length := by simpa using hi
      have := ih (alignTo Offset A.TyAlign + A.TyWidth)
        (fun B hB => hA B (List.mem_cons_of_mem _ hB)) j hj
      cases j with
      | zero => simpa [legacyOffsets] using this
      | succ j' => simpa [legacyOffsets] using this

theorem callInstsTo_cons (f : Operand) (B : BasicBlock) (Bs : List BasicBlock) :
    callInstsTo f (B :: Bs) = callInstsTo f [B] ++ callInstsTo f Bs := by
  simp [callInstsTo]

/-- The size and offset operands of the `SetupArgument` calls of the argument
loop: for each argument in order, its width and its offset. -/
theorem sizesAndOffsets_loop (f launch x : Operand) (E : Label) (hne : f ≠ launch)
    (Args : List VarDecl) :
    ∀ (Offset : Nat) (cur : Label) (k : Nat),
      sizesAndOffsets f
        (legacyArgLoop f E [Inst.call none launch [x], Inst.br E] Args Offset cur k
          ++ [⟨E, []⟩]) =
      List.zipWith (fun (A : VarDecl) (o : Nat) =>
          (Operand.constInt Ty.SizeTy (A.TyWidth : Int), Operand.constInt Ty.SizeTy (o : Int)))
        Args (legacyOffsets Args Offset) := by
  induction Args with
  | nil =>
    intro Offset cur k
    simp [sizesAndOffsets, callInstsTo, legacyArgLoop, Ne.symm hne]
  | cons A rest ih =>
    intro Offset cur k
    have := ih (alignTo Offset A.TyAlign + A.TyWidth) (setupNext k) (k + 1)
    simp only [sizesAndOffsets] at this ⊢
    simp only [legacyArgLoop, List.cons_append, legacyOffsets, List.zipWith_cons_cons]
    rw [callInstsTo_cons, List.filterMap_append, this]
    simp [callInstsTo]

/-- Consecutive arguments: the next offset is at or after the end of the
current argument. -/
theorem legacyOffsets_step (Args : List VarDecl) (Offset : Nat)
    (hA : ∀ A ∈ Args, 1 ≤ A.TyAlign) (i : Nat) (hi : i + 1 < Args.length) :
    (legacyOffsets Args Offset).getD i 0 + (Args.map VarDecl.TyWidth).getD i 0 ≤
      (legacyOffsets Args Offset).getD (i + 1) 0 := by
  have := (legacyOffsets_least Args Offset hA (i + 1) hi).2.1
  simpa using this

/-- Arguments in order: a later offset is at or after the end of every earlier
argument. -/
theorem legacyOffsets_disjoint (Args : List VarDecl) (Offset : Nat)
    (hA : ∀ A ∈ Args, 1 ≤ A.TyAlign) (i j : Nat) (hij : i < j) (hj : j < Args.length) :
    (legacyOffsets Args Offset).getD i 0 + (Args.map VarDecl.TyWidth).getD i 0 ≤
      (legacyOffsets Args Offset).getD j 0 := by
  induction j with
  | zero => omega
  | succ j ih =>
    have hstep := legacyOffsets_step Args Offset hA j hj
    by_cases h : i = j
    · subst h; exact hstep
    · have := ih (by omega) (by omega)
      omega

/-- C8: in the legacy stub generated for an argument list whose alignments are
at least 1, the `SetupArgument` calls carry, argument by argument, the width
`w_i` as size and an offset `o_i` that is the least multiple of the alignment
`a_i` not below the end `o_(i-1) + w_(i-1)` of the previous argument (0 for the
first); so each offset is a multiple of its alignment, offsets do not decrease,
and an argument ends at or before the offset of every later one. -/
theorem legacy_stub_offsets (CGM : CodeGenModule) (S : CGNVCUDARuntime)
    (CGF : CodeGenFunction) (Args : List VarDecl) (hA : ∀ A ∈ Args, 1 ≤ A.TyAlign) :
    ∃ offs : List Nat, offs.length = Args.length
      ∧ sizesAndOffsets (Operand.runtimeFn (addPrefixToName CGM "SetupArgument"))
          (emitDeviceStubBodyLegacy CGM S CGF Args).2.Blocks =
        List.zipWith (fun (A : VarDecl) (o : Nat) =>
            (Operand.constInt Ty.SizeTy (A.TyWidth : Int), Operand.constInt Ty.SizeTy (o : Int)))
          Args offs
      ∧ (∀ i, i < Args.length →
          (Args.map VarDecl.TyAlign).getD i 1 ∣ offs.getD i 0
          ∧ (if i = 0 then 0
              else offs.getD (i - 1) 0 + (Args.map VarDecl.TyWidth).getD (i - 1) 0) ≤
              offs.getD i 0
          ∧ ∀ m, (Args.map VarDecl.TyAlign).getD i 1 ∣ m →
              (if i = 0 then 0
                else offs.getD (i - 1) 0 + (Args.map VarDecl.TyWidth).getD (i - 1) 0) ≤ m →
              offs.getD i 0 ≤ m)
      ∧ (∀ i j, i ≤ j → j < Args.length → offs.getD i 0 ≤ offs.getD j 0)
      ∧ (∀ i j, i < j → j < Args.length →
          offs.getD i 0 + (Args.map VarDecl.TyWidth).getD i 0 ≤ offs.getD j 0) := by
  have hne : Operand.runtimeFn (addPrefixToName CGM "SetupArgument") ≠
      Operand.runtimeFn (if CGM.LangOpts.HIP = true then "hipLaunchByPtr" else "cudaLaunch") := by
    by_cases h : CGM.LangOpts.HIP = true <;> simp [addPrefixToName, h]
  refine ⟨legacyOffsets Args 0, legacyOffsets_length Args 0, ?_,
    legacyOffsets_least Args 0 hA, ?_, legacyOffsets_disjoint Args 0 hA⟩
  · rw [emitDeviceStubBodyLegacy_blocks]
    exact sizesAndOffsets_loop _ _ _ _ hne Args 0 entryLabel 0
  · intro i j hij hj
    rcases Nat.lt_or_eq_of_le hij with h | h
    · have := legacyOffsets_disjoint Args 0 hA i j h hj
      omega
    · subst h; exact le_refl _

/-- Witness: the arguments `(int, double, char)`. -/
theorem legacy_stub_offsets_witness :
    (∀ A ∈ sampleArgs, 1 ≤ A.TyAlign)
    ∧ ∃ offs : List Nat, offs.length = sampleArgs.length
      ∧ sizesAndOffsets (Operand.runtimeFn (addPrefixToName sampleCUDA "SetupArgument"))
          (emitDeviceStubBodyLegacy sampleCUDA sampleState sampleCGF sampleArgs).2.Blocks =
        List.zipWith (fun (A : VarDecl) (o : Nat) =>
            (Operand.constInt Ty.SizeTy (A.TyWidth : Int), Operand.constInt Ty.SizeTy (o : Int)))
          sampleArgs offs := by
  refine ⟨by decide, ?_⟩
  obtain ⟨offs, h1, h2, -⟩ := legacy_stub_offsets sampleCUDA sampleState sampleCGF
    sampleArgs (by decide)
  exact ⟨offs, h1, h2⟩

/-! ## C9: the argument array of the new-ABI stub -/

theorem storeKernelArgs_getElem? (K : Operand) (Args : List VarDecl) :
    ∀ (s j : Nat), (storeKernelArgs K Args s)[j]? =
      (Args[j]?).map (fun A =>
        Inst.store (Operand.cast (Operand.localVar A.Name) Ty.VoidPtrTy)
          (Operand.gep K (s + j))) := by
  induction Args with
  | nil => intro s j; simp [storeKernelArgs]
  | cons A rest ih =>
    intro s j
    cases j with
    | zero => simp [storeKernelArgs]
    | succ j =>
      simp only [storeKernelArgs, List.getElem?_cons_succ, ih]
      congr 1
      funext B
      congr 2
      omega

theorem storeKernelArgs_length (K : Operand) (Args : List VarDecl) :
    ∀ s, (storeKernelArgs K Args s).length = Args.length := by
  induction Args with
  | nil => intro s; rfl
  | cons A rest ih => intro s; simp [storeKernelArgs, ih]

theorem storeKernelArgs_filter (K : Operand) (Args : List VarDecl) :
    ∀ s, (storeKernelArgs K Args s).filter
      (fun I => match I with
        | Inst.store _ _ => true
        | _ => false) = storeKernelArgs K Args s := by
  induction Args with
  | nil => intro s; rfl
  | cons A rest ih => intro s; simp [storeKernelArgs, ih]

/-- The stores of the new-ABI stub are exactly those of its store loop, whether
or not the declaration of `cudaLaunchKernel` is found. -/
theorem emitDeviceStubBodyNew_stores (CGM : CodeGenModule) (S : CGNVCUDARuntime)
    (CGF : CodeGenFunction) (Args : List VarDecl) :
    storeInsts (emitDeviceStubBodyNew CGM S CGF Args).2.Blocks =
      storeKernelArgs (Operand.temp "kernel_args") Args 0 := by
  unfold emitDeviceStubBodyNew
  dsimp only
  split
  · simp [storeInsts, storeKernelArgs_filter]
  · simp [storeInsts, storeKernelArgs_filter]

/-- C9: for every argument list of length `n`, the new-ABI stub allocates the
array `kernel_args` with `max 1 n` elements of type `VoidPtrTy`, which is never
zero and is 1 when `n = 0`, and contains exactly `n` store instructions, the
`i`-th storing the address of the `i`-th argument, cast to `VoidPtrTy`, into
element `i` of the array; every stored-to index is below the array size. -/
theorem new_stub_kernel_args (CGM : CodeGenModule) (S : CGNVCUDARuntime)
    (CGF : CodeGenFunction) (Args : List VarDecl) :
    (emitDeviceStubBodyNew CGM S CGF Args).2.Allocas.head? =
        some ⟨"kernel_args", Ty.VoidPtrTy, 16,
          some (Operand.constInt Ty.SizeTy ((max 1 Args.length : Nat) : Int))⟩
    ∧ 0 < max 1 Args.length
    ∧ (Args.length = 0 → max 1 Args.length = 1)
    ∧ (storeInsts (emitDeviceStubBodyNew CGM S CGF Args).2.Blocks).length = Args.length
    ∧ (∀ i : Nat, (storeInsts (emitDeviceStubBodyNew CGM S CGF Args).2.Blocks)[i]? =
        (Args[i]?).map (fun A =>
          Inst.store (Operand.cast (Operand.localVar A.Name) Ty.VoidPtrTy)
            (Operand.gep (Operand.temp "kernel_args") i)))
    ∧ (∀ (v b : Operand) (i : Nat),
        Inst.store v (Operand.gep b i) ∈
          storeInsts (emitDeviceStubBodyNew CGM S CGF Args).2.Blocks →
        b = Operand.temp "kernel_args" ∧ i < max 1 Args.length) := by
  refine ⟨?_, by omega, by intro h; omega, ?_, ?_, ?_⟩
  · unfold emitDeviceStubBodyNew
    dsimp only
    split <;> rfl
  · rw [emitDeviceStubBodyNew_stores, storeKernelArgs_length]
  · intro i
    rw [emitDeviceStubBodyNew_stores, storeKernelArgs_getElem?]
    simp
  · intro v b i h
    rw [emitDeviceStubBodyNew_stores] at h
    obtain ⟨j, hj⟩ := List.getElem?_of_mem h
    rw [storeKernelArgs_getElem?] at hj
    cases hA : Args[j]? with
    | none => rw [hA] at hj; simp at hj
    | some A =>
      rw [hA] at hj
      simp only [Option.map_some', Option.some.injEq, Inst.store.injEq, Operand.gep.injEq] at hj
      have hlt : j < Args.length := by
        by_contra hge
        rw [List.getElem?_eq_none (by omega)] at hA
        cases hA
      exact ⟨hj.2.1.symm, by omega⟩

/-! ## C10: the new-ABI stub and the lookup of `cudaLaunchKernel` -/

/-! Diagnostics are only ever appended: running a generator from a state with
other diagnostics changes nothing but the diagnostics of the resulting state. -/

theorem emitFatBinStr_diags (CGM : CodeGenModule) (S : CGNVCUDARuntime) (Bin : Option String)
    (D : List Diagnostic) :
    emitFatBinStr CGM { S with Diags := D } Bin =
      ({ (emitFatBinStr CGM S Bin).1 with Diags := D }, (emitFatBinStr CGM S Bin).2) := by
  unfold emitFatBinStr
  split <;> split <;> rfl

theorem emitCtorBranch_diags (CGM : CodeGenModule) (S : CGNVCUDARuntime)
    (RG : Option Operand) (Bin : Option String) (W : GlobalVariable) (D : List Diagnostic) :
    emitCtorBranch CGM { S with Diags := D } RG Bin W =
      ({ (emitCtorBranch CGM S RG Bin W).1 with Diags := D },
       (emitCtorBranch CGM S RG Bin W).2) := by
  unfold emitCtorBranch
  dsimp only
  split
  · rfl
  · split
    · unfold emitCtorCUDA
      dsimp only
      split <;> rfl
    · unfold emitCtorRDC makeDummyFunction
      dsimp only
      split <;> split <;> rfl

theorem emitCtorTail_diags (CGM : CodeGenModule) (S : CGNVCUDARuntime) (D : List Diagnostic) :
    emitCtorTail CGM { S with Diags := D } =
      ({ (emitCtorTail CGM S).1 with Diags := D }, (emitCtorTail CGM S).2) := by
  obtain h | ⟨H, h⟩ : S.GpuBinaryHandle = none ∨ ∃ H, S.GpuBinaryHandle = some H := by
    cases S.GpuBinaryHandle <;> simp
  · rw [emitCtorTail_none CGM S h, emitCtorTail_none CGM { S with Diags := D } h]
  · unfold emitCtorTail makeModuleDtorFunction
    simp only [h]
    rfl

theorem emitModuleCtor_diags (CGM : CodeGenModule) (S : CGNVCUDARuntime)
    (RG : Option Operand) (Bin : Option String) (D : List Diagnostic) :
    emitModuleCtor CGM { S with Diags := D } RG Bin =
      ({ (emitModuleCtor CGM S RG Bin).1 with Diags := D }, (emitModuleCtor CGM S RG Bin).2) := by
  unfold emitModuleCtor
  dsimp only
  have h1 := emitFatBinStr_diags CGM
    { S with TheModule := (S.TheModule.createFunction ⟨Ty.VoidTy, [Ty.VoidPtrTy]⟩
        Linkage.InternalLinkage (addUnderscoredPrefixToName CGM "_module_ctor")).1 } Bin D
  dsimp only at h1
  rw [h1]
  generalize emitFatBinStr CGM _ Bin = P
  dsimp only [CGNVCUDARuntime.onModule]
  have h2 := emitCtorBranch_diags CGM
    { P.1 with TheModule := P.1.TheModule.addGlobal (makeFatbinWrapper CGM P.2) } RG Bin
    (makeFatbinWrapper CGM P.2) D
  dsimp only at h2
  rw [h2]
  generalize emitCtorBranch CGM _ RG Bin _ = B
  dsimp only
  have h3 := emitCtorTail_diags CGM B.1 D
  dsimp only at h3
  rw [h3]

theorem emitRegisterFunctionCalls_snd (CGM : CodeGenModule) (f h : Operand)
    (Ks : List KernelInfo) (M : Module) :
    (emitRegisterFunctionCalls CGM f h Ks M).2 =
      Ks.map (fun I => Inst.call none f
        [h, Operand.cast I.Kernel Ty.VoidPtrTy,
         Operand.cstring (getDeviceSideName CGM I.D),
         Operand.cstring (getDeviceSideName CGM I.D),
         Operand.constInt Ty.IntTy (-1), Operand.null Ty.VoidPtrTy,
         Operand.null Ty.VoidPtrTy, Operand.null Ty.VoidPtrTy, Operand.null Ty.VoidPtrTy,
         Operand.null (Ty.ptrTo Ty.IntTy)]) := by
  induction Ks generalizing M with
  | nil => rfl
  | cons I rest ih =>
    simp only [emitRegisterFunctionCalls, List.map_cons]
    rw [ih]
    simp

theorem emitRegisterVarCalls_snd (CGM : CodeGenModule) (f h : Operand)
    (Vs : List VarInfo) (M : Module) :
    (emitRegisterVarCalls CGM f h Vs M).2 =
      Vs.map (fun Info => Inst.call none f
        [h, Operand.cast (Operand.global Info.Var.Name) Ty.VoidPtrTy,
         Operand.cstring (getDeviceSideName CGM Info.D),
         Operand.cstring (getDeviceSideName CGM Info.D),
         Operand.constInt Ty.IntTy (if Info.Flag &&& CGM.ExternDeviceVar ≠ 0 then 1 else 0),
         Operand.constInt Ty.IntTy Info.Var.AllocSize,
         Operand.constInt Ty.IntTy (if Info.Flag &&& CGM.ConstantDeviceVar ≠ 0 then 1 else 0),
         Operand.constInt Ty.IntTy 0]) := by
  induction Vs generalizing M with
  | nil => rfl
  | cons I rest ih =>
    simp only [emitRegisterVarCalls, List.map_cons]
    rw [ih]
    simp

/-- The function `makeRegisterGlobalsFn` builds when a list is non-empty: its
name, linkage, type and body. -/
theorem makeRegisterGlobalsFn_function (CGM : CodeGenModule) (S : CGNVCUDARuntime)
    (hE : (S.EmittedKernels.isEmpty && S.DeviceVars.isEmpty) = false) :
    (makeRegisterGlobalsFn CGM S).2 =
        some (Operand.func (addUnderscoredPrefixToName CGM "_register_globals")
          S.TheModule.Functions.length)
    ∧ (makeRegisterGlobalsFn CGM S).1.TheModule.Functions =
      S.TheModule.Functions ++
        [⟨addUnderscoredPrefixToName CGM "_register_globals", Linkage.InternalLinkage,
          getRegisterGlobalsFnTy,
          [⟨⟨"entry", 0⟩,
            S.EmittedKernels.map (fun I => Inst.call none
              (Operand.runtimeFn (addUnderscoredPrefixToName CGM "RegisterFunction"))
              [Operand.arg 0, Operand.cast I.Kernel Ty.VoidPtrTy,
               Operand.cstring (getDeviceSideName CGM I.D),
               Operand.cstring (getDeviceSideName CGM I.D),
               Operand.constInt Ty.IntTy (-1), Operand.null Ty.VoidPtrTy,
               Operand.null Ty.VoidPtrTy, Operand.null Ty.VoidPtrTy,
               Operand.null Ty.VoidPtrTy, Operand.null (Ty.ptrTo Ty.IntTy)])
            ++ S.DeviceVars.map (fun Info => Inst.call none
              (Operand.runtimeFn (addUnderscoredPrefixToName CGM "RegisterVar"))
              [Operand.arg 0, Operand.cast (Operand.global Info.Var.Name) Ty.VoidPtrTy,
               Operand.cstring (getDeviceSideName CGM Info.D),
               Operand.cstring (getDeviceSideName CGM Info.D),
               Operand.constInt Ty.IntTy
                 (if Info.Flag &&& CGM.ExternDeviceVar ≠ 0 then 1 else 0),
               Operand.constInt Ty.IntTy Info.Var.AllocSize,
               Operand.constInt Ty.IntTy
                 (if Info.Flag &&& CGM.ConstantDeviceVar ≠ 0 then 1 else 0),
               Operand.constInt Ty.IntTy 0])
            ++ [Inst.retVoid]⟩]⟩] := by
  refine ⟨by rw [makeRegisterGlobalsFn_snd, hE]; rfl, ?_⟩
  unfold makeRegisterGlobalsFn
  simp only [hE, if_false, Module.setBody, Bool.false_eq_true]
  rw [emitRegisterVarCalls_Functions, CreateRuntimeFunction_Functions,
    emitRegisterFunctionCalls_Functions, CreateRuntimeFunction_Functions,
    emitRegisterVarCalls_snd, emitRegisterFunctionCalls_snd]
  simp only [Module.createFunction]
  exact setBlocksAt_append_length _ _ _ []

theorem lists_isEmpty_false (S : CGNVCUDARuntime)
    (h : ¬(S.EmittedKernels = [] ∧ S.DeviceVars = [])) :
    (S.EmittedKernels.isEmpty && S.DeviceVars.isEmpty) = false := by
  cases hK : S.EmittedKernels <;> cases hV : S.DeviceVars <;> simp_all

theorem makeRegisterGlobalsFn_blocks (CGM : CodeGenModule) (S : CGNVCUDARuntime)
    (hE : (S.EmittedKernels.isEmpty && S.DeviceVars.isEmpty) = false) :
    generatedBlocks (makeRegisterGlobalsFn CGM S) = some
      [⟨⟨"entry", 0⟩,
        S.EmittedKernels.map (fun I => Inst.call none
              (Operand.runtimeFn (addUnderscoredPrefixToName CGM "RegisterFunction"))
              [Operand.arg 0, Operand.cast I.Kernel Ty.VoidPtrTy,
               Operand.cstring (getDeviceSideName CGM I.D),
               Operand.cstring (getDeviceSideName CGM I.D),
               Operand.constInt Ty.IntTy (-1), Operand.null Ty.VoidPtrTy,
               Operand.null Ty.VoidPtrTy, Operand.null Ty.VoidPtrTy,
               Operand.null Ty.VoidPtrTy, Operand.null (Ty.ptrTo Ty.IntTy)])
        ++ S.DeviceVars.map (fun Info => Inst.call none
              (Operand.runtimeFn (addUnderscoredPrefixToName CGM "RegisterVar"))
              [Operand.arg 0, Operand.cast (Operand.global Info.Var.Name) Ty.VoidPtrTy,
               Operand.cstring (getDeviceSideName CGM Info.D),
               Operand.cstring (getDeviceSideName CGM Info.D),
               Operand.constInt Ty.IntTy
                 (if Info.Flag &&& CGM.ExternDeviceVar ≠ 0 then 1 else 0),
               Operand.constInt Ty.IntTy Info.Var.AllocSize,
               Operand.constInt Ty.IntTy
                 (if Info.Flag &&& CGM.ConstantDeviceVar ≠ 0 then 1 else 0),
               Operand.constInt Ty.IntTy 0])
        ++ [Inst.retVoid]⟩] := by
  obtain ⟨h1, h2⟩ := makeRegisterGlobalsFn_function CGM S hE
  unfold generatedBlocks
  rw [h1]
  simp only [Option.some_bind, Module.getFunction]
  rw [h2, getElem?_append_length]
  rfl

theorem and_two_pow_ne_zero (F i : Nat) : F &&& 2 ^ i ≠ 0 ↔ F.testBit i = true := by
  constructor
  · intro h
    obtain ⟨j, hj⟩ := Nat.ne_zero_implies_bit_true h
    rw [Nat.testBit_and, Nat.testBit_two_pow] at hj
    simp only [Bool.and_eq_true, decide_eq_true_eq] at hj
    obtain ⟨h1, h2⟩ := hj
    subst h2
    exact h1
  · intro h h0
    have h1 := Nat.testBit_and F (2 ^ i) i
    rw [h0] at h1
    simp [h] at h1

/-- C11: `makeRegisterGlobalsFn` returns null exactly when `EmittedKernels` and
`DeviceVars` are both empty, and then leaves the whole state, the module
included, as it was; in every other case it returns a function that the module
did not hold before and whose type takes exactly one parameter, the handle of
type `void **`. -/
theorem register_globals_none_iff (CGM : CodeGenModule) (S : CGNVCUDARuntime) :
    ((makeRegisterGlobalsFn CGM S).2 = none ↔ (S.EmittedKernels = [] ∧ S.DeviceVars = []))
    ∧ ((makeRegisterGlobalsFn CGM S).2 = none → (makeRegisterGlobalsFn CGM S).1 = S)
    ∧ (¬(S.EmittedKernels = [] ∧ S.DeviceVars = []) →
        ∃ F Fn, (makeRegisterGlobalsFn CGM S).2 = some F
          ∧ S.TheModule.getFunction F = none
          ∧ (makeRegisterGlobalsFn CGM S).1.TheModule.getFunction F = some Fn
          ∧ Fn.FnTy = ⟨Ty.VoidTy, [Ty.VoidPtrPtrTy]⟩
          ∧ Fn.FnTy.Params.length = 1) := by
  have hiff : (makeRegisterGlobalsFn CGM S).2 = none ↔
      (S.EmittedKernels = [] ∧ S.DeviceVars = []) := by
    rw [makeRegisterGlobalsFn_snd]
    cases hK : S.EmittedKernels <;> cases hV : S.DeviceVars <;> simp
  refine ⟨hiff, ?_, ?_⟩
  · intro h
    obtain ⟨hK, hV⟩ := hiff.1 h
    unfold makeRegisterGlobalsFn
    simp [hK, hV]
  · intro h
    obtain ⟨h1, h2⟩ := makeRegisterGlobalsFn_function CGM S (lists_isEmpty_false S h)
    obtain ⟨Fn, hFn, hTy⟩ : ∃ Fn, (makeRegisterGlobalsFn CGM S).1.TheModule.Functions =
        S.TheModule.Functions ++ [Fn] ∧ Fn.FnTy = getRegisterGlobalsFnTy := ⟨_, h2, rfl⟩
    have hget : (makeRegisterGlobalsFn CGM S).1.TheModule.getFunction
        (Operand.func (addUnderscoredPrefixToName CGM "_register_globals")
          S.TheModule.Functions.length) = some Fn := by
      simp only [Module.getFunction]
      rw [hFn, getElem?_append_length]
    have hnew : S.TheModule.getFunction
        (Operand.func (addUnderscoredPrefixToName CGM "_register_globals")
          S.TheModule.Functions.length) = none := by
      simp [Module.getFunction]
    exact ⟨_, Fn, h1, hnew, hget, hTy, by rw [hTy]; rfl⟩

/-- C12: with `k` kernels and `v` device variables recorded, `k + v > 0`, the
function built by `makeRegisterGlobalsFn` has the single block `entry` made of
one `RegisterFunction` call per entry of `EmittedKernels`, in list order and
without de-duplication, then one `RegisterVar` call per entry of `DeviceVars`, in
list order, then `ret void`. Each `RegisterFunction` call has the arguments
(handle parameter, kernel address, name, name, -1, null, null, null, null, null),
both names being the device-side name of the kernel declaration. So there are
exactly `k` and `v` such calls, and recording a kernel once more adds one more
call for it at the end of the kernel calls. -/
theorem register_globals_body (CGM : CodeGenModule) (S : CGNVCUDARuntime)
    (hkv : 0 < S.EmittedKernels.length + S.DeviceVars.length) :
    generatedBlocks (makeRegisterGlobalsFn CGM S) = some
      [⟨⟨"entry", 0⟩,
        S.EmittedKernels.map (fun I => Inst.call none
              (Operand.runtimeFn (addUnderscoredPrefixToName CGM "RegisterFunction"))
              [Operand.arg 0, Operand.cast I.Kernel Ty.VoidPtrTy,
               Operand.cstring (getDeviceSideName CGM I.D),
               Operand.cstring (getDeviceSideName CGM I.D),
               Operand.constInt Ty.IntTy (-1), Operand.null Ty.VoidPtrTy,
               Operand.null Ty.VoidPtrTy, Operand.null Ty.VoidPtrTy,
               Operand.null Ty.VoidPtrTy, Operand.null (Ty.ptrTo Ty.IntTy)])
        ++ S.DeviceVars.map (fun Info => Inst.call none
              (Operand.runtimeFn (addUnderscoredPrefixToName CGM "RegisterVar"))
              [Operand.arg 0, Operand.cast (Operand.global Info.Var.Name) Ty.VoidPtrTy,
               Operand.cstring (getDeviceSideName CGM Info.D),
               Operand.cstring (getDeviceSideName CGM Info.D),
               Operand.constInt Ty.IntTy
                 (if Info.Flag &&& CGM.ExternDeviceVar ≠ 0 then 1 else 0),
               Operand.constInt Ty.IntTy Info.Var.AllocSize,
               Operand.constInt Ty.IntTy
                 (if Info.Flag &&& CGM.ConstantDeviceVar ≠ 0 then 1 else 0),
               Operand.constInt Ty.IntTy 0])
        ++ [Inst.retVoid]⟩]
    ∧ (S.EmittedKernels.map (fun I => Inst.call none
              (Operand.runtimeFn (addUnderscoredPrefixToName CGM "RegisterFunction"))
              [Operand.arg 0, Operand.cast I.Kernel Ty.VoidPtrTy,
               Operand.cstring (getDeviceSideName CGM I.D),
               Operand.cstring (getDeviceSideName CGM I.D),
               Operand.constInt Ty.IntTy (-1), Operand.null Ty.VoidPtrTy,
               Operand.null Ty.VoidPtrTy, Operand.null Ty.VoidPtrTy,
               Operand.null Ty.VoidPtrTy, Operand.null (Ty.ptrTo Ty.IntTy)])).length = S.EmittedKernels.length
    ∧ (S.DeviceVars.map (fun Info => Inst.call none
              (Operand.runtimeFn (addUnderscoredPrefixToName CGM "RegisterVar"))
              [Operand.arg 0, Operand.cast (Operand.global Info.Var.Name) Ty.VoidPtrTy,
               Operand.cstring (getDeviceSideName CGM Info.D),
               Operand.cstring (getDeviceSideName CGM Info.D),
               Operand.constInt Ty.IntTy
                 (if Info.Flag &&& CGM.ExternDeviceVar ≠ 0 then 1 else 0),
               Operand.constInt Ty.IntTy Info.Var.AllocSize,
               Operand.constInt Ty.IntTy
                 (if Info.Flag &&& CGM.ConstantDeviceVar ≠ 0 then 1 else 0),
               Operand.constInt Ty.IntTy 0])).length = S.DeviceVars.length
    ∧ (∀ I : KernelInfo,
        generatedBlocks (makeRegisterGlobalsFn CGM
          { S with EmittedKernels := S.EmittedKernels ++ [I] }) = some
        [⟨⟨"entry", 0⟩,
          (S.EmittedKernels.map (fun I => Inst.call none
              (Operand.runtimeFn (addUnderscoredPrefixToName CGM "RegisterFunction"))
              [Operand.arg 0, Operand.cast I.Kernel Ty.VoidPtrTy,
               Operand.cstring (getDeviceSideName CGM I.D),
               Operand.cstring (getDeviceSideName CGM I.D),
               Operand.constInt Ty.IntTy (-1), Operand.null Ty.VoidPtrTy,
               Operand.null Ty.VoidPtrTy, Operand.null Ty.VoidPtrTy,
               Operand.null Ty.VoidPtrTy, Operand.null (Ty.ptrTo Ty.IntTy)]) ++ [((fun I => Inst.call none
              (Operand.runtimeFn (addUnderscoredPrefixToName CGM "RegisterFunction"))
              [Operand.arg 0, Operand.cast I.Kernel Ty.VoidPtrTy,
               Operand.cstring (getDeviceSideName CGM I.D),
               Operand.cstring (getDeviceSideName CGM I.D),
               Operand.constInt Ty.IntTy (-1), Operand.null Ty.VoidPtrTy,
               Operand.null Ty.VoidPtrTy, Operand.null Ty.VoidPtrTy,
               Operand.null Ty.VoidPtrTy, Operand.null (Ty.ptrTo Ty.IntTy)])) I])
          ++ S.DeviceVars.map (fun Info => Inst.call none
              (Operand.runtimeFn (addUnderscoredPrefixToName CGM "RegisterVar"))
              [Operand.arg 0, Operand.cast (Operand.global Info.Var.Name) Ty.VoidPtrTy,
               Operand.cstring (getDeviceSideName CGM Info.D),
               Operand.cstring (getDeviceSideName CGM Info.D),
               Operand.constInt Ty.IntTy
                 (if Info.Flag &&& CGM.ExternDeviceVar ≠ 0 then 1 else 0),
               Operand.constInt Ty.IntTy Info.Var.AllocSize,
               Operand.constInt Ty.IntTy
                 (if Info.Flag &&& CGM.ConstantDeviceVar ≠ 0 then 1 else 0),
               Operand.constInt Ty.IntTy 0])
          ++ [Inst.retVoid]⟩]) := by
  have hE : (S.EmittedKernels.isEmpty && S.DeviceVars.isEmpty) = false := by
    apply lists_isEmpty_false
    rintro ⟨hK, hV⟩
    rw [hK, hV] at hkv
    exact absurd hkv (by decide)
  refine ⟨makeRegisterGlobalsFn_blocks CGM S hE, by simp, by simp, ?_⟩
  intro I
  have h := makeRegisterGlobalsFn_blocks CGM
    { S with EmittedKernels := S.EmittedKernels ++ [I] } (by simp)
  rw [h]
  simp

theorem register_globals_body_witness :
    0 < sampleVarState.EmittedKernels.length + sampleVarState.DeviceVars.length
    ∧ generatedBlocks (makeRegisterGlobalsFn sampleCUDA sampleVarState) = some
      [⟨⟨"entry", 0⟩,
        sampleVarState.EmittedKernels.map (fun I => Inst.call none
              (Operand.runtimeFn (addUnderscoredPrefixToName sampleCUDA "RegisterFunction"))
              [Operand.arg 0, Operand.cast I.Kernel Ty.VoidPtrTy,
               Operand.cstring (getDeviceSideName sampleCUDA I.D),
               Operand.cstring (getDeviceSideName sampleCUDA I.D),
               Operand.constInt Ty.IntTy (-1), Operand.null Ty.VoidPtrTy,
               Operand.null Ty.VoidPtrTy, Operand.null Ty.VoidPtrTy,
               Operand.null Ty.VoidPtrTy, Operand.null (Ty.ptrTo Ty.IntTy)])
        ++ sampleVarState.DeviceVars.map (fun Info => Inst.call none
              (Operand.runtimeFn (addUnderscoredPrefixToName sampleCUDA "RegisterVar"))
              [Operand.arg 0, Operand.cast (Operand.global Info.Var.Name) Ty.VoidPtrTy,
               Operand.cstring (getDeviceSideName sampleCUDA Info.D),
               Operand.cstring (getDeviceSideName sampleCUDA Info.D),
               Operand.constInt Ty.IntTy
                 (if Info.Flag &&& sampleCUDA.ExternDeviceVar ≠ 0 then 1 else 0),
               Operand.constInt Ty.IntTy Info.Var.AllocSize,
               Operand.constInt Ty.IntTy
                 (if Info.Flag &&& sampleCUDA.ConstantDeviceVar ≠ 0 then 1 else 0),
               Operand.constInt Ty.IntTy 0])
        ++ [Inst.retVoid]⟩] :=
  ⟨by decide, (register_globals_body sampleCUDA sampleVarState (by decide)).1⟩

theorem filter_map_of_forall_true {α β : Type} (p : β → Bool) (f : α → β)
    (h : ∀ x, p (f x) = true) (l : List α) : (l.map f).filter p = l.map f := by
  induction l with
  | nil => rfl
  | cons a r ih => simp [h a, ih]

theorem filter_map_of_forall_false {α β : Type} (p : β → Bool) (f : α → β)
    (h : ∀ x, p (f x) = false) (l : List α) : (l.map f).filter p = [] := by
  induction l with
  | nil => rfl
  | cons a r ih => simp [h a, ih]

theorem registerFunction_ne_registerVar (CGM : CodeGenModule) :
    addUnderscoredPrefixToName CGM "RegisterFunction" ≠
      addUnderscoredPrefixToName CGM "RegisterVar" := by
  unfold addUnderscoredPrefixToName
  split <;> decide

/-- The `RegisterVar` calls of the register-globals function are those of the
variable loop. -/
theorem makeRegisterGlobalsFn_var_calls (CGM : CodeGenModule) (S : CGNVCUDARuntime)
    (hE : (S.EmittedKernels.isEmpty && S.DeviceVars.isEmpty) = false) :
    ∃ Blocks, generatedBlocks (makeRegisterGlobalsFn CGM S) = some Blocks
      ∧ callInstsTo (Operand.runtimeFn (addUnderscoredPrefixToName CGM "RegisterVar")) Blocks =
          S.DeviceVars.map (fun Info => Inst.call none
              (Operand.runtimeFn (addUnderscoredPrefixToName CGM "RegisterVar"))
              [Operand.arg 0, Operand.cast (Operand.global Info.Var.Name) Ty.VoidPtrTy,
               Operand.cstring (getDeviceSideName CGM Info.D),
               Operand.cstring (getDeviceSideName CGM Info.D),
               Operand.constInt Ty.IntTy
                 (if Info.Flag &&& CGM.ExternDeviceVar ≠ 0 then 1 else 0),
               Operand.constInt Ty.IntTy Info.Var.AllocSize,
               Operand.constInt Ty.IntTy
                 (if Info.Flag &&& CGM.ConstantDeviceVar ≠ 0 then 1 else 0),
               Operand.constInt Ty.IntTy 0]) := by
  refine ⟨_, makeRegisterGlobalsFn_blocks CGM S hE, ?_⟩
  have hne := registerFunction_ne_registerVar CGM
  simp only [callInstsTo, List.map_cons, List.map_nil, List.flatten_cons, List.flatten_nil,
    List.append_nil, List.filter_append]
  rw [filter_map_of_forall_false _ _ (by intro I; simp [hne]),
    filter_map_of_forall_true _ _ (by intro I; simp)]
  simp

/-- C13: with the extern flag being bit `i` and the constant flag bit `j` of the
flag word, the `RegisterVar` calls of the register-globals function are, one per
entry of `DeviceVars` and in list order, calls with the arguments (handle
parameter, variable address, name, name, e, size, c, 0), where `e` is 1 when bit
`i` of the flag word of the entry is set and 0 otherwise, and `c` is 1 when bit
`j` is set and 0 otherwise; the value the code computes for `e` (for `c`) is the
same for two flag words that agree on bit `i` (on bit `j`), whatever their other
bits. -/
theorem register_var_flags (CGM : CodeGenModule) (S : CGNVCUDARuntime) (i j : Nat)
    (hV : S.DeviceVars ≠ [])
    (hExt : CGM.ExternDeviceVar = 2 ^ i) (hConst : CGM.ConstantDeviceVar = 2 ^ j) :
    (∃ Blocks, generatedBlocks (makeRegisterGlobalsFn CGM S) = some Blocks
      ∧ callInstsTo (Operand.runtimeFn (addUnderscoredPrefixToName CGM "RegisterVar")) Blocks =
          S.DeviceVars.map (fun Info => Inst.call none
              (Operand.runtimeFn (addUnderscoredPrefixToName CGM "RegisterVar"))
              [Operand.arg 0, Operand.cast (Operand.global Info.Var.Name) Ty.VoidPtrTy,
               Operand.cstring (getDeviceSideName CGM Info.D),
               Operand.cstring (getDeviceSideName CGM Info.D),
               Operand.constInt Ty.IntTy (if Info.Flag.testBit i = true then 1 else 0),
               Operand.constInt Ty.IntTy Info.Var.AllocSize,
               Operand.constInt Ty.IntTy (if Info.Flag.testBit j = true then 1 else 0),
               Operand.constInt Ty.IntTy 0]))
    ∧ (∀ F G : Nat, F.testBit i = G.testBit i →
        (if F &&& CGM.ExternDeviceVar ≠ 0 then (1 : Int) else 0) =
          (if G &&& CGM.ExternDeviceVar ≠ 0 then 1 else 0))
    ∧ (∀ F G : Nat, F.testBit j = G.testBit j →
        (if F &&& CGM.ConstantDeviceVar ≠ 0 then (1 : Int) else 0) =
          (if G &&& CGM.ConstantDeviceVar ≠ 0 then 1 else 0)) := by
  have hE : (S.EmittedKernels.isEmpty && S.DeviceVars.isEmpty) = false :=
    lists_isEmpty_false S (fun h => hV h.2)
  refine ⟨?_, ?_, ?_⟩
  · obtain ⟨Blocks, h1, h2⟩ := makeRegisterGlobalsFn_var_calls CGM S hE
    refine ⟨Blocks, h1, ?_⟩
    rw [h2]
    simp only [hExt, hConst, and_two_pow_ne_zero]
  · intro F G h
    simp only [hExt, and_two_pow_ne_zero, h]
  · intro F G h
    simp only [hConst, and_two_pow_ne_zero, h]

theorem register_var_flags_witness :
    sampleVarState.DeviceVars ≠ []
    ∧ sampleCUDA.ExternDeviceVar = 2 ^ 0
    ∧ sampleCUDA.ConstantDeviceVar = 2 ^ 1
    ∧ ∃ Blocks, generatedBlocks (makeRegisterGlobalsFn sampleCUDA sampleVarState) = some Blocks
      ∧ callInstsTo (Operand.runtimeFn "__cudaRegisterVar") Blocks =
        [Inst.call none (Operand.runtimeFn "__cudaRegisterVar")
          [Operand.arg 0, Operand.cast (Operand.global "v") Ty.VoidPtrTy,
           Operand.cstring "v", Operand.cstring "v",
           Operand.constInt Ty.IntTy 1, Operand.constInt Ty.IntTy 4,
           Operand.constInt Ty.IntTy 1, Operand.constInt Ty.IntTy 0],
         Inst.call none (Operand.runtimeFn "__cudaRegisterVar")
          [Operand.arg 0, Operand.cast (Operand.global "w") Ty.VoidPtrTy,
           Operand.cstring "w", Operand.cstring "w",
           Operand.constInt Ty.IntTy 0, Operand.constInt Ty.IntTy 8,
           Operand.constInt Ty.IntTy 0, Operand.constInt Ty.IntTy 0]] :=
  ⟨by decide, rfl, rfl,
   (register_var_flags sampleCUDA sampleVarState 0 1 (by decide) rfl rfl).1⟩

/-! ## C14 to C17: the module constructor past its early returns -/

/-- Past the two early returns, `makeModuleCtorFunction` is
`makeRegisterGlobalsOrDummy`, the payload resolution, and `emitModuleCtor`. -/
theorem makeModuleCtorFunction_past (CGM : CodeGenModule) (S : CGNVCUDARuntime)
    (h1 : (CGM.CodeGenOpts.CudaGpuBinaryFileName.isEmpty && !CGM.LangOpts.HIP) = false)
    (h2 : ((CGM.LangOpts.HIP || (CGM.LangOpts.CUDA && !RelocatableDeviceCode CGM)) &&
      S.EmittedKernels.isEmpty && S.DeviceVars.isEmpty) = false) :
    makeModuleCtorFunction CGM S =
      (match resolveGpuBinary CGM (makeRegisterGlobalsOrDummy CGM S).1 with
       | (S4, BinaryResolution.abort) => (S4, none)
       | (S4, BinaryResolution.buffer CudaGpuBinary) =>
         emitModuleCtor CGM S4 (makeRegisterGlobalsOrDummy CGM S).2 CudaGpuBinary) := by
  unfold makeModuleCtorFunction makeRegisterGlobalsOrDummy
  simp only [h1, h2, Bool.false_eq_true, if_false]

/-- What `makeRegisterGlobalsOrDummy` yields when a kernel or a variable is
recorded: the register-globals function with its body, nothing else changed but
the runtime declarations and string constants of the module. -/
theorem makeRegisterGlobalsOrDummy_nonempty (CGM : CodeGenModule) (S : CGNVCUDARuntime)
    (hE : (S.EmittedKernels.isEmpty && S.DeviceVars.isEmpty) = false) :
    (makeRegisterGlobalsOrDummy CGM S).2 =
        some (Operand.func (addUnderscoredPrefixToName CGM "_register_globals")
          S.TheModule.Functions.length)
    ∧ (makeRegisterGlobalsOrDummy CGM S).1.TheModule.Functions =
        (makeRegisterGlobalsFn CGM S).1.TheModule.Functions := by
  unfold makeRegisterGlobalsOrDummy
  have h := (makeRegisterGlobalsFn_function CGM S hE).1
  generalize makeRegisterGlobalsFn CGM S = P at h ⊢
  dsimp only
  simp [h, CGNVCUDARuntime.onModule]

@[simp] theorem CreateRuntimeFunction_Globals (M : Module) (T : FunctionType) (n : String) :
    (M.CreateRuntimeFunction T n).Globals = M.Globals := by
  unfold Module.CreateRuntimeFunction; split <;> rfl

@[simp] theorem CreateRuntimeFunction_Aliases (M : Module) (T : FunctionType) (n : String) :
    (M.CreateRuntimeFunction T n).Aliases = M.Aliases := by
  unfold Module.CreateRuntimeFunction; split <;> rfl

@[simp] theorem makeConstantString_Globals (M : Module) (s n sec : String) (a : Nat) :
    (makeConstantString M s n sec a).1.Globals = M.Globals := by
  unfold makeConstantString Module.GetAddrOfConstantCString; dsimp only; split <;> rfl

@[simp] theorem makeConstantString_Aliases (M : Module) (s n sec : String) (a : Nat) :
    (makeConstantString M s n sec a).1.Aliases = M.Aliases := by
  unfold makeConstantString Module.GetAddrOfConstantCString; dsimp only; split <;> rfl

theorem emitRegisterFunctionCalls_Globals (CGM : CodeGenModule) (f h : Operand)
    (Ks : List KernelInfo) (M : Module) :
    (emitRegisterFunctionCalls CGM f h Ks M).1.Globals = M.Globals
    ∧ (emitRegisterFunctionCalls CGM f h Ks M).1.Aliases = M.Aliases := by
  induction Ks generalizing M with
  | nil => exact ⟨rfl, rfl⟩
  | cons I rest ih =>
    simp only [emitRegisterFunctionCalls]
    rw [(ih _).1, (ih _).2]
    simp

theorem emitRegisterVarCalls_Globals (CGM : CodeGenModule) (f h : Operand)
    (Vs : List VarInfo) (M : Module) :
    (emitRegisterVarCalls CGM f h Vs M).1.Globals = M.Globals
    ∧ (emitRegisterVarCalls CGM f h Vs M).1.Aliases = M.Aliases := by
  induction Vs generalizing M with
  | nil => exact ⟨rfl, rfl⟩
  | cons I rest ih =>
    simp only [emitRegisterVarCalls]
    rw [(ih _).1, (ih _).2]
    simp

/-- The function `makeRegisterGlobalsFn` touches nothing but the functions, the
runtime declarations and the string constants of the module. -/
theorem makeRegisterGlobalsFn_frame (CGM : CodeGenModule) (S : CGNVCUDARuntime) :
    (makeRegisterGlobalsFn CGM S).1.TheModule.Globals = S.TheModule.Globals
    ∧ (makeRegisterGlobalsFn CGM S).1.TheModule.Aliases = S.TheModule.Aliases
    ∧ (makeRegisterGlobalsFn CGM S).1.EmittedKernels = S.EmittedKernels
    ∧ (makeRegisterGlobalsFn CGM S).1.DeviceVars = S.DeviceVars
    ∧ (makeRegisterGlobalsFn CGM S).1.Diags = S.Diags
    ∧ (makeRegisterGlobalsFn CGM S).1.Faults = S.Faults := by
  unfold makeRegisterGlobalsFn
  by_cases hE : (S.EmittedKernels.isEmpty && S.DeviceVars.isEmpty) = true
  · simp [hE]
  · rw [if_neg hE]
    dsimp only [Module.setBody]
    refine ⟨?_, ?_, rfl, rfl, rfl, rfl⟩
    · rw [(emitRegisterVarCalls_Globals _ _ _ _ _).1, CreateRuntimeFunction_Globals,
        (emitRegisterFunctionCalls_Globals _ _ _ _ _).1, CreateRuntimeFunction_Globals]
      rfl
    · rw [(emitRegisterVarCalls_Globals _ _ _ _ _).2, CreateRuntimeFunction_Aliases,
        (emitRegisterFunctionCalls_Globals _ _ _ _ _).2, CreateRuntimeFunction_Aliases]
      rfl

theorem makeDummyFunction_frame (S : CGNVCUDARuntime) (T : FunctionType) :
    (makeDummyFunction S T).1.TheModule.Globals = S.TheModule.Globals
    ∧ (makeDummyFunction S T).1.TheModule.Aliases = S.TheModule.Aliases
    ∧ (makeDummyFunction S T).1.EmittedKernels = S.EmittedKernels
    ∧ (makeDummyFunction S T).1.DeviceVars = S.DeviceVars
    ∧ (makeDummyFunction S T).1.Diags = S.Diags
    ∧ (T.Ret = Ty.VoidTy → (makeDummyFunction S T).1.Faults = S.Faults) := by
  unfold makeDummyFunction
  dsimp only
  split
  · exact ⟨rfl, rfl, rfl, rfl, rfl, fun _ => rfl⟩
  · rename_i h
    exact ⟨rfl, rfl, rfl, rfl, rfl, fun h2 => absurd h2 h⟩

/-- The step `makeRegisterGlobalsOrDummy` touches nothing but the functions, the
runtime declarations and the string constants of the module. -/
theorem makeRegisterGlobalsOrDummy_frame (CGM : CodeGenModule) (S : CGNVCUDARuntime) :
    (makeRegisterGlobalsOrDummy CGM S).1.TheModule.Globals = S.TheModule.Globals
    ∧ (makeRegisterGlobalsOrDummy CGM S).1.TheModule.Aliases = S.TheModule.Aliases
    ∧ (makeRegisterGlobalsOrDummy CGM S).1.EmittedKernels = S.EmittedKernels
    ∧ (makeRegisterGlobalsOrDummy CGM S).1.DeviceVars = S.DeviceVars
    ∧ (makeRegisterGlobalsOrDummy CGM S).1.Diags = S.Diags
    ∧ (makeRegisterGlobalsOrDummy CGM S).1.Faults = S.Faults
    ∧ (makeRegisterGlobalsOrDummy CGM S).1.GpuBinaryHandle = S.GpuBinaryHandle := by
  unfold makeRegisterGlobalsOrDummy
  obtain ⟨g1, g2, g3, g4, g5, g6⟩ := makeRegisterGlobalsFn_frame CGM S
  have g7 := makeRegisterGlobalsFn_handle CGM S
  generalize makeRegisterGlobalsFn CGM S = P at g1 g2 g3 g4 g5 g6 g7 ⊢
  obtain ⟨d1, d2, d3, d4, d5, d6⟩ := makeDummyFunction_frame P.1 getRegisterGlobalsFnTy
  have d7 := makeDummyFunction_handle P.1 getRegisterGlobalsFnTy
  dsimp only
  by_cases hc : (RelocatableDeviceCode CGM && P.2.isNone) = true
  · simp only [if_pos hc, CGNVCUDARuntime.onModule, CreateRuntimeFunction_Globals,
      CreateRuntimeFunction_Aliases]
    exact ⟨d1.trans g1, d2.trans g2, d3.trans g3, d4.trans g4, d5.trans g5,
      (d6 rfl).trans g6, d7.trans g7⟩
  · simp only [if_neg hc, CGNVCUDARuntime.onModule, CreateRuntimeFunction_Globals,
      CreateRuntimeFunction_Aliases]
    exact ⟨g1, g2, g3, g4, g5, g6, g7⟩

theorem makeRegisterGlobalsFn_empty (CGM : CodeGenModule) (S : CGNVCUDARuntime)
    (hE : (S.EmittedKernels.isEmpty && S.DeviceVars.isEmpty) = true) :
    makeRegisterGlobalsFn CGM S = (S, none) := by
  unfold makeRegisterGlobalsFn
  rw [if_pos hE]

theorem makeRegisterGlobalsOrDummy_snd (CGM : CodeGenModule) (S : CGNVCUDARuntime) :
    (makeRegisterGlobalsOrDummy CGM S).2 =
      if (S.EmittedKernels.isEmpty && S.DeviceVars.isEmpty) = true then
        (if RelocatableDeviceCode CGM = true then
          some (Operand.func "dummy" S.TheModule.Functions.length)
         else none)
      else some (Operand.func (addUnderscoredPrefixToName CGM "_register_globals")
        S.TheModule.Functions.length) := by
  unfold makeRegisterGlobalsOrDummy
  by_cases hE : (S.EmittedKernels.isEmpty && S.DeviceVars.isEmpty) = true
  · rw [makeRegisterGlobalsFn_empty CGM S hE, if_pos hE]
    by_cases hR : RelocatableDeviceCode CGM = true
    · simp [hR, makeDummyFunction_snd]
    · simp [hR]
  · rw [if_neg hE]
    have h := (makeRegisterGlobalsFn_function CGM S (by simpa using hE)).1
    generalize makeRegisterGlobalsFn CGM S = P at h ⊢
    simp [h]

theorem makeRegisterGlobalsOrDummy_Functions (CGM : CodeGenModule) (S : CGNVCUDARuntime) :
    (makeRegisterGlobalsOrDummy CGM S).1.TheModule.Functions =
      if (S.EmittedKernels.isEmpty && S.DeviceVars.isEmpty) = true then
        S.TheModule.Functions ++
          (if RelocatableDeviceCode CGM = true then
            [⟨"dummy", Linkage.InternalLinkage, getRegisterGlobalsFnTy,
              [⟨⟨"", 0⟩, [Inst.retVoid]⟩]⟩]
           else [])
      else (makeRegisterGlobalsFn CGM S).1.TheModule.Functions := by
  unfold makeRegisterGlobalsOrDummy
  by_cases hE : (S.EmittedKernels.isEmpty && S.DeviceVars.isEmpty) = true
  · rw [makeRegisterGlobalsFn_empty CGM S hE, if_pos hE]
    by_cases hR : RelocatableDeviceCode CGM = true
    · simp [hR, CGNVCUDARuntime.onModule, makeDummyFunction_fst_Functions]
    · simp [hR, CGNVCUDARuntime.onModule]
  · rw [if_neg hE]
    have h := (makeRegisterGlobalsFn_function CGM S (by simpa using hE)).1
    generalize makeRegisterGlobalsFn CGM S = P at h ⊢
    simp [h, CGNVCUDARuntime.onModule]

theorem emitFatBinStr_snd (CGM : CodeGenModule) (S : CGNVCUDARuntime) (Bin : Option String) :
    (emitFatBinStr CGM S Bin).2 = payloadOperand CGM Bin := by
  unfold emitFatBinStr payloadOperand
  split <;> split <;> simp_all

theorem emitFatBinStr_Globals (CGM : CodeGenModule) (S : CGNVCUDARuntime)
    (Bin : Option String) :
    (emitFatBinStr CGM S Bin).1.TheModule.Globals =
        S.TheModule.Globals ++
          (if CGM.LangOpts.HIP = true ∧ Bin = none then [hipFatbinSymbol CGM] else [])
    ∧ (emitFatBinStr CGM S Bin).1.TheModule.Aliases = S.TheModule.Aliases := by
  unfold emitFatBinStr hipFatbinSymbol
  split <;> split <;> simp_all [CGNVCUDARuntime.onModule, Module.addGlobal]

theorem emitCtorHIP_Globals (CGM : CodeGenModule) (S : CGNVCUDARuntime) (RG : Option Operand)
    (Bin : Option String) (f w : Operand) :
    (emitCtorHIP CGM S RG Bin f w).1.TheModule.Globals =
        S.TheModule.Globals ++ [hipHandleVar CGM Bin]
    ∧ (emitCtorHIP CGM S RG Bin f w).1.TheModule.Aliases = S.TheModule.Aliases := by
  unfold emitCtorHIP hipHandleVar
  cases Bin <;> simp [Module.addGlobal]

theorem emitCtorCUDA_Globals (CGM : CodeGenModule) (S : CGNVCUDARuntime) (RG : Option Operand)
    (f w : Operand) :
    (emitCtorCUDA CGM S RG f w).1.TheModule.Globals =
        S.TheModule.Globals ++ [cudaHandleVar CGM]
    ∧ (emitCtorCUDA CGM S RG f w).1.TheModule.Aliases = S.TheModule.Aliases := by
  unfold emitCtorCUDA cudaHandleVar
  dsimp only
  split <;> simp [Module.addGlobal, CGNVCUDARuntime.onModule]

theorem emitCtorRDC_Globals (CGM : CodeGenModule) (S : CGNVCUDARuntime) (RG : Option Operand)
    (W : GlobalVariable) (sec tag : String) :
    (emitCtorRDC CGM S RG W sec tag).1.TheModule.Globals = S.TheModule.Globals
    ∧ (emitCtorRDC CGM S RG W sec tag).1.TheModule.Aliases =
        S.TheModule.Aliases ++
          [⟨Linkage.ExternalLinkage,
            "__fatbinwrap" ++ (tag ++ formatHex (getGUID CGM W)), W.Name⟩] := by
  unfold emitCtorRDC
  dsimp only
  rw [(makeDummyFunction_frame _ _).1, (makeDummyFunction_frame _ _).2.1]
  split <;> simp

theorem emitCtorBranch_Globals (CGM : CodeGenModule) (S : CGNVCUDARuntime)
    (RG : Option Operand) (Bin : Option String) (W : GlobalVariable) :
    (emitCtorBranch CGM S RG Bin W).1.TheModule.Globals =
      S.TheModule.Globals ++
        (if CGM.LangOpts.HIP = true then [hipHandleVar CGM Bin]
         else if RelocatableDeviceCode CGM = false then [cudaHandleVar CGM]
         else []) := by
  unfold emitCtorBranch
  dsimp only
  by_cases hH : CGM.LangOpts.HIP = true
  · simp [hH, (emitCtorHIP_Globals CGM S RG Bin _ _).1]
  · by_cases hR : RelocatableDeviceCode CGM = true
    · simp [hH, hR, (emitCtorRDC_Globals CGM S RG W _ _).1]
    · simp [hH, hR, (emitCtorCUDA_Globals CGM S RG _ _).1]

theorem makeModuleDtorFunction_Globals (CGM : CodeGenModule) (S : CGNVCUDARuntime) :
    (makeModuleDtorFunction CGM S).1.TheModule.Globals = S.TheModule.Globals
    ∧ (makeModuleDtorFunction CGM S).1.TheModule.Aliases = S.TheModule.Aliases := by
  unfold makeModuleDtorFunction
  split
  · exact ⟨rfl, rfl⟩
  · simp [Module.createFunction, Module.setBody]

theorem emitCtorTail_Globals (CGM : CodeGenModule) (S : CGNVCUDARuntime) :
    (emitCtorTail CGM S).1.TheModule.Globals = S.TheModule.Globals
    ∧ (emitCtorTail CGM S).1.TheModule.Aliases = S.TheModule.Aliases := by
  unfold emitCtorTail
  obtain ⟨h1, h2⟩ := makeModuleDtorFunction_Globals CGM S
  generalize makeModuleDtorFunction CGM S = P at h1 h2 ⊢
  rcases P with ⟨P1, _ | F⟩
  · exact ⟨h1, h2⟩
  · dsimp only [CGNVCUDARuntime.onModule] at h1 h2 ⊢
    rw [CreateRuntimeFunction_Globals, CreateRuntimeFunction_Aliases]
    exact ⟨h1, h2⟩

/-- The global variables `emitModuleCtor` adds: the symbol `__hip_fatbin` for HIP
without a buffer, the wrapper, and the handle variable of the family. -/
theorem emitModuleCtor_Globals (CGM : CodeGenModule) (S : CGNVCUDARuntime)
    (RG : Option Operand) (Bin : Option String) :
    (emitModuleCtor CGM S RG Bin).1.TheModule.Globals =
      S.TheModule.Globals ++
        (if CGM.LangOpts.HIP = true ∧ Bin = none then [hipFatbinSymbol CGM] else []) ++
        [makeFatbinWrapper CGM (payloadOperand CGM Bin)] ++
        (if CGM.LangOpts.HIP = true then [hipHandleVar CGM Bin]
         else if RelocatableDeviceCode CGM = false then [cudaHandleVar CGM]
         else []) := by
  unfold emitModuleCtor
  dsimp only
  rw [emitFatBinStr_snd]
  have hF := (emitFatBinStr_Globals CGM { S with TheModule := (S.TheModule.createFunction
    ⟨Ty.VoidTy, [Ty.VoidPtrTy]⟩ Linkage.InternalLinkage
    (addUnderscoredPrefixToName CGM "_module_ctor")).1 } Bin).1
  generalize emitFatBinStr CGM _ Bin = P at hF ⊢
  dsimp only [CGNVCUDARuntime.onModule, Module.setBody]
  rw [(emitCtorTail_Globals CGM _).1, emitCtorBranch_Globals]
  dsimp only [Module.addGlobal]
  rw [hF]
  rfl

theorem resolveGpuBinary_file (CGM : CodeGenModule) (S : CGNVCUDARuntime) (Buf : String)
    (hJIT : CGM.LangOpts.isInJIT = false)
    (hFile : CGM.CodeGenOpts.CudaGpuBinaryFileName ≠ "")
    (hRead : CGM.getFileOrSTDIN CGM.CodeGenOpts.CudaGpuBinaryFileName = Except.ok Buf) :
    resolveGpuBinary CGM S = (S, BinaryResolution.buffer (some Buf)) := by
  unfold resolveGpuBinary
  simp [hJIT, isEmpty_eq_false_of_ne _ hFile, hRead]

theorem emitCtorBranch_cuda (CGM : CodeGenModule) (S : CGNVCUDARuntime)
    (RG : Option Operand) (Bin : Option String) (W : GlobalVariable)
    (hHIP : CGM.LangOpts.HIP = false) (hR : RelocatableDeviceCode CGM = false) :
    (emitCtorBranch CGM S RG Bin W).2 =
      { Closed := [], Cur := ⟨"entry", 0⟩,
        CurInsts :=
          [Inst.call (some ⟨"RegisterFatbinCall", 0⟩)
             (Operand.runtimeFn (addUnderscoredPrefixToName CGM "RegisterFatBinary"))
             [Operand.cast (Operand.global W.Name) Ty.VoidPtrTy],
           Inst.store (Operand.reg ⟨"RegisterFatbinCall", 0⟩)
             (Operand.global "__cuda_gpubin_handle")]
          ++ (match RG with
              | some F => [Inst.call none F [Operand.reg ⟨"RegisterFatbinCall", 0⟩]]
              | none => [])
          ++ (if CGM.CudaFeatureEnabled CudaFeature.CUDA_USES_FATBIN_REGISTER_END = true then
                [Inst.call none (Operand.runtimeFn "__cudaRegisterFatBinaryEnd")
                  [Operand.reg ⟨"RegisterFatbinCall", 0⟩]]
              else []) } := by
  unfold emitCtorBranch emitCtorCUDA
  simp [hHIP, hR]

theorem past_early_returns (CGM : CodeGenModule) (S : CGNVCUDARuntime)
    (hFile : CGM.CodeGenOpts.CudaGpuBinaryFileName ≠ "")
    (hE : (S.EmittedKernels.isEmpty && S.DeviceVars.isEmpty) = false) :
    (CGM.CodeGenOpts.CudaGpuBinaryFileName.isEmpty && !CGM.LangOpts.HIP) = false
    ∧ ((CGM.LangOpts.HIP || (CGM.LangOpts.CUDA && !RelocatableDeviceCode CGM)) &&
      S.EmittedKernels.isEmpty && S.DeviceVars.isEmpty) = false := by
  refine ⟨by simp [isEmpty_eq_false_of_ne _ hFile], ?_⟩
  rw [Bool.and_assoc, hE, Bool.and_false]

/-- Outside JIT mode, with a readable binary file of content `Buf` and a kernel
or a variable recorded, `makeModuleCtorFunction` is `emitModuleCtor` run after
`makeRegisterGlobalsOrDummy` with the register-globals function. -/
theorem ctor_from_file (CGM : CodeGenModule) (S : CGNVCUDARuntime) (Buf : String)
    (hJIT : CGM.LangOpts.isInJIT = false)
    (hFile : CGM.CodeGenOpts.CudaGpuBinaryFileName ≠ "")
    (hRead : CGM.getFileOrSTDIN CGM.CodeGenOpts.CudaGpuBinaryFileName = Except.ok Buf)
    (hE : (S.EmittedKernels.isEmpty && S.DeviceVars.isEmpty) = false) :
    makeModuleCtorFunction CGM S =
      emitModuleCtor CGM (makeRegisterGlobalsOrDummy CGM S).1
        (some (Operand.func (addUnderscoredPrefixToName CGM "_register_globals")
          S.TheModule.Functions.length)) (some Buf) := by
  obtain ⟨h1, h2⟩ := past_early_returns CGM S hFile hE
  rw [makeModuleCtorFunction_past CGM S h1 h2,
    resolveGpuBinary_file CGM _ Buf hJIT hFile hRead,
    (makeRegisterGlobalsOrDummy_nonempty CGM S hE).1]

/-- The functions `emitModuleCtor` adds for CUDA without relocatable device
code: the constructor and the destructor, with their bodies. -/
theorem emitModuleCtor_cuda (CGM : CodeGenModule) (S : CGNVCUDARuntime)
    (RG : Option Operand) (Bin : Option String)
    (hHIP : CGM.LangOpts.HIP = false) (hR : RelocatableDeviceCode CGM = false) :
    (emitModuleCtor CGM S RG Bin).1.TheModule.Functions =
      S.TheModule.Functions ++
        [⟨addUnderscoredPrefixToName CGM "_module_ctor", Linkage.InternalLinkage,
          ⟨Ty.VoidTy, [Ty.VoidPtrTy]⟩,
          [⟨⟨"entry", 0⟩,
            [Inst.call (some ⟨"RegisterFatbinCall", 0⟩)
               (Operand.runtimeFn (addUnderscoredPrefixToName CGM "RegisterFatBinary"))
               [Operand.cast (Operand.global (addUnderscoredPrefixToName CGM "_fatbin_wrapper"))
                 Ty.VoidPtrTy],
             Inst.store (Operand.reg ⟨"RegisterFatbinCall", 0⟩)
               (Operand.global "__cuda_gpubin_handle")]
            ++ (match RG with
                | some F => [Inst.call none F [Operand.reg ⟨"RegisterFatbinCall", 0⟩]]
                | none => [])
            ++ (if CGM.CudaFeatureEnabled CudaFeature.CUDA_USES_FATBIN_REGISTER_END = true then
                  [Inst.call none (Operand.runtimeFn "__cudaRegisterFatBinaryEnd")
                    [Operand.reg ⟨"RegisterFatbinCall", 0⟩]]
                else [])
            ++ [Inst.call none (Operand.runtimeFn "atexit")
                  [Operand.func (addUnderscoredPrefixToName CGM "_module_dtor")
                    (S.TheModule.Functions.length + 1)],
                Inst.retVoid]⟩]⟩,
         ⟨addUnderscoredPrefixToName CGM "_module_dtor", Linkage.InternalLinkage,
          ⟨Ty.VoidTy, [Ty.VoidPtrTy]⟩,
          [⟨⟨"entry", 0⟩,
            [Inst.load ⟨"HandleValue", 0⟩ (Operand.global "__cuda_gpubin_handle"),
             Inst.call none
               (Operand.runtimeFn (addUnderscoredPrefixToName CGM "UnregisterFatBinary"))
               [Operand.reg ⟨"HandleValue", 0⟩],
             Inst.retVoid]⟩]⟩] := by
  obtain ⟨S3, W, ⟨Str, hW⟩, -, hS3, -, -, -, hF⟩ := emitModuleCtor_steps CGM S RG Bin
  have hBh := emitCtorBranch_handle CGM S3 RG Bin W
  have hBF := emitCtorBranch_Functions CGM S3 RG Bin W
  have hB2 := emitCtorBranch_cuda CGM S3 RG Bin W hHIP hR
  simp only [hHIP, hR, Bool.false_eq_true, if_false, if_true, false_or, List.append_nil] at hBh hBF
  have hT := (emitCtorTail_some CGM _ _ hBh).1
  rw [hF, hBh, hT, hB2, hBF, hS3, hW]
  simp [hHIP, hR, CtorCode.finish, emitDtorBody, makeFatbinWrapper]

/-- C14: for CUDA without relocatable device code, outside JIT mode, with a
readable binary file and at least one kernel or variable recorded,
`makeModuleCtorFunction` returns the constructor and adds three functions to the
module: the register-globals function, the constructor and the destructor. The
constructor is one block whose calls are, in order, `RegisterFatBinary(wrapper)`
without any test, its result being stored to the internal-linkage variable
`__cuda_gpubin_handle`, then the register-globals function applied to that
result, then `__cudaRegisterFatBinaryEnd` applied to that result exactly when the
SDK enables `CUDA_USES_FATBIN_REGISTER_END`; they are followed only by the
registration of the destructor with `atexit` and `ret void`. The destructor is
one block: load of the handle, one `UnregisterFatBinary` call on it without any
test, `ret void`. -/
theorem cuda_ctor_sequence (CGM : CodeGenModule) (S : CGNVCUDARuntime) (Buf : String)
    (hHIP : CGM.LangOpts.HIP = false) (hR : RelocatableDeviceCode CGM = false)
    (hJIT : CGM.LangOpts.isInJIT = false)
    (hFile : CGM.CodeGenOpts.CudaGpuBinaryFileName ≠ "")
    (hRead : CGM.getFileOrSTDIN CGM.CodeGenOpts.CudaGpuBinaryFileName = Except.ok Buf)
    (hLists : ¬(S.EmittedKernels = [] ∧ S.DeviceVars = [])) :
    (makeModuleCtorFunction CGM S).2 =
        some (Operand.func (addUnderscoredPrefixToName CGM "_module_ctor")
          (S.TheModule.Functions.length + 1))
    ∧ (makeModuleCtorFunction CGM S).1.TheModule.Functions =
      S.TheModule.Functions ++
        [⟨addUnderscoredPrefixToName CGM "_register_globals", Linkage.InternalLinkage,
          ⟨Ty.VoidTy, [Ty.VoidPtrPtrTy]⟩,
          [⟨⟨"entry", 0⟩,
            S.EmittedKernels.map (fun I => Inst.call none
              (Operand.runtimeFn (addUnderscoredPrefixToName CGM "RegisterFunction"))
              [Operand.arg 0, Operand.cast I.Kernel Ty.VoidPtrTy,
               Operand.cstring (getDeviceSideName CGM I.D),
               Operand.cstring (getDeviceSideName CGM I.D),
               Operand.constInt Ty.IntTy (-1), Operand.null Ty.VoidPtrTy,
               Operand.null Ty.VoidPtrTy, Operand.null Ty.VoidPtrTy,
               Operand.null Ty.VoidPtrTy, Operand.null (Ty.ptrTo Ty.IntTy)])
            ++ S.DeviceVars.map (fun Info => Inst.call none
              (Operand.runtimeFn (addUnderscoredPrefixToName CGM "RegisterVar"))
              [Operand.arg 0, Operand.cast (Operand.global Info.Var.Name) Ty.VoidPtrTy,
               Operand.cstring (getDeviceSideName CGM Info.D),
               Operand.cstring (getDeviceSideName CGM Info.D),
               Operand.constInt Ty.IntTy
                 (if Info.Flag &&& CGM.ExternDeviceVar ≠ 0 then 1 else 0),
               Operand.constInt Ty.IntTy Info.Var.AllocSize,
               Operand.constInt Ty.IntTy
                 (if Info.Flag &&& CGM.ConstantDeviceVar ≠ 0 then 1 else 0),
               Operand.constInt Ty.IntTy 0])
            ++ [Inst.retVoid]⟩]⟩,
         ⟨addUnderscoredPrefixToName CGM "_module_ctor", Linkage.InternalLinkage,
          ⟨Ty.VoidTy, [Ty.VoidPtrTy]⟩,
          [⟨⟨"entry", 0⟩,
            [Inst.call (some ⟨"RegisterFatbinCall", 0⟩)
               (Operand.runtimeFn (addUnderscoredPrefixToName CGM "RegisterFatBinary"))
               [Operand.cast (Operand.global (addUnderscoredPrefixToName CGM "_fatbin_wrapper"))
                 Ty.VoidPtrTy],
             Inst.store (Operand.reg ⟨"RegisterFatbinCall", 0⟩)
               (Operand.global "__cuda_gpubin_handle"),
             Inst.call none
               (Operand.func (addUnderscoredPrefixToName CGM "_register_globals")
                 S.TheModule.Functions.length)
               [Operand.reg ⟨"RegisterFatbinCall", 0⟩]]
            ++ (if CGM.CudaFeatureEnabled CudaFeature.CUDA_USES_FATBIN_REGISTER_END = true then
                  [Inst.call none (Operand.runtimeFn "__cudaRegisterFatBinaryEnd")
                    [Operand.reg ⟨"RegisterFatbinCall", 0⟩]]
                else [])
            ++ [Inst.call none (Operand.runtimeFn "atexit")
                  [Operand.func (addUnderscoredPrefixToName CGM "_module_dtor")
                    (S.TheModule.Functions.length + 2)],
                Inst.retVoid]⟩]⟩,
         ⟨addUnderscoredPrefixToName CGM "_module_dtor", Linkage.InternalLinkage,
          ⟨Ty.VoidTy, [Ty.VoidPtrTy]⟩,
          [⟨⟨"entry", 0⟩,
            [Inst.load ⟨"HandleValue", 0⟩ (Operand.global "__cuda_gpubin_handle"),
             Inst.call none
               (Operand.runtimeFn (addUnderscoredPrefixToName CGM "UnregisterFatBinary"))
               [Operand.reg ⟨"HandleValue", 0⟩],
             Inst.retVoid]⟩]⟩]
    ∧ (makeModuleCtorFunction CGM S).1.TheModule.Globals =
      S.TheModule.Globals ++
        [makeFatbinWrapper CGM (Operand.cstring Buf),
         { Name := "__cuda_gpubin_handle", ValueType := Ty.VoidPtrPtrTy, isConstant := false,
           Linkage := Linkage.InternalLinkage,
           Initializer := some [Operand.null Ty.VoidPtrPtrTy],
           Section := "", Alignment := CGM.PointerAlign,
           Visibility := Visibility.DefaultVisibility }] := by
  have hE := lists_isEmpty_false S hLists
  rw [ctor_from_file CGM S Buf hJIT hFile hRead hE]
  have hP := (makeRegisterGlobalsOrDummy_nonempty CGM S hE).2
  rw [(makeRegisterGlobalsFn_function CGM S hE).2] at hP
  have hPG := (makeRegisterGlobalsOrDummy_frame CGM S).1
  generalize (makeRegisterGlobalsOrDummy CGM S).1 = P at hP hPG ⊢
  refine ⟨?_, ?_, ?_⟩
  · obtain ⟨S3, W, -, -, -, g1, -⟩ := emitModuleCtor_steps CGM P
      (some (Operand.func (addUnderscoredPrefixToName CGM "_register_globals")
        S.TheModule.Functions.length)) (some Buf)
    rw [g1, hP]; simp
  · rw [emitModuleCtor_cuda CGM P _ _ hHIP hR, hP]
    simp [getRegisterGlobalsFnTy]
  · rw [emitModuleCtor_Globals, hPG]
    simp [hHIP, hR, payloadOperand, cudaHandleVar]

theorem cuda_ctor_sequence_witness :
    sampleCUDA.LangOpts.HIP = false
    ∧ RelocatableDeviceCode sampleCUDA = false
    ∧ sampleCUDA.LangOpts.isInJIT = false
    ∧ sampleCUDA.CodeGenOpts.CudaGpuBinaryFileName ≠ ""
    ∧ sampleCUDA.getFileOrSTDIN sampleCUDA.CodeGenOpts.CudaGpuBinaryFileName = Except.ok "BIN"
    ∧ ¬(sampleState.EmittedKernels = [] ∧ sampleState.DeviceVars = [])
    ∧ sampleCUDA.CudaFeatureEnabled CudaFeature.CUDA_USES_FATBIN_REGISTER_END = false
    ∧ (makeModuleCtorFunction sampleCUDA sampleState).1.TheModule.Functions =
      sampleModule.Functions ++
        [⟨"__cuda_register_globals", Linkage.InternalLinkage, ⟨Ty.VoidTy, [Ty.VoidPtrPtrTy]⟩,
          [⟨⟨"entry", 0⟩,
            [Inst.call none (Operand.runtimeFn "__cudaRegisterFunction")
              [Operand.arg 0, Operand.cast (Operand.func "k" 0) Ty.VoidPtrTy,
               Operand.cstring "k", Operand.cstring "k",
               Operand.constInt Ty.IntTy (-1), Operand.null Ty.VoidPtrTy,
               Operand.null Ty.VoidPtrTy, Operand.null Ty.VoidPtrTy,
               Operand.null Ty.VoidPtrTy, Operand.null (Ty.ptrTo Ty.IntTy)],
             Inst.retVoid]⟩]⟩,
         ⟨"__cuda_module_ctor", Linkage.InternalLinkage, ⟨Ty.VoidTy, [Ty.VoidPtrTy]⟩,
          [⟨⟨"entry", 0⟩,
            [Inst.call (some ⟨"RegisterFatbinCall", 0⟩)
               (Operand.runtimeFn "__cudaRegisterFatBinary")
               [Operand.cast (Operand.global "__cuda_fatbin_wrapper") Ty.VoidPtrTy],
             Inst.store (Operand.reg ⟨"RegisterFatbinCall", 0⟩)
               (Operand.global "__cuda_gpubin_handle"),
             Inst.call none (Operand.func "__cuda_register_globals" 1)
               [Operand.reg ⟨"RegisterFatbinCall", 0⟩],
             Inst.call none (Operand.runtimeFn "atexit")
               [Operand.func "__cuda_module_dtor" 3],
             Inst.retVoid]⟩]⟩,
         ⟨"__cuda_module_dtor", Linkage.InternalLinkage, ⟨Ty.VoidTy, [Ty.VoidPtrTy]⟩,
          [⟨⟨"entry", 0⟩,
            [Inst.load ⟨"HandleValue", 0⟩ (Operand.global "__cuda_gpubin_handle"),
             Inst.call none (Operand.runtimeFn "__cudaUnregisterFatBinary")
               [Operand.reg ⟨"HandleValue", 0⟩],
             Inst.retVoid]⟩]⟩] :=
  ⟨rfl, rfl, rfl, by decide, rfl, by decide, rfl,
   (cuda_ctor_sequence sampleCUDA sampleState "BIN" rfl rfl rfl (by decide) rfl
      (by decide)).2.1⟩

/-! ## C15: what an aborted constructor generation leaves in the module -/

theorem CreateRuntimeFunction_declares (M : Module) (T : FunctionType) (n : String) :
    ∃ D ∈ (M.CreateRuntimeFunction T n).RuntimeDecls, D.Name = n := by
  unfold Module.CreateRuntimeFunction
  split
  · rename_i h
    obtain ⟨D, hD, hn⟩ := List.any_eq_true.1 h
    exact ⟨D, hD, by simpa using hn⟩
  · exact ⟨⟨n, T⟩, by simp, rfl⟩

theorem makeRegisterGlobalsOrDummy_declares (CGM : CodeGenModule) (S : CGNVCUDARuntime) :
    ∃ D ∈ (makeRegisterGlobalsOrDummy CGM S).1.TheModule.RuntimeDecls,
      D.Name = addUnderscoredPrefixToName CGM "RegisterFatBinary" := by
  unfold makeRegisterGlobalsOrDummy
  exact CreateRuntimeFunction_declares _ _ _

theorem emitModuleCtor_snd (CGM : CodeGenModule) (S : CGNVCUDARuntime)
    (RG : Option Operand) (Bin : Option String) :
    (emitModuleCtor CGM S RG Bin).2 =
      some (Operand.func (addUnderscoredPrefixToName CGM "_module_ctor")
        S.TheModule.Functions.length) := by
  obtain ⟨S3, W, -, -, -, g1, -⟩ := emitModuleCtor_steps CGM S RG Bin
  exact g1

/-- Past the early returns, a null result of `makeModuleCtorFunction` comes from
the payload resolution, and the state is the one the resolution leaves. -/
theorem makeModuleCtorFunction_abort (CGM : CodeGenModule) (S : CGNVCUDARuntime)
    (h1 : (CGM.CodeGenOpts.CudaGpuBinaryFileName.isEmpty && !CGM.LangOpts.HIP) = false)
    (h2 : ((CGM.LangOpts.HIP || (CGM.LangOpts.CUDA && !RelocatableDeviceCode CGM)) &&
      S.EmittedKernels.isEmpty && S.DeviceVars.isEmpty) = false)
    (hNone : (makeModuleCtorFunction CGM S).2 = none) :
    (resolveGpuBinary CGM S).2 = BinaryResolution.abort
    ∧ makeModuleCtorFunction CGM S =
        ((resolveGpuBinary CGM (makeRegisterGlobalsOrDummy CGM S).1).1, none) := by
  rw [makeModuleCtorFunction_past CGM S h1 h2] at hNone ⊢
  rw [resolveGpuBinary_snd CGM S (makeRegisterGlobalsOrDummy CGM S).1]
  generalize resolveGpuBinary CGM (makeRegisterGlobalsOrDummy CGM S).1 = R at hNone ⊢
  rcases R with ⟨R1, _ | Bin⟩
  · exact ⟨rfl, rfl⟩
  · dsimp only at hNone
    rw [emitModuleCtor_snd] at hNone
    exact absurd hNone (by simp)

theorem makeModuleCtorFunction_early (CGM : CodeGenModule) (S : CGNVCUDARuntime)
    (h : (CGM.CodeGenOpts.CudaGpuBinaryFileName.isEmpty && !CGM.LangOpts.HIP) = true
      ∨ ((CGM.LangOpts.HIP || (CGM.LangOpts.CUDA && !RelocatableDeviceCode CGM)) &&
          S.EmittedKernels.isEmpty && S.DeviceVars.isEmpty) = true) :
    makeModuleCtorFunction CGM S = (S, none) := by
  unfold makeModuleCtorFunction
  dsimp only
  by_cases h1 : (CGM.CodeGenOpts.CudaGpuBinaryFileName.isEmpty && !CGM.LangOpts.HIP) = true
  · rw [if_pos h1]
  · rw [if_neg h1, if_pos (h.resolve_left h1)]

/-- C15, as stated, fails: with a binary file that cannot be opened, and likewise
in JIT mode with an empty blob, `makeModuleCtorFunction` returns null for a state
holding one kernel, yet the module has gained the function
`__cuda_register_globals` and the declarations of `__cudaRegisterFunction`,
`__cudaRegisterVar` and `__cudaRegisterFatBinary`. -/
theorem ctor_abort_emits_counterexample :
    (makeModuleCtorFunction sampleUnreadable sampleState).2 = none
    ∧ ((makeModuleCtorFunction sampleUnreadable sampleState).1.TheModule.Functions.map
        Function.Name) = ["k", "__cuda_register_globals"]
    ∧ sampleState.TheModule.Functions.map Function.Name = ["k"]
    ∧ ((makeModuleCtorFunction sampleUnreadable sampleState).1.TheModule.RuntimeDecls.map
        RuntimeDecl.Name) =
        ["__cudaRegisterFunction", "__cudaRegisterVar", "__cudaRegisterFatBinary"]
    ∧ sampleState.TheModule.RuntimeDecls = []
    ∧ (makeModuleCtorFunction sampleJITNoBlob sampleState).2 = none
    ∧ ((makeModuleCtorFunction sampleJITNoBlob sampleState).1.TheModule.Functions.map
        Function.Name) = ["k", "__cuda_register_globals"]
    ∧ ((makeModuleCtorFunction sampleJITNoBlob sampleState).1.TheModule.RuntimeDecls.map
        RuntimeDecl.Name) =
        ["__cudaRegisterFunction", "__cudaRegisterVar", "__cudaRegisterFatBinary"]
    ∧ (makeModuleCtorFunction sampleUnreadable sampleState).1.TheModule.Functions ≠
        sampleState.TheModule.Functions
    ∧ (makeModuleCtorFunction sampleJITNoBlob sampleState).1.TheModule.Functions ≠
        sampleState.TheModule.Functions := by
  decide

/-- C15, amended: whenever `makeModuleCtorFunction` returns null, the global
variables and the aliases of the module are those before the call, so that no
wrapper, handle variable or alias has been emitted. On the two early returns the
whole state is unchanged. Past them, the null result comes from the payload
resolution, and the module is the one left by the steps that precede it: it has
gained the register-globals function (or, with relocatable device code and
nothing to register, the dummy function) and holds the declaration of
`__{cuda|hip}RegisterFatBinary`. -/
theorem ctor_abort_emission (CGM : CodeGenModule) (S : CGNVCUDARuntime)
    (hNone : (makeModuleCtorFunction CGM S).2 = none) :
    (makeModuleCtorFunction CGM S).1.TheModule.Globals = S.TheModule.Globals
    ∧ (makeModuleCtorFunction CGM S).1.TheModule.Aliases = S.TheModule.Aliases
    ∧ (((CGM.CodeGenOpts.CudaGpuBinaryFileName.isEmpty && !CGM.LangOpts.HIP) = true
        ∨ ((CGM.LangOpts.HIP || (CGM.LangOpts.CUDA && !RelocatableDeviceCode CGM)) &&
            S.EmittedKernels.isEmpty && S.DeviceVars.isEmpty) = true) →
        (makeModuleCtorFunction CGM S).1 = S)
    ∧ ((CGM.CodeGenOpts.CudaGpuBinaryFileName.isEmpty && !CGM.LangOpts.HIP) = false →
       ((CGM.LangOpts.HIP || (CGM.LangOpts.CUDA && !RelocatableDeviceCode CGM)) &&
            S.EmittedKernels.isEmpty && S.DeviceVars.isEmpty) = false →
        (resolveGpuBinary CGM S).2 = BinaryResolution.abort
        ∧ (makeModuleCtorFunction CGM S).1.TheModule =
            (makeRegisterGlobalsOrDummy CGM S).1.TheModule
        ∧ (makeModuleCtorFunction CGM S).1.TheModule.Functions =
            S.TheModule.Functions ++
              (if (S.EmittedKernels.isEmpty && S.DeviceVars.isEmpty) = true then
                (if RelocatableDeviceCode CGM = true then
                  [⟨"dummy", Linkage.InternalLinkage, ⟨Ty.VoidTy, [Ty.VoidPtrPtrTy]⟩,
                    [⟨⟨"", 0⟩, [Inst.retVoid]⟩]⟩]
                 else [])
               else
                [⟨addUnderscoredPrefixToName CGM "_register_globals", Linkage.InternalLinkage,
                  ⟨Ty.VoidTy, [Ty.VoidPtrPtrTy]⟩,
                  [⟨⟨"entry", 0⟩,
                    S.EmittedKernels.map (fun I => Inst.call none
              (Operand.runtimeFn (addUnderscoredPrefixToName CGM "RegisterFunction"))
              [Operand.arg 0, Operand.cast I.Kernel Ty.VoidPtrTy,
               Operand.cstring (getDeviceSideName CGM I.D),
               Operand.cstring (getDeviceSideName CGM I.D),
               Operand.constInt Ty.IntTy (-1), Operand.null Ty.VoidPtrTy,
               Operand.null Ty.VoidPtrTy, Operand.null Ty.VoidPtrTy,
               Operand.null Ty.VoidPtrTy, Operand.null (Ty.ptrTo Ty.IntTy)])
                    ++ S.DeviceVars.map (fun Info => Inst.call none
              (Operand.runtimeFn (addUnderscoredPrefixToName CGM "RegisterVar"))
              [Operand.arg 0, Operand.cast (Operand.global Info.Var.Name) Ty.VoidPtrTy,
               Operand.cstring (getDeviceSideName CGM Info.D),
               Operand.cstring (getDeviceSideName CGM Info.D),
               Operand.constInt Ty.IntTy
                 (if Info.Flag &&& CGM.ExternDeviceVar ≠ 0 then 1 else 0),
               Operand.constInt Ty.IntTy Info.Var.AllocSize,
               Operand.constInt Ty.IntTy
                 (if Info.Flag &&& CGM.ConstantDeviceVar ≠ 0 then 1 else 0),
               Operand.constInt Ty.IntTy 0])
                    ++ [Inst.retVoid]⟩]⟩])
        ∧ ∃ D ∈ (makeModuleCtorFunction CGM S).1.TheModule.RuntimeDecls,
            D.Name = addUnderscoredPrefixToName CGM "RegisterFatBinary") := by
  have hlate : (CGM.CodeGenOpts.CudaGpuBinaryFileName.isEmpty && !CGM.LangOpts.HIP) = false →
      ((CGM.LangOpts.HIP || (CGM.LangOpts.CUDA && !RelocatableDeviceCode CGM)) &&
        S.EmittedKernels.isEmpty && S.DeviceVars.isEmpty) = false →
      (resolveGpuBinary CGM S).2 = BinaryResolution.abort
      ∧ (makeModuleCtorFunction CGM S).1.TheModule =
          (makeRegisterGlobalsOrDummy CGM S).1.TheModule := by
    intro h1 h2
    obtain ⟨a1, a2⟩ := makeModuleCtorFunction_abort CGM S h1 h2 hNone
    exact ⟨a1, by rw [a2]; exact (resolveGpuBinary_fst CGM _).2⟩
  have hG : (makeModuleCtorFunction CGM S).1.TheModule.Globals = S.TheModule.Globals
      ∧ (makeModuleCtorFunction CGM S).1.TheModule.Aliases = S.TheModule.Aliases := by
    by_cases h1 : (CGM.CodeGenOpts.CudaGpuBinaryFileName.isEmpty && !CGM.LangOpts.HIP) = true
    · rw [makeModuleCtorFunction_early CGM S (Or.inl h1)]
      exact ⟨rfl, rfl⟩
    · by_cases h2 : ((CGM.LangOpts.HIP || (CGM.LangOpts.CUDA && !RelocatableDeviceCode CGM)) &&
          S.EmittedKernels.isEmpty && S.DeviceVars.isEmpty) = true
      · rw [makeModuleCtorFunction_early CGM S (Or.inr h2)]
        exact ⟨rfl, rfl⟩
      · rw [(hlate (by simpa using h1) (by simpa using h2)).2]
        exact ⟨(makeRegisterGlobalsOrDummy_frame CGM S).1,
          (makeRegisterGlobalsOrDummy_frame CGM S).2.1⟩
  refine ⟨hG.1, hG.2, ?_, ?_⟩
  · intro h
    rw [makeModuleCtorFunction_early CGM S h]
  · intro h1 h2
    obtain ⟨a1, a2⟩ := hlate h1 h2
    refine ⟨a1, a2, ?_, ?_⟩
    · rw [a2, makeRegisterGlobalsOrDummy_Functions]
      by_cases hE : (S.EmittedKernels.isEmpty && S.DeviceVars.isEmpty) = true
      · rw [if_pos hE, if_pos hE]
        rfl
      · rw [if_neg hE, if_neg hE, (makeRegisterGlobalsFn_function CGM S (by simpa using hE)).2]
        rfl
    · rw [a2]
      exact makeRegisterGlobalsOrDummy_declares CGM S

theorem ctor_abort_emission_witness :
    (makeModuleCtorFunction sampleUnreadable sampleState).2 = none
    ∧ (makeModuleCtorFunction sampleUnreadable sampleState).1.TheModule.Globals =
        sampleState.TheModule.Globals
    ∧ (makeModuleCtorFunction sampleUnreadable sampleState).1.TheModule.Aliases =
        sampleState.TheModule.Aliases :=
  ⟨by decide,
   (ctor_abort_emission sampleUnreadable sampleState (by decide)).1,
   (ctor_abort_emission sampleUnreadable sampleState (by decide)).2.1⟩

/-! ## C16: the payload resolution -/

theorem resolveGpuBinary_jit (CGM : CodeGenModule) (S : CGNVCUDARuntime)
    (hJIT : CGM.LangOpts.isInJIT = true) :
    resolveGpuBinary CGM S =
      (S, if CGM.CodeGenOpts.GPUBinForJIT = "" then BinaryResolution.abort
          else BinaryResolution.buffer (some CGM.CodeGenOpts.GPUBinForJIT)) := by
  unfold resolveGpuBinary
  have hEmpty : ("" : String).isEmpty = true := by decide
  by_cases hB : CGM.CodeGenOpts.GPUBinForJIT = ""
  · simp [hJIT, hB, hEmpty]
  · simp [hJIT, hB, isEmpty_eq_false_of_ne _ hB]

theorem resolveGpuBinary_error (CGM : CodeGenModule) (S : CGNVCUDARuntime) (EC : String)
    (hJIT : CGM.LangOpts.isInJIT = false)
    (hFile : CGM.CodeGenOpts.CudaGpuBinaryFileName ≠ "")
    (hRead : CGM.getFileOrSTDIN CGM.CodeGenOpts.CudaGpuBinaryFileName = Except.error EC) :
    resolveGpuBinary CGM S =
      ({ S with Diags := S.Diags ++
          [⟨none, "err_cannot_open_file", [CGM.CodeGenOpts.CudaGpuBinaryFileName, EC]⟩] },
       BinaryResolution.abort) := by
  unfold resolveGpuBinary
  simp [hJIT, isEmpty_eq_false_of_ne _ hFile, hRead]

theorem resolveGpuBinary_no_file (CGM : CodeGenModule) (S : CGNVCUDARuntime)
    (hJIT : CGM.LangOpts.isInJIT = false)
    (hFile : CGM.CodeGenOpts.CudaGpuBinaryFileName = "") :
    resolveGpuBinary CGM S = (S, BinaryResolution.buffer none) := by
  have hEmpty : ("" : String).isEmpty = true := by decide
  unfold resolveGpuBinary
  simp [hJIT, hFile, hEmpty]

theorem emitModuleCtor_Diags (CGM : CodeGenModule) (S : CGNVCUDARuntime)
    (RG : Option Operand) (Bin : Option String) :
    (emitModuleCtor CGM S RG Bin).1.Diags = S.Diags := by
  have h := emitModuleCtor_diags CGM S RG Bin S.Diags
  have h2 := congrArg (fun R => R.1.Diags) h
  exact h2

/-- Past the early returns and with a payload buffer resolved without a
diagnostic, `makeModuleCtorFunction` produces a constructor, reports nothing and
adds to the global variables the wrapper pointing at the constant string that
holds the buffer, followed by the handle variable of the family. -/
theorem ctor_with_buffer (CGM : CodeGenModule) (S : CGNVCUDARuntime) (Buf : String)
    (h1 : (CGM.CodeGenOpts.CudaGpuBinaryFileName.isEmpty && !CGM.LangOpts.HIP) = false)
    (h2 : ((CGM.LangOpts.HIP || (CGM.LangOpts.CUDA && !RelocatableDeviceCode CGM)) &&
      S.EmittedKernels.isEmpty && S.DeviceVars.isEmpty) = false)
    (hres : ∀ S0, resolveGpuBinary CGM S0 = (S0, BinaryResolution.buffer (some Buf))) :
    (makeModuleCtorFunction CGM S).2.isSome = true
    ∧ (makeModuleCtorFunction CGM S).1.Diags = S.Diags
    ∧ (makeModuleCtorFunction CGM S).1.TheModule.Globals =
        S.TheModule.Globals ++ [makeFatbinWrapper CGM (Operand.cstring Buf)] ++
          (if CGM.LangOpts.HIP = true then [hipHandleVar CGM (some Buf)]
           else if RelocatableDeviceCode CGM = false then [cudaHandleVar CGM]
           else []) := by
  rw [makeModuleCtorFunction_past CGM S h1 h2, hres]
  dsimp only
  refine ⟨by rw [emitModuleCtor_snd]; rfl, ?_, ?_⟩
  · rw [emitModuleCtor_Diags]
    exact (makeRegisterGlobalsOrDummy_frame CGM S).2.2.2.2.1
  · rw [emitModuleCtor_Globals, (makeRegisterGlobalsOrDummy_frame CGM S).1]
    simp [payloadOperand]

/-! ## C17: the wrapper constant -/

/-- A constructor is produced only past the two early returns and with a payload
resolution that does not abort; the global variables then gained are those of
`emitModuleCtor`. -/
theorem ctor_produced (CGM : CodeGenModule) (S : CGNVCUDARuntime)
    (hSome : (makeModuleCtorFunction CGM S).2 ≠ none) :
    ∃ Bin, (resolveGpuBinary CGM S).2 = BinaryResolution.buffer Bin
      ∧ (Bin = none → CGM.LangOpts.HIP = true)
      ∧ (makeModuleCtorFunction CGM S).1.TheModule.Globals =
          S.TheModule.Globals ++
            (if CGM.LangOpts.HIP = true ∧ Bin = none then [hipFatbinSymbol CGM] else []) ++
            [makeFatbinWrapper CGM (payloadOperand CGM Bin)] ++
            (if CGM.LangOpts.HIP = true then [hipHandleVar CGM Bin]
             else if RelocatableDeviceCode CGM = false then [cudaHandleVar CGM]
             else []) := by
  have h1 : (CGM.CodeGenOpts.CudaGpuBinaryFileName.isEmpty && !CGM.LangOpts.HIP) = false := by
    cases h : (CGM.CodeGenOpts.CudaGpuBinaryFileName.isEmpty && !CGM.LangOpts.HIP) with
    | false => rfl
    | true =>
      rw [makeModuleCtorFunction_early CGM S (Or.inl h)] at hSome
      exact absurd rfl hSome
  have h2 : ((CGM.LangOpts.HIP || (CGM.LangOpts.CUDA && !RelocatableDeviceCode CGM)) &&
      S.EmittedKernels.isEmpty && S.DeviceVars.isEmpty) = false := by
    cases h : ((CGM.LangOpts.HIP || (CGM.LangOpts.CUDA && !RelocatableDeviceCode CGM)) &&
      S.EmittedKernels.isEmpty && S.DeviceVars.isEmpty) with
    | false => rfl
    | true =>
      rw [makeModuleCtorFunction_early CGM S (Or.inr h)] at hSome
      exact absurd rfl hSome
  rw [makeModuleCtorFunction_past CGM S h1 h2] at hSome ⊢
  rw [resolveGpuBinary_snd CGM S (makeRegisterGlobalsOrDummy CGM S).1]
  have hM := (resolveGpuBinary_fst CGM (makeRegisterGlobalsOrDummy CGM S).1).2
  have hN : (resolveGpuBinary CGM (makeRegisterGlobalsOrDummy CGM S).1).2 =
      BinaryResolution.buffer none → CGM.LangOpts.HIP = true := by
    intro hb
    by_cases hJ : CGM.LangOpts.isInJIT = true
    · rw [resolveGpuBinary_jit CGM _ hJ] at hb
      split at hb <;> simp at hb
    · by_cases hF : CGM.CodeGenOpts.CudaGpuBinaryFileName = ""
      · have hEmpty : ("" : String).isEmpty = true := by decide
        rw [hF, hEmpty] at h1
        simpa using h1
      · have hJ2 : CGM.LangOpts.isInJIT = false := by simpa using hJ
        cases hr : CGM.getFileOrSTDIN CGM.CodeGenOpts.CudaGpuBinaryFileName with
        | error EC =>
          rw [resolveGpuBinary_error CGM _ EC hJ2 hF hr] at hb
          simp at hb
        | ok Buf =>
          rw [resolveGpuBinary_file CGM _ Buf hJ2 hF hr] at hb
          simp at hb
  generalize resolveGpuBinary CGM (makeRegisterGlobalsOrDummy CGM S).1 = R at hSome hM hN ⊢
  rcases R with ⟨R1, _ | Bin⟩
  · exact absurd rfl hSome
  · refine ⟨Bin, rfl, fun hb => hN (by rw [hb]), ?_⟩
    dsimp only at hM ⊢
    rw [emitModuleCtor_Globals, hM, (makeRegisterGlobalsOrDummy_frame CGM S).1]

/-- C17: whenever `makeModuleCtorFunction` produces a constructor, the global
variables the module has gained include the wrapper constant
`__{cuda|hip}_fatbin_wrapper`, of the fixed struct type (int, int, void *, void *),
initialized with, in order, the magic number `0x466243b1` for CUDA or
`0x48495046` for HIP, the version 1, the payload pointer, and a null pointer. The
payload pointer is the constant string holding the resolved buffer, or for HIP
without a buffer the external symbol `__hip_fatbin`. The type of the wrapper is
the same in every configuration, and its initializer is determined by the
family and the payload pointer alone. -/
theorem fatbin_wrapper_record (CGM : CodeGenModule) (S : CGNVCUDARuntime)
    (hSome : (makeModuleCtorFunction CGM S).2 ≠ none) :
    ∃ (Payload : Operand) (W : GlobalVariable) (pre post : List GlobalVariable),
      (makeModuleCtorFunction CGM S).1.TheModule.Globals =
        S.TheModule.Globals ++ pre ++ [W] ++ post
      ∧ W.Name = addUnderscoredPrefixToName CGM "_fatbin_wrapper"
      ∧ W.isConstant = true
      ∧ W.ValueType =
          Ty.struct (TyList.ofList [Ty.IntTy, Ty.IntTy, Ty.VoidPtrTy, Ty.VoidPtrTy])
      ∧ W.Initializer = some
          [Operand.constInt Ty.IntTy
             (if CGM.LangOpts.HIP = true then 0x48495046 else 0x466243b1),
           Operand.constInt Ty.IntTy 1, Payload, Operand.null Ty.VoidPtrTy]
      ∧ ((∃ Buf, (resolveGpuBinary CGM S).2 = BinaryResolution.buffer (some Buf)
            ∧ Payload = Operand.cstring Buf)
         ∨ ((resolveGpuBinary CGM S).2 = BinaryResolution.buffer none
            ∧ CGM.LangOpts.HIP = true ∧ Payload = Operand.global "__hip_fatbin"))
      ∧ (∀ (CGM2 : CodeGenModule) (P2 : Operand),
          (makeFatbinWrapper CGM2 P2).ValueType = W.ValueType
          ∧ (CGM2.LangOpts.HIP = CGM.LangOpts.HIP → P2 = Payload →
              (makeFatbinWrapper CGM2 P2).Initializer = W.Initializer)) := by
  obtain ⟨Bin, hres, hHIP, hG⟩ := ctor_produced CGM S hSome
  refine ⟨payloadOperand CGM Bin, makeFatbinWrapper CGM (payloadOperand CGM Bin), _, _, hG,
    rfl, rfl, rfl, ?_, ?_, ?_⟩
  · unfold makeFatbinWrapper FatMagic HIPFatMagic CudaFatMagic
    by_cases h : CGM.LangOpts.HIP = true <;> simp [h]
  · cases Bin with
    | some Buf => exact Or.inl ⟨Buf, hres, rfl⟩
    | none =>
      have h := hHIP rfl
      exact Or.inr ⟨hres, h, by simp [payloadOperand, h]⟩
  · intro CGM2 P2
    refine ⟨rfl, ?_⟩
    intro h hP
    unfold makeFatbinWrapper FatMagic
    rw [h, hP]

theorem fatbin_wrapper_record_witness :
    (makeModuleCtorFunction sampleCUDA sampleState).2 ≠ none
    ∧ ∃ (Payload : Operand) (W : GlobalVariable) (pre post : List GlobalVariable),
      (makeModuleCtorFunction sampleCUDA sampleState).1.TheModule.Globals =
        sampleState.TheModule.Globals ++ pre ++ [W] ++ post
      ∧ W.Name = "__cuda_fatbin_wrapper"
      ∧ W.Initializer = some
          [Operand.constInt Ty.IntTy 0x466243b1, Operand.constInt Ty.IntTy 1, Payload,
           Operand.null Ty.VoidPtrTy] := by
  refine ⟨by decide, ?_⟩
  obtain ⟨Payload, W, pre, post, h1, h2, -, -, h5, -⟩ :=
    fatbin_wrapper_record sampleCUDA sampleState (by decide)
  exact ⟨Payload, W, pre, post, h1, h2, h5⟩

/-! ## C18: the name of the stub -/

theorem append_stub_data (Name : String) :
    (Name ++ ".stub").data = Name.data ++ ['.', 's', 't', 'u', 'b'] := rfl

theorem append_stub_injective (a b : String) (h : a ++ ".stub" = b ++ ".stub") : a = b := by
  have h2 := congrArg String.data h
  rw [append_stub_data, append_stub_data] at h2
  exact String.ext (List.append_cancel_right h2)

/-- C18: `getDeviceStubName` depends on the configuration through the HIP option
only; with the option off it returns the name unchanged, with the option on the
name followed by `.stub`. For each family it is injective in the name, and for
HIP the stub name differs from the name and gives the name back when its last 5
characters are dropped. -/
theorem device_stub_name (CGM : CodeGenModule) (Name : String) :
    (∀ CGM2 : CodeGenModule, CGM2.LangOpts.HIP = CGM.LangOpts.HIP →
      getDeviceStubName CGM2 Name = getDeviceStubName CGM Name)
    ∧ (CGM.LangOpts.HIP = false → getDeviceStubName CGM Name = Name)
    ∧ (CGM.LangOpts.HIP = true → getDeviceStubName CGM Name = Name ++ ".stub")
    ∧ (∀ Name2 : String, getDeviceStubName CGM Name = getDeviceStubName CGM Name2 →
        Name = Name2)
    ∧ (CGM.LangOpts.HIP = true →
        getDeviceStubName CGM Name ≠ Name
        ∧ (getDeviceStubName CGM Name).length = Name.length + 5
        ∧ String.mk ((getDeviceStubName CGM Name).data.rdrop 5) = Name) := by
  refine ⟨?_, ?_, ?_, ?_, ?_⟩
  · intro CGM2 h
    unfold getDeviceStubName
    rw [h]
  · intro h
    simp [getDeviceStubName, h]
  · intro h
    simp [getDeviceStubName, h]
  · intro Name2 h
    unfold getDeviceStubName at h
    by_cases hH : CGM.LangOpts.HIP = true
    · simp only [hH, Bool.not_true, Bool.false_eq_true, if_false] at h
      exact append_stub_injective _ _ h
    · simpa [hH] using h
  · intro hH
    have hs : getDeviceStubName CGM Name = Name ++ ".stub" := by
      simp [getDeviceStubName, hH]
    have hl : (Name ++ ".stub").length = Name.length + 5 := by
      rw [String.length_append]; rfl
    rw [hs]
    refine ⟨?_, hl, ?_⟩
    · intro h
      have h2 := congrArg String.length h
      rw [hl] at h2
      omega
    · apply String.ext
      show (Name.data ++ ['.', 's', 't', 'u', 'b']).rdrop 5 = Name.data
      simp [List.rdrop]

/-! ## C19: the names of the runtime entry points -/

theorem declsWithin_of_eq (L : List String) (M M2 : Module)
    (h : M2.RuntimeDecls = M.RuntimeDecls) : declsWithin L M M2 := by
  intro D hD
  rw [h] at hD
  exact Or.inl hD

theorem declsWithin_trans (L : List String) (M M1 M2 : Module)
    (h1 : declsWithin L M M1) (h2 : declsWithin L M1 M2) : declsWithin L M M2 := by
  intro D hD
  rcases h2 D hD with h | h
  · exact h1 D h
  · exact Or.inr h

theorem declsWithin_mono (L L2 : List String) (M M2 : Module) (hL : ∀ n ∈ L, n ∈ L2)
    (h : declsWithin L M M2) : declsWithin L2 M M2 := by
  intro D hD
  rcases h D hD with h | h
  · exact Or.inl h
  · exact Or.inr (hL _ h)

theorem declsWithin_create (L : List String) (M : Module) (T : FunctionType) (n : String)
    (hn : n ∈ L) : declsWithin L M (M.CreateRuntimeFunction T n) := by
  intro D hD
  unfold Module.CreateRuntimeFunction at hD
  split at hD
  · exact Or.inl hD
  · simp only [List.mem_append, List.mem_singleton] at hD
    rcases hD with h | h
    · exact Or.inl h
    · exact Or.inr (by rw [h]; exact hn)

@[simp] theorem makeConstantString_RuntimeDecls (M : Module) (s n sec : String) (a : Nat) :
    (makeConstantString M s n sec a).1.RuntimeDecls = M.RuntimeDecls := by
  unfold makeConstantString Module.GetAddrOfConstantCString; dsimp only; split <;> rfl

theorem emitRegisterFunctionCalls_RuntimeDecls (CGM : CodeGenModule) (f h : Operand)
    (Ks : List KernelInfo) (M : Module) :
    (emitRegisterFunctionCalls CGM f h Ks M).1.RuntimeDecls = M.RuntimeDecls := by
  induction Ks generalizing M with
  | nil => rfl
  | cons I rest ih =>
    simp only [emitRegisterFunctionCalls]
    rw [ih]
    simp

theorem emitRegisterVarCalls_RuntimeDecls (CGM : CodeGenModule) (f h : Operand)
    (Vs : List VarInfo) (M : Module) :
    (emitRegisterVarCalls CGM f h Vs M).1.RuntimeDecls = M.RuntimeDecls := by
  induction Vs generalizing M with
  | nil => rfl
  | cons I rest ih =>
    simp only [emitRegisterVarCalls]
    rw [ih]
    simp

theorem makeRegisterGlobalsFn_decls (CGM : CodeGenModule) (S : CGNVCUDARuntime) :
    declsWithin
      [addUnderscoredPrefixToName CGM "RegisterFunction",
       addUnderscoredPrefixToName CGM "RegisterVar"]
      S.TheModule (makeRegisterGlobalsFn CGM S).1.TheModule := by
  unfold makeRegisterGlobalsFn
  by_cases hE : (S.EmittedKernels.isEmpty && S.DeviceVars.isEmpty) = true
  · rw [if_pos hE]
    exact declsWithin_of_eq _ _ _ rfl
  · rw [if_neg hE]
    dsimp only [Module.setBody]
    intro D hD
    dsimp only at hD
    rw [emitRegisterVarCalls_RuntimeDecls] at hD
    rcases declsWithin_create [addUnderscoredPrefixToName CGM "RegisterFunction",
      addUnderscoredPrefixToName CGM "RegisterVar"] _ _ _ (by simp) D hD with h | h
    · rw [emitRegisterFunctionCalls_RuntimeDecls] at h
      rcases declsWithin_create [addUnderscoredPrefixToName CGM "RegisterFunction",
        addUnderscoredPrefixToName CGM "RegisterVar"] _ _ _ (by simp) D h with h2 | h2
      · exact Or.inl h2
      · exact Or.inr h2
    · exact Or.inr h

theorem makeDummyFunction_RuntimeDecls (S : CGNVCUDARuntime) (T : FunctionType) :
    (makeDummyFunction S T).1.TheModule.RuntimeDecls = S.TheModule.RuntimeDecls := by
  unfold makeDummyFunction
  dsimp only
  split <;> rfl

theorem makeRegisterGlobalsOrDummy_decls (CGM : CodeGenModule) (S : CGNVCUDARuntime)
    (ID : String) :
    declsWithin (ctorEntryPoints CGM ID) S.TheModule
      (makeRegisterGlobalsOrDummy CGM S).1.TheModule := by
  have h0 := declsWithin_mono _ (ctorEntryPoints CGM ID) _ _
    (by intro n hn; simp only [List.mem_cons, List.mem_singleton, List.not_mem_nil,
          or_false] at hn
        rcases hn with h | h <;> simp [ctorEntryPoints, h])
    (makeRegisterGlobalsFn_decls CGM S)
  unfold makeRegisterGlobalsOrDummy
  generalize makeRegisterGlobalsFn CGM S = P at h0 ⊢
  dsimp only
  have hd := makeDummyFunction_RuntimeDecls P.1 getRegisterGlobalsFnTy
  by_cases hc : (RelocatableDeviceCode CGM && P.2.isNone) = true
  · simp only [if_pos hc, CGNVCUDARuntime.onModule]
    exact declsWithin_trans _ _ _ _
      (declsWithin_trans _ _ _ _ h0 (declsWithin_of_eq _ _ _ hd))
      (declsWithin_create _ _ _ _ (by simp [ctorEntryPoints]))
  · simp only [if_neg hc, CGNVCUDARuntime.onModule]
    exact declsWithin_trans _ _ _ _ h0
      (declsWithin_create _ _ _ _ (by simp [ctorEntryPoints]))

theorem emitFatBinStr_RuntimeDecls (CGM : CodeGenModule) (S : CGNVCUDARuntime)
    (Bin : Option String) :
    (emitFatBinStr CGM S Bin).1.TheModule.RuntimeDecls = S.TheModule.RuntimeDecls := by
  unfold emitFatBinStr
  split <;> split <;> simp [CGNVCUDARuntime.onModule, Module.addGlobal]

theorem emitCtorBranch_decls (CGM : CodeGenModule) (S : CGNVCUDARuntime)
    (RG : Option Operand) (Bin : Option String) (W : GlobalVariable) :
    declsWithin (ctorEntryPoints CGM (ModuleIDTag CGM ++ formatHex (getGUID CGM W)))
      S.TheModule (emitCtorBranch CGM S RG Bin W).1.TheModule := by
  unfold emitCtorBranch
  dsimp only
  by_cases hH : CGM.LangOpts.HIP = true
  · simp only [hH, if_true]
    apply declsWithin_of_eq
    unfold emitCtorHIP
    simp [Module.addGlobal]
  · by_cases hR : RelocatableDeviceCode CGM = true
    · simp only [hH, hR, if_false, Bool.not_true, Bool.false_eq_true]
      unfold emitCtorRDC
      dsimp only
      intro D hD
      rw [makeDummyFunction_RuntimeDecls] at hD
      have hD2 : D ∈ (Module.CreateRuntimeFunction
          { (makeConstantString S.TheModule (ModuleIDTag CGM ++ formatHex (getGUID CGM W)) ""
              (ModuleIDSectionName CGM) 32).1 with
            Aliases := (makeConstantString S.TheModule
              (ModuleIDTag CGM ++ formatHex (getGUID CGM W)) ""
              (ModuleIDSectionName CGM) 32).1.Aliases ++
                [⟨Linkage.ExternalLinkage,
                  "__fatbinwrap" ++ (ModuleIDTag CGM ++ formatHex (getGUID CGM W)),
                  W.Name⟩] }
          getRegisterLinkedBinaryFnTy
          ("__cudaRegisterLinkedBinary" ++
            (ModuleIDTag CGM ++ formatHex (getGUID CGM W)))).RuntimeDecls := by
        split at hD <;> exact hD
      rcases declsWithin_create
        (ctorEntryPoints CGM (ModuleIDTag CGM ++ formatHex (getGUID CGM W))) _ _ _
        (by simp [ctorEntryPoints, hH]) D hD2 with h | h
      · left
        simpa using h
      · exact Or.inr h
    · simp only [hH, hR, if_false, Bool.not_false, if_true]
      unfold emitCtorCUDA
      dsimp only
      by_cases hF : CGM.CudaFeatureEnabled CudaFeature.CUDA_USES_FATBIN_REGISTER_END = true
      · simp only [hF, if_true, CGNVCUDARuntime.onModule]
        exact declsWithin_trans _ _ _ _ (declsWithin_of_eq _ _ _ rfl)
          (declsWithin_create _ _ _ _ (by simp [ctorEntryPoints, hH]))
      · simp only [hF, if_false, Bool.false_eq_true]
        exact declsWithin_of_eq _ _ _ rfl

theorem emitCtorTail_decls (CGM : CodeGenModule) (S : CGNVCUDARuntime) (ID : String) :
    declsWithin (ctorEntryPoints CGM ID) S.TheModule (emitCtorTail CGM S).1.TheModule := by
  unfold emitCtorTail makeModuleDtorFunction
  cases S.GpuBinaryHandle with
  | none => exact declsWithin_of_eq _ _ _ rfl
  | some H =>
    dsimp only [CGNVCUDARuntime.onModule, Module.setBody, Module.createFunction]
    exact declsWithin_trans _ _ _ _
      (declsWithin_trans _ _ _ _
        (declsWithin_create _ _ _ _ (by simp [ctorEntryPoints]))
        (declsWithin_of_eq _ _ _ rfl))
      (declsWithin_create _ _ _ _ (by simp [ctorEntryPoints]))

theorem emitModuleCtor_decls (CGM : CodeGenModule) (S : CGNVCUDARuntime)
    (RG : Option Operand) (Bin : Option String) :
    declsWithin
      (ctorEntryPoints CGM (ModuleIDTag CGM ++
        formatHex (getGUID CGM (makeFatbinWrapper CGM (payloadOperand CGM Bin)))))
      S.TheModule (emitModuleCtor CGM S RG Bin).1.TheModule := by
  unfold emitModuleCtor
  dsimp only
  rw [emitFatBinStr_snd]
  have hF := emitFatBinStr_RuntimeDecls CGM { S with TheModule := (S.TheModule.createFunction
    ⟨Ty.VoidTy, [Ty.VoidPtrTy]⟩ Linkage.InternalLinkage
    (addUnderscoredPrefixToName CGM "_module_ctor")).1 } Bin
  generalize emitFatBinStr CGM _ Bin = P at hF ⊢
  dsimp only [CGNVCUDARuntime.onModule]
  refine declsWithin_trans _ _ _ _ ?_ (declsWithin_of_eq _ _ _ rfl)
  refine declsWithin_trans _ _ _ _ ?_ (emitCtorTail_decls CGM _ _)
  refine declsWithin_trans _ _ _ _ ?_ (emitCtorBranch_decls CGM _ _ _ _)
  exact declsWithin_of_eq _ _ _ hF

/-- The runtime functions `makeModuleCtorFunction` declares bear names of
`ctorEntryPoints`. -/
theorem makeModuleCtorFunction_decls (CGM : CodeGenModule) (S : CGNVCUDARuntime) :
    ∃ ID, declsWithin (ctorEntryPoints CGM ID) S.TheModule
      (makeModuleCtorFunction CGM S).1.TheModule := by
  by_cases h1 : (CGM.CodeGenOpts.CudaGpuBinaryFileName.isEmpty && !CGM.LangOpts.HIP) = true
  · rw [makeModuleCtorFunction_early CGM S (Or.inl h1)]
    exact ⟨"", declsWithin_of_eq _ _ _ rfl⟩
  · by_cases h2 : ((CGM.LangOpts.HIP || (CGM.LangOpts.CUDA && !RelocatableDeviceCode CGM)) &&
        S.EmittedKernels.isEmpty && S.DeviceVars.isEmpty) = true
    · rw [makeModuleCtorFunction_early CGM S (Or.inr h2)]
      exact ⟨"", declsWithin_of_eq _ _ _ rfl⟩
    · rw [makeModuleCtorFunction_past CGM S (by simpa using h1) (by simpa using h2)]
      have hM := (resolveGpuBinary_fst CGM (makeRegisterGlobalsOrDummy CGM S).1).2
      generalize resolveGpuBinary CGM (makeRegisterGlobalsOrDummy CGM S).1 = R at hM ⊢
      rcases R with ⟨R1, _ | Bin⟩
      · refine ⟨"", ?_⟩
        dsimp only at hM ⊢
        rw [hM]
        exact makeRegisterGlobalsOrDummy_decls CGM S ""
      · refine ⟨ModuleIDTag CGM ++
          formatHex (getGUID CGM (makeFatbinWrapper CGM (payloadOperand CGM Bin))), ?_⟩
        dsimp only at hM ⊢
        refine declsWithin_trans _ _ _ _ ?_ (emitModuleCtor_decls CGM _ _ _)
        rw [hM]
        exact makeRegisterGlobalsOrDummy_decls CGM S _

/-- The runtime functions `emitDeviceStub` declares: with the legacy ABI
`{cuda|hip}SetupArgument` and `cudaLaunch` or `hipLaunchByPtr`; with the new ABI the
two fixed names `__cudaPopCallConfiguration` and `cudaLaunchKernel`. -/
theorem emitDeviceStub_decls (CGM : CodeGenModule) (S : CGNVCUDARuntime)
    (CGF : CodeGenFunction) (Args : List VarDecl) :
    declsWithin
      (if CGM.CudaFeatureEnabled CudaFeature.CUDA_USES_NEW_LAUNCH = true then
        ["__cudaPopCallConfiguration", "cudaLaunchKernel"]
       else [addPrefixToName CGM "SetupArgument",
             if CGM.LangOpts.HIP = true then "hipLaunchByPtr" else "cudaLaunch"])
      S.TheModule (emitDeviceStub CGM S CGF Args).1.TheModule := by
  unfold emitDeviceStub
  dsimp only
  by_cases hN : CGM.CudaFeatureEnabled CudaFeature.CUDA_USES_NEW_LAUNCH = true
  · rw [if_pos hN, if_pos hN]
    unfold emitDeviceStubBodyNew
    dsimp only
    split
    · exact declsWithin_of_eq _ _ _ rfl
    · exact declsWithin_trans _ _ _ _
        (declsWithin_create _ _ _ _ (by simp))
        (declsWithin_create _ _ _ _ (by simp))
  · rw [if_neg hN, if_neg hN]
    unfold emitDeviceStubBodyLegacy getSetupArgumentFn getLaunchFn
    dsimp only
    by_cases hH : CGM.LangOpts.HIP = true
    · rw [if_pos hH, if_pos hH]
      exact declsWithin_trans _ _ _ _
        (declsWithin_create _ _ _ _ (by simp))
        (declsWithin_create _ _ _ _ (by simp))
    · rw [if_neg hH, if_neg hH]
      exact declsWithin_trans _ _ _ _
        (declsWithin_create _ _ _ _ (by simp))
        (declsWithin_create _ _ _ _ (by simp))

theorem not_hip_prefix (n : String)
    (hn : n = "__cudaPopCallConfiguration" ∨ n = "cudaLaunchKernel") (r : String) : n ≠ "hip" ++ r ∧ n ≠ "__hip" ++ r := by
  rcases hn with h | h
  · subst h
    constructor
    · intro h2
      have h3 := congrArg String.data h2
      simp at h3
    · intro h2
      have h3 := congrArg String.data h2
      have h4 := congrArg (fun l => l.get? 2) h3
      simp at h4
  · subst h
    constructor
    · intro h2
      have h3 := congrArg String.data h2
      simp at h3
    · intro h2
      have h3 := congrArg String.data h2
      simp at h3

/-- C19, as stated, fails. The HIP stub `k.stub` of the kernel `k` meets the
assertion of `emitDeviceStub` and is generated without fault. With the legacy
ABI it declares the launch entry point `hipLaunchByPtr`, which is not
`addPrefixToName "Launch"`, that is `hipLaunch`; and with the new launch ABI
selected it declares `__cudaPopCallConfiguration` and `cudaLaunchKernel`, neither
of which starts with `hip` or `__hip`. -/
theorem entry_point_names_counterexample :
    sampleHIP.LangOpts.HIP = true
    ∧ getDeviceStubName sampleHIP (getDeviceSideName sampleHIP sampleHIPCGF.CurFuncDecl) =
        sampleHIPCGF.CurFnName
    ∧ stubNameAsserted sampleHIP sampleHIPCGF = true
    ∧ (emitDeviceStub sampleHIP (CGNVCUDARuntime.init sampleHIPModule) sampleHIPCGF
        sampleArgs).1.Faults = []
    ∧ (emitDeviceStub sampleHIP (CGNVCUDARuntime.init sampleHIPModule) sampleHIPCGF
        sampleArgs).1.TheModule.RuntimeDecls.map RuntimeDecl.Name =
        ["hipSetupArgument", "hipLaunchByPtr"]
    ∧ addPrefixToName sampleHIP "Launch" = "hipLaunch"
    ∧ "hipLaunchByPtr" ≠ addPrefixToName sampleHIP "Launch"
    ∧ sampleHIPNewABI.LangOpts.HIP = true
    ∧ stubNameAsserted sampleHIPNewABI sampleHIPCGF = true
    ∧ (emitDeviceStub sampleHIPNewABI (CGNVCUDARuntime.init sampleHIPModule) sampleHIPCGF
        sampleArgs).1.Faults = []
    ∧ (emitDeviceStub sampleHIPNewABI (CGNVCUDARuntime.init sampleHIPModule) sampleHIPCGF
        sampleArgs).1.TheModule.RuntimeDecls.map RuntimeDecl.Name =
        ["__cudaPopCallConfiguration", "cudaLaunchKernel"]
    ∧ (∀ r : String, "__cudaPopCallConfiguration" ≠ "hip" ++ r
        ∧ "__cudaPopCallConfiguration" ≠ "__hip" ++ r)
    ∧ (∀ r : String, "cudaLaunchKernel" ≠ "hip" ++ r ∧ "cudaLaunchKernel" ≠ "__hip" ++ r) :=
  ⟨rfl, by decide, by decide, by decide, by decide, by decide, by decide, rfl, by decide,
   by decide, by decide,
   fun r => not_hip_prefix _ (Or.inl rfl) r, fun r => not_hip_prefix _ (Or.inr rfl) r⟩

/-- C19, amended: the runtime functions that `makeModuleCtorFunction` declares
are named `addUnderscoredPrefixToName X` for `X` among `RegisterFunction`,
`RegisterVar`, `RegisterFatBinary` and `UnregisterFatBinary`, or `atexit`, or, with
the HIP option off only, the fixed names `__cudaRegisterFatBinaryEnd` (which is
then `addUnderscoredPrefixToName "RegisterFatBinaryEnd"`) and
`__cudaRegisterLinkedBinary<ID>`. Those that `emitDeviceStub` declares are, with
the legacy ABI, `addPrefixToName "SetupArgument"` and the launch function
`cudaLaunch` (which is `addPrefixToName "Launch"`) for CUDA or `hipLaunchByPtr` for
HIP, and with the new ABI the fixed names `__cudaPopCallConfiguration` and
`cudaLaunchKernel`, whatever the family. So with HIP off every such name but
`atexit` starts with `cuda` or `__cuda`, and with HIP on every such name but
`atexit` and the two of the new ABI starts with `hip` or `__hip`. -/
theorem entry_point_names (CGM : CodeGenModule) (S : CGNVCUDARuntime)
    (CGF : CodeGenFunction) (Args : List VarDecl) :
    (∃ ID, declsWithin (ctorEntryPoints CGM ID) S.TheModule
      (makeModuleCtorFunction CGM S).1.TheModule)
    ∧ declsWithin
        (if CGM.CudaFeatureEnabled CudaFeature.CUDA_USES_NEW_LAUNCH = true then
          ["__cudaPopCallConfiguration", "cudaLaunchKernel"]
         else [addPrefixToName CGM "SetupArgument",
               if CGM.LangOpts.HIP = true then "hipLaunchByPtr" else "cudaLaunch"])
        S.TheModule (emitDeviceStub CGM S CGF Args).1.TheModule
    ∧ (CGM.LangOpts.HIP = false →
        addUnderscoredPrefixToName CGM "RegisterFatBinaryEnd" = "__cudaRegisterFatBinaryEnd"
        ∧ addPrefixToName CGM "Launch" = "cudaLaunch"
        ∧ (∀ ID, ∀ n ∈ ctorEntryPoints CGM ID, n = "atexit" ∨ ∃ r, n = "__cuda" ++ r)
        ∧ (∃ r, addPrefixToName CGM "SetupArgument" = "cuda" ++ r)
        ∧ (∃ r, "cudaLaunch" = "cuda" ++ r)
        ∧ (∃ r, "__cudaPopCallConfiguration" = "__cuda" ++ r)
        ∧ (∃ r, "cudaLaunchKernel" = "cuda" ++ r))
    ∧ (CGM.LangOpts.HIP = true →
        (∀ ID, ∀ n ∈ ctorEntryPoints CGM ID, n = "atexit" ∨ ∃ r, n = "__hip" ++ r)
        ∧ (∃ r, addPrefixToName CGM "SetupArgument" = "hip" ++ r)
        ∧ (∃ r, "hipLaunchByPtr" = "hip" ++ r)) := by
  refine ⟨makeModuleCtorFunction_decls CGM S, emitDeviceStub_decls CGM S CGF Args, ?_, ?_⟩
  · intro hH
    refine ⟨by simp [addUnderscoredPrefixToName, hH],
      by simp [addPrefixToName, hH], ?_,
      ⟨"SetupArgument", by simp [addPrefixToName, hH]⟩, ⟨"Launch", rfl⟩,
      ⟨"PopCallConfiguration", rfl⟩, ⟨"LaunchKernel", rfl⟩⟩
    intro ID n hn
    simp only [ctorEntryPoints, addUnderscoredPrefixToName, hH, Bool.false_eq_true, if_false,
      List.mem_append, List.mem_cons, List.mem_singleton, List.not_mem_nil, or_false] at hn
    rcases hn with (h | h | h | h | h) | h | h
    · exact Or.inr ⟨_, h⟩
    · exact Or.inr ⟨_, h⟩
    · exact Or.inr ⟨_, h⟩
    · exact Or.inr ⟨_, h⟩
    · exact Or.inl h
    · exact Or.inr ⟨"RegisterFatBinaryEnd", h⟩
    · refine Or.inr ⟨"RegisterLinkedBinary" ++ ID, ?_⟩
      rw [h, ← String.append_assoc]
      rfl
  · intro hH
    refine ⟨?_, ⟨"SetupArgument", by simp [addPrefixToName, hH]⟩, ⟨"LaunchByPtr", rfl⟩⟩
    intro ID n hn
    simp only [ctorEntryPoints, addUnderscoredPrefixToName, hH, if_true,
      List.mem_append, List.mem_cons, List.mem_singleton, List.not_mem_nil, or_false] at hn
    rcases hn with h | h | h | h | h
    · exact Or.inr ⟨_, h⟩
    · exact Or.inr ⟨_, h⟩
    · exact Or.inr ⟨_, h⟩
    · exact Or.inr ⟨_, h⟩
    · exact Or.inl h

/-! ## C20: the module ID of the relocatable mode -/

@[simp] theorem CreateRuntimeFunction_Strings (M : Module) (T : FunctionType) (n : String) :
    (M.CreateRuntimeFunction T n).Strings = M.Strings := by
  unfold Module.CreateRuntimeFunction; split <;> rfl

theorem makeDummyFunction_Strings (S : CGNVCUDARuntime) (T : FunctionType) :
    (makeDummyFunction S T).1.TheModule.Strings = S.TheModule.Strings := by
  unfold makeDummyFunction
  dsimp only
  split <;> rfl

theorem emitCtorTail_Strings (CGM : CodeGenModule) (S : CGNVCUDARuntime) :
    (emitCtorTail CGM S).1.TheModule.Strings = S.TheModule.Strings := by
  unfold emitCtorTail makeModuleDtorFunction
  cases S.GpuBinaryHandle with
  | none => rfl
  | some H => simp [CGNVCUDARuntime.onModule, Module.setBody, Module.createFunction]

theorem GetAddrOfConstantCString_mem (M : Module) (s n : String) :
    ∃ G ∈ (M.GetAddrOfConstantCString s n).Strings, G.Content = s := by
  unfold Module.GetAddrOfConstantCString
  split
  · rename_i h
    obtain ⟨G, hG, hc⟩ := List.any_eq_true.1 h
    exact ⟨G, hG, by simpa using hc⟩
  · exact ⟨⟨s, n, "", 1, true⟩, by simp, rfl⟩

/-- The string constant `makeConstantString` yields is in the module, with the
section and the alignment asked for. -/
theorem makeConstantString_mem (M : Module) (s n sec : String) (a : Nat)
    (hsec : sec ≠ "") (ha : a ≠ 0) :
    ∃ G ∈ (makeConstantString M s n sec a).1.Strings,
      G.Content = s ∧ G.Section = sec ∧ G.Alignment = a := by
  have hsec2 : sec.isEmpty = false := isEmpty_eq_false_of_ne sec hsec
  obtain ⟨G, hG, hc⟩ := GetAddrOfConstantCString_mem M s n
  unfold makeConstantString
  dsimp only
  refine ⟨_, List.mem_map.2 ⟨G, hG, rfl⟩, ?_⟩
  simp [hc, hsec2, ha]

theorem moduleIDSectionName_ne (CGM : CodeGenModule) : ModuleIDSectionName CGM ≠ "" := by
  unfold ModuleIDSectionName
  split
  · decide
  · split <;> decide

/-- The code and the module `emitCtorRDC` yields. -/
theorem emitCtorRDC_code (CGM : CodeGenModule) (S : CGNVCUDARuntime) (RG : Option Operand)
    (W : GlobalVariable) (sec tag : String) (hsec : sec ≠ "") :
    (emitCtorRDC CGM S RG W sec tag).2 =
      { Closed := [], Cur := ⟨"entry", 0⟩,
        CurInsts :=
          [Inst.call none
            (Operand.runtimeFn ("__cudaRegisterLinkedBinary" ++
              (tag ++ formatHex (getGUID CGM W))))
            [RG.getD (Operand.null getRegisterGlobalsFnTy.getPointerTo),
             Operand.cast (Operand.global W.Name) Ty.VoidPtrTy,
             Operand.cstring (tag ++ formatHex (getGUID CGM W)),
             Operand.func "dummy" S.TheModule.Functions.length]] }
    ∧ ∃ G ∈ (emitCtorRDC CGM S RG W sec tag).1.TheModule.Strings,
        G.Content = tag ++ formatHex (getGUID CGM W) ∧ G.Section = sec ∧ G.Alignment = 32 := by
  unfold emitCtorRDC
  dsimp only
  rw [makeDummyFunction_snd, makeDummyFunction_Strings]
  constructor
  · split <;> simp
  · obtain ⟨G, hG, hc⟩ := makeConstantString_mem S.TheModule
      (tag ++ formatHex (getGUID CGM W)) "" sec 32 hsec (by decide)
    refine ⟨G, ?_, hc⟩
    split <;> simpa using hG

theorem emitCtorBranch_rdc (CGM : CodeGenModule) (S : CGNVCUDARuntime)
    (RG : Option Operand) (Bin : Option String) (W : GlobalVariable)
    (hHIP : CGM.LangOpts.HIP = false) (hR : RelocatableDeviceCode CGM = true) :
    emitCtorBranch CGM S RG Bin W =
      emitCtorRDC CGM S RG W (ModuleIDSectionName CGM) (ModuleIDTag CGM) := by
  unfold emitCtorBranch
  simp [hHIP, hR]

/-- What `emitModuleCtor` adds to the module in the relocatable mode, from a
state without handle variable and with the payload `Payload`: the constructor
with its single block, the dummy callback, the alias of the wrapper and the
module ID constant. -/
theorem emitModuleCtor_rdc (CGM : CodeGenModule) (S : CGNVCUDARuntime)
    (RG : Option Operand) (Payload : String)
    (hHIP : CGM.LangOpts.HIP = false) (hR : RelocatableDeviceCode CGM = true)
    (hH0 : S.GpuBinaryHandle = none) :
    (emitModuleCtor CGM S RG (some Payload)).1.TheModule.Functions =
      S.TheModule.Functions ++
        [⟨addUnderscoredPrefixToName CGM "_module_ctor", Linkage.InternalLinkage,
          ⟨Ty.VoidTy, [Ty.VoidPtrTy]⟩,
          [⟨⟨"entry", 0⟩,
            [Inst.call none
              (Operand.runtimeFn ("__cudaRegisterLinkedBinary" ++
                relocatableModuleID CGM Payload))
              [RG.getD (Operand.null getRegisterGlobalsFnTy.getPointerTo),
               Operand.cast (Operand.global (addUnderscoredPrefixToName CGM "_fatbin_wrapper"))
                 Ty.VoidPtrTy,
               Operand.cstring (relocatableModuleID CGM Payload),
               Operand.func "dummy" (S.TheModule.Functions.length + 1)],
             Inst.retVoid]⟩]⟩,
         ⟨"dummy", Linkage.InternalLinkage, getCallbackFnTy, [⟨⟨"", 0⟩, [Inst.retVoid]⟩]⟩]
    ∧ (emitModuleCtor CGM S RG (some Payload)).1.TheModule.Aliases =
        S.TheModule.Aliases ++
          [⟨Linkage.ExternalLinkage, "__fatbinwrap" ++ relocatableModuleID CGM Payload,
            addUnderscoredPrefixToName CGM "_fatbin_wrapper"⟩]
    ∧ ∃ G ∈ (emitModuleCtor CGM S RG (some Payload)).1.TheModule.Strings,
        G.Content = relocatableModuleID CGM Payload
        ∧ G.Section = ModuleIDSectionName CGM ∧ G.Alignment = 32 := by
  unfold emitModuleCtor
  dsimp only
  rw [emitFatBinStr_snd]
  obtain ⟨hPH, hPF⟩ := emitFatBinStr_frame CGM { S with TheModule :=
    (S.TheModule.createFunction ⟨Ty.VoidTy, [Ty.VoidPtrTy]⟩ Linkage.InternalLinkage
      (addUnderscoredPrefixToName CGM "_module_ctor")).1 } (some Payload)
  have hPA := (emitFatBinStr_Globals CGM { S with TheModule :=
    (S.TheModule.createFunction ⟨Ty.VoidTy, [Ty.VoidPtrTy]⟩ Linkage.InternalLinkage
      (addUnderscoredPrefixToName CGM "_module_ctor")).1 } (some Payload)).2
  generalize emitFatBinStr CGM _ (some Payload) = P at hPH hPF hPA ⊢
  dsimp only [CGNVCUDARuntime.onModule, Module.setBody, Module.createFunction] at hPH hPF hPA ⊢
  rw [emitCtorBranch_rdc CGM _ RG _ _ hHIP hR]
  obtain ⟨hB2, G, hG, hGc⟩ := emitCtorRDC_code CGM
    { P.1 with TheModule := (P.1.TheModule.addGlobal
        (makeFatbinWrapper CGM (payloadOperand CGM (some Payload)))) } RG
    (makeFatbinWrapper CGM (payloadOperand CGM (some Payload)))
    (ModuleIDSectionName CGM) (ModuleIDTag CGM) (moduleIDSectionName_ne CGM)
  obtain ⟨hBH, hBF⟩ := emitCtorRDC_frame CGM
    { P.1 with TheModule := (P.1.TheModule.addGlobal
        (makeFatbinWrapper CGM (payloadOperand CGM (some Payload)))) } RG
    (makeFatbinWrapper CGM (payloadOperand CGM (some Payload)))
    (ModuleIDSectionName CGM) (ModuleIDTag CGM)
  have hBA := (emitCtorRDC_Globals CGM
    { P.1 with TheModule := (P.1.TheModule.addGlobal
        (makeFatbinWrapper CGM (payloadOperand CGM (some Payload)))) } RG
    (makeFatbinWrapper CGM (payloadOperand CGM (some Payload)))
    (ModuleIDSectionName CGM) (ModuleIDTag CGM)).2
  generalize emitCtorRDC CGM _ RG _ _ _ = B at hB2 hG hBH hBF hBA ⊢
  dsimp only [Module.addGlobal] at hBH hBF hBA hB2
  have hBH2 : B.1.GpuBinaryHandle = none := by rw [hBH, hPH, hH0]
  rw [emitCtorTail_none CGM B.1 hBH2]
  dsimp only
  refine ⟨?_, ?_, G, hG, hGc⟩
  · have hlen : P.1.TheModule.Functions.length = S.TheModule.Functions.length + 1 := by
      rw [hPF]; simp
    rw [hBF, hB2, hlen, hPF]
    simp [CtorCode.finish, setBlocksAt_append_length, relocatableModuleID, payloadOperand,
      makeFatbinWrapper]
  · rw [hBA, hPA]
    simp [relocatableModuleID, payloadOperand, makeFatbinWrapper]

theorem digitChar_hex (d : Nat) (h : d < 16) :
    Nat.digitChar d ∈ "0123456789abcdef".data := by
  interval_cases d <;> decide

theorem digitChar_ne_zero (d : Nat) (h : d < 16) (h0 : d ≠ 0) : Nat.digitChar d ≠ '0' := by
  interval_cases d <;> first | exact absurd rfl h0 | decide

theorem toDigitsCore_hex (fuel : Nat) :
    ∀ (n : Nat) (ds : List Char), (∀ c ∈ ds, c ∈ "0123456789abcdef".data) →
      ∀ c ∈ Nat.toDigitsCore 16 fuel n ds, c ∈ "0123456789abcdef".data := by
  induction fuel with
  | zero => intro n ds h; simpa [Nat.toDigitsCore] using h
  | succ f ih =>
    intro n ds h
    have hd := digitChar_hex (n % 16) (Nat.mod_lt _ (by decide))
    have hds : ∀ c ∈ Nat.digitChar (n % 16) :: ds, c ∈ "0123456789abcdef".data := by
      intro c hc
      rcases List.mem_cons.1 hc with h1 | h1
      · rw [h1]; exact hd
      · exact h c h1
    unfold Nat.toDigitsCore
    dsimp only
    split
    · exact hds
    · exact ih _ _ hds

theorem toDigitsCore_head (fuel : Nat) :
    ∀ (n : Nat) (ds : List Char), n ≠ 0 → n < fuel →
      (Nat.toDigitsCore 16 fuel n ds).head? ≠ some '0' := by
  induction fuel with
  | zero => intro n ds _ h; exact absurd h (Nat.not_lt_zero _)
  | succ f ih =>
    intro n ds h0 hlt
    unfold Nat.toDigitsCore
    dsimp only
    split
    · rename_i hq
      have hn : n < 16 := by
        rcases Nat.lt_or_ge n 16 with h | h
        · exact h
        · have := Nat.div_pos h (by decide : 0 < 16)
          omega
      rw [Nat.mod_eq_of_lt hn]
      simp only [List.head?_cons, ne_eq, Option.some.injEq]
      exact digitChar_ne_zero n hn h0
    · rename_i hq
      apply ih _ _ hq
      have : n / 16 < n := Nat.div_lt_self (Nat.pos_of_ne_zero h0) (by decide)
      omega

/-- The rendering `formatHex` uses hexadecimal digits in lower case only and has
no leading zero. -/
theorem formatHex_digits (v : Nat) :
    (∀ c ∈ (formatHex v).data, c ∈ "0123456789abcdef".data)
    ∧ (v ≠ 0 → (formatHex v).data.head? ≠ some '0') := by
  unfold formatHex Nat.toDigits
  exact ⟨toDigitsCore_hex _ _ _ (by simp), fun h => toDigitsCore_head _ _ _ h (by omega)⟩

/-- C20: for CUDA with relocatable device code, a binary file configured, the
payload `Payload` resolved and no handle variable yet, the module ID is `__nv_`
followed by the rendering of the 64-bit GUID of the wrapper constant in lower
case hexadecimal digits without leading zero, and `makeModuleCtorFunction` uses
it in three places: a string constant of the module holds exactly the ID, in
the module ID section; the wrapper has gained the external alias
`__fatbinwrap<ID>`; and the constructor is one block whose only call is to
`__cudaRegisterLinkedBinary<ID>` with the arguments (register-globals function,
wrapper, module ID constant, dummy callback), the callback being a function of
the module whose body is a single `ret void`. No `RegisterFatBinary` call is
emitted. -/
theorem relocatable_module_id (CGM : CodeGenModule) (S : CGNVCUDARuntime) (Payload : String)
    (hHIP : CGM.LangOpts.HIP = false) (hR : RelocatableDeviceCode CGM = true)
    (hFile : CGM.CodeGenOpts.CudaGpuBinaryFileName ≠ "")
    (hres : (resolveGpuBinary CGM S).2 = BinaryResolution.buffer (some Payload))
    (hH0 : S.GpuBinaryHandle = none) :
    ∃ (ID : String) (RGF : Function),
      ID = "__nv_" ++
        formatHex (getGUID CGM (makeFatbinWrapper CGM (Operand.cstring Payload)))
      ∧ getGUID CGM (makeFatbinWrapper CGM (Operand.cstring Payload)) < 2 ^ 64
      ∧ (∀ c ∈ (formatHex
            (getGUID CGM (makeFatbinWrapper CGM (Operand.cstring Payload)))).data,
          c ∈ "0123456789abcdef".data)
      ∧ (getGUID CGM (makeFatbinWrapper CGM (Operand.cstring Payload)) ≠ 0 →
          (formatHex (getGUID CGM (makeFatbinWrapper CGM (Operand.cstring Payload)))
            ).data.head? ≠ some '0')
      ∧ (∃ G ∈ (makeModuleCtorFunction CGM S).1.TheModule.Strings,
          G.Content = ID ∧ G.Section = ModuleIDSectionName CGM ∧ G.Alignment = 32)
      ∧ (makeModuleCtorFunction CGM S).1.TheModule.Aliases =
          S.TheModule.Aliases ++
            [⟨Linkage.ExternalLinkage, "__fatbinwrap" ++ ID, "__cuda_fatbin_wrapper"⟩]
      ∧ RGF.FnTy = getRegisterGlobalsFnTy
      ∧ (makeModuleCtorFunction CGM S).2 =
          some (Operand.func "__cuda_module_ctor" (S.TheModule.Functions.length + 1))
      ∧ (makeModuleCtorFunction CGM S).1.TheModule.Functions =
          S.TheModule.Functions ++
            [RGF,
             ⟨"__cuda_module_ctor", Linkage.InternalLinkage, ⟨Ty.VoidTy, [Ty.VoidPtrTy]⟩,
              [⟨⟨"entry", 0⟩,
                [Inst.call none (Operand.runtimeFn ("__cudaRegisterLinkedBinary" ++ ID))
                  [Operand.func RGF.Name S.TheModule.Functions.length,
                   Operand.cast (Operand.global "__cuda_fatbin_wrapper") Ty.VoidPtrTy,
                   Operand.cstring ID,
                   Operand.func "dummy" (S.TheModule.Functions.length + 2)],
                 Inst.retVoid]⟩]⟩,
             ⟨"dummy", Linkage.InternalLinkage, ⟨Ty.VoidTy, [Ty.VoidPtrTy]⟩,
              [⟨⟨"", 0⟩, [Inst.retVoid]⟩]⟩]
      ∧ callInsts
          [⟨⟨"entry", 0⟩,
            [Inst.call none (Operand.runtimeFn ("__cudaRegisterLinkedBinary" ++ ID))
              [Operand.func RGF.Name S.TheModule.Functions.length,
               Operand.cast (Operand.global "__cuda_fatbin_wrapper") Ty.VoidPtrTy,
               Operand.cstring ID,
               Operand.func "dummy" (S.TheModule.Functions.length + 2)],
             Inst.retVoid]⟩] =
          [Inst.call none (Operand.runtimeFn ("__cudaRegisterLinkedBinary" ++ ID))
            [Operand.func RGF.Name S.TheModule.Functions.length,
             Operand.cast (Operand.global "__cuda_fatbin_wrapper") Ty.VoidPtrTy,
             Operand.cstring ID,
             Operand.func "dummy" (S.TheModule.Functions.length + 2)]] := by
  have h1 : (CGM.CodeGenOpts.CudaGpuBinaryFileName.isEmpty && !CGM.LangOpts.HIP) = false := by
    simp [isEmpty_eq_false_of_ne _ hFile]
  have h2 : ((CGM.LangOpts.HIP || (CGM.LangOpts.CUDA && !RelocatableDeviceCode CGM)) &&
      S.EmittedKernels.isEmpty && S.DeviceVars.isEmpty) = false := by
    simp [hHIP, hR]
  have hID : relocatableModuleID CGM Payload = "__nv_" ++
      formatHex (getGUID CGM (makeFatbinWrapper CGM (Operand.cstring Payload))) := by
    simp [relocatableModuleID, ModuleIDTag, hHIP]
  have hName : ∀ X, addUnderscoredPrefixToName CGM X = "__cuda" ++ X := by
    intro X; simp [addUnderscoredPrefixToName, hHIP]
  obtain ⟨d1, d2⟩ := formatHex_digits
    (getGUID CGM (makeFatbinWrapper CGM (Operand.cstring Payload)))
  have hlt : getGUID CGM (makeFatbinWrapper CGM (Operand.cstring Payload)) < 2 ^ 64 := by
    unfold getGUID
    exact Nat.mod_lt _ (by decide)
  -- the state in which `emitModuleCtor` starts
  have hP2 := makeRegisterGlobalsOrDummy_snd CGM S
  have hPF := makeRegisterGlobalsOrDummy_Functions CGM S
  have hPH := (makeRegisterGlobalsOrDummy_frame CGM S).2.2.2.2.2.2
  have hPA := (makeRegisterGlobalsOrDummy_frame CGM S).2.1
  rw [makeModuleCtorFunction_past CGM S h1 h2]
  have hr2 := resolveGpuBinary_snd CGM (makeRegisterGlobalsOrDummy CGM S).1 S
  rw [hres] at hr2
  obtain ⟨hRH, hRM⟩ := resolveGpuBinary_fst CGM (makeRegisterGlobalsOrDummy CGM S).1
  generalize resolveGpuBinary CGM (makeRegisterGlobalsOrDummy CGM S).1 = R at hr2 hRH hRM ⊢
  rcases R with ⟨R1, r⟩
  dsimp only at hr2 hRH hRM
  subst hr2
  dsimp only
  obtain ⟨e1, e2, G, hG, hGc⟩ := emitModuleCtor_rdc CGM R1 (makeRegisterGlobalsOrDummy CGM S).2
    Payload hHIP hR (by rw [hRH, hPH, hH0])
  rw [hRM] at e1 e2
  rw [hID] at e1 e2 hGc
  rw [hPA] at e2
  rw [emitModuleCtor_snd, e1, e2, hRM]
  have hF : ∃ RGF : Function, RGF.FnTy = getRegisterGlobalsFnTy
      ∧ (makeRegisterGlobalsOrDummy CGM S).1.TheModule.Functions = S.TheModule.Functions ++ [RGF]
      ∧ (makeRegisterGlobalsOrDummy CGM S).2 =
          some (Operand.func RGF.Name S.TheModule.Functions.length) := by
    by_cases hE : (S.EmittedKernels.isEmpty && S.DeviceVars.isEmpty) = true
    · rw [hPF, hP2, if_pos hE, if_pos hE, if_pos hR, if_pos hR]
      exact ⟨_, rfl, rfl, rfl⟩
    · rw [hPF, hP2, if_neg hE, if_neg hE,
        (makeRegisterGlobalsFn_function CGM S (by simpa using hE)).2]
      exact ⟨_, rfl, rfl, rfl⟩
  obtain ⟨RGF, f1, f2, f3⟩ := hF
  refine ⟨_, RGF, rfl, hlt, d1, d2, ⟨G, hG, hGc⟩, ?_, f1, ?_, ?_, ?_⟩
  · rw [hName]; rfl
  · rw [f2, hName]; simp
  · rw [f2, f3, hName, hName]
    simp [getCallbackFnTy]
  · simp [callInsts]

theorem relocatable_module_id_witness :
    sampleRDC.LangOpts.HIP = false
    ∧ RelocatableDeviceCode sampleRDC = true
    ∧ sampleRDC.CodeGenOpts.CudaGpuBinaryFileName ≠ ""
    ∧ (resolveGpuBinary sampleRDC sampleState).2 = BinaryResolution.buffer (some "BIN")
    ∧ sampleState.GpuBinaryHandle = none
    ∧ ∃ (ID : String) (RGF : Function), ID = "__nv_f6e9e394f0fa0ef4"
      ∧ (makeModuleCtorFunction sampleRDC sampleState).1.TheModule.Aliases =
          sampleState.TheModule.Aliases ++
            [⟨Linkage.ExternalLinkage, "__fatbinwrap" ++ ID, "__cuda_fatbin_wrapper"⟩]
      ∧ (makeModuleCtorFunction sampleRDC sampleState).1.TheModule.Functions =
          sampleState.TheModule.Functions ++
            [RGF,
             ⟨"__cuda_module_ctor", Linkage.InternalLinkage, ⟨Ty.VoidTy, [Ty.VoidPtrTy]⟩,
              [⟨⟨"entry", 0⟩,
                [Inst.call none (Operand.runtimeFn ("__cudaRegisterLinkedBinary" ++ ID))
                  [Operand.func RGF.Name sampleState.TheModule.Functions.length,
                   Operand.cast (Operand.global "__cuda_fatbin_wrapper") Ty.VoidPtrTy,
                   Operand.cstring ID,
                   Operand.func "dummy" (sampleState.TheModule.Functions.length + 2)],
                 Inst.retVoid]⟩]⟩,
             ⟨"dummy", Linkage.InternalLinkage, ⟨Ty.VoidTy, [Ty.VoidPtrTy]⟩,
              [⟨⟨"", 0⟩, [Inst.retVoid]⟩]⟩] := by
  refine ⟨rfl, rfl, by decide, by decide, rfl, ?_⟩
  obtain ⟨ID, RGF, h1, -, -, -, -, h6, -, -, h9, -⟩ :=
    relocatable_module_id sampleRDC sampleState "BIN" rfl rfl (by decide) (by decide) rfl
  exact ⟨ID, RGF, h1.trans (by decide), h6, h9⟩

/-! ## C21: the register-globals argument of the relocatable mode -/

/-- The functions the module gains in the relocatable mode, from a state without
handle variable: the register-globals function, or the dummy function when both
lists are empty; the constructor, whose only call passes that function first;
and the dummy callback. -/
theorem rdc_ctor_functions (CGM : CodeGenModule) (S : CGNVCUDARuntime) (Payload : String)
    (hHIP : CGM.LangOpts.HIP = false) (hR : RelocatableDeviceCode CGM = true)
    (hFile : CGM.CodeGenOpts.CudaGpuBinaryFileName ≠ "")
    (hres : (resolveGpuBinary CGM S).2 = BinaryResolution.buffer (some Payload))
    (hH0 : S.GpuBinaryHandle = none) :
    ∃ RGF : Function,
      (makeModuleCtorFunction CGM S).1.TheModule.Functions =
        S.TheModule.Functions ++
          [RGF,
           ⟨addUnderscoredPrefixToName CGM "_module_ctor", Linkage.InternalLinkage,
            ⟨Ty.VoidTy, [Ty.VoidPtrTy]⟩,
            [⟨⟨"entry", 0⟩,
              [Inst.call none
                (Operand.runtimeFn ("__cudaRegisterLinkedBinary" ++
                  relocatableModuleID CGM Payload))
                [Operand.func RGF.Name S.TheModule.Functions.length,
                 Operand.cast
                   (Operand.global (addUnderscoredPrefixToName CGM "_fatbin_wrapper"))
                   Ty.VoidPtrTy,
                 Operand.cstring (relocatableModuleID CGM Payload),
                 Operand.func "dummy" (S.TheModule.Functions.length + 2)],
               Inst.retVoid]⟩]⟩,
           ⟨"dummy", Linkage.InternalLinkage, getCallbackFnTy, [⟨⟨"", 0⟩, [Inst.retVoid]⟩]⟩]
      ∧ RGF =
        (if (S.EmittedKernels.isEmpty && S.DeviceVars.isEmpty) = true then
          ⟨"dummy", Linkage.InternalLinkage, getRegisterGlobalsFnTy,
            [⟨⟨"", 0⟩, [Inst.retVoid]⟩]⟩
         else
          ⟨addUnderscoredPrefixToName CGM "_register_globals", Linkage.InternalLinkage,
            getRegisterGlobalsFnTy,
            [⟨⟨"entry", 0⟩,
              S.EmittedKernels.map (fun I => Inst.call none
              (Operand.runtimeFn (addUnderscoredPrefixToName CGM "RegisterFunction"))
              [Operand.arg 0, Operand.cast I.Kernel Ty.VoidPtrTy,
               Operand.cstring (getDeviceSideName CGM I.D),
               Operand.cstring (getDeviceSideName CGM I.D),
               Operand.constInt Ty.IntTy (-1), Operand.null Ty.VoidPtrTy,
               Operand.null Ty.VoidPtrTy, Operand.null Ty.VoidPtrTy,
               Operand.null Ty.VoidPtrTy, Operand.null (Ty.ptrTo Ty.IntTy)])
              ++ S.DeviceVars.map (fun Info => Inst.call none
              (Operand.runtimeFn (addUnderscoredPrefixToName CGM "RegisterVar"))
              [Operand.arg 0, Operand.cast (Operand.global Info.Var.Name) Ty.VoidPtrTy,
               Operand.cstring (getDeviceSideName CGM Info.D),
               Operand.cstring (getDeviceSideName CGM Info.D),
               Operand.constInt Ty.IntTy
                 (if Info.Flag &&& CGM.ExternDeviceVar ≠ 0 then 1 else 0),
               Operand.constInt Ty.IntTy Info.Var.AllocSize,
               Operand.constInt Ty.IntTy
                 (if Info.Flag &&& CGM.ConstantDeviceVar ≠ 0 then 1 else 0),
               Operand.constInt Ty.IntTy 0])
              ++ [Inst.retVoid]⟩]⟩) := by
  have h1 : (CGM.CodeGenOpts.CudaGpuBinaryFileName.isEmpty && !CGM.LangOpts.HIP) = false := by
    simp [isEmpty_eq_false_of_ne _ hFile]
  have h2 : ((CGM.LangOpts.HIP || (CGM.LangOpts.CUDA && !RelocatableDeviceCode CGM)) &&
      S.EmittedKernels.isEmpty && S.DeviceVars.isEmpty) = false := by
    simp [hHIP, hR]
  have hP2 := makeRegisterGlobalsOrDummy_snd CGM S
  have hPF := makeRegisterGlobalsOrDummy_Functions CGM S
  have hPH := (makeRegisterGlobalsOrDummy_frame CGM S).2.2.2.2.2.2
  rw [makeModuleCtorFunction_past CGM S h1 h2]
  have hr2 := resolveGpuBinary_snd CGM (makeRegisterGlobalsOrDummy CGM S).1 S
  rw [hres] at hr2
  obtain ⟨hRH, hRM⟩ := resolveGpuBinary_fst CGM (makeRegisterGlobalsOrDummy CGM S).1
  generalize resolveGpuBinary CGM (makeRegisterGlobalsOrDummy CGM S).1 = R at hr2 hRH hRM ⊢
  rcases R with ⟨R1, r⟩
  dsimp only at hr2 hRH hRM
  subst hr2
  dsimp only
  obtain ⟨e1, -, -⟩ := emitModuleCtor_rdc CGM R1 (makeRegisterGlobalsOrDummy CGM S).2
    Payload hHIP hR (by rw [hRH, hPH, hH0])
  rw [hRM] at e1
  rw [e1]
  by_cases hE : (S.EmittedKernels.isEmpty && S.DeviceVars.isEmpty) = true
  · rw [hPF, hP2, if_pos hE, if_pos hE, if_pos hR, if_pos hR, if_pos hE]
    refine ⟨_, ?_, rfl⟩
    simp
  · rw [hPF, hP2, if_neg hE, if_neg hE, if_neg hE,
      (makeRegisterGlobalsFn_function CGM S (by simpa using hE)).2]
    refine ⟨_, ?_, rfl⟩
    simp

/-- C21, as stated, fails: in the relocatable mode with no kernel and one device
variable recorded, the first argument of the `__cudaRegisterLinkedBinary` call
is the function `__cuda_register_globals`, whose body holds a `__cudaRegisterVar`
call, and not a function whose body is only a return. -/
theorem rdc_kernels_empty_counterexample :
    RelocatableDeviceCode sampleRDC = true
    ∧ sampleVarOnly.EmittedKernels = []
    ∧ (makeModuleCtorFunction sampleRDC sampleVarOnly).1.TheModule.Functions =
      sampleModule.Functions ++
        [⟨"__cuda_register_globals", Linkage.InternalLinkage, ⟨Ty.VoidTy, [Ty.VoidPtrPtrTy]⟩,
          [⟨⟨"entry", 0⟩,
            [Inst.call none (Operand.runtimeFn "__cudaRegisterVar")
              [Operand.arg 0, Operand.cast (Operand.global "v") Ty.VoidPtrTy,
               Operand.cstring "v", Operand.cstring "v",
               Operand.constInt Ty.IntTy 1, Operand.constInt Ty.IntTy 4,
               Operand.constInt Ty.IntTy 0, Operand.constInt Ty.IntTy 0],
             Inst.retVoid]⟩]⟩,
         ⟨"__cuda_module_ctor", Linkage.InternalLinkage, ⟨Ty.VoidTy, [Ty.VoidPtrTy]⟩,
          [⟨⟨"entry", 0⟩,
            [Inst.call none (Operand.runtimeFn "__cudaRegisterLinkedBinary__nv_f6e9e394f0fa0ef4")
              [Operand.func "__cuda_register_globals" 1,
               Operand.cast (Operand.global "__cuda_fatbin_wrapper") Ty.VoidPtrTy,
               Operand.cstring "__nv_f6e9e394f0fa0ef4",
               Operand.func "dummy" 3],
             Inst.retVoid]⟩]⟩,
         ⟨"dummy", Linkage.InternalLinkage, ⟨Ty.VoidTy, [Ty.VoidPtrTy]⟩,
          [⟨⟨"", 0⟩, [Inst.retVoid]⟩]⟩] := by
  decide

/-- C21, amended: in the relocatable mode the first argument of the
`__cudaRegisterLinkedBinary` call is a function of the register-globals type
`void(void **)`. It is the dummy function, whose body is a single `ret void`,
exactly when the kernel list and the device-variable list are both empty. With
no kernel but at least one device variable it is the register-globals function,
whose body is the `RegisterVar` calls followed by `ret void`; with a kernel it is
the register-globals function as well. -/
theorem rdc_placeholder (CGM : CodeGenModule) (S : CGNVCUDARuntime) (Payload : String)
    (hHIP : CGM.LangOpts.HIP = false) (hR : RelocatableDeviceCode CGM = true)
    (hFile : CGM.CodeGenOpts.CudaGpuBinaryFileName ≠ "")
    (hres : (resolveGpuBinary CGM S).2 = BinaryResolution.buffer (some Payload))
    (hH0 : S.GpuBinaryHandle = none) :
    ∃ RGF : Function,
      (makeModuleCtorFunction CGM S).1.TheModule.Functions =
        S.TheModule.Functions ++
          [RGF,
           ⟨addUnderscoredPrefixToName CGM "_module_ctor", Linkage.InternalLinkage,
            ⟨Ty.VoidTy, [Ty.VoidPtrTy]⟩,
            [⟨⟨"entry", 0⟩,
              [Inst.call none
                (Operand.runtimeFn ("__cudaRegisterLinkedBinary" ++
                  relocatableModuleID CGM Payload))
                [Operand.func RGF.Name S.TheModule.Functions.length,
                 Operand.cast
                   (Operand.global (addUnderscoredPrefixToName CGM "_fatbin_wrapper"))
                   Ty.VoidPtrTy,
                 Operand.cstring (relocatableModuleID CGM Payload),
                 Operand.func "dummy" (S.TheModule.Functions.length + 2)],
               Inst.retVoid]⟩]⟩,
           ⟨"dummy", Linkage.InternalLinkage, ⟨Ty.VoidTy, [Ty.VoidPtrTy]⟩,
            [⟨⟨"", 0⟩, [Inst.retVoid]⟩]⟩]
      ∧ RGF.FnTy = ⟨Ty.VoidTy, [Ty.VoidPtrPtrTy]⟩
      ∧ (S.EmittedKernels = [] ∧ S.DeviceVars = [] →
          RGF = ⟨"dummy", Linkage.InternalLinkage, ⟨Ty.VoidTy, [Ty.VoidPtrPtrTy]⟩,
            [⟨⟨"", 0⟩, [Inst.retVoid]⟩]⟩)
      ∧ (¬(S.EmittedKernels = [] ∧ S.DeviceVars = []) →
          RGF = ⟨addUnderscoredPrefixToName CGM "_register_globals", Linkage.InternalLinkage,
            ⟨Ty.VoidTy, [Ty.VoidPtrPtrTy]⟩,
            [⟨⟨"entry", 0⟩,
              S.EmittedKernels.map (fun I => Inst.call none
              (Operand.runtimeFn (addUnderscoredPrefixToName CGM "RegisterFunction"))
              [Operand.arg 0, Operand.cast I.Kernel Ty.VoidPtrTy,
               Operand.cstring (getDeviceSideName CGM I.D),
               Operand.cstring (getDeviceSideName CGM I.D),
               Operand.constInt Ty.IntTy (-1), Operand.null Ty.VoidPtrTy,
               Operand.null Ty.VoidPtrTy, Operand.null Ty.VoidPtrTy,
               Operand.null Ty.VoidPtrTy, Operand.null (Ty.ptrTo Ty.IntTy)])
              ++ S.DeviceVars.map (fun Info => Inst.call none
              (Operand.runtimeFn (addUnderscoredPrefixToName CGM "RegisterVar"))
              [Operand.arg 0, Operand.cast (Operand.global Info.Var.Name) Ty.VoidPtrTy,
               Operand.cstring (getDeviceSideName CGM Info.D),
               Operand.cstring (getDeviceSideName CGM Info.D),
               Operand.constInt Ty.IntTy
                 (if Info.Flag &&& CGM.ExternDeviceVar ≠ 0 then 1 else 0),
               Operand.constInt Ty.IntTy Info.Var.AllocSize,
               Operand.constInt Ty.IntTy
                 (if Info.Flag &&& CGM.ConstantDeviceVar ≠ 0 then 1 else 0),
               Operand.constInt Ty.IntTy 0])
              ++ [Inst.retVoid]⟩]⟩)
      ∧ (S.EmittedKernels = [] → S.DeviceVars ≠ [] →
          RGF.Blocks = [⟨⟨"entry", 0⟩,
              S.DeviceVars.map (fun Info => Inst.call none
              (Operand.runtimeFn (addUnderscoredPrefixToName CGM "RegisterVar"))
              [Operand.arg 0, Operand.cast (Operand.global Info.Var.Name) Ty.VoidPtrTy,
               Operand.cstring (getDeviceSideName CGM Info.D),
               Operand.cstring (getDeviceSideName CGM Info.D),
               Operand.constInt Ty.IntTy
                 (if Info.Flag &&& CGM.ExternDeviceVar ≠ 0 then 1 else 0),
               Operand.constInt Ty.IntTy Info.Var.AllocSize,
               Operand.constInt Ty.IntTy
                 (if Info.Flag &&& CGM.ConstantDeviceVar ≠ 0 then 1 else 0),
               Operand.constInt Ty.IntTy 0])
              ++ [Inst.retVoid]⟩]
          ∧ RGF.Blocks ≠ [⟨⟨"", 0⟩, [Inst.retVoid]⟩]) := by
  obtain ⟨RGF, hF, hRGF⟩ := rdc_ctor_functions CGM S Payload hHIP hR hFile hres hH0
  have hlate : ¬(S.EmittedKernels = [] ∧ S.DeviceVars = []) →
      RGF = ⟨addUnderscoredPrefixToName CGM "_register_globals", Linkage.InternalLinkage,
        ⟨Ty.VoidTy, [Ty.VoidPtrPtrTy]⟩,
        [⟨⟨"entry", 0⟩,
          S.EmittedKernels.map (fun I => Inst.call none
              (Operand.runtimeFn (addUnderscoredPrefixToName CGM "RegisterFunction"))
              [Operand.arg 0, Operand.cast I.Kernel Ty.VoidPtrTy,
               Operand.cstring (getDeviceSideName CGM I.D),
               Operand.cstring (getDeviceSideName CGM I.D),
               Operand.constInt Ty.IntTy (-1), Operand.null Ty.VoidPtrTy,
               Operand.null Ty.VoidPtrTy, Operand.null Ty.VoidPtrTy,
               Operand.null Ty.VoidPtrTy, Operand.null (Ty.ptrTo Ty.IntTy)])
          ++ S.DeviceVars.map (fun Info => Inst.call none
              (Operand.runtimeFn (addUnderscoredPrefixToName CGM "RegisterVar"))
              [Operand.arg 0, Operand.cast (Operand.global Info.Var.Name) Ty.VoidPtrTy,
               Operand.cstring (getDeviceSideName CGM Info.D),
               Operand.cstring (getDeviceSideName CGM Info.D),
               Operand.constInt Ty.IntTy
                 (if Info.Flag &&& CGM.ExternDeviceVar ≠ 0 then 1 else 0),
               Operand.constInt Ty.IntTy Info.Var.AllocSize,
               Operand.constInt Ty.IntTy
                 (if Info.Flag &&& CGM.ConstantDeviceVar ≠ 0 then 1 else 0),
               Operand.constInt Ty.IntTy 0])
          ++ [Inst.retVoid]⟩]⟩ := by
    intro h
    rw [hRGF, lists_isEmpty_false S h]
    rfl
  refine ⟨RGF, hF, ?_, ?_, hlate, ?_⟩
  · rw [hRGF]
    split <;> rfl
  · rintro ⟨hK, hV⟩
    rw [hRGF, hK, hV]
    rfl
  · intro hK hV
    rw [hlate (fun h => hV h.2), hK]
    refine ⟨rfl, ?_⟩
    intro h
    simp at h

theorem rdc_placeholder_witness :
    sampleRDC.LangOpts.HIP = false
    ∧ RelocatableDeviceCode sampleRDC = true
    ∧ sampleRDC.CodeGenOpts.CudaGpuBinaryFileName ≠ ""
    ∧ (resolveGpuBinary sampleRDC (CGNVCUDARuntime.init sampleModule)).2 =
        BinaryResolution.buffer (some "BIN")
    ∧ (CGNVCUDARuntime.init sampleModule).GpuBinaryHandle = none
    ∧ ∃ RGF : Function,
      (makeModuleCtorFunction sampleRDC
          (CGNVCUDARuntime.init sampleModule)).1.TheModule.Functions =
        sampleModule.Functions ++
          [RGF,
           ⟨"__cuda_module_ctor", Linkage.InternalLinkage, ⟨Ty.VoidTy, [Ty.VoidPtrTy]⟩,
            [⟨⟨"entry", 0⟩,
              [Inst.call none
                (Operand.runtimeFn ("__cudaRegisterLinkedBinary" ++
                  relocatableModuleID sampleRDC "BIN"))
                [Operand.func RGF.Name 1,
                 Operand.cast (Operand.global "__cuda_fatbin_wrapper") Ty.VoidPtrTy,
                 Operand.cstring (relocatableModuleID sampleRDC "BIN"),
                 Operand.func "dummy" 3],
               Inst.retVoid]⟩]⟩,
           ⟨"dummy", Linkage.InternalLinkage, ⟨Ty.VoidTy, [Ty.VoidPtrTy]⟩,
            [⟨⟨"", 0⟩, [Inst.retVoid]⟩]⟩]
      ∧ RGF = ⟨"dummy", Linkage.InternalLinkage, ⟨Ty.VoidTy, [Ty.VoidPtrPtrTy]⟩,
            [⟨⟨"", 0⟩, [Inst.retVoid]⟩]⟩ := by
  refine ⟨rfl, rfl, by decide, by decide, rfl, ?_⟩
  obtain ⟨RGF, h1, -, h3, -⟩ := rdc_placeholder sampleRDC (CGNVCUDARuntime.init sampleModule)
    "BIN" rfl rfl (by decide) (by decide) rfl
  exact ⟨RGF, h1, h3 ⟨rfl, rfl⟩⟩

/-! ## C22 and C23: faults of the constructor generator -/

theorem resolveGpuBinary_Faults (CGM : CodeGenModule) (S : CGNVCUDARuntime) :
    (resolveGpuBinary CGM S).1.Faults = S.Faults := by
  unfold resolveGpuBinary
  dsimp only
  split
  · split <;> rfl
  · split
    · split <;> rfl
    · rfl

theorem emitFatBinStr_Faults (CGM : CodeGenModule) (S : CGNVCUDARuntime)
    (Bin : Option String) :
    (emitFatBinStr CGM S Bin).1.Faults =
      S.Faults ++ (if CGM.LangOpts.HIP = false ∧ Bin = none then ["CudaGpuBinary is null"]
        else []) := by
  unfold emitFatBinStr
  split <;> split <;> simp_all [CGNVCUDARuntime.onModule]

theorem makeDummyFunction_Faults (S : CGNVCUDARuntime) (T : FunctionType) :
    (makeDummyFunction S T).1.Faults =
      S.Faults ++ (if T.Ret = Ty.VoidTy then []
        else ["Can only generate dummy functions returning void!"]) := by
  unfold makeDummyFunction
  dsimp only
  split <;> simp

theorem emitCtorHIP_Faults (CGM : CodeGenModule) (S : CGNVCUDARuntime) (RG : Option Operand)
    (Bin : Option String) (f w : Operand) :
    (emitCtorHIP CGM S RG Bin f w).1.Faults = S.Faults := by
  unfold emitCtorHIP
  rfl

theorem emitCtorCUDA_Faults (CGM : CodeGenModule) (S : CGNVCUDARuntime) (RG : Option Operand)
    (f w : Operand) :
    (emitCtorCUDA CGM S RG f w).1.Faults = S.Faults := by
  unfold emitCtorCUDA
  dsimp only
  split <;> rfl

theorem emitCtorRDC_Faults (CGM : CodeGenModule) (S : CGNVCUDARuntime) (RG : Option Operand)
    (W : GlobalVariable) (sec tag : String) :
    (emitCtorRDC CGM S RG W sec tag).1.Faults =
      S.Faults ++ (if RG = none then ["Expecting at least dummy function!"] else []) := by
  unfold emitCtorRDC
  dsimp only
  rw [makeDummyFunction_Faults]
  cases RG <;> simp [getCallbackFnTy]

theorem emitCtorBranch_Faults (CGM : CodeGenModule) (S : CGNVCUDARuntime)
    (RG : Option Operand) (Bin : Option String) (W : GlobalVariable) :
    (emitCtorBranch CGM S RG Bin W).1.Faults =
      S.Faults ++
        (if CGM.LangOpts.HIP = false ∧ RelocatableDeviceCode CGM = true ∧ RG = none then
          ["Expecting at least dummy function!"]
         else []) := by
  unfold emitCtorBranch
  dsimp only
  by_cases hH : CGM.LangOpts.HIP = true
  · simp [hH, emitCtorHIP_Faults]
  · by_cases hR : RelocatableDeviceCode CGM = true
    · simp [hH, hR, emitCtorRDC_Faults]
    · simp [hH, hR, emitCtorCUDA_Faults]

theorem emitCtorTail_Faults (CGM : CodeGenModule) (S : CGNVCUDARuntime) :
    (emitCtorTail CGM S).1.Faults = S.Faults := by
  unfold emitCtorTail makeModuleDtorFunction
  cases S.GpuBinaryHandle with
  | none => rfl
  | some H => rfl

/-- The faults `emitModuleCtor` records: the absent buffer of a non-HIP
configuration, and the absent register-globals function of the relocatable
mode. -/
theorem emitModuleCtor_Faults (CGM : CodeGenModule) (S : CGNVCUDARuntime)
    (RG : Option Operand) (Bin : Option String) :
    (emitModuleCtor CGM S RG Bin).1.Faults =
      S.Faults ++
        (if CGM.LangOpts.HIP = false ∧ Bin = none then ["CudaGpuBinary is null"] else []) ++
        (if CGM.LangOpts.HIP = false ∧ RelocatableDeviceCode CGM = true ∧ RG = none then
          ["Expecting at least dummy function!"]
         else []) := by
  unfold emitModuleCtor
  dsimp only
  have hF := emitFatBinStr_Faults CGM { S with TheModule := (S.TheModule.createFunction
    ⟨Ty.VoidTy, [Ty.VoidPtrTy]⟩ Linkage.InternalLinkage
    (addUnderscoredPrefixToName CGM "_module_ctor")).1 } Bin
  generalize emitFatBinStr CGM _ Bin = P at hF ⊢
  dsimp only [CGNVCUDARuntime.onModule]
  rw [emitCtorTail_Faults, emitCtorBranch_Faults]
  dsimp only at hF ⊢
  rw [hF]

/-- The outcome of the payload resolution, case by case. -/
theorem resolveGpuBinary_cases (CGM : CodeGenModule) (S : CGNVCUDARuntime) :
    ((resolveGpuBinary CGM S).2 = BinaryResolution.buffer none →
      CGM.LangOpts.isInJIT = false ∧ CGM.CodeGenOpts.CudaGpuBinaryFileName = "")
    ∧ (∀ Buf, (resolveGpuBinary CGM S).2 = BinaryResolution.buffer (some Buf) →
        (CGM.LangOpts.isInJIT = true ∧ Buf = CGM.CodeGenOpts.GPUBinForJIT ∧ Buf ≠ "")
        ∨ (CGM.LangOpts.isInJIT = false ∧ CGM.CodeGenOpts.CudaGpuBinaryFileName ≠ ""
            ∧ CGM.getFileOrSTDIN CGM.CodeGenOpts.CudaGpuBinaryFileName = Except.ok Buf))
    ∧ ((resolveGpuBinary CGM S).2 = BinaryResolution.abort →
        (CGM.LangOpts.isInJIT = true ∧ CGM.CodeGenOpts.GPUBinForJIT = "")
        ∨ (CGM.LangOpts.isInJIT = false ∧ CGM.CodeGenOpts.CudaGpuBinaryFileName ≠ ""
            ∧ ∃ EC, CGM.getFileOrSTDIN CGM.CodeGenOpts.CudaGpuBinaryFileName =
                Except.error EC)) := by
  by_cases hJ : CGM.LangOpts.isInJIT = true
  · rw [resolveGpuBinary_jit CGM S hJ]
    by_cases hB : CGM.CodeGenOpts.GPUBinForJIT = ""
    · rw [if_pos hB]
      refine ⟨by intro h; simp at h, by intro Buf h; simp at h, fun _ => Or.inl ⟨hJ, hB⟩⟩
    · rw [if_neg hB]
      refine ⟨by intro h; simp at h, ?_, by intro h; simp at h⟩
      intro Buf h
      simp only [BinaryResolution.buffer.injEq, Option.some.injEq] at h
      exact Or.inl ⟨hJ, h.symm, by rw [← h]; exact hB⟩
  · have hJ2 : CGM.LangOpts.isInJIT = false := by simpa using hJ
    by_cases hF : CGM.CodeGenOpts.CudaGpuBinaryFileName = ""
    · rw [resolveGpuBinary_no_file CGM S hJ2 hF]
      refine ⟨fun _ => ⟨hJ2, hF⟩, by intro Buf h; simp at h, by intro h; simp at h⟩
    · cases hr : CGM.getFileOrSTDIN CGM.CodeGenOpts.CudaGpuBinaryFileName with
      | error EC =>
        rw [resolveGpuBinary_error CGM S EC hJ2 hF hr]
        refine ⟨by intro h; simp at h, by intro Buf h; simp at h,
          fun _ => Or.inr ⟨hJ2, hF, EC, rfl⟩⟩
      | ok Buf0 =>
        rw [resolveGpuBinary_file CGM S Buf0 hJ2 hF hr]
        refine ⟨by intro h; simp at h, ?_, by intro h; simp at h⟩
        intro Buf h
        simp only [BinaryResolution.buffer.injEq, Option.some.injEq] at h
        exact Or.inr ⟨hJ2, hF, by rw [← h]⟩

/-- No run of `makeModuleCtorFunction` records a fault. -/
theorem makeModuleCtorFunction_Faults (CGM : CodeGenModule) (S : CGNVCUDARuntime) :
    (makeModuleCtorFunction CGM S).1.Faults = S.Faults := by
  by_cases h1 : (CGM.CodeGenOpts.CudaGpuBinaryFileName.isEmpty && !CGM.LangOpts.HIP) = true
  · rw [makeModuleCtorFunction_early CGM S (Or.inl h1)]
  · by_cases h2 : ((CGM.LangOpts.HIP || (CGM.LangOpts.CUDA && !RelocatableDeviceCode CGM)) &&
        S.EmittedKernels.isEmpty && S.DeviceVars.isEmpty) = true
    · rw [makeModuleCtorFunction_early CGM S (Or.inr h2)]
    · have h1f : (CGM.CodeGenOpts.CudaGpuBinaryFileName.isEmpty && !CGM.LangOpts.HIP) = false := by
        simpa using h1
      rw [makeModuleCtorFunction_past CGM S h1f (by simpa using h2)]
      have hPF := (makeRegisterGlobalsOrDummy_frame CGM S).2.2.2.2.2.1
      have hP2 := makeRegisterGlobalsOrDummy_snd CGM S
      have hRF := resolveGpuBinary_Faults CGM (makeRegisterGlobalsOrDummy CGM S).1
      have hN := (resolveGpuBinary_cases CGM (makeRegisterGlobalsOrDummy CGM S).1).1
      generalize resolveGpuBinary CGM (makeRegisterGlobalsOrDummy CGM S).1 = R at hRF hN ⊢
      rcases R with ⟨R1, _ | Bin⟩
      · exact hRF.trans hPF
      · dsimp only at hRF hN ⊢
        rw [emitModuleCtor_Faults, hRF, hPF]
        have hA : ¬(CGM.LangOpts.HIP = false ∧ Bin = none) := by
          rintro ⟨hH, hB⟩
          have hE := (hN (by rw [hB])).2
          have hEmpty : ("" : String).isEmpty = true := by decide
          rw [hE, hEmpty, hH] at h1f
          simp at h1f
        have hB : ¬(CGM.LangOpts.HIP = false ∧ RelocatableDeviceCode CGM = true
            ∧ (makeRegisterGlobalsOrDummy CGM S).2 = none) := by
          rintro ⟨-, hR, hn⟩
          rw [hP2] at hn
          split at hn
          · simp at hn
          · simp at hn
        rw [if_neg hA, if_neg hB]
        simp

/-- C22: with the HIP option off, a payload resolution without buffer happens
only for an empty file name, for which `makeModuleCtorFunction` has returned null
before; a null result comes from the empty file name, from both lists being
empty, from an empty JIT blob or from a file that cannot be opened; and whenever
a constructor is produced, so that the wrapper construction was reached, the
buffer is present: it is the non-empty JIT blob or the content read from the
file, the wrapper points at the constant string holding it, and the fault of
reading an absent buffer is not recorded. -/
theorem cuda_buffer_present (CGM : CodeGenModule) (S : CGNVCUDARuntime)
    (hHIP : CGM.LangOpts.HIP = false) :
    ((resolveGpuBinary CGM S).2 = BinaryResolution.buffer none →
        CGM.CodeGenOpts.CudaGpuBinaryFileName = "" ∧ makeModuleCtorFunction CGM S = (S, none))
    ∧ ((makeModuleCtorFunction CGM S).2 = none →
        CGM.CodeGenOpts.CudaGpuBinaryFileName = ""
        ∨ ((CGM.LangOpts.HIP || (CGM.LangOpts.CUDA && !RelocatableDeviceCode CGM)) &&
            S.EmittedKernels.isEmpty && S.DeviceVars.isEmpty) = true
        ∨ (CGM.LangOpts.isInJIT = true ∧ CGM.CodeGenOpts.GPUBinForJIT = "")
        ∨ (CGM.LangOpts.isInJIT = false
            ∧ ∃ EC, CGM.getFileOrSTDIN CGM.CodeGenOpts.CudaGpuBinaryFileName =
                Except.error EC))
    ∧ ((makeModuleCtorFunction CGM S).2 ≠ none →
        ∃ Buf, (resolveGpuBinary CGM S).2 = BinaryResolution.buffer (some Buf)
          ∧ ((CGM.LangOpts.isInJIT = true ∧ Buf = CGM.CodeGenOpts.GPUBinForJIT ∧ Buf ≠ "")
            ∨ (CGM.LangOpts.isInJIT = false ∧ CGM.CodeGenOpts.CudaGpuBinaryFileName ≠ ""
                ∧ CGM.getFileOrSTDIN CGM.CodeGenOpts.CudaGpuBinaryFileName = Except.ok Buf))
          ∧ (makeModuleCtorFunction CGM S).1.TheModule.Globals =
              S.TheModule.Globals ++ [makeFatbinWrapper CGM (Operand.cstring Buf)] ++
                (if RelocatableDeviceCode CGM = false then [cudaHandleVar CGM] else []))
    ∧ ("CudaGpuBinary is null" ∉ S.Faults →
        "CudaGpuBinary is null" ∉ (makeModuleCtorFunction CGM S).1.Faults) := by
  have hEmpty : ("" : String).isEmpty = true := by decide
  obtain ⟨c1, c2, c3⟩ := resolveGpuBinary_cases CGM S
  have hearly : CGM.CodeGenOpts.CudaGpuBinaryFileName = "" →
      makeModuleCtorFunction CGM S = (S, none) := by
    intro hF
    apply makeModuleCtorFunction_early
    left
    rw [hF, hEmpty, hHIP]
    rfl
  refine ⟨?_, ?_, ?_, ?_⟩
  · intro h
    exact ⟨(c1 h).2, hearly (c1 h).2⟩
  · intro hNone
    by_cases hF : CGM.CodeGenOpts.CudaGpuBinaryFileName = ""
    · exact Or.inl hF
    · by_cases h2 : ((CGM.LangOpts.HIP || (CGM.LangOpts.CUDA && !RelocatableDeviceCode CGM)) &&
          S.EmittedKernels.isEmpty && S.DeviceVars.isEmpty) = true
      · exact Or.inr (Or.inl h2)
      · have h1 : (CGM.CodeGenOpts.CudaGpuBinaryFileName.isEmpty && !CGM.LangOpts.HIP) =
            false := by simp [isEmpty_eq_false_of_ne _ hF]
        obtain ⟨a1, -⟩ := makeModuleCtorFunction_abort CGM S h1 (by simpa using h2) hNone
        rcases c3 a1 with h | ⟨h, -, h3⟩
        · exact Or.inr (Or.inr (Or.inl h))
        · exact Or.inr (Or.inr (Or.inr ⟨h, h3⟩))
  · intro hSome
    obtain ⟨Bin, hres, hN, hG⟩ := ctor_produced CGM S hSome
    cases Bin with
    | none =>
      have := hN rfl
      rw [hHIP] at this
      exact absurd this (by decide)
    | some Buf =>
      refine ⟨Buf, hres, c2 Buf hres, ?_⟩
      rw [hG]
      simp [hHIP, payloadOperand]
  · intro h
    rw [makeModuleCtorFunction_Faults]
    exact h

theorem cuda_buffer_present_witness :
    sampleCUDA.LangOpts.HIP = false
    ∧ (makeModuleCtorFunction sampleCUDA sampleState).2 ≠ none
    ∧ ∃ Buf, (resolveGpuBinary sampleCUDA sampleState).2 = BinaryResolution.buffer (some Buf)
        ∧ (makeModuleCtorFunction sampleCUDA sampleState).1.TheModule.Globals =
            sampleState.TheModule.Globals ++
              [makeFatbinWrapper sampleCUDA (Operand.cstring Buf)] ++
              (if RelocatableDeviceCode sampleCUDA = false then [cudaHandleVar sampleCUDA]
               else []) := by
  refine ⟨rfl, by decide, ?_⟩
  obtain ⟨Buf, h1, -, h3⟩ := (cuda_buffer_present sampleCUDA sampleState rfl).2.2.1 (by decide)
  exact ⟨Buf, h1, h3⟩

/-- C23: for every configuration and state, `makeModuleCtorFunction` records no
fault, so that neither assertion of the generator is violated. The two function
types handed to `makeDummyFunction`, the register-globals type and the callback
type, return void, and `makeDummyFunction` records nothing for such a type. With
relocatable device code the register-globals function with which the family
branch is reached is present, the real one or the dummy, and the family branch
records nothing when it is. -/
theorem ctor_assertions_unreachable (CGM : CodeGenModule) (S : CGNVCUDARuntime) :
    (makeModuleCtorFunction CGM S).1.Faults = S.Faults
    ∧ getRegisterGlobalsFnTy.Ret = Ty.VoidTy
    ∧ getCallbackFnTy.Ret = Ty.VoidTy
    ∧ (∀ (X : CGNVCUDARuntime) (T : FunctionType), T.Ret = Ty.VoidTy →
        (makeDummyFunction X T).1.Faults = X.Faults)
    ∧ (RelocatableDeviceCode CGM = true →
        (makeRegisterGlobalsOrDummy CGM S).2 =
          some (Operand.func
            (if (S.EmittedKernels.isEmpty && S.DeviceVars.isEmpty) = true then "dummy"
             else addUnderscoredPrefixToName CGM "_register_globals")
            S.TheModule.Functions.length))
    ∧ (∀ (X : CGNVCUDARuntime) (RG : Option Operand) (Bin : Option String)
        (W : GlobalVariable), RG ≠ none →
        (emitCtorBranch CGM X RG Bin W).1.Faults = X.Faults) := by
  refine ⟨makeModuleCtorFunction_Faults CGM S, rfl, rfl, ?_, ?_, ?_⟩
  · intro X T hT
    rw [makeDummyFunction_Faults, if_pos hT]
    simp
  · intro hR
    rw [makeRegisterGlobalsOrDummy_snd]
    by_cases hE : (S.EmittedKernels.isEmpty && S.DeviceVars.isEmpty) = true
    · rw [if_pos hE, if_pos hR, if_pos hE]
    · rw [if_neg hE, if_neg hE]
  · intro X RG Bin W hRG
    rw [emitCtorBranch_Faults, if_neg (fun h => hRG h.2.2)]
    simp

/-! ## C24: the size argument of `RegisterVar` -/

theorem zext_natCast (w n : Nat) :
    ConstantInt.getZExtValue w (n : Int) = ((n % 2 ^ w : Nat) : Int) := by
  unfold ConstantInt.getZExtValue
  push_cast
  rfl

theorem zext_eq_iff (w n : Nat) :
    ConstantInt.getZExtValue w (n : Int) = (n : Int) ↔ n < 2 ^ w := by
  rw [zext_natCast]
  constructor
  · intro h
    have h2 : n % 2 ^ w = n := by exact_mod_cast h
    rw [← h2]
    exact Nat.mod_lt _ (Nat.pow_pos (by decide))
  · intro h
    rw [Nat.mod_eq_of_lt h]

theorem sext_natCast (w n : Nat) :
    ConstantInt.getSExtValue w (n : Int) =
      if n % 2 ^ w < 2 ^ (w - 1) then ((n % 2 ^ w : Nat) : Int)
      else ((n % 2 ^ w : Nat) : Int) - 2 ^ w := by
  have h := zext_natCast w n
  unfold ConstantInt.getZExtValue at h
  unfold ConstantInt.getSExtValue
  rw [h]
  by_cases hlt : n % 2 ^ w < 2 ^ (w - 1)
  · have : ((n % 2 ^ w : Nat) : Int) < 2 ^ (w - 1) := by exact_mod_cast hlt
    rw [if_pos this, if_pos hlt]
  · have : ¬((n % 2 ^ w : Nat) : Int) < 2 ^ (w - 1) := by
      intro h2
      exact hlt (by exact_mod_cast h2)
    rw [if_neg this, if_neg hlt]

theorem sext_facts (w n : Nat) (hw : 0 < w) :
    (ConstantInt.getSExtValue w (n : Int) = (n : Int) ↔ n < 2 ^ (w - 1))
    ∧ (0 ≤ ConstantInt.getSExtValue w (n : Int) ↔ n % 2 ^ w < 2 ^ (w - 1)) := by
  rw [sext_natCast]
  have hpow : 2 ^ w = 2 * 2 ^ (w - 1) := by
    obtain ⟨k, rfl⟩ : ∃ k, w = k + 1 := ⟨w - 1, by omega⟩
    simp [pow_succ, Nat.mul_comm]
  have hpos : 0 < 2 ^ (w - 1) := Nat.pow_pos (by decide)
  have hm : n % 2 ^ w < 2 ^ w := Nat.mod_lt _ (Nat.pow_pos (by decide))
  have hle : n % 2 ^ w ≤ n := Nat.mod_le _ _
  have hpowZ : ((2 : Int) ^ w) = ((2 ^ w : Nat) : Int) := by push_cast; rfl
  by_cases hlt : n % 2 ^ w < 2 ^ (w - 1)
  · rw [if_pos hlt]
    refine ⟨⟨?_, ?_⟩, ⟨fun _ => hlt, fun _ => Int.natCast_nonneg _⟩⟩
    · intro h
      have h2 : n % 2 ^ w = n := by exact_mod_cast h
      rw [← h2]
      exact hlt
    · intro h
      rw [Nat.mod_eq_of_lt (by omega)]
  · rw [if_neg hlt]
    refine ⟨⟨?_, ?_⟩, ⟨?_, fun h => absurd h hlt⟩⟩
    · intro h
      rw [hpowZ] at h
      omega
    · intro h
      have : n % 2 ^ w = n := Nat.mod_eq_of_lt (by omega)
      omega
    · intro h
      rw [hpowZ] at h
      omega

/-- C24: the sixth argument of each `RegisterVar` call of the register-globals
function is the constant built by `ConstantInt::get` from the type `int` and the
allocation size of the variable of its entry. With an `int` of `w > 0` bits that
constant holds the size modulo `2^w`; it equals the size exactly when the size
is below `2^w`; read with sign it equals the size exactly when the size is below
`2^(w-1)`, and is non-negative exactly when the reduced size is below
`2^(w-1)`. -/
theorem register_var_size (CGM : CodeGenModule) (S : CGNVCUDARuntime) (w : Nat)
    (hw : 0 < w) (hV : S.DeviceVars ≠ []) :
    ∃ Blocks, generatedBlocks (makeRegisterGlobalsFn CGM S) = some Blocks
      ∧ (callInstsTo (Operand.runtimeFn (addUnderscoredPrefixToName CGM "RegisterVar"))
            Blocks).map
          (fun I => match I with
            | Inst.call _ _ args => args[5]?
            | _ => none) =
          S.DeviceVars.map
            (fun Info => some (Operand.constInt Ty.IntTy (Info.Var.AllocSize : Int)))
      ∧ ∀ Info ∈ S.DeviceVars,
          ConstantInt.getZExtValue w (Info.Var.AllocSize : Int) =
            ((Info.Var.AllocSize % 2 ^ w : Nat) : Int)
          ∧ (ConstantInt.getZExtValue w (Info.Var.AllocSize : Int) =
              (Info.Var.AllocSize : Int) ↔ Info.Var.AllocSize < 2 ^ w)
          ∧ (ConstantInt.getSExtValue w (Info.Var.AllocSize : Int) =
              (Info.Var.AllocSize : Int) ↔ Info.Var.AllocSize < 2 ^ (w - 1))
          ∧ (0 ≤ ConstantInt.getSExtValue w (Info.Var.AllocSize : Int) ↔
              Info.Var.AllocSize % 2 ^ w < 2 ^ (w - 1)) := by
  have hE : (S.EmittedKernels.isEmpty && S.DeviceVars.isEmpty) = false :=
    lists_isEmpty_false S (fun h => hV h.2)
  obtain ⟨Blocks, h1, h2⟩ := makeRegisterGlobalsFn_var_calls CGM S hE
  refine ⟨Blocks, h1, ?_, ?_⟩
  · rw [h2, List.map_map]
    rfl
  · intro Info _
    exact ⟨zext_natCast w _, zext_eq_iff w _, (sext_facts w _ hw).1, (sext_facts w _ hw).2⟩

theorem register_var_size_witness :
    0 < 32
    ∧ sampleVarState.DeviceVars ≠ []
    ∧ ∃ Blocks, generatedBlocks (makeRegisterGlobalsFn sampleCUDA sampleVarState) = some Blocks
      ∧ (callInstsTo (Operand.runtimeFn "__cudaRegisterVar") Blocks).map
          (fun I => match I with
            | Inst.call _ _ args => args[5]?
            | _ => none) =
          [some (Operand.constInt Ty.IntTy 4), some (Operand.constInt Ty.IntTy 8)] := by
  refine ⟨by decide, by decide, ?_⟩
  obtain ⟨Blocks, h1, h2, -⟩ :=
    register_var_size sampleCUDA sampleVarState 32 (by decide) (by decide)
  exact ⟨Blocks, h1, h2⟩

/-! ## C16: the resolution of the payload and the payload constant -/

theorem fatbinConstantName_ne (CGM : CodeGenModule) : FatbinConstantName CGM ≠ "" := by
  unfold FatbinConstantName
  split
  · decide
  · split <;> split <;> decide

/-- After `makeConstantString` with a section name and an alignment, every
string constant of the module holding `s` lies in that section with that
alignment and a significant address. -/
theorem makeConstantString_all (M : Module) (s n sec : String) (a : Nat)
    (hsec : sec ≠ "") (ha : a ≠ 0) :
    ∀ G ∈ (makeConstantString M s n sec a).1.Strings, G.Content = s →
      G.Section = sec ∧ G.Alignment = a ∧ G.UnnamedAddr = false := by
  have hsec2 : sec.isEmpty = false := isEmpty_eq_false_of_ne sec hsec
  intro G hG hc
  unfold makeConstantString at hG
  dsimp only at hG
  obtain ⟨G0, -, hG0⟩ := List.mem_map.1 hG
  by_cases h0 : G0.Content = s
  · rw [if_pos h0] at hG0
    subst hG0
    simp [hsec2, ha]
  · rw [if_neg h0] at hG0
    subst hG0
    exact absurd hc h0

/-- The string constants that `makeConstantString` leaves and that do not hold
`s` were in the module before. -/
theorem makeConstantString_other (M : Module) (s n sec : String) (a : Nat) :
    ∀ G ∈ (makeConstantString M s n sec a).1.Strings, G.Content ≠ s → G ∈ M.Strings := by
  intro G hG hc
  unfold makeConstantString at hG
  dsimp only at hG
  obtain ⟨G0, hM, hG0⟩ := List.mem_map.1 hG
  by_cases h0 : G0.Content = s
  · rw [if_pos h0] at hG0
    subst hG0
    exfalso
    apply hc
    split <;> split <;> exact h0
  · rw [if_neg h0] at hG0
    subst hG0
    unfold Module.GetAddrOfConstantCString at hM
    split at hM
    · exact hM
    · rcases List.mem_append.1 hM with h | h
      · exact h
      · simp at h
        rw [h] at h0
        exact absurd rfl h0

/-- Every string constant of the module keeps its content through
`makeConstantString`, and is kept as it is when it does not hold `s`. -/
theorem makeConstantString_keeps (M : Module) (s n sec : String) (a : Nat) :
    ∀ G ∈ M.Strings, ∃ G2 ∈ (makeConstantString M s n sec a).1.Strings,
      G2.Content = G.Content ∧ (G.Content ≠ s → G2 = G) := by
  intro G hG
  have hM : G ∈ (M.GetAddrOfConstantCString s n).Strings := by
    unfold Module.GetAddrOfConstantCString
    split
    · exact hG
    · exact List.mem_append.2 (Or.inl hG)
  unfold makeConstantString
  dsimp only
  refine ⟨_, List.mem_map.2 ⟨G, hM, rfl⟩, ?_, ?_⟩
  · split
    · split <;> split <;> rfl
    · rfl
  · intro hc
    rw [if_neg hc]

/-- Without section name and alignment, `makeConstantString` leaves the string
constants of the module as they are and may add one, in no section. -/
theorem makeConstantString_plain (M : Module) (s n : String) :
    ∀ G, G ∈ (makeConstantString M s n "" 0).1.Strings ↔
      (G ∈ M.Strings ∨ (G = ⟨s, n, "", 1, true⟩ ∧ ∀ G0 ∈ M.Strings, G0.Content ≠ s)) := by
  intro G
  have hEmpty : ("" : String).isEmpty = true := by decide
  have hS : (makeConstantString M s n "" 0).1.Strings =
      (M.GetAddrOfConstantCString s n).Strings := by
    unfold makeConstantString
    simp [hEmpty]
  rw [hS]
  unfold Module.GetAddrOfConstantCString
  split
  · rename_i h
    constructor
    · intro hG; exact Or.inl hG
    · rintro (hG | ⟨-, hno⟩)
      · exact hG
      · obtain ⟨G0, hG0, hc⟩ := List.any_eq_true.1 h
        exact absurd (by simpa using hc) (hno G0 hG0)
  · rename_i h
    constructor
    · intro hG
      rcases List.mem_append.1 hG with h1 | h1
      · exact Or.inl h1
      · refine Or.inr ⟨by simpa using h1, ?_⟩
        intro G0 hG0 hc
        apply h
        exact List.any_eq_true.2 ⟨G0, hG0, by simpa using hc⟩
    · rintro (hG | ⟨hG, -⟩)
      · exact List.mem_append.2 (Or.inl hG)
      · exact List.mem_append.2 (Or.inr (by simp [hG]))

/-- The kernel loop keeps the string constants of the module and adds only
constants holding the device-side name of a kernel, in no section. -/
theorem emitRegisterFunctionCalls_Strings (CGM : CodeGenModule) (f h : Operand)
    (L : List KernelInfo) :
    ∀ M : Module,
      (∀ G ∈ M.Strings, G ∈ (emitRegisterFunctionCalls CGM f h L M).1.Strings)
      ∧ (∀ G ∈ (emitRegisterFunctionCalls CGM f h L M).1.Strings,
          G ∈ M.Strings ∨ ∃ I ∈ L, G = ⟨getDeviceSideName CGM I.D, "", "", 1, true⟩) := by
  induction L with
  | nil => intro M; exact ⟨fun G hG => hG, fun G hG => Or.inl hG⟩
  | cons I rest ih =>
    intro M
    unfold emitRegisterFunctionCalls
    dsimp only
    obtain ⟨k1, k2⟩ := ih (makeConstantString M (getDeviceSideName CGM I.D) "" "" 0).1
    constructor
    · intro G hG
      exact k1 G ((makeConstantString_plain M _ _ G).2 (Or.inl hG))
    · intro G hG
      rcases k2 G hG with h1 | ⟨J, hJ, hE⟩
      · rcases (makeConstantString_plain M _ _ G).1 h1 with h2 | ⟨h2, -⟩
        · exact Or.inl h2
        · exact Or.inr ⟨I, List.mem_cons_self _ _, h2⟩
      · exact Or.inr ⟨J, List.mem_cons_of_mem _ hJ, hE⟩

/-- The variable loop keeps the string constants of the module and adds only
constants holding the device-side name of a variable, in no section. -/
theorem emitRegisterVarCalls_Strings (CGM : CodeGenModule) (f h : Operand)
    (L : List VarInfo) :
    ∀ M : Module,
      (∀ G ∈ M.Strings, G ∈ (emitRegisterVarCalls CGM f h L M).1.Strings)
      ∧ (∀ G ∈ (emitRegisterVarCalls CGM f h L M).1.Strings,
          G ∈ M.Strings ∨ ∃ I ∈ L, G = ⟨getDeviceSideName CGM I.D, "", "", 1, true⟩) := by
  induction L with
  | nil => intro M; exact ⟨fun G hG => hG, fun G hG => Or.inl hG⟩
  | cons I rest ih =>
    intro M
    unfold emitRegisterVarCalls
    dsimp only
    obtain ⟨k1, k2⟩ := ih (makeConstantString M (getDeviceSideName CGM I.D) "" "" 0).1
    constructor
    · intro G hG
      exact k1 G ((makeConstantString_plain M _ _ G).2 (Or.inl hG))
    · intro G hG
      rcases k2 G hG with h1 | ⟨J, hJ, hE⟩
      · rcases (makeConstantString_plain M _ _ G).1 h1 with h2 | ⟨h2, -⟩
        · exact Or.inl h2
        · exact Or.inr ⟨I, List.mem_cons_self _ _, h2⟩
      · exact Or.inr ⟨J, List.mem_cons_of_mem _ hJ, hE⟩

/-- The string constants `makeRegisterGlobalsFn` leaves: those of the module on
entry, as they were, and constants in no section holding the device-side name
of a kernel or of a device variable. -/
theorem makeRegisterGlobalsFn_Strings (CGM : CodeGenModule) (S : CGNVCUDARuntime) :
    (∀ G ∈ S.TheModule.Strings, G ∈ (makeRegisterGlobalsFn CGM S).1.TheModule.Strings)
    ∧ (∀ G ∈ (makeRegisterGlobalsFn CGM S).1.TheModule.Strings,
        G ∈ S.TheModule.Strings
        ∨ (∃ I ∈ S.EmittedKernels, G = ⟨getDeviceSideName CGM I.D, "", "", 1, true⟩)
        ∨ (∃ I ∈ S.DeviceVars, G = ⟨getDeviceSideName CGM I.D, "", "", 1, true⟩)) := by
  unfold makeRegisterGlobalsFn
  split
  · exact ⟨fun G hG => hG, fun G hG => Or.inl hG⟩
  · dsimp only [Module.setBody]
    obtain ⟨v1, v2⟩ := emitRegisterVarCalls_Strings CGM
      (Operand.runtimeFn (addUnderscoredPrefixToName CGM "RegisterVar")) (Operand.arg 0)
      S.DeviceVars
      ((emitRegisterFunctionCalls CGM
          (Operand.runtimeFn (addUnderscoredPrefixToName CGM "RegisterFunction"))
          (Operand.arg 0) S.EmittedKernels
          ((S.TheModule.createFunction getRegisterGlobalsFnTy Linkage.InternalLinkage
              (addUnderscoredPrefixToName CGM "_register_globals")).1.CreateRuntimeFunction
            ⟨Ty.IntTy, [Ty.VoidPtrPtrTy, Ty.CharPtrTy, Ty.CharPtrTy, Ty.CharPtrTy, Ty.IntTy,
              Ty.VoidPtrTy, Ty.VoidPtrTy, Ty.VoidPtrTy, Ty.VoidPtrTy, Ty.ptrTo Ty.IntTy]⟩
            (addUnderscoredPrefixToName CGM "RegisterFunction"))).1.CreateRuntimeFunction
        ⟨Ty.IntTy, [Ty.VoidPtrPtrTy, Ty.CharPtrTy, Ty.CharPtrTy, Ty.CharPtrTy, Ty.IntTy,
          Ty.IntTy, Ty.IntTy, Ty.IntTy]⟩
        (addUnderscoredPrefixToName CGM "RegisterVar"))
    obtain ⟨k1, k2⟩ := emitRegisterFunctionCalls_Strings CGM
      (Operand.runtimeFn (addUnderscoredPrefixToName CGM "RegisterFunction"))
      (Operand.arg 0) S.EmittedKernels
      ((S.TheModule.createFunction getRegisterGlobalsFnTy Linkage.InternalLinkage
          (addUnderscoredPrefixToName CGM "_register_globals")).1.CreateRuntimeFunction
        ⟨Ty.IntTy, [Ty.VoidPtrPtrTy, Ty.CharPtrTy, Ty.CharPtrTy, Ty.CharPtrTy, Ty.IntTy,
          Ty.VoidPtrTy, Ty.VoidPtrTy, Ty.VoidPtrTy, Ty.VoidPtrTy, Ty.ptrTo Ty.IntTy]⟩
        (addUnderscoredPrefixToName CGM "RegisterFunction"))
    simp only [CreateRuntimeFunction_Strings] at v1 v2 k1 k2
    have hC : (S.TheModule.createFunction getRegisterGlobalsFnTy Linkage.InternalLinkage
        (addUnderscoredPrefixToName CGM "_register_globals")).1.Strings =
        S.TheModule.Strings := rfl
    rw [hC] at k1 k2
    constructor
    · intro G hG
      exact v1 G (k1 G hG)
    · intro G hG
      rcases v2 G hG with h1 | h1
      · rcases k2 G h1 with h2 | h2
        · exact Or.inl h2
        · exact Or.inr (Or.inl h2)
      · exact Or.inr (Or.inr h1)

theorem makeRegisterGlobalsOrDummy_Strings (CGM : CodeGenModule) (S : CGNVCUDARuntime) :
    (makeRegisterGlobalsOrDummy CGM S).1.TheModule.Strings =
      (makeRegisterGlobalsFn CGM S).1.TheModule.Strings := by
  unfold makeRegisterGlobalsOrDummy
  generalize makeRegisterGlobalsFn CGM S = P
  dsimp only
  split
  · simp only [CGNVCUDARuntime.onModule, CreateRuntimeFunction_Strings,
      makeDummyFunction_Strings]
  · simp only [CGNVCUDARuntime.onModule, CreateRuntimeFunction_Strings]

theorem makeConstantString_congr (M M2 : Module) (s n sec : String) (a : Nat)
    (h : M.Strings = M2.Strings) :
    (makeConstantString M s n sec a).1.Strings = (makeConstantString M2 s n sec a).1.Strings := by
  have hG : (M.GetAddrOfConstantCString s n).Strings =
      (M2.GetAddrOfConstantCString s n).Strings := by
    unfold Module.GetAddrOfConstantCString
    rw [h]
    by_cases hc : (M2.Strings.any fun G => G.Content == s) = true
    · rw [if_pos hc, if_pos hc, h]
    · rw [if_neg hc, if_neg hc]
  unfold makeConstantString
  dsimp only
  rw [hG]

theorem emitFatBinStr_Strings (CGM : CodeGenModule) (S : CGNVCUDARuntime) (Buf : String) :
    (emitFatBinStr CGM S (some Buf)).1.TheModule.Strings =
      (makeConstantString S.TheModule Buf "" (FatbinConstantName CGM) 8).1.Strings := by
  unfold emitFatBinStr
  split <;> rfl

theorem emitFatBinStr_Strings_none (CGM : CodeGenModule) (S : CGNVCUDARuntime)
    (hHIP : CGM.LangOpts.HIP = true) :
    (emitFatBinStr CGM S none).1.TheModule.Strings = S.TheModule.Strings := by
  unfold emitFatBinStr
  rw [if_pos hHIP]
  rfl

theorem emitCtorHIP_Strings (CGM : CodeGenModule) (S : CGNVCUDARuntime) (RG : Option Operand)
    (Bin : Option String) (f w : Operand) :
    (emitCtorHIP CGM S RG Bin f w).1.TheModule.Strings = S.TheModule.Strings := rfl

theorem emitCtorCUDA_Strings (CGM : CodeGenModule) (S : CGNVCUDARuntime) (RG : Option Operand)
    (f w : Operand) :
    (emitCtorCUDA CGM S RG f w).1.TheModule.Strings = S.TheModule.Strings := by
  unfold emitCtorCUDA
  dsimp only
  split <;> simp [Module.addGlobal, CGNVCUDARuntime.onModule]

theorem emitCtorRDC_Strings (CGM : CodeGenModule) (S : CGNVCUDARuntime) (RG : Option Operand)
    (W : GlobalVariable) (sec tag : String) :
    (emitCtorRDC CGM S RG W sec tag).1.TheModule.Strings =
      (makeConstantString S.TheModule (tag ++ formatHex (getGUID CGM W)) "" sec 32).1.Strings := by
  unfold emitCtorRDC
  dsimp only
  rw [makeDummyFunction_Strings]
  split <;> simp

/-- The string constants `emitCtorBranch` leaves: for CUDA with relocatable
device code those left by the creation of the module ID constant, otherwise
those of the module on entry. -/
theorem emitCtorBranch_Strings (CGM : CodeGenModule) (S : CGNVCUDARuntime)
    (RG : Option Operand) (Bin : Option String) (W : GlobalVariable) :
    (emitCtorBranch CGM S RG Bin W).1.TheModule.Strings =
      (if CGM.LangOpts.HIP = false ∧ RelocatableDeviceCode CGM = true then
        (makeConstantString S.TheModule (ModuleIDTag CGM ++ formatHex (getGUID CGM W)) ""
          (ModuleIDSectionName CGM) 32).1.Strings
       else S.TheModule.Strings) := by
  unfold emitCtorBranch
  dsimp only
  by_cases hH : CGM.LangOpts.HIP = true
  · simp [hH, emitCtorHIP_Strings]
  · by_cases hR : RelocatableDeviceCode CGM = true
    · simp [hH, hR, emitCtorRDC_Strings]
    · simp [hH, hR, emitCtorCUDA_Strings]

/-- The string constants `emitModuleCtor` leaves when there is a buffer: those
left by the creation of the payload constant and, for CUDA with relocatable
device code, of the module ID constant after it. -/
theorem emitModuleCtor_Strings (CGM : CodeGenModule) (S : CGNVCUDARuntime)
    (RG : Option Operand) (Buf : String) :
    ∃ M2 : Module,
      M2.Strings = (makeConstantString S.TheModule Buf "" (FatbinConstantName CGM) 8).1.Strings
      ∧ (emitModuleCtor CGM S RG (some Buf)).1.TheModule.Strings =
        (if CGM.LangOpts.HIP = false ∧ RelocatableDeviceCode CGM = true then
          (makeConstantString M2 (relocatableModuleID CGM Buf) ""
            (ModuleIDSectionName CGM) 32).1.Strings
         else M2.Strings) := by
  unfold emitModuleCtor
  dsimp only
  rw [emitFatBinStr_snd]
  have hF := emitFatBinStr_Strings CGM { S with TheModule := (S.TheModule.createFunction
    ⟨Ty.VoidTy, [Ty.VoidPtrTy]⟩ Linkage.InternalLinkage
    (addUnderscoredPrefixToName CGM "_module_ctor")).1 } Buf
  generalize emitFatBinStr CGM _ (some Buf) = P at hF ⊢
  dsimp only [CGNVCUDARuntime.onModule, Module.setBody]
  rw [emitCtorTail_Strings, emitCtorBranch_Strings]
  refine ⟨P.1.TheModule.addGlobal (makeFatbinWrapper CGM (payloadOperand CGM (some Buf))),
    ?_, rfl⟩
  dsimp only [Module.addGlobal]
  rw [hF]
  exact makeConstantString_congr _ _ _ _ _ _ rfl

theorem emitModuleCtor_Strings_none (CGM : CodeGenModule) (S : CGNVCUDARuntime)
    (RG : Option Operand) (hHIP : CGM.LangOpts.HIP = true) :
    (emitModuleCtor CGM S RG none).1.TheModule.Strings = S.TheModule.Strings := by
  unfold emitModuleCtor
  dsimp only
  have hF := emitFatBinStr_Strings_none CGM { S with TheModule := (S.TheModule.createFunction
    ⟨Ty.VoidTy, [Ty.VoidPtrTy]⟩ Linkage.InternalLinkage
    (addUnderscoredPrefixToName CGM "_module_ctor")).1 } hHIP
  generalize emitFatBinStr CGM _ none = P at hF ⊢
  dsimp only [CGNVCUDARuntime.onModule, Module.setBody]
  rw [emitCtorTail_Strings, emitCtorBranch_Strings]
  simp only [hHIP, Bool.true_eq_false, false_and, if_false]
  dsimp only [Module.addGlobal]
  rw [hF]
  rfl

/-- Past the early returns and with a payload buffer resolved, the module that
`makeModuleCtorFunction` leaves holds a string constant whose content is the
buffer; every string constant holding the buffer lies in the payload section of
the family with alignment 8 and a significant address, unless the code is CUDA
with relocatable device code and the buffer is itself the module ID string, the
constant of which is then placed in the module ID section. -/
theorem ctor_payload_constant (CGM : CodeGenModule) (S : CGNVCUDARuntime) (Buf : String)
    (h1 : (CGM.CodeGenOpts.CudaGpuBinaryFileName.isEmpty && !CGM.LangOpts.HIP) = false)
    (h2 : ((CGM.LangOpts.HIP || (CGM.LangOpts.CUDA && !RelocatableDeviceCode CGM)) &&
      S.EmittedKernels.isEmpty && S.DeviceVars.isEmpty) = false)
    (hres : ∀ S0, resolveGpuBinary CGM S0 = (S0, BinaryResolution.buffer (some Buf))) :
    (∃ G ∈ (makeModuleCtorFunction CGM S).1.TheModule.Strings, G.Content = Buf)
    ∧ ((CGM.LangOpts.HIP = false → RelocatableDeviceCode CGM = true →
          Buf ≠ relocatableModuleID CGM Buf) →
        ∀ G ∈ (makeModuleCtorFunction CGM S).1.TheModule.Strings, G.Content = Buf →
          G.Section = FatbinConstantName CGM ∧ G.Alignment = 8 ∧ G.UnnamedAddr = false) := by
  rw [makeModuleCtorFunction_past CGM S h1 h2, hres]
  dsimp only
  obtain ⟨M2, hM2, hS⟩ := emitModuleCtor_Strings CGM (makeRegisterGlobalsOrDummy CGM S).1
    (makeRegisterGlobalsOrDummy CGM S).2 Buf
  rw [hS]
  obtain ⟨G1, hG1, hc1, -⟩ := makeConstantString_mem (makeRegisterGlobalsOrDummy CGM S).1.TheModule
    Buf "" (FatbinConstantName CGM) 8 (fatbinConstantName_ne CGM) (by decide)
  rw [← hM2] at hG1
  have hall := makeConstantString_all (makeRegisterGlobalsOrDummy CGM S).1.TheModule
    Buf "" (FatbinConstantName CGM) 8 (fatbinConstantName_ne CGM) (by decide)
  rw [← hM2] at hall
  by_cases hc : CGM.LangOpts.HIP = false ∧ RelocatableDeviceCode CGM = true
  · rw [if_pos hc]
    constructor
    · obtain ⟨G2, hG2, hc2, -⟩ := makeConstantString_keeps M2 (relocatableModuleID CGM Buf) ""
        (ModuleIDSectionName CGM) 32 G1 hG1
      exact ⟨G2, hG2, hc2.trans hc1⟩
    · intro hne G hG hcG
      have hne2 : G.Content ≠ relocatableModuleID CGM Buf := by
        rw [hcG]
        exact hne hc.1 hc.2
      exact hall G (makeConstantString_other M2 _ _ _ _ G hG hne2) hcG
  · rw [if_neg hc]
    exact ⟨⟨G1, hG1, hc1⟩, fun _ G hG hcG => hall G hG hcG⟩

/-- For HIP without a buffer the string constants `makeModuleCtorFunction`
leaves are those of the module on entry, kept as they are, and constants in no
section that hold the device-side name of a kernel or of a device variable. -/
theorem ctor_no_payload_constant (CGM : CodeGenModule) (S : CGNVCUDARuntime)
    (h1 : (CGM.CodeGenOpts.CudaGpuBinaryFileName.isEmpty && !CGM.LangOpts.HIP) = false)
    (h2 : ((CGM.LangOpts.HIP || (CGM.LangOpts.CUDA && !RelocatableDeviceCode CGM)) &&
      S.EmittedKernels.isEmpty && S.DeviceVars.isEmpty) = false)
    (hHIP : CGM.LangOpts.HIP = true)
    (hres : ∀ S0, resolveGpuBinary CGM S0 = (S0, BinaryResolution.buffer none)) :
    (∀ G ∈ S.TheModule.Strings, G ∈ (makeModuleCtorFunction CGM S).1.TheModule.Strings)
    ∧ (∀ G ∈ (makeModuleCtorFunction CGM S).1.TheModule.Strings,
        G ∈ S.TheModule.Strings
        ∨ (∃ I ∈ S.EmittedKernels, G = ⟨getDeviceSideName CGM I.D, "", "", 1, true⟩)
        ∨ (∃ I ∈ S.DeviceVars, G = ⟨getDeviceSideName CGM I.D, "", "", 1, true⟩)) := by
  rw [makeModuleCtorFunction_past CGM S h1 h2, hres]
  dsimp only
  rw [emitModuleCtor_Strings_none CGM _ _ hHIP, makeRegisterGlobalsOrDummy_Strings]
  exact makeRegisterGlobalsFn_Strings CGM S

/-- C16: past the two early returns of `makeModuleCtorFunction`, the payload is
resolved as follows. In JIT mode the resolution does not depend on what opening
the binary file would give; with a non-empty blob the constructor is produced
with a wrapper pointing at a constant string holding the blob, the module holds
a string constant whose content is the blob, placed in the payload section of
the family with alignment 8, and with an empty blob the result is null,
whatever the file name, with no diagnostic. Outside JIT mode with a non-empty
file name, a file read with content `Buf` gives a constructor whose wrapper
points at a constant string holding `Buf`, and the module holds a string
constant whose content is `Buf`, placed likewise; a file that cannot be opened
gives null and exactly one diagnostic `err_cannot_open_file`. Outside JIT mode
with an empty file name the configuration is HIP, the constructor is produced,
the global variables gained are the external symbol `__hip_fatbin` in section
`.hip_fatbin`, without initializer, the wrapper pointing at that symbol, and the
handle variable, and no payload is embedded: the string constants of the module
are those on entry and constants in no section holding a device-side name. The
placement of the payload constant has one exception: for CUDA with relocatable
device code a payload that is itself the module ID string shares its constant
with the module ID. -/
theorem payload_resolution (CGM : CodeGenModule) (S : CGNVCUDARuntime)
    (h1 : (CGM.CodeGenOpts.CudaGpuBinaryFileName.isEmpty && !CGM.LangOpts.HIP) = false)
    (h2 : ((CGM.LangOpts.HIP || (CGM.LangOpts.CUDA && !RelocatableDeviceCode CGM)) &&
      S.EmittedKernels.isEmpty && S.DeviceVars.isEmpty) = false) :
    (CGM.LangOpts.isInJIT = true →
      (∀ (f : String → Except String String) (S0 : CGNVCUDARuntime),
        resolveGpuBinary { CGM with getFileOrSTDIN := f } S0 = resolveGpuBinary CGM S0)
      ∧ (CGM.CodeGenOpts.GPUBinForJIT ≠ "" →
          (makeModuleCtorFunction CGM S).2.isSome = true
          ∧ (makeModuleCtorFunction CGM S).1.Diags = S.Diags
          ∧ (makeModuleCtorFunction CGM S).1.TheModule.Globals =
              S.TheModule.Globals ++
                [makeFatbinWrapper CGM (Operand.cstring CGM.CodeGenOpts.GPUBinForJIT)] ++
                (if CGM.LangOpts.HIP = true then
                  [hipHandleVar CGM (some CGM.CodeGenOpts.GPUBinForJIT)]
                 else if RelocatableDeviceCode CGM = false then [cudaHandleVar CGM]
                 else [])
          ∧ (∃ G ∈ (makeModuleCtorFunction CGM S).1.TheModule.Strings,
              G.Content = CGM.CodeGenOpts.GPUBinForJIT)
          ∧ ((CGM.LangOpts.HIP = false → RelocatableDeviceCode CGM = true →
                CGM.CodeGenOpts.GPUBinForJIT ≠
                  relocatableModuleID CGM CGM.CodeGenOpts.GPUBinForJIT) →
              ∀ G ∈ (makeModuleCtorFunction CGM S).1.TheModule.Strings,
                G.Content = CGM.CodeGenOpts.GPUBinForJIT →
                G.Section = FatbinConstantName CGM ∧ G.Alignment = 8
                ∧ G.UnnamedAddr = false))
      ∧ (CGM.CodeGenOpts.GPUBinForJIT = "" →
          (makeModuleCtorFunction CGM S).2 = none
          ∧ (makeModuleCtorFunction CGM S).1.Diags = S.Diags))
    ∧ (CGM.LangOpts.isInJIT = false → CGM.CodeGenOpts.CudaGpuBinaryFileName ≠ "" →
        (∀ Buf, CGM.getFileOrSTDIN CGM.CodeGenOpts.CudaGpuBinaryFileName = Except.ok Buf →
          (makeModuleCtorFunction CGM S).2.isSome = true
          ∧ (makeModuleCtorFunction CGM S).1.Diags = S.Diags
          ∧ (makeModuleCtorFunction CGM S).1.TheModule.Globals =
              S.TheModule.Globals ++ [makeFatbinWrapper CGM (Operand.cstring Buf)] ++
                (if CGM.LangOpts.HIP = true then [hipHandleVar CGM (some Buf)]
                 else if RelocatableDeviceCode CGM = false then [cudaHandleVar CGM]
                 else [])
          ∧ (∃ G ∈ (makeModuleCtorFunction CGM S).1.TheModule.Strings, G.Content = Buf)
          ∧ ((CGM.LangOpts.HIP = false → RelocatableDeviceCode CGM = true →
                Buf ≠ relocatableModuleID CGM Buf) →
              ∀ G ∈ (makeModuleCtorFunction CGM S).1.TheModule.Strings, G.Content = Buf →
                G.Section = FatbinConstantName CGM ∧ G.Alignment = 8
                ∧ G.UnnamedAddr = false))
        ∧ (∀ EC, CGM.getFileOrSTDIN CGM.CodeGenOpts.CudaGpuBinaryFileName = Except.error EC →
          (makeModuleCtorFunction CGM S).2 = none
          ∧ (makeModuleCtorFunction CGM S).1.Diags = S.Diags ++
              [⟨none, "err_cannot_open_file",
                [CGM.CodeGenOpts.CudaGpuBinaryFileName, EC]⟩]))
    ∧ (CGM.LangOpts.isInJIT = false → CGM.CodeGenOpts.CudaGpuBinaryFileName = "" →
        CGM.LangOpts.HIP = true
        ∧ (makeModuleCtorFunction CGM S).2.isSome = true
        ∧ (makeModuleCtorFunction CGM S).1.Diags = S.Diags
        ∧ (makeModuleCtorFunction CGM S).1.TheModule.Globals =
            S.TheModule.Globals ++
              [{ Name := "__hip_fatbin", ValueType := Ty.Int8Ty, isConstant := true,
                 Linkage := Linkage.ExternalLinkage, Initializer := none,
                 Section := ".hip_fatbin", Alignment := 0,
                 Visibility := Visibility.DefaultVisibility },
               makeFatbinWrapper CGM (Operand.global "__hip_fatbin"),
               hipHandleVar CGM none]
        ∧ (∀ G ∈ S.TheModule.Strings, G ∈ (makeModuleCtorFunction CGM S).1.TheModule.Strings)
        ∧ (∀ G ∈ (makeModuleCtorFunction CGM S).1.TheModule.Strings,
            G ∈ S.TheModule.Strings
            ∨ (∃ I ∈ S.EmittedKernels, G = ⟨getDeviceSideName CGM I.D, "", "", 1, true⟩)
            ∨ (∃ I ∈ S.DeviceVars, G = ⟨getDeviceSideName CGM I.D, "", "", 1, true⟩))) := by
  have hD := (makeRegisterGlobalsOrDummy_frame CGM S).2.2.2.2.1
  have hG := (makeRegisterGlobalsOrDummy_frame CGM S).1
  refine ⟨?_, ?_, ?_⟩
  · intro hJIT
    refine ⟨?_, ?_, ?_⟩
    · intro f S0
      rw [resolveGpuBinary_jit CGM S0 hJIT,
        resolveGpuBinary_jit { CGM with getFileOrSTDIN := f } S0 hJIT]
    · intro hB
      have hres : ∀ S0, resolveGpuBinary CGM S0 =
          (S0, BinaryResolution.buffer (some CGM.CodeGenOpts.GPUBinForJIT)) :=
        fun S0 => by rw [resolveGpuBinary_jit CGM S0 hJIT, if_neg hB]
      obtain ⟨c1, c2, c3⟩ := ctor_with_buffer CGM S _ h1 h2 hres
      obtain ⟨p1, p2⟩ := ctor_payload_constant CGM S _ h1 h2 hres
      exact ⟨c1, c2, c3, p1, p2⟩
    · intro hB
      rw [makeModuleCtorFunction_past CGM S h1 h2, resolveGpuBinary_jit CGM _ hJIT, if_pos hB]
      exact ⟨rfl, hD⟩
  · intro hJIT hFile
    refine ⟨?_, ?_⟩
    · intro Buf hRead
      have hres : ∀ S0, resolveGpuBinary CGM S0 = (S0, BinaryResolution.buffer (some Buf)) :=
        fun S0 => resolveGpuBinary_file CGM S0 Buf hJIT hFile hRead
      obtain ⟨c1, c2, c3⟩ := ctor_with_buffer CGM S Buf h1 h2 hres
      obtain ⟨p1, p2⟩ := ctor_payload_constant CGM S Buf h1 h2 hres
      exact ⟨c1, c2, c3, p1, p2⟩
    · intro EC hRead
      rw [makeModuleCtorFunction_past CGM S h1 h2,
        resolveGpuBinary_error CGM _ EC hJIT hFile hRead]
      dsimp only
      rw [hD]
      exact ⟨rfl, rfl⟩
  · intro hJIT hFile
    have hEmpty : ("" : String).isEmpty = true := by decide
    have hHIP : CGM.LangOpts.HIP = true := by
      rw [hFile, hEmpty] at h1
      simpa using h1
    obtain ⟨s1, s2⟩ := ctor_no_payload_constant CGM S h1 h2 hHIP
      (fun S0 => resolveGpuBinary_no_file CGM S0 hJIT hFile)
    refine ⟨hHIP, ?_, ?_, ?_, s1, s2⟩
    · rw [makeModuleCtorFunction_past CGM S h1 h2, resolveGpuBinary_no_file CGM _ hJIT hFile]
      dsimp only
      rw [emitModuleCtor_snd]; rfl
    · rw [makeModuleCtorFunction_past CGM S h1 h2, resolveGpuBinary_no_file CGM _ hJIT hFile]
      dsimp only
      rw [emitModuleCtor_Diags, hD]
    · rw [makeModuleCtorFunction_past CGM S h1 h2, resolveGpuBinary_no_file CGM _ hJIT hFile]
      dsimp only
      rw [emitModuleCtor_Globals, hG]
      simp [hHIP, payloadOperand, hipFatbinSymbol, FatbinConstantName]

/-- Witness: the four resolutions on the sample configurations. In JIT mode with
the blob `JITBLOB` and the readable file `k.fatbin` of content `BIN`, the payload
constant holds `JITBLOB` and the module has no constant holding `BIN`; outside JIT
mode the payload constant holds `BIN`; the unreadable file gives null and one
diagnostic; HIP without file gains the three global variables and no string
constant but the name of the kernel. -/
theorem payload_resolution_witness :
    (sampleJIT.CodeGenOpts.CudaGpuBinaryFileName.isEmpty && !sampleJIT.LangOpts.HIP) = false
    ∧ ((sampleJIT.LangOpts.HIP ||
        (sampleJIT.LangOpts.CUDA && !RelocatableDeviceCode sampleJIT)) &&
        sampleState.EmittedKernels.isEmpty && sampleState.DeviceVars.isEmpty) = false
    ∧ sampleJIT.LangOpts.isInJIT = true
    ∧ sampleJIT.CodeGenOpts.GPUBinForJIT ≠ ""
    ∧ sampleJIT.getFileOrSTDIN sampleJIT.CodeGenOpts.CudaGpuBinaryFileName = Except.ok "BIN"
    ∧ (makeModuleCtorFunction sampleJIT sampleState).1.TheModule.Globals.map
        GlobalVariable.Initializer =
        [some [Operand.constInt Ty.IntTy 0x466243b1, Operand.constInt Ty.IntTy 1,
           Operand.cstring "JITBLOB", Operand.null Ty.VoidPtrTy],
         some [Operand.null Ty.VoidPtrPtrTy]]
    ∧ (∃ G ∈ (makeModuleCtorFunction sampleJIT sampleState).1.TheModule.Strings,
        G.Content = "JITBLOB")
    ∧ (makeModuleCtorFunction sampleJIT sampleState).1.TheModule.Strings =
        [⟨"k", "", "", 1, true⟩, ⟨"JITBLOB", "", ".nv_fatbin", 8, false⟩]
    ∧ (∃ G ∈ (makeModuleCtorFunction sampleCUDA sampleState).1.TheModule.Strings,
        G.Content = "BIN")
    ∧ (makeModuleCtorFunction sampleCUDA sampleState).1.TheModule.Strings =
        [⟨"k", "", "", 1, true⟩, ⟨"BIN", "", ".nv_fatbin", 8, false⟩]
    ∧ (makeModuleCtorFunction sampleUnreadable sampleState).2 = none
    ∧ (makeModuleCtorFunction sampleUnreadable sampleState).1.Diags =
        [⟨none, "err_cannot_open_file", ["k.fatbin", "No such file or directory"]⟩]
    ∧ (makeModuleCtorFunction sampleHIP sampleState).1.TheModule.Globals.map
        GlobalVariable.Name = ["__hip_fatbin", "__hip_fatbin_wrapper", "__hip_gpubin_handle"]
    ∧ (makeModuleCtorFunction sampleHIP sampleState).1.TheModule.Strings =
        [⟨"k", "", "", 1, true⟩] :=
  have hj := ((payload_resolution sampleJIT sampleState (by decide) (by decide)).1 rfl).2.1
    (by decide)
  have hf := ((payload_resolution sampleCUDA sampleState (by decide) (by decide)).2.1 rfl
    (by decide)).1 "BIN" rfl
  have h := ((payload_resolution sampleUnreadable sampleState (by decide) (by decide)).2.1 rfl
      (by decide)).2 "No such file or directory" rfl
  ⟨by decide, by decide, rfl, by decide, rfl,
   (congrArg (List.map GlobalVariable.Initializer) hj.2.2.1).trans (by decide),
   hj.2.2.2.1, by decide, hf.2.2.2.1, by decide, h.1, h.2,
   congrArg (List.map GlobalVariable.Name)
     ((payload_resolution sampleHIP sampleState (by decide) (by decide)).2.2 rfl rfl).2.2.2.1,
   by decide⟩

end CGCUDANV
